import Mathlib

/-!
# go-ekyc-pipeline: shallow embedding and verified properties

Conventions of the embedding.

* A Go `float32` / `float64` value is a rational (`ℚ`), and every arithmetic
  operation of the source rounds its real result to the format, to nearest and
  ties to even (`f32`, `f64`).  A magnitude that overflows to an infinity is
  outside the embedding; NaN, the infinities and the sign of zero are kept
  (`XFloat`) where a division of the source can produce them on ordinary
  inputs, in `AlignFaceIDCard`.  A product and a sum of the source are rounded
  one after the other, as the Go compiler does for amd64; it may fuse them
  for other targets.
* `math.Sqrt` is library code; it is the parameter `sqrt` of every definition
  that calls it and stands for the `float64` result.  The `Sqrt` of the tensor
  library on a `float32` tensor is `f32 (sqrt x)`.
* A Go result `(T, error)` is a pair `T × Option Err`; the value part is what
  the source returns next to the error.
* A Go function that can index a slice out of range returns an `Option`;
  `none` is the runtime panic.
* `*tensor.Dense` is a `Dense` (shape and flat backing); a pointer that may be
  `nil` is an `Option Dense`.
* Remote inference and OpenCV calls are fields of the client structures.
* `NewFaceHelperClient` is kept in exact arithmetic: its one operation divides
  decimal literals by an integer, and what is proved of it is the factor by
  which the template is scaled.
-/

namespace EKYC

/-- Go `error` values, identified by their message. -/
abbrev Err := String

/-- The `*tensor.Dense` of gorgonia: a shape and the flat `Float32s()` backing. -/
structure Dense where
  shape : List Nat
  data : List ℚ
deriving DecidableEq, Repr

/-- The `gocv.Mat` of an image: `Size()` is `[rows, cols]`; `px` stands for the pixels. -/
structure Mat where
  rows : Nat
  cols : Nat
  px : List Nat
deriving DecidableEq, Repr

/-! ## IEEE 754 arithmetic of float32 and float64 -/

/-- The integer nearest to `n / d`, the even one of the two at a tie. -/
def nearestEven (n d : Nat) : Nat :=
  if 2 * (n % d) < d then n / d
  else if d < 2 * (n % d) then n / d + 1
  else if n / d % 2 = 0 then n / d
  else n / d + 1

/-- The number of binary digits of `n` after the first, by halving. -/
def log2Fuel : Nat → Nat → Nat
  | 0, _ => 0
  | fuel + 1, n => if n < 2 then 0 else log2Fuel fuel (n / 2) + 1

/-- The test `2 ^ e ≤ n / d`. -/
def pow2Le (e : Int) (n d : Nat) : Bool := decide (d * 2 ^ e.toNat ≤ n * 2 ^ (-e).toNat)

/-- The binary exponent of the positive rational `n / d`, not below `emin`:
the `e` with `2 ^ e ≤ n / d < 2 ^ (e + 1)`, taken from the digit counts of `n`
and `d` and checked against `n / d`; `emin` when `n / d` lies below
`2 ^ emin`. -/
def binaryExponent (emin : Int) (n d : Nat) : Int :=
  if pow2Le ((log2Fuel n n : Int) - (log2Fuel d d : Int)) n d = true then
    max ((log2Fuel n n : Int) - (log2Fuel d d : Int)) emin
  else if pow2Le ((log2Fuel n n : Int) - (log2Fuel d d : Int) - 1) n d = true then
    max ((log2Fuel n n : Int) - (log2Fuel d d : Int) - 1) emin
  else emin

/-- The exponent of the unit in the last place of the positive rational
`n / d` in the format of precision `prec` and least normal exponent `emin`. -/
def gridExponent (prec : Nat) (emin : Int) (n d : Nat) : Int :=
  binaryExponent emin n d - ((prec - 1 : Nat) : Int)

/-- The positive rational `n / d` rounded to the format of precision `prec` and
least normal exponent `emin`: the multiple of the unit in the last place
nearest to it, the even multiple at a tie. -/
def roundMag (prec : Nat) (emin : Int) (n d : Nat) : ℚ :=
  ((nearestEven (n * 2 ^ (-(gridExponent prec emin n d)).toNat)
      (d * 2 ^ (gridExponent prec emin n d).toNat) : Nat) : ℚ) *
    (2 : ℚ) ^ gridExponent prec emin n d

/-- Rounding of a real number to the binary floating-point format of
precision `prec` and least normal exponent `emin`, to nearest and ties to
even, gradual underflow included.  The result is not cut off at the largest
finite number of the format: a magnitude that IEEE 754 rounds to an infinity
is outside the embedding. -/
def roundNE (prec : Nat) (emin : Int) (q : ℚ) : ℚ :=
  if q = 0 then 0
  else if q < 0 then -roundMag prec emin q.num.natAbs q.den
  else roundMag prec emin q.num.natAbs q.den

/-- The rounding of a real result to Go's `float32`. -/
def f32 (q : ℚ) : ℚ := roundNE 24 (-126) q

/-- The rounding of a real result to Go's `float64`. -/
def f64 (q : ℚ) : ℚ := roundNE 53 (-1022) q

/-- Newton's iteration for the integer square root of `a`, from a start value
above the root, for at most `fuel` steps. -/
def isqrtLoop : Nat → Nat → Nat → Nat
  | 0, _, x => x
  | fuel + 1, a, x => if (x + a / x) / 2 < x then isqrtLoop fuel a ((x + a / x) / 2) else x

/-- The integer square root: the largest `r` with `r * r ≤ a`. -/
def isqrt (a : Nat) : Nat :=
  if a = 0 then 0 else isqrtLoop (log2Fuel a a + 8) a (2 ^ (log2Fuel a a / 2 + 1))

/-- Go's `math.Sqrt` on a non-negative argument: the `float64` nearest to the
real square root (IEEE 754 demands the correctly rounded root).  The argument
is scaled by a power of four so that its integer square root has more than 53
digits; a half is added when digits were dropped, then the value is rounded.
A negative argument, on which `math.Sqrt` returns NaN, is mapped to `0`. -/
def goSqrt (q : ℚ) : ℚ :=
  if q ≤ 0 then 0
  else
    let s : Int := 56 - binaryExponent (-1000000) q.num.natAbs q.den / 2
    let num := q.num.natAbs * 4 ^ s.toNat
    let den := q.den * 4 ^ (-s).toNat
    let r := isqrt (num / den)
    let sticky : Nat := if num % den = 0 ∧ r * r = num / den then 0 else 1
    f64 (((2 * r + sticky : Nat) : ℚ) / 2 * (2 : ℚ) ^ (-s))

/-- A `float32` value where it matters that it may be NaN, an infinity or a
signed zero: `inf neg` and `zero neg` carry the sign bit, `num q` is a finite
number other than zero. -/
inductive XFloat where
  | nan : XFloat
  | inf (neg : Bool) : XFloat
  | zero (neg : Bool) : XFloat
  | num (q : ℚ) : XFloat
deriving DecidableEq, Repr

/-- A finite `float32` read from a tensor; the zero of a tensor is `+0`. -/
def XFloat.ofRat (q : ℚ) : XFloat := if q = 0 then .zero false else .num q

/-- The sign bit. -/
def XFloat.isNeg : XFloat → Bool
  | .nan => false
  | .inf neg => neg
  | .zero neg => neg
  | .num q => decide (q < 0)

/-- The `float32` result of an operation whose real result `q` is not zero:
the nearest number, a zero of the sign of `q` on underflow, an infinity of the
sign of `q` when the nearest number lies beyond the largest finite one. -/
def XFloat.round32 (q : ℚ) : XFloat :=
  if f32 q = 0 then .zero (decide (q < 0))
  else if (2 : ℚ) ^ 128 ≤ |f32 q| then .inf (decide (q < 0))
  else .num (f32 q)

/-- The `float32` product `x * y` of IEEE 754. -/
def XFloat.mul : XFloat → XFloat → XFloat
  | .nan, _ => .nan
  | _, .nan => .nan
  | .inf _, .zero _ => .nan
  | .zero _, .inf _ => .nan
  | .inf a, y => .inf (xor a y.isNeg)
  | x, .inf b => .inf (xor x.isNeg b)
  | .zero a, y => .zero (xor a y.isNeg)
  | x, .zero b => .zero (xor x.isNeg b)
  | .num p, .num q => XFloat.round32 (p * q)

/-- The `float32` difference `x - y` of IEEE 754 (round to nearest): a
difference of equal numbers is `+0`, and `-0` arises only as `(-0) - (+0)`. -/
def XFloat.sub : XFloat → XFloat → XFloat
  | .nan, _ => .nan
  | _, .nan => .nan
  | .inf a, .inf b => if a = b then .nan else .inf a
  | .inf a, _ => .inf a
  | _, .inf b => .inf (!b)
  | .zero a, .zero b => .zero (a && !b)
  | .zero _, .num q => .num (-q)
  | .num p, .zero _ => .num p
  | .num p, .num q => if p = q then .zero false else XFloat.round32 (p - q)

/-- The `float32` quotient `x / y` of IEEE 754: `0 / 0` and `inf / inf` are
NaN, a number other than zero over a zero is an infinity. -/
def XFloat.div : XFloat → XFloat → XFloat
  | .nan, _ => .nan
  | _, .nan => .nan
  | .inf _, .inf _ => .nan
  | .inf a, y => .inf (xor a y.isNeg)
  | x, .inf b => .zero (xor x.isNeg b)
  | .zero _, .zero _ => .nan
  | .zero a, .num q => .zero (xor a (decide (q < 0)))
  | .num p, .zero b => .inf (xor (decide (p < 0)) b)
  | .num p, .num q => XFloat.round32 (p / q)

/-- Go's `math.Max(x, y)` with a finite `y > 0`: NaN for NaN, `y` for `-Inf`
and for a zero, `+Inf` for `+Inf`. -/
def XFloat.maxPos (x : XFloat) (y : ℚ) : XFloat :=
  match x with
  | .nan => .nan
  | .inf true => .num y
  | .inf false => .inf false
  | .zero _ => .num y
  | .num q => .num (max q y)

/-- Go's `math.Min(x, y)` with a finite `y > 0`: NaN for NaN, `y` for `+Inf`,
`-Inf` for `-Inf`, a zero stays. -/
def XFloat.minPos (x : XFloat) (y : ℚ) : XFloat :=
  match x with
  | .nan => .nan
  | .inf false => .num y
  | .inf true => .inf true
  | .zero neg => .zero neg
  | .num q => .num (min q y)

/-- The equality `s.Eq(other)` of two shapes of the tensor library, which
`Sub` and `Add` demand of their operands: two scalars are equal, a row or
column vector equals the plain vector of its length, and otherwise the shapes
agree entry by entry. -/
def shapeEq (s other : List Nat) : Bool :=
  match s, other with
  | [], [] => true
  | [a, b], [c] => (decide (b = 1 ∧ 1 < a ∧ a = c)) || (decide (a = 1 ∧ 1 < b ∧ b = c))
  | [c], [a, b] => (decide (b = 1 ∧ 1 < a ∧ a = c)) || (decide (a = 1 ∧ 1 < b ∧ b = c))
  | _, _ => decide (s = other)

/-! ## pipeline.go: similarityScore -/

/-- The accumulation loop of `similarityScore` (pipeline.go 94-98), started at
index 0 with the three `float64` accumulators `(dotProduct, normA, normB)`:
each product is a `float32` product, converted to `float64` without change
and added in `float64`. -/
def similarityLoop : List ℚ → List ℚ → ℚ × ℚ × ℚ → ℚ × ℚ × ℚ
  | x :: xs, y :: ys, (d, na, nb) =>
    similarityLoop xs ys (f64 (d + f32 (x * y)), f64 (na + f32 (x * x)), f64 (nb + f32 (y * y)))
  | _, _, acc => acc

/-- The method `EKYCPipeline.similarityScore` (pipeline.go 84-110). -/
def similarityScore (sqrt : ℚ → ℚ) (A B : Dense) : ℚ × Option Err :=
  let a := A.data
  let b := B.data
  if a.length ≠ b.length then
    (0, some "vectors must have the same length")
  else
    let acc := similarityLoop a b (0, 0, 0)
    let dotProduct := acc.1
    let normA := sqrt acc.2.1
    let normB := sqrt acc.2.2
    if normA = 0 ∨ normB = 0 then
      (0, some "zero vector encountered")
    else
      (f32 (f64 (dotProduct / f64 (normA * normB))), none)

/-- Dot product of two vectors in exact arithmetic, as the claims write it. -/
def dot (a b : List ℚ) : ℚ := (List.zipWith (fun x y => x * y) a b).sum

/-- The `float64` sum, taken in order from `0`, of the `float32` products of
the entries of two vectors: the `dotProduct` of `similarityScore`, and with
`b = a` its sum of squares. -/
def dot64 (a b : List ℚ) : ℚ :=
  (List.zipWith (fun x y => f32 (x * y)) a b).foldl (fun acc p => f64 (acc + p)) 0

/-- A concrete square root used to instantiate the `sqrt` parameter on examples:
the integer square root of the ceiling, exact on perfect squares. -/
def ceilSqrt (q : ℚ) : ℚ := (Nat.sqrt ⌈q⌉₊ : ℚ)

/-! ## utils/math.go -/

/-- The function `utils.ComputeLinearNorm` (utils/math.go 8-28): `tensor.Sub`
fails on operands whose shapes are not equal; squaring, summing and the square
root of a float32 tensor do not fail.  Every step is a `float32` operation:
the differences, the squares, the sum taken in order from `0`, and the square
root. -/
def ComputeLinearNorm (sqrt : ℚ → ℚ) (t1 t2 : Dense) : ℚ × Option Err :=
  if shapeEq t1.shape t2.shape = false then
    (0, some "shape mismatch")
  else
    let diff := List.zipWith (fun x y => f32 (x - y)) t1.data t2.data
    let squaredDiff := diff.map (fun x => f32 (x * x))
    let sumOfSquares := squaredDiff.foldl (fun acc x => f32 (acc + x)) 0
    (f32 (sqrt sumOfSquares), none)

/-! ## modules/face_helper.go: selection helpers -/

/-- The generic struct `DimensionPair[int]` (face_helper.go 16-19). -/
structure DimensionPair where
  Width : Int
  Height : Int
deriving DecidableEq, Repr

/-- The function `getLocation` (face_helper.go 137-145). -/
def getLocation (val length : ℚ) : ℚ :=
  if val < 0 then 0
  else if val > length then length
  else val

/-- The body of the first loop of `getLargestFace` (face_helper.go 167-173):
the clipped area of one box, a `float32` product of two `float32` differences,
with the image size converted to `float32`; `none` when the box has fewer
than four entries. -/
def faceArea (det : List ℚ) (h w : Int) : Option ℚ := do
  let d0 ← det[0]?
  let left := getLocation d0 (f32 (w : ℚ))
  let d2 ← det[2]?
  let right := getLocation d2 (f32 (w : ℚ))
  let d1 ← det[1]?
  let top := getLocation d1 (f32 (h : ℚ))
  let d3 ← det[3]?
  let bottom := getLocation d3 (f32 (h : ℚ))
  pure (f32 (f32 (right - left) * f32 (bottom - top)))

/-- Go's `slices.Max`: panics on the empty slice, else folds `max` from the
first element. -/
def slicesMax : List ℚ → Option ℚ
  | [] => none
  | x :: xs => some (xs.foldl max x)

/-- Go's `slices.Min`: panics on the empty slice, else folds `min` from the
first element. -/
def slicesMin : List ℚ → Option ℚ
  | [] => none
  | x :: xs => some (xs.foldl min x)

/-- The second loop of `getLargestFace` (face_helper.go 175-182), entered at
index `idx`: the first index whose value equals `maxVal`, and `0` (the initial
`maxIdx`) when the loop ends without a hit. -/
def firstMaxIdx (maxVal : ℚ) : List ℚ → Nat → Nat
  | [], _ => 0
  | val :: rest, idx => if val = maxVal then idx else firstMaxIdx maxVal rest (idx + 1)

/-- The function `getLargestFace` (face_helper.go 164-185). -/
def getLargestFace (detFaces : List Dense) (h w : Int) : Option (Dense × Nat × Option Err) := do
  let faceAreas ← detFaces.mapM (fun detFace => faceArea detFace.data h w)
  let maxVal ← slicesMax faceAreas
  let maxIdx := firstMaxIdx maxVal faceAreas 0
  let face ← detFaces[maxIdx]?
  pure (face, maxIdx, none)

/-- Go's `slices.Index`, entered at index `idx`: the first index holding `v`,
or `-1`. -/
def slicesIndexFrom (v : ℚ) : List ℚ → Int → Int
  | [], _ => -1
  | x :: xs, idx => if x = v then idx else slicesIndexFrom v xs (idx + 1)

/-- Go's `slices.Index`. -/
def slicesIndex (s : List ℚ) (v : ℚ) : Int := slicesIndexFrom v s 0

/-- The body of the loop of `GetCenterFace` (face_helper.go 213-226): the
distance of one box centre to the reference point; the centre is computed in
`float32`, a sum and then a division by two. -/
def centerDistOf (sqrt : ℚ → ℚ) (centerCoordinate : Dense) (coordinates : List ℚ) :
    Option (ℚ × Option Err) := do
  let c0 ← coordinates[0]?
  let c2 ← coordinates[2]?
  let c1 ← coordinates[1]?
  let c3 ← coordinates[3]?
  let faceCenter : Dense := ⟨[1, 2], [f32 (f32 (c0 + c2) / 2), f32 (f32 (c1 + c3) / 2)]⟩
  pure (ComputeLinearNorm sqrt faceCenter centerCoordinate)

/-- The loop of `GetCenterFace` (face_helper.go 212-226): the distances
collected so far, or the first error of `ComputeLinearNorm`. -/
def centerDistLoop (sqrt : ℚ → ℚ) (centerCoordinate : Dense) :
    List Dense → List ℚ → Option (List ℚ × Option Err)
  | [], centerDist => some (centerDist, none)
  | detFace :: rest, centerDist =>
    match centerDistOf sqrt centerCoordinate detFace.data with
    | none => none
    | some (_, some err) => some ([], some err)
    | some (dist, none) => centerDistLoop sqrt centerCoordinate rest (centerDist ++ [dist])

/-- The function `GetCenterFace` (face_helper.go 188-230).  Go's integer
division `w / 2` truncates toward zero (`Int.tdiv`) and its result, like an
explicit centre, is converted to `float32`; a negative index from
`slices.Index` panics at `detFaces[centerIDx]`. -/
def GetCenterFace (sqrt : ℚ → ℚ) (detFaces : List Dense) (h w : Option Int)
    (center : Option DimensionPair) : Option (Option Dense × Int × Option Err) :=
  let h := match h with
    | none => 0
    | some v => v
  let w := match w with
    | none => 0
    | some v => v
  let centerCoordinate : Dense :=
    match center with
    | some c => ⟨[1, 2], [f32 (c.Width : ℚ), f32 (c.Height : ℚ)]⟩
    | none => ⟨[1, 2], [f32 ((Int.tdiv w 2 : Int) : ℚ), f32 ((Int.tdiv h 2 : Int) : ℚ)]⟩
  match centerDistLoop sqrt centerCoordinate detFaces [] with
  | none => none
  | some (_, some err) => some (none, 0, some err)
  | some (centerDist, none) =>
    match slicesMin centerDist with
    | none => none
    | some m =>
      let centerIDx := slicesIndex centerDist m
      if centerIDx < 0 then none
      else
        match detFaces[centerIDx.toNat]? with
        | none => none
        | some face => some (some face, centerIDx, none)

/-! ## modules/face_helper.go: GetFaceLandmarks5 -/

/-- The struct `config.FaceDetectionOutput` (config/data_type.go 7-12). -/
structure FaceDetectionOutput where
  Box : Dense
  Score : Dense
  ClassID : Dense
  Landmark : Dense
deriving DecidableEq, Repr

/-- The detection client seen from the face helper: its two inference entry
points (face_detection.go 313, 393) as functions of the images.  Both return a
`nil` slice next to every error, so their result is an `Except`. -/
structure FaceDetectionClient where
  InferBatch : List (List Mat) → Except Err (List (List FaceDetectionOutput))
  InferSingle : List Mat → Except Err (List FaceDetectionOutput)

/-- The OpenCV calls of the face helper.  `CopyMakeBorder` takes the image and
the top, bottom, left and right border widths (constant zero border);
`EstimateAffinePartial2DWithParams` takes the two point lists, the method, the
reprojection threshold, the iteration bound, the confidence and the number of
refinement passes; `WarpAffineWithParams` takes the image, the transform, the
output size and the border mode.  `EstimateAffineNonFinite` is
`EstimateAffinePartial2DWithParams` on destination points that are not finite
numbers: those of the document template that `AlignFaceIDCard` computes from a
face ratio that is NaN or infinite; it takes that face ratio in their place. -/
structure OpenCV where
  CopyMakeBorder : Mat → Int → Int → Int → Int → Mat
  EstimateAffinePartial2DWithParams :
    List (ℚ × ℚ) → List (ℚ × ℚ) → Nat → ℚ → Nat → ℚ → Nat → Mat
  EstimateAffineNonFinite : List (ℚ × ℚ) → XFloat → Nat → ℚ → Nat → ℚ → Nat → Mat
  WarpAffineWithParams : Mat → Mat → Int × Int → Nat → Mat

/-- The struct `FaceHelperClient` (face_helper.go 21-29). -/
structure FaceHelperClient where
  faceSize : Int × Int
  fasSize : Int × Int
  faSize : Int × Int
  faceTemplate : Dense
  fasTemplate : Dense
  faTemplate : Dense
  faceDet : Option FaceDetectionClient

/-- Go's conversion `int(x)` of a float: truncation toward zero. -/
def truncToInt (q : ℚ) : Int := if 0 ≤ q then ⌊q⌋ else ⌈q⌉

/-- The function `padImage` (face_helper.go 147-161): each offset is the
integer part of a `float32` product of the ratio and the size converted to
`float32`. -/
def padImage (cv : OpenCV) (img : Mat) (ratio : ℚ) : Mat × Int × Int :=
  let h := img.rows
  let w := img.cols
  let offX := truncToInt (f32 (ratio * f32 (w : ℚ)))
  let offY := truncToInt (f32 (ratio * f32 (h : ℚ)))
  (cv.CopyMakeBorder img offY offY offX offX, offX, offY)

/-- The method `Dense.Sub` of the tensor library: elementwise `float32`
difference in the shape of the receiver, an error when the shapes of the two
operands are not equal. -/
def tensorSub (a b : Dense) : Option Dense × Option Err :=
  if shapeEq a.shape b.shape = false then (none, some "shape mismatch")
  else (some ⟨a.shape, List.zipWith (fun x y => f32 (x - y)) a.data b.data⟩, none)

/-- What one pass through a loop body does: return an error from the enclosing
function, go on to the next element, or produce a value. -/
inductive Step (α : Type) where
  | fail (e : Err)
  | skip
  | emit (a : α)
deriving DecidableEq, Repr

/-- The body of the detection loop of `GetFaceLandmarks5` (face_helper.go
279-340) for one raw detection: `emit (bbox, landmark)` when the detection is
appended to `filterBBoxes` / `filterLandmarks`, `skip` on `continue`, `fail` on
an early `return nil, nil, err`, `none` on an index panic.  The offsets are
converted to `float32`. -/
def filterStep (sqrt : ℚ → ℚ) (scoreThreshold : ℚ) (eyeDistanceThreshold : Option ℚ)
    (offX offY : Int) (result : FaceDetectionOutput) : Option (Step (Dense × Dense)) :=
  let bboxOffset : Dense :=
    ⟨[1, 4], [f32 (offX : ℚ), f32 (offY : ℚ), f32 (offX : ℚ), f32 (offY : ℚ)]⟩
  match tensorSub result.Box bboxOffset with
  | (_, some err) => some (.fail err)
  | (none, none) => none
  | (some bbox, none) =>
    let landmarkOffset : Dense := ⟨[1, 10],
      [f32 (offX : ℚ), f32 (offY : ℚ), f32 (offX : ℚ), f32 (offY : ℚ), f32 (offX : ℚ),
        f32 (offY : ℚ), f32 (offX : ℚ), f32 (offY : ℚ), f32 (offX : ℚ), f32 (offY : ℚ)]⟩
    match tensorSub result.Landmark landmarkOffset with
    | (_, some err) => some (.fail err)
    | (none, none) => none
    | (some landmark, none) =>
      let flattenlandmarks := landmark.data
      match flattenlandmarks[0]?, flattenlandmarks[1]?, flattenlandmarks[2]?,
          flattenlandmarks[3]? with
      | some f0, some f1, some f2, some f3 =>
        let lm1 : Dense := ⟨[1, 2], [f0, f1]⟩
        let lm2 : Dense := ⟨[1, 2], [f2, f3]⟩
        match ComputeLinearNorm sqrt lm1 lm2 with
        | (_, some err) => some (.fail err)
        | (eyeDist, none) =>
          if (match eyeDistanceThreshold with
              | some t => decide (eyeDist < t)
              | none => false) = true then some .skip
          else
            match result.Score.data[0]? with
            | none => none
            | some score =>
              if score < scoreThreshold then some .skip
              else some (.emit (bbox, ⟨[5, 2], landmark.data⟩))
      | _, _, _, _ => none

/-- The detection loop of `GetFaceLandmarks5` (face_helper.go 279-340) with the
lists `filterBBoxes` and `filterLandmarks` built so far. -/
def filterLoop (sqrt : ℚ → ℚ) (scoreThreshold : ℚ) (eyeDistanceThreshold : Option ℚ)
    (offX offY : Int) :
    List FaceDetectionOutput → List Dense × List Dense →
      Option (List Dense × List Dense × Option Err)
  | [], acc => some (acc.1, acc.2, none)
  | result :: rest, acc =>
    match filterStep sqrt scoreThreshold eyeDistanceThreshold offX offY result with
    | none => none
    | some (.fail err) => some ([], [], some err)
    | some .skip => filterLoop sqrt scoreThreshold eyeDistanceThreshold offX offY rest acc
    | some (.emit (bbox, landmark)) =>
      filterLoop sqrt scoreThreshold eyeDistanceThreshold offX offY rest
        (acc.1 ++ [bbox], acc.2 ++ [landmark])

/-- The raw detections that the detection loop of `GetFaceLandmarks5` runs on
for one image, with the offsets to subtract (face_helper.go 273-278): the
first-pass `results`, or, when `tryPadding` holds and the first pass returned
no detection, the output of `InferSingle` on the padded image, whose error is
assigned and not looked at. -/
def paddingRetry (cv : OpenCV) (faceDet : FaceDetectionClient) (tryPadding : Bool)
    (img : Mat) (results : List FaceDetectionOutput) : List FaceDetectionOutput × Int × Int :=
  if tryPadding = true ∧ results.length = 0 then
    let padded := padImage cv img (1 / 2)
    match faceDet.InferSingle [padded.1] with
    | .ok retried => (retried, padded.2.1, padded.2.2)
    | .error _ => ([], padded.2.1, padded.2.2)
  else (results, 0, 0)

/-- The selection part of the image loop of `GetFaceLandmarks5` (face_helper.go
341-374) once the filtered lists of an image are known: `skip` when nothing is
appended for the image, `emit (box, landmark)` for the pair appended to
`batchBBoxes` / `batchLandmarks` (a `nil` pointer is `none`). -/
def selectFace (sqrt : ℚ → ℚ) (keepLargest keepCenter : Bool) (img : Mat)
    (filterBBoxes filterLandmarks : List Dense) : Option (Step (Option Dense × Option Dense)) :=
  if filterBBoxes.length = 0 then
    if keepLargest = true ∨ keepCenter = true then some (.emit (none, none))
    else some .skip
  else if keepLargest = true then
    let h : Int := img.rows
    let w : Int := img.cols
    match getLargestFace filterBBoxes h w with
    | none => none
    | some (_, _, some err) => some (.fail err)
    | some (filterBBox, largestIdx, none) =>
      match filterLandmarks[largestIdx]? with
      | none => none
      | some filterLandmark => some (.emit (some filterBBox, some filterLandmark))
  else if keepCenter = true then
    let h : Int := img.rows
    let w : Int := img.cols
    match GetCenterFace sqrt filterBBoxes (some h) (some w) none with
    | none => none
    | some (_, _, some err) => some (.fail err)
    | some (filterBBox, centerIdx, none) =>
      match filterLandmarks[centerIdx.toNat]? with
      | none => none
      | some filterLandmark => some (.emit (filterBBox, some filterLandmark))
  else some (.emit (none, none))

/-- The body of the image loop of `GetFaceLandmarks5` (face_helper.go 269-374)
for the image at index `idx`. -/
def imageStep (sqrt : ℚ → ℚ) (cv : OpenCV) (faceDet : FaceDetectionClient)
    (keepLargest keepCenter : Bool) (scoreThreshold : ℚ) (eyeDistanceThreshold : Option ℚ)
    (tryPadding : Bool) (batchResults : List (List FaceDetectionOutput)) (img : Mat)
    (idx : Nat) : Option (Step (Option Dense × Option Dense)) :=
  match batchResults[idx]? with
  | none => none
  | some results0 =>
    let retry := paddingRetry cv faceDet tryPadding img results0
    match filterLoop sqrt scoreThreshold eyeDistanceThreshold retry.2.1 retry.2.2 retry.1
        ([], []) with
    | none => none
    | some (_, _, some err) => some (.fail err)
    | some (filterBBoxes, filterLandmarks, none) =>
      selectFace sqrt keepLargest keepCenter img filterBBoxes filterLandmarks

/-- The image loop of `GetFaceLandmarks5` (face_helper.go 267-376), entered at
image index `idx` with the lists `batchBBoxes` and `batchLandmarks` built so
far. -/
def imageLoop (sqrt : ℚ → ℚ) (cv : OpenCV) (faceDet : FaceDetectionClient)
    (keepLargest keepCenter : Bool) (scoreThreshold : ℚ) (eyeDistanceThreshold : Option ℚ)
    (tryPadding : Bool) (batchResults : List (List FaceDetectionOutput)) :
    List Mat → Nat → List (Option Dense) × List (Option Dense) →
      Option (List (Option Dense) × List (Option Dense) × Option Err)
  | [], _, acc => some (acc.1, acc.2, none)
  | img :: rest, idx, acc =>
    match imageStep sqrt cv faceDet keepLargest keepCenter scoreThreshold eyeDistanceThreshold
        tryPadding batchResults img idx with
    | none => none
    | some (.fail err) => some ([], [], some err)
    | some .skip =>
      imageLoop sqrt cv faceDet keepLargest keepCenter scoreThreshold eyeDistanceThreshold
        tryPadding batchResults rest (idx + 1) acc
    | some (.emit (box, landmark)) =>
      imageLoop sqrt cv faceDet keepLargest keepCenter scoreThreshold eyeDistanceThreshold
        tryPadding batchResults rest (idx + 1) (acc.1 ++ [box], acc.2 ++ [landmark])

/-- The method `FaceHelperClient.GetFaceLandmarks5` (face_helper.go 233-377).
Absent optional arguments take their defaults (242-253): `false` for the three
flags and `0.5` for the score threshold. -/
def FaceHelperClient.GetFaceLandmarks5 (sqrt : ℚ → ℚ) (cv : OpenCV) (c : FaceHelperClient)
    (batchImages : List Mat) (keepLargest keepCenter : Option Bool)
    (scoreThreshold eyeDistanceThreshold : Option ℚ) (tryPadding : Option Bool) :
    Option (List (Option Dense) × List (Option Dense) × Option Err) :=
  let keepLargest := match keepLargest with
    | none => false
    | some b => b
  let keepCenter := match keepCenter with
    | none => false
    | some b => b
  let tryPadding := match tryPadding with
    | none => false
    | some b => b
  let scoreThreshold := match scoreThreshold with
    | none => (1 / 2 : ℚ)
    | some s => s
  match c.faceDet with
  | none => some ([], [], none)
  | some faceDet =>
    match faceDet.InferBatch [batchImages] with
    | .error err => some ([], [], some err)
    | .ok batchResults =>
      imageLoop sqrt cv faceDet keepLargest keepCenter scoreThreshold eyeDistanceThreshold
        tryPadding batchResults batchImages 0 ([], [])

/-! ## modules/face_helper.go: alignment -/

/-- The function `utils.TensorToPoints` (utils/image.go 22-38), reading point
`i` of `n`; `none` when the backing is too short. -/
def pointsFrom (data : List ℚ) : Nat → Nat → Option (List (ℚ × ℚ))
  | 0, _ => some []
  | n + 1, i => do
    let x ← data[i * 2]?
    let y ← data[i * 2 + 1]?
    let rest ← pointsFrom data n (i + 1)
    pure ((x, y) :: rest)

/-- The function `utils.TensorToPoint2fVector` (utils/image.go 22-47): a tensor
that is not of shape `(n, 2)` is an error. -/
def TensorToPoint2fVector (t : Dense) : Option (List (ℚ × ℚ) × Option Err) :=
  match t.shape with
  | [n, 2] =>
    match pointsFrom t.data n 0 with
    | none => none
    | some points => some (points, none)
  | _ => some ([], some "expected a 2D tensor with shape (n, 2)")

/-- The constant `gocv.HomograpyMethodLMEDS`. -/
def HomograpyMethodLMEDS : Nat := 4

/-- The constant `gocv.BorderConstant`. -/
def BorderConstant : Nat := 0

/-- The loop shared by `AlignWarpFaces` (face_helper.go 416-467) and
`AlignFASFaces` (563-614) for the given template and output size, with the
crops and transforms collected so far; a `nil` landmark is a panic, and
`inliers.Close()` of gocv always returns `nil`. -/
def alignLoop (cv : OpenCV) (template : Dense) (size : Int × Int) (borderMode : Nat) :
    List Mat → List (Option Dense) → List Mat × List Mat →
      Option (List Mat × List Mat × Option Err)
  | inputImg :: imgs, lmk :: lmks, (croppedFaces, affineMatrices) =>
    match lmk with
    | none => none
    | some landmark =>
      match TensorToPoint2fVector landmark with
      | none => none
      | some (_, some err) => some (croppedFaces, affineMatrices, some err)
      | some (src, none) =>
        match TensorToPoint2fVector template with
        | none => none
        | some (_, some err) => some (croppedFaces, affineMatrices, some err)
        | some (dst, none) =>
          let affineMatrix :=
            cv.EstimateAffinePartial2DWithParams src dst HomograpyMethodLMEDS 3 2000
              (99 / 100) 10
          let croppedFace := cv.WarpAffineWithParams inputImg affineMatrix size borderMode
          alignLoop cv template size borderMode imgs lmks
            (croppedFaces ++ [croppedFace], affineMatrices ++ [affineMatrix])
  | _, _, (croppedFaces, affineMatrices) => some (croppedFaces, affineMatrices, none)

/-- The method `FaceHelperClient.AlignWarpFaces` (face_helper.go 403-469). -/
def FaceHelperClient.AlignWarpFaces (cv : OpenCV) (c : FaceHelperClient) (inputImgs : List Mat)
    (landmarks : List (Option Dense)) (borderMode : Option Nat) :
    Option (List Mat × List Mat × Option Err) :=
  let borderMode := match borderMode with
    | none => BorderConstant
    | some b => b
  if inputImgs.length ≠ landmarks.length then
    some ([], [], some "number of input images and landmarks must be equal")
  else alignLoop cv c.faceTemplate c.faceSize borderMode inputImgs landmarks ([], [])

/-- The method `FaceHelperClient.AlignFASFaces` (face_helper.go 550-616). -/
def FaceHelperClient.AlignFASFaces (cv : OpenCV) (c : FaceHelperClient) (inputImgs : List Mat)
    (landmarks : List (Option Dense)) (borderMode : Option Nat) :
    Option (List Mat × List Mat × Option Err) :=
  let borderMode := match borderMode with
    | none => BorderConstant
    | some b => b
  if inputImgs.length ≠ landmarks.length then
    some ([], [], some "number of input images and landmarks must be equal")
  else alignLoop cv c.fasTemplate c.fasSize borderMode inputImgs landmarks ([], [])

/-! ## config/model.go, config/data_type.go and the inference clients -/

/-- The thresholds and size of `config.FaceIDParams` (config/model.go 28-36). -/
structure FaceIDParams where
  ThresholdSameEKYC : ℚ
  ThresholdSamePerson : ℚ
  ImgSize : Int

/-- The threshold and size of `config.FaceAntiSpoofingParams` (config/model.go 121-128). -/
structure FaceAntiSpoofingParams where
  Threshold : ℚ
  ImgSize : Int

/-- The thresholds and size of `config.FaceQualityParams` (config/model.go 89-97). -/
structure FaceQualityParams where
  ThresholdCover : ℚ
  ThresholdAll : ℚ
  ImgSize : Int

/-- The face-ID client: parameters and `InferBatch` (face_id.go 101-157), which
returns `nil` next to every error. -/
structure FaceIDClient where
  ModelParams : FaceIDParams
  InferBatch : List (List Mat) → Except Err (List Dense)

/-- The quality client: parameters and `InferBatch` (face_quality.go 216-288),
which returns `nil` next to every error. -/
structure FaceQualityClient where
  ModelParams : FaceQualityParams
  InferBatch : List (List Mat) → Except Err (List Dense)

/-- The anti-spoofing client: parameters and `InferSingle`
(face_antispoofing.go 87-146), which returns the score `0` next to every
error. -/
structure FaceAntiSpoofingClient where
  ModelParams : FaceAntiSpoofingParams
  InferSingle : Mat → Mat → Mat → Except Err ℚ

/-- The struct `EKYCPipeline` (pipeline.go 16-22). -/
structure EKYCPipeline where
  FaceID : FaceIDClient
  FaceQuality : FaceQualityClient
  FaceHelper : FaceHelperClient
  FaceASFull : FaceAntiSpoofingClient
  FaceASCrop : FaceAntiSpoofingClient

/-- The struct `config.FaceAntiSpoofingVerify` (config/data_type.go 70-81). -/
structure FaceAntiSpoofingVerify where
  IsFaceMask : Bool
  IsLiveness : Bool
  IsSamePerson : Bool
  ScoreMN : ℚ
  ScoreFM : ℚ
  LivenessScoreFull : ℚ
  LivenessScoreCrop : ℚ
  SimilarityScore : ℚ
  FaceMaskScore : ℚ
deriving DecidableEq, Repr

/-! ## pipeline.go: the stages -/

/-- The method `EKYCPipeline.embeddingExtraction` (pipeline.go 122-129). -/
def EKYCPipeline.embeddingExtraction (c : EKYCPipeline) (images : List Mat) :
    List Dense × Option Err :=
  match c.FaceID.InferBatch [images] with
  | .error err => ([], some err)
  | .ok embeddings => (embeddings, none)

/-- The scan of `getFaceQuality` over the values of one tensor (pipeline.go
169-173). -/
def maskScan (data : List ℚ) (maskScore : ℚ) : ℚ :=
  data.foldl (fun m v => if v > m then v else m) maskScore

/-- The method `EKYCPipeline.getFaceQuality` (pipeline.go 148-177). -/
def EKYCPipeline.getFaceQuality (cv : OpenCV) (c : EKYCPipeline) (imgFar imgMid imgNear : Mat)
    (lmkFar lmkMid lmkNear : Option Dense) : Option (ℚ × Bool × Option Err) :=
  let maskScore : ℚ := 0
  let isFaceMask : Bool := false
  match c.FaceHelper.AlignWarpFaces cv [imgFar, imgMid, imgNear] [lmkFar, lmkMid, lmkNear]
      none with
  | none => none
  | some (_, _, some err) => some (maskScore, isFaceMask, some err)
  | some (croppedFace, _, none) =>
    match c.FaceQuality.InferBatch [croppedFace] with
    | .error err => some (maskScore, isFaceMask, some err)
    | .ok scoreCover =>
      some (scoreCover.foldl (fun m t => maskScan t.data m) maskScore, isFaceMask, none)

/-- The method `EKYCPipeline.livenessActiveCheck` (pipeline.go 197-225). -/
def EKYCPipeline.livenessActiveCheck (cv : OpenCV) (c : EKYCPipeline)
    (imgFar imgMid imgNear : Mat) (lmkFar lmkMid lmkNear : Option Dense) :
    Option (ℚ × ℚ × Bool × Option Err) :=
  match c.FaceHelper.AlignFASFaces cv [imgFar, imgMid, imgNear] [lmkFar, lmkMid, lmkNear]
      none with
  | none => none
  | some (_, _, some err) => some (0, 0, false, some err)
  | some (croppedFaces, _, none) =>
    match croppedFaces[0]?, croppedFaces[1]?, croppedFaces[2]? with
    | some c0, some c1, some c2 =>
      match c.FaceASCrop.InferSingle c0 c1 c2 with
      | .error err => some (0, 0, false, some err)
      | .ok livenessScoreCrop =>
        match c.FaceASFull.InferSingle imgFar imgMid imgNear with
        | .error err => some (livenessScoreCrop, 0, false, some err)
        | .ok livenessScoreFull =>
          let isLiveness :=
            decide (livenessScoreCrop > c.FaceASCrop.ModelParams.Threshold) &&
              decide (livenessScoreFull > c.FaceASFull.ModelParams.Threshold)
          some (livenessScoreCrop, livenessScoreFull, isLiveness, none)
    | _, _, _ => none

/-- The method `EKYCPipeline.livenessPassiveCheck` (pipeline.go 245-263). -/
def EKYCPipeline.livenessPassiveCheck (c : EKYCPipeline)
    (fImgFar fImgMid fImgNear cImgFar cImgMid cImgNear : Mat) : ℚ × ℚ × Bool × Option Err :=
  match c.FaceASCrop.InferSingle cImgFar cImgMid cImgNear with
  | .error err => (0, 0, false, some err)
  | .ok livenessScoreCrop =>
    match c.FaceASFull.InferSingle fImgFar fImgMid fImgNear with
    | .error err => (livenessScoreCrop, 0, false, some err)
    | .ok livenessScoreFull =>
      let isLiveness :=
        decide (livenessScoreCrop > c.FaceASCrop.ModelParams.Threshold) &&
          decide (livenessScoreFull > c.FaceASFull.ModelParams.Threshold)
      (livenessScoreCrop, livenessScoreFull, isLiveness, none)

/-- The method `EKYCPipeline.samePersonCheck` (pipeline.go 283-317). -/
def EKYCPipeline.samePersonCheck (sqrt : ℚ → ℚ) (cv : OpenCV) (c : EKYCPipeline)
    (imgFar imgMid imgNear : Mat) (lmkFar lmkMid lmkNear : Option Dense) :
    Option (ℚ × ℚ × Bool × Option Err) :=
  match c.FaceHelper.AlignWarpFaces cv [imgFar, imgMid, imgNear] [lmkFar, lmkMid, lmkNear]
      none with
  | none => none
  | some (_, _, some err) => some (0, 0, false, some err)
  | some (croppedFaces, _, none) =>
    match c.embeddingExtraction croppedFaces with
    | (_, some err) => some (0, 0, false, some err)
    | (faceEmbeddings, none) =>
      match faceEmbeddings[0]?, faceEmbeddings[1]?, faceEmbeddings[2]? with
      | some vFar, some vMid, some vNear =>
        match similarityScore sqrt vFar vMid with
        | (scoreFM, some err) => some (scoreFM, 0, false, some err)
        | (scoreFM, none) =>
          match similarityScore sqrt vMid vNear with
          | (scoreMN, some err) => some (scoreFM, scoreMN, false, some err)
          | (scoreMN, none) =>
            let isSamePerson :=
              decide (scoreFM ≥ c.FaceID.ModelParams.ThresholdSamePerson) &&
                decide (scoreMN ≥ c.FaceID.ModelParams.ThresholdSamePerson)
            some (scoreFM, scoreMN, isSamePerson, none)
      | _, _, _ => none

/-! ## pipeline.go: the verification flows -/

/-- The result literal with which both verification flows start (pipeline.go
359-368 and 446-455); a field the literal does not name has Go's zero value. -/
def initialVerify : FaceAntiSpoofingVerify :=
  { IsFaceMask := false
    IsLiveness := false
    IsSamePerson := false
    ScoreMN := -1
    ScoreFM := -1
    LivenessScoreFull := -1
    LivenessScoreCrop := -1
    SimilarityScore := 0
    FaceMaskScore := -1 }

/-- One landmark block of the verification flows (pipeline.go 371-378 and its
copies): run `GetFaceLandmarks5` on the single image with the given selection
flags and with padding, return its error, or the error `msg` when the landmark
list is empty, else the first landmark (which may be `nil`). -/
def EKYCPipeline.locateLandmark (sqrt : ℚ → ℚ) (cv : OpenCV) (c : EKYCPipeline) (img : Mat)
    (keepLargest keepCenter : Option Bool) (msg : Err) : Option (Option Dense × Option Err) :=
  match c.FaceHelper.GetFaceLandmarks5 sqrt cv [img] keepLargest keepCenter none none
      (some true) with
  | none => none
  | some (_, _, some err) => some (none, some err)
  | some (_, lmks, none) =>
    match lmks with
    | [] => some (none, some msg)
    | lmk :: _ => some (lmk, none)

/-- The part of `FaceAntiSpoofingActiveVerify` after the landmarks are known
(pipeline.go 401-428). -/
def EKYCPipeline.activeStages (sqrt : ℚ → ℚ) (cv : OpenCV) (c : EKYCPipeline)
    (resp : FaceAntiSpoofingVerify) (imgFar imgMid imgNear : Mat)
    (lmkFar lmkMid lmkNear : Option Dense) : Option (FaceAntiSpoofingVerify × Option Err) :=
  match c.samePersonCheck sqrt cv imgFar imgMid imgNear lmkFar lmkMid lmkNear with
  | none => none
  | some (_, _, _, some err) => some (resp, some err)
  | some (scoreFM, scoreMN, isSamePerson, none) =>
    let resp := { resp with ScoreFM := scoreFM, ScoreMN := scoreMN, IsSamePerson := isSamePerson }
    match c.getFaceQuality cv imgFar imgMid imgNear lmkFar lmkMid lmkNear with
    | none => none
    | some (_, _, some err) => some (resp, some err)
    | some (maskScore, isFaceMask, none) =>
      let resp := { resp with FaceMaskScore := maskScore, IsFaceMask := isFaceMask }
      match c.livenessActiveCheck cv imgFar imgMid imgNear lmkFar lmkMid lmkNear with
      | none => none
      | some (_, _, _, some err) => some (resp, some err)
      | some (livenessScoreCrop, livenessScoreFull, isLiveness, none) =>
        some ({ resp with LivenessScoreCrop := livenessScoreCrop,
                          LivenessScoreFull := livenessScoreFull,
                          IsLiveness := isLiveness }, none)

/-- The method `EKYCPipeline.FaceAntiSpoofingActiveVerify` (pipeline.go 357-429). -/
def EKYCPipeline.FaceAntiSpoofingActiveVerify (sqrt : ℚ → ℚ) (cv : OpenCV) (c : EKYCPipeline)
    (imgFar imgMid imgNear : Mat) (lmkFar lmkMid lmkNear : Option Dense) :
    Option (FaceAntiSpoofingVerify × Option Err) :=
  let resp := initialVerify
  let far := match lmkFar with
    | some l => some (some l, none)
    | none => c.locateLandmark sqrt cv imgFar none (some true)
        "cannot detect any face in mid-face image"
  match far with
  | none => none
  | some (_, some err) => some (resp, some err)
  | some (lmkFar, none) =>
    let mid := match lmkMid with
      | some l => some (some l, none)
      | none => c.locateLandmark sqrt cv imgMid none (some true)
          "cannot detect any face in mid-face image"
    match mid with
    | none => none
    | some (_, some err) => some (resp, some err)
    | some (lmkMid, none) =>
      let near := match lmkNear with
        | some l => some (some l, none)
        | none => c.locateLandmark sqrt cv imgNear none (some true)
            "cannot detect any face in near-face image"
      match near with
      | none => none
      | some (_, some err) => some (resp, some err)
      | some (lmkNear, none) =>
        c.activeStages sqrt cv resp imgFar imgMid imgNear lmkFar lmkMid lmkNear

/-- The part of `FaceAntiSpoofingPassiveVerify` after the landmarks are known
(pipeline.go 484-508): the error of `samePersonCheck` is assigned and then
overwritten by the next assignment to `err`. -/
def EKYCPipeline.passiveStages (sqrt : ℚ → ℚ) (cv : OpenCV) (c : EKYCPipeline)
    (resp : FaceAntiSpoofingVerify) (fImgFar fImgMid fImgNear : Mat)
    (lmkFar lmkMid lmkNear : Option Dense) : Option (FaceAntiSpoofingVerify × Option Err) :=
  match c.samePersonCheck sqrt cv fImgFar fImgMid fImgNear lmkFar lmkMid lmkNear with
  | none => none
  | some (scoreFM, scoreMN, isSamePerson, _) =>
    let resp := { resp with ScoreFM := scoreFM, ScoreMN := scoreMN, IsSamePerson := isSamePerson }
    match c.getFaceQuality cv fImgFar fImgMid fImgNear lmkFar lmkMid lmkNear with
    | none => none
    | some (_, _, some err) => some (resp, some err)
    | some (maskScore, isFaceMask, none) =>
      let resp := { resp with FaceMaskScore := maskScore, IsFaceMask := isFaceMask }
      match c.livenessActiveCheck cv fImgFar fImgMid fImgNear lmkFar lmkMid lmkNear with
      | none => none
      | some (_, _, _, some err) => some (resp, some err)
      | some (livenessCrop, livenessFull, isLiveness, none) =>
        some ({ resp with LivenessScoreCrop := livenessCrop,
                          LivenessScoreFull := livenessFull,
                          IsLiveness := isLiveness }, none)

/-- The method `EKYCPipeline.FaceAntiSpoofingPassiveVerify` (pipeline.go 444-508). -/
def EKYCPipeline.FaceAntiSpoofingPassiveVerify (sqrt : ℚ → ℚ) (cv : OpenCV) (c : EKYCPipeline)
    (fImgFar fImgMid fImgNear : Mat) : Option (FaceAntiSpoofingVerify × Option Err) :=
  let resp := initialVerify
  match c.locateLandmark sqrt cv fImgFar (some true) none
      "cannot detect any face in far-face image" with
  | none => none
  | some (_, some err) => some (resp, some err)
  | some (lmkFar, none) =>
    match c.locateLandmark sqrt cv fImgMid (some true) none
        "cannot detect any face in mid-face image" with
    | none => none
    | some (_, some err) => some (resp, some err)
    | some (lmkMid, none) =>
      match c.locateLandmark sqrt cv fImgNear (some true) none
          "cannot detect any face in near-face image" with
      | none => none
      | some (_, some err) => some (resp, some err)
      | some (lmkNear, none) =>
        c.passiveStages sqrt cv resp fImgFar fImgMid fImgNear lmkFar lmkMid lmkNear

/-- The method `EKYCPipeline.PersonIDCardVerify` (pipeline.go 523-565): the
error of `AlignWarpFaces` (line 550) is assigned and then overwritten by the
next assignment to `err`. -/
def EKYCPipeline.PersonIDCardVerify (sqrt : ℚ → ℚ) (cv : OpenCV) (c : EKYCPipeline)
    (cardImg ImgFar : Mat) (lmkFar : Option Dense) : Option (ℚ × Bool × Option Err) :=
  match c.locateLandmark sqrt cv cardImg (some true) none "cannot detect face in card image" with
  | none => none
  | some (_, some err) => some (0, false, some err)
  | some (cardLmk, none) =>
    let far := match lmkFar with
      | some l => some (some l, none)
      | none => c.locateLandmark sqrt cv ImgFar none (some true)
          "cannot detect face in input face image"
    match far with
    | none => none
    | some (_, some err) => some (0, false, some err)
    | some (lmkFar, none) =>
      match c.FaceHelper.AlignWarpFaces cv [cardImg, ImgFar] [cardLmk, lmkFar] none with
      | none => none
      | some (croppedFaces, _, _) =>
        match c.embeddingExtraction croppedFaces with
        | (_, some err) => some (0, false, some err)
        | (extractions, none) =>
          match extractions[0]?, extractions[1]? with
          | some vCar, some vFar =>
            match similarityScore sqrt vCar vFar with
            | (score, some err) => some (score, false, some err)
            | (score, none) =>
              some (score, decide (score ≥ c.FaceID.ModelParams.ThresholdSameEKYC), none)
          | _, _ => none

/-- The method `EKYCPipeline.FaceQualityVerify` (pipeline.go 584-586). -/
def EKYCPipeline.FaceQualityVerify (cv : OpenCV) (c : EKYCPipeline) (imgFar imgMid imgNear : Mat)
    (lmkFar lmkMid lmkNear : Option Dense) : Option (ℚ × Bool × Option Err) :=
  c.getFaceQuality cv imgFar imgMid imgNear lmkFar lmkMid lmkNear

/-! ## Concrete instances used on examples -/

/-- An OpenCV stand-in: the border grows the image, the estimated transform is
a 2-by-3 matrix and the warp produces an image of the requested size. -/
def exampleCV : OpenCV :=
  { CopyMakeBorder := fun img top bottom left right =>
      ⟨img.rows + (top + bottom).toNat, img.cols + (left + right).toNat, img.px⟩
    EstimateAffinePartial2DWithParams := fun _ _ _ _ _ _ _ => ⟨2, 3, []⟩
    EstimateAffineNonFinite := fun _ _ _ _ _ _ _ => ⟨0, 0, []⟩
    WarpAffineWithParams := fun img _ size _ => ⟨size.2.toNat, size.1.toNat, img.px⟩ }

/-- The default recognition template for `faceSize = 112` (face_helper.go 61-71). -/
def exampleFaceTemplate : Dense :=
  ⟨[5, 2], [382946 / 10000, 516963 / 10000, 735318 / 10000, 515014 / 10000,
    560252 / 10000, 717366 / 10000, 415493 / 10000, 923655 / 10000,
    707299 / 10000, 922041 / 10000]⟩

/-- A face helper with the default sizes, one template for the three purposes
and the given detection client. -/
def exampleHelper (faceDet : Option FaceDetectionClient) : FaceHelperClient :=
  { faceSize := (112, 112)
    fasSize := (224, 224)
    faSize := (0, 128)
    faceTemplate := exampleFaceTemplate
    fasTemplate := exampleFaceTemplate
    faTemplate := exampleFaceTemplate
    faceDet := faceDet }

/-- A pipeline whose inference calls answer with fixed results and whose
thresholds are the given ones. -/
def examplePipeline (faceDet : Option FaceDetectionClient)
    (embeddings quality : Except Err (List Dense)) (crop full : Except Err ℚ)
    (tSame tCrop tFull : ℚ) : EKYCPipeline :=
  { FaceID := ⟨⟨3 / 10, tSame, 112⟩, fun _ => embeddings⟩
    FaceQuality := ⟨⟨1 / 2, 1 / 2, 112⟩, fun _ => quality⟩
    FaceHelper := exampleHelper faceDet
    FaceASFull := ⟨⟨tFull, 224⟩, fun _ _ _ => full⟩
    FaceASCrop := ⟨⟨tCrop, 224⟩, fun _ _ _ => crop⟩ }

/-- A 480-by-640 image. -/
def exampleImage : Mat := ⟨480, 640, []⟩

/-- A five-point landmark of shape `(5, 2)`. -/
def exampleLandmark : Dense :=
  ⟨[5, 2], [266, 220, 397, 221, 332, 258, 284, 294, 380, 294]⟩

/-- One raw detection: a box, a score of `0.9` and ten landmark coordinates. -/
def exampleDetection : FaceDetectionOutput :=
  { Box := ⟨[4], [200, 150, 450, 400]⟩
    Score := ⟨[1], [9 / 10]⟩
    ClassID := ⟨[1], [0]⟩
    Landmark := ⟨[10], [266, 220, 397, 221, 332, 258, 284, 294, 380, 294]⟩ }

/-- A detection client that finds `exampleDetection` in every image. -/
def exampleDetector : FaceDetectionClient :=
  { InferBatch := fun batches => .ok ((batches.headD []).map (fun _ => [exampleDetection]))
    InferSingle := fun _ => .ok [exampleDetection] }

/-- A detection client whose calls all fail. -/
def failingDetector : FaceDetectionClient :=
  { InferBatch := fun _ => .error "inference transport error"
    InferSingle := fun _ => .error "inference transport error" }

/-- A detection client that finds no face, neither in the batch pass nor in
the pass on a padded image. -/
def emptyDetector : FaceDetectionClient :=
  { InferBatch := fun batches => .ok ((batches.headD []).map (fun _ => []))
    InferSingle := fun _ => .ok [] }

/-- A detection client that finds no face in the batch pass and whose call on
a padded image fails. -/
def retryFailingDetector : FaceDetectionClient :=
  { InferBatch := fun batches => .ok ((batches.headD []).map (fun _ => []))
    InferSingle := fun _ => .error "inference transport error" }

/-- A detection client whose batch pass returns, for every image, one
detection of score `0.1`, and whose call on a padded image would find
`exampleDetection`. -/
def lowScoreDetector : FaceDetectionClient :=
  { InferBatch := fun batches =>
      .ok ((batches.headD []).map
        (fun _ => [{ exampleDetection with Score := ⟨[1], [1 / 10]⟩ }]))
    InferSingle := fun _ => .ok [exampleDetection] }

/-- A second raw detection: a small box around the centre of `exampleImage`. -/
def centredDetection : FaceDetectionOutput :=
  { Box := ⟨[4], [300, 220, 340, 260]⟩
    Score := ⟨[1], [8 / 10]⟩
    ClassID := ⟨[1], [0]⟩
    Landmark := ⟨[10], [310, 230, 330, 230, 320, 240, 312, 250, 328, 250]⟩ }

/-- A third raw detection: a wide box over most of `exampleImage`, its centre
one pixel to the right of the image centre. -/
def wideDetection : FaceDetectionOutput :=
  { Box := ⟨[4], [21, 0, 621, 480]⟩
    Score := ⟨[1], [9 / 10]⟩
    ClassID := ⟨[1], [0]⟩
    Landmark := ⟨[10], [221, 200, 421, 200, 321, 260, 241, 340, 401, 340]⟩ }

/-- A detection client that finds the wide face and the centred face, in this
order, in every image. -/
def twoFaceDetector : FaceDetectionClient :=
  { InferBatch := fun batches =>
      .ok ((batches.headD []).map (fun _ => [wideDetection, centredDetection]))
    InferSingle := fun _ => .ok [wideDetection, centredDetection] }

/-- A detection client that finds no face in the batch pass and finds
`exampleDetection` in a padded image. -/
def paddedOnlyDetector : FaceDetectionClient :=
  { InferBatch := fun batches => .ok ((batches.headD []).map (fun _ => []))
    InferSingle := fun _ => .ok [exampleDetection] }

/-- An OpenCV stand-in that lets the selected landmark show in the crop: the
estimated transform carries the x coordinates of the source points, rounded
down, and the warp copies them into the crop. -/
def tracingCV : OpenCV :=
  { CopyMakeBorder := fun img top bottom left right =>
      ⟨img.rows + (top + bottom).toNat, img.cols + (left + right).toNat, img.px⟩
    EstimateAffinePartial2DWithParams := fun src _ _ _ _ _ _ => ⟨2, 3, src.map (fun p => ⌊p.1⌋₊)⟩
    EstimateAffineNonFinite := fun _ _ _ _ _ _ _ => ⟨0, 0, []⟩
    WarpAffineWithParams := fun _ m size _ => ⟨size.2.toNat, size.1.toNat, m.px⟩ }

/-- A pipeline whose quality model answers, for every crop, with the pixel
values of the crop; the face-ID model answers with one fixed embedding per
crop and the liveness models with `0.9`. -/
def tracingPipeline (faceDet : Option FaceDetectionClient) : EKYCPipeline :=
  { FaceID := ⟨⟨3 / 10, 4 / 10, 112⟩,
      fun batches => .ok ((batches.headD []).map (fun _ => ⟨[2], [1, 0]⟩))⟩
    FaceQuality := ⟨⟨1 / 2, 1 / 2, 112⟩,
      fun batches => .ok ((batches.headD []).map
        (fun crop => ⟨[crop.px.length], crop.px.map (fun n => (n : ℚ))⟩))⟩
    FaceHelper := exampleHelper faceDet
    FaceASFull := ⟨⟨48 / 100, 224⟩, fun _ _ _ => .ok (9 / 10)⟩
    FaceASCrop := ⟨⟨58 / 100, 224⟩, fun _ _ _ => .ok (9 / 10)⟩ }

/-- A detection client that finds `exampleDetection` in every image of 480
rows and no face in any other image. -/
def selectiveDetector : FaceDetectionClient :=
  { InferBatch := fun batches =>
      .ok ((batches.headD []).map
        (fun img => if img.rows = 480 then [exampleDetection] else []))
    InferSingle := fun _ => .ok [] }

/-- A raw detection whose eyes are the points `(0, 0)` and `(4097, 2)`. -/
def farEyesDetection : FaceDetectionOutput :=
  { Box := ⟨[4], [0, 0, 4100, 100]⟩
    Score := ⟨[1], [9 / 10]⟩
    ClassID := ⟨[1], [0]⟩
    Landmark := ⟨[10], [0, 0, 4097, 2, 2048, 50, 100, 90, 4000, 90]⟩ }

/-- A detection client that finds `farEyesDetection` in every image. -/
def farEyesDetector : FaceDetectionClient :=
  { InferBatch := fun batches => .ok ((batches.headD []).map (fun _ => [farEyesDetection]))
    InferSingle := fun _ => .ok [farEyesDetection] }

/-- A raw detection with the box `(0, 0, 4096, 4098)`. -/
def tallDetection : FaceDetectionOutput :=
  { exampleDetection with Box := ⟨[4], [0, 0, 4096, 4098]⟩ }

/-- A raw detection with the box `(0, 0, 4097, 4097)`. -/
def squareDetection : FaceDetectionOutput :=
  { exampleDetection with Box := ⟨[4], [0, 0, 4097, 4097]⟩ }

/-- A detection client that finds `tallDetection` and `squareDetection`, in
this order, in every image. -/
def tiedAreaDetector : FaceDetectionClient :=
  { InferBatch := fun batches =>
      .ok ((batches.headD []).map (fun _ => [tallDetection, squareDetection]))
    InferSingle := fun _ => .ok [tallDetection, squareDetection] }

/-! ## Quantities named by the claims -/

/-- The clamp of `v` to the interval `[lo, hi]`. -/
def clamp (v lo hi : ℚ) : ℚ := max lo (min v hi)

/-- The clipped area of a box `(left, top, right, bottom)` in an image of
height `h` and width `w`, in exact arithmetic:
`(clamp(right,0,w) - clamp(left,0,w)) * (clamp(bottom,0,h) - clamp(top,0,h))`. -/
def clippedArea (box : Dense) (h w : Nat) : ℚ :=
  (clamp (box.data.getD 2 0) 0 w - clamp (box.data.getD 0 0) 0 w) *
    (clamp (box.data.getD 3 0) 0 h - clamp (box.data.getD 1 0) 0 h)

/-- The clipped area of a box in `float32` arithmetic: the image size is
converted to `float32`, the two differences are rounded and so is their
product. -/
def clippedArea32 (box : Dense) (h w : Nat) : ℚ :=
  f32 (f32 (clamp (box.data.getD 2 0) 0 (f32 w) - clamp (box.data.getD 0 0) 0 (f32 w)) *
    f32 (clamp (box.data.getD 3 0) 0 (f32 h) - clamp (box.data.getD 1 0) 0 (f32 h)))

/-- The centre `((left + right) / 2, (top + bottom) / 2)` of a box in exact
arithmetic. -/
def boxCentre (box : Dense) : ℚ × ℚ :=
  ((box.data.getD 0 0 + box.data.getD 2 0) / 2, (box.data.getD 1 0 + box.data.getD 3 0) / 2)

/-- The squared Euclidean distance, in exact arithmetic, between the centre of
a box and the point `(x, y)`. -/
def centreDistanceSq (box : Dense) (x y : ℚ) : ℚ :=
  ((boxCentre box).1 - x) * ((boxCentre box).1 - x) +
    ((boxCentre box).2 - y) * ((boxCentre box).2 - y)

/-- The Euclidean distance, in exact arithmetic over the library square root,
between the centre of a box and the point `(x, y)`. -/
def centreDistance (sqrt : ℚ → ℚ) (box : Dense) (x y : ℚ) : ℚ :=
  sqrt (((boxCentre box).1 - x) * ((boxCentre box).1 - x) +
    ((boxCentre box).2 - y) * ((boxCentre box).2 - y))

/-- The `float32` distance between two points: the two differences, their
squares, the sum of the squares and its square root are each rounded to
`float32`. -/
def distance32 (sqrt : ℚ → ℚ) (x0 y0 x1 y1 : ℚ) : ℚ :=
  f32 (sqrt (f32 (f32 (f32 (x0 - x1) * f32 (x0 - x1)) + f32 (f32 (y0 - y1) * f32 (y0 - y1)))))

/-- The centre of a box in `float32` arithmetic: each sum is rounded, then
halved. -/
def boxCentre32 (box : Dense) : ℚ × ℚ :=
  (f32 (f32 (box.data.getD 0 0 + box.data.getD 2 0) / 2),
    f32 (f32 (box.data.getD 1 0 + box.data.getD 3 0) / 2))

/-- The `float32` distance between the `float32` centre of a box and the
point `(x, y)`. -/
def centreDistance32 (sqrt : ℚ → ℚ) (box : Dense) (x y : ℚ) : ℚ :=
  distance32 sqrt (boxCentre32 box).1 (boxCentre32 box).2 x y

/-- The reference point of centre selection as a pair of `float32` numbers:
the explicit centre, or the results of the integer divisions `w / 2` and
`h / 2` of the given size (`0` for an absent one). -/
def centreReference (h w : Option Int) (center : Option DimensionPair) : ℚ × ℚ :=
  match center with
  | some c => (f32 (c.Width : ℚ), f32 (c.Height : ℚ))
  | none => (f32 ((Int.tdiv (w.getD 0) 2 : Int) : ℚ), f32 ((Int.tdiv (h.getD 0) 2 : Int) : ℚ))

/-- The entries of a tensor have magnitude at most `2 ^ 60`: no `float32`
operation of the source on them overflows. -/
def withinBound (t : Dense) : Prop := ∀ x ∈ t.data, |x| ≤ 2 ^ 60

instance (t : Dense) : Decidable (withinBound t) := by
  unfold withinBound
  infer_instance

/-- The score of a raw detection. -/
def rawScore (r : FaceDetectionOutput) : ℚ := r.Score.data.getD 0 0

/-- The squared Euclidean distance, in exact arithmetic, between the first two
landmark points (the eyes) of a raw detection. -/
def eyeDistanceSq (r : FaceDetectionOutput) : ℚ :=
  (r.Landmark.data.getD 0 0 - r.Landmark.data.getD 2 0) *
      (r.Landmark.data.getD 0 0 - r.Landmark.data.getD 2 0) +
    (r.Landmark.data.getD 1 0 - r.Landmark.data.getD 3 0) *
      (r.Landmark.data.getD 1 0 - r.Landmark.data.getD 3 0)

/-- The `float32` difference of a coordinate and an integer offset converted
to `float32`. -/
def shift32 (x : ℚ) (off : Int) : ℚ := f32 (x - f32 (off : ℚ))

/-- The `float32` distance between the first two landmark points (the eyes) of
a raw detection, each with `(offX, offY)` subtracted in `float32`. -/
def eyeDistance (sqrt : ℚ → ℚ) (offX offY : Int) (r : FaceDetectionOutput) : ℚ :=
  distance32 sqrt (shift32 (r.Landmark.data.getD 0 0) offX)
    (shift32 (r.Landmark.data.getD 1 0) offY) (shift32 (r.Landmark.data.getD 2 0) offX)
    (shift32 (r.Landmark.data.getD 3 0) offY)

/-- The filter of the claims: the score is not below the score threshold and,
when an eye-distance threshold is set, the `float32` eye distance of the
shifted landmark is not below it. -/
def isCandidate (sqrt : ℚ → ℚ) (scoreThreshold : ℚ) (eyeDistanceThreshold : Option ℚ)
    (offX offY : Int) (r : FaceDetectionOutput) : Bool :=
  decide (¬ rawScore r < scoreThreshold) &&
    (match eyeDistanceThreshold with
     | none => true
     | some t => decide (¬ eyeDistance sqrt offX offY r < t))

/-- The box of a raw detection with `(offX, offY)` subtracted from both
corners, each difference a `float32` difference. -/
def shiftBox (offX offY : Int) (r : FaceDetectionOutput) : Dense :=
  ⟨r.Box.shape, List.zipWith (fun x y => f32 (x - y)) r.Box.data
    [f32 (offX : ℚ), f32 (offY : ℚ), f32 (offX : ℚ), f32 (offY : ℚ)]⟩

/-- The landmark of a raw detection with `(offX, offY)` subtracted from each of
the five points, each difference a `float32` difference, in shape `(5, 2)`. -/
def shiftLandmark (offX offY : Int) (r : FaceDetectionOutput) : Dense :=
  ⟨[5, 2], List.zipWith (fun x y => f32 (x - y)) r.Landmark.data
    [f32 (offX : ℚ), f32 (offY : ℚ), f32 (offX : ℚ), f32 (offY : ℚ), f32 (offX : ℚ),
      f32 (offY : ℚ), f32 (offX : ℚ), f32 (offY : ℚ), f32 (offX : ℚ), f32 (offY : ℚ)]⟩

/-- A raw detection is well-formed when its box is a tensor of four entries in
a shape that `Sub` accepts against `(1, 4)`, its landmark one of ten entries in
a shape that `Sub` accepts against `(1, 10)`, and its score has an entry. -/
def wellFormed (r : FaceDetectionOutput) : Prop :=
  shapeEq r.Box.shape [1, 4] = true ∧ r.Box.data.length = 4 ∧
    shapeEq r.Landmark.shape [1, 10] = true ∧ r.Landmark.data.length = 10 ∧ r.Score.data ≠ []

/-- A tensor of shape `(n, 2)` whose backing holds its `2 n` entries. -/
def isPointTensor (t : Dense) : Prop := ∃ n, t.shape = [n, 2] ∧ t.data.length = n * 2

/-- The rows of a tensor of shape `(n, 2)` as points, in order. -/
def pointsOf (t : Dense) : List (ℚ × ℚ) :=
  (List.range (t.shape.headD 0)).map (fun i => (t.data.getD (i * 2) 0, t.data.getD (i * 2 + 1) 0))

/-- The crop and the transform of one image: the transform estimated from the
landmark points to the template points with the parameters of the source, and
the image warped by it to the output size. -/
def alignedPair (cv : OpenCV) (template : Dense) (size : Int × Int) (borderMode : Nat)
    (img : Mat) (landmark : Dense) : Mat × Mat :=
  (cv.WarpAffineWithParams img
      (cv.EstimateAffinePartial2DWithParams (pointsOf landmark) (pointsOf template)
        HomograpyMethodLMEDS 3 2000 (99 / 100) 10) size borderMode,
    cv.EstimateAffinePartial2DWithParams (pointsOf landmark) (pointsOf template)
      HomograpyMethodLMEDS 3 2000 (99 / 100) 10)

/-! ## config/data_type.go: landmark metadata -/

/-- The struct `config.Coordinate2D` (config/data_type.go 46-50). -/
structure Coordinate2D where
  X : ℚ
  Y : ℚ
deriving DecidableEq, Repr

/-- The struct `config.FaceLandmark` (config/data_type.go 37-44). -/
structure FaceLandmark where
  LeftEye : Coordinate2D
  RightEye : Coordinate2D
  Nose : Coordinate2D
  LeftMouth : Coordinate2D
  RightMouth : Coordinate2D
deriving DecidableEq, Repr

/-- The function `config.ConvertMetadataToTensors` (config/data_type.go 52-68). -/
def ConvertMetadataToTensors (meta : FaceLandmark) : Dense :=
  ⟨[5, 2],
    [meta.LeftEye.X, meta.LeftEye.Y,
      meta.RightEye.X, meta.RightEye.Y,
      meta.Nose.X, meta.Nose.Y,
      meta.LeftMouth.X, meta.LeftMouth.Y,
      meta.RightMouth.X, meta.RightMouth.Y]⟩

/-! ## modules/face_helper.go: AlignFaceIDCard and NewFaceHelperClient -/

/-- The method `Dense.Reshape` of the tensor library: the new shape must hold
as many entries as the backing, the backing is kept. -/
def reshape (t : Dense) (shape : List Nat) : Dense × Option Err :=
  if shape.prod ≠ t.data.length then (t, some "shape mismatch")
  else (⟨shape, t.data⟩, none)

/-- The method `Dense.Slice` of the tensor library with the single index
`tensor.S(i)`: entry `i` along the first axis, an error when the tensor is a
scalar or the index is out of range. -/
def sliceRow (t : Dense) (i : Nat) : Option Dense × Option Err :=
  match t.shape with
  | [] => (none, some "cannot slice a scalar")
  | n :: rest =>
    if i < n then (some ⟨rest, (t.data.drop (i * rest.prod)).take rest.prod⟩, none)
    else (none, some "slice index out of range")

/-- The function `utils.Cross2D` (utils/math.go 34-42): two `float32` products
and their `float32` difference.  A product can be a zero of either sign. -/
def Cross2D (a b : Dense) : XFloat × Option Err :=
  match a.data, b.data with
  | [a0, a1], [b0, b1] =>
    (XFloat.sub (XFloat.mul (XFloat.ofRat a0) (XFloat.ofRat b1))
      (XFloat.mul (XFloat.ofRat a1) (XFloat.ofRat b0)), none)
  | _, _ => (.zero false, some "vectors must have a size of 2")

/-- The method `Dense.Add` of the tensor library: elementwise `float32` sum in
the shape of the receiver, an error when the shapes of the two operands are
not equal. -/
def tensorAdd (a b : Dense) : Option Dense × Option Err :=
  if shapeEq a.shape b.shape = false then (none, some "shape mismatch")
  else (some ⟨a.shape, List.zipWith (fun x y => f32 (x + y)) a.data b.data⟩, none)

/-- The method `Dense.MulScalar` of the tensor library with `leftTensor =
false`: the `float32` product of the scalar and each entry; it does not fail
on a float32 tensor. -/
def mulScalar (t : Dense) (s : ℚ) : Dense := ⟨t.shape, t.data.map (fun x => f32 (s * x))⟩

/-- The method `Dense.DivScalar` of the tensor library with `leftTensor =
true`: each entry divided by the scalar, in exact arithmetic. -/
def divScalar (t : Dense) (s : ℚ) : Dense := ⟨t.shape, t.data.map (fun x => x / s)⟩

/-- The method `Dense.DivScalar` of the tensor library with `leftTensor =
true`: the `float32` quotient of each entry by the scalar. -/
def divScalar32 (t : Dense) (s : ℚ) : Dense := ⟨t.shape, t.data.map (fun x => f32 (x / s))⟩

/-- The local `faceTemplateAdult` of `AlignFaceIDCard` (face_helper.go 708-718):
the `float32` constants nearest to the decimal literals. -/
def faceTemplateAdult : Dense :=
  ⟨[5, 2],
    [f32 87.56117786, f32 140.95207892,
      f32 152.12076214, f32 140.5917773,
      f32 120.04617, f32 177.99955243,
      f32 93.52425322, f32 216.13514054,
      f32 146.98728108, f32 215.83676865]⟩

/-- The local `faceTemplateBaby` of `AlignFaceIDCard` (face_helper.go 720-730):
the `float32` constants nearest to the decimal literals. -/
def faceTemplateBaby : Dense :=
  ⟨[5, 2],
    [f32 89.26848429, f32 149.95460108,
      f32 150.43019571, f32 149.6132627,
      f32 120.04374, f32 185.05220757,
      f32 94.91771357, f32 221.18065946,
      f32 145.56689786, f32 220.89799136]⟩

/-- The local `ratioAdult` of `AlignFaceIDCard` (face_helper.go 794): the
`float32` nearest to `0.565`. -/
def ratioAdult : ℚ := f32 0.565

/-- The local `ratioBaby` of `AlignFaceIDCard` (face_helper.go 795): the
`float32` nearest to `0.306`. -/
def ratioBaby : ℚ := f32 0.306

/-- The first part of `AlignFaceIDCard` (face_helper.go 732-797): the face
ratio computed from the landmark and the box.  `Reshape(2, 2)` leaves a backing
of four entries, so `data[0]` to `data[3]` do not panic.  The two quotients by
`norms` and their quotient are `float32` divisions, which give NaN for `0 / 0`
and an infinity for another number over zero; the conversions to `float64`
and back are exact. -/
def idCardFaceRatio (sqrt : ℚ → ℚ) (lmk bbox : Dense) : Option (XFloat × Option Err) :=
  match reshape bbox [2, 2] with
  | (_, some err) => some (.zero false, some err)
  | (bbox, none) =>
    match bbox.data with
    | [d0, d1, d2, d3] =>
      let center : Dense := ⟨[1, 2], [f32 (f32 (d0 + d2) / 2), f32 (f32 (d1 + d3) / 2)]⟩
      match sliceRow lmk 0 with
      | (_, some err) => some (.zero false, some err)
      | (none, none) => none
      | (some lmk0, none) =>
        match sliceRow lmk 1 with
        | (_, some err) => some (.zero false, some err)
        | (none, none) => none
        | (some lmk1, none) =>
          match sliceRow lmk 2 with
          | (_, some err) => some (.zero false, some err)
          | (none, none) => none
          | (some lmk2, none) =>
            match tensorSub lmk0 lmk1 with
            | (_, some err) => some (.zero false, some err)
            | (none, none) => none
            | (some subLmk01, none) =>
              match tensorSub lmk2 lmk1 with
              | (_, some err) => some (.zero false, some err)
              | (none, none) => none
              | (some subLmk21, none) =>
                match tensorSub center lmk1 with
                | (_, some err) => some (.zero false, some err)
                | (none, none) => none
                | (some subCenterLmk1, none) =>
                  match Cross2D subLmk01 subCenterLmk1 with
                  | (_, some err) => some (.zero false, some err)
                  | (crossProduct, none) =>
                    match ComputeLinearNorm sqrt lmk0 lmk1 with
                    | (_, some err) => some (.zero false, some err)
                    | (norms, none) =>
                      let dCBoxEyes := XFloat.div crossProduct (XFloat.ofRat norms)
                      match Cross2D subLmk01 subLmk21 with
                      | (_, some err) => some (.zero false, some err)
                      | (crossProduct, none) =>
                        match ComputeLinearNorm sqrt lmk0 lmk1 with
                        | (_, some err) => some (.zero false, some err)
                        | (norms, none) =>
                          let dNoseEyes := XFloat.div crossProduct (XFloat.ofRat norms)
                          let faceRatio :=
                            XFloat.minPos (XFloat.maxPos (XFloat.div dCBoxEyes dNoseEyes) ratioBaby)
                              ratioAdult
                          some (faceRatio, none)
    | _ => none

/-- The second part of `AlignFaceIDCard` (face_helper.go 799-834): the template
computed for a face ratio that is a finite number; every operation is a
`float32` operation of the tensor library, and the denominator is a `float32`
difference. -/
def idCardFaceTemplate (faceRatio : ℚ) : Option Dense × Option Err :=
  let scaledFaceTemplateBaby := mulScalar faceTemplateBaby ratioAdult
  let scaledFaceTemplateAdult := mulScalar faceTemplateAdult ratioBaby
  match tensorSub scaledFaceTemplateBaby scaledFaceTemplateAdult with
  | (_, some err) => (none, some err)
  | (none, none) => (none, none)
  | (some subScaledTemplate, none) =>
    match tensorSub faceTemplateAdult faceTemplateBaby with
    | (_, some err) => (none, some err)
    | (none, none) => (none, none)
    | (some subTemplate, none) =>
      let scaledSubTemplate := mulScalar subTemplate faceRatio
      match tensorAdd subScaledTemplate scaledSubTemplate with
      | (_, some err) => (none, some err)
      | (none, none) => (none, none)
      | (some numerator, none) =>
        let denominator := f32 (ratioAdult - ratioBaby)
        (some (divScalar32 numerator denominator), none)

/-- The face ratio as a finite number, when it is one. -/
def XFloat.finite : XFloat → Option ℚ
  | .num q => some q
  | .zero _ => some 0
  | _ => none

/-- The method `FaceHelperClient.AlignFaceIDCard` (face_helper.go 699-880); a
`nil` landmark or box is a panic, the mats returned next to an error are the
empty `gocv.NewMat()`.  With a face ratio that is NaN or infinite the tensor
operations on the templates do not fail and the template is not a tensor of
numbers: the transform is then `EstimateAffineNonFinite` of the landmark
points and that face ratio. -/
def FaceHelperClient.AlignFaceIDCard (sqrt : ℚ → ℚ) (cv : OpenCV) (_c : FaceHelperClient)
    (img : Mat) (lmk bbox : Option Dense) (borderMode : Option Nat) :
    Option (Mat × Mat × Option Err) :=
  let borderMode := match borderMode with
    | none => BorderConstant
    | some b => b
  let croppedFace : Mat := ⟨0, 0, []⟩
  let affineMatrix : Mat := ⟨0, 0, []⟩
  match lmk, bbox with
  | some lmk, some bbox =>
    match idCardFaceRatio sqrt lmk bbox with
    | none => none
    | some (_, some err) => some (croppedFace, affineMatrix, some err)
    | some (faceRatio, none) =>
      match faceRatio.finite with
      | some r =>
        match idCardFaceTemplate r with
        | (_, some err) => some (croppedFace, affineMatrix, some err)
        | (none, none) => none
        | (some faceTemplate, none) =>
          match TensorToPoint2fVector lmk with
          | none => none
          | some (_, some err) => some (croppedFace, affineMatrix, some err)
          | some (src, none) =>
            match TensorToPoint2fVector faceTemplate with
            | none => none
            | some (_, some err) => some (croppedFace, affineMatrix, some err)
            | some (dst, none) =>
              let affineMatrix :=
                cv.EstimateAffinePartial2DWithParams src dst HomograpyMethodLMEDS 3 2000
                  (99 / 100) 10
              let croppedFace := cv.WarpAffineWithParams img affineMatrix (240, 320) borderMode
              some (croppedFace, affineMatrix, none)
      | none =>
        match TensorToPoint2fVector lmk with
        | none => none
        | some (_, some err) => some (croppedFace, affineMatrix, some err)
        | some (src, none) =>
          let affineMatrix :=
            cv.EstimateAffineNonFinite src faceRatio HomograpyMethodLMEDS 3 2000 (99 / 100) 10
          let croppedFace := cv.WarpAffineWithParams img affineMatrix (240, 320) borderMode
          some (croppedFace, affineMatrix, none)
  | _, _ => none

/-- The function `NewFaceHelperClient` (face_helper.go 32-115).  The argument
`faceDet` is the result of `NewFaceDetectionClient` on the Triton client;
`faceSize / 112` is Go's integer division and `faSize % 4` Go's remainder. -/
def NewFaceHelperClient (faceDet : Except Err FaceDetectionClient) (faceSize fasSize faSize : Int)
    (faceTemplate fasTemplate faTemplate : Option Dense) : Option FaceHelperClient × Option Err :=
  let faceSize := if faceSize = 0 then 112 else faceSize
  let fasSize := if fasSize = 0 then 224 else fasSize
  let faSize := if faSize = 0 then 128 else faSize
  let faceTemplate : Dense :=
    match faceTemplate with
    | some t => t
    | none =>
      divScalar
        ⟨[5, 2],
          [38.2946, 51.6963,
            73.5318, 51.5014,
            56.0252, 71.7366,
            41.5493, 92.3655,
            70.7299, 92.2041]⟩
        ((Int.tdiv faceSize 112 : Int) : ℚ)
  let fasTemplate : Dense :=
    match fasTemplate with
    | some t => t
    | none =>
      ⟨[5, 2],
        [74.01555, 90.46853,
          135.68065, 90.12745,
          105.0441, 125.539055,
          79.71127, 161.63963,
          130.77733, 161.35718]⟩
  let faTemplate : Dense :=
    match faTemplate with
    | some t => t
    | none =>
      ⟨[5, 2],
        [0.34549999237060547, 0.38670000433921814,
          0.6545000076293945, 0.38670000433921814,
          0.5, 0.5386250019073486,
          0.3970000147819519, 0.6596499681472778,
          0.6030000448226929, 0.6596499681472778]⟩
  match faceDet with
  | .error err => (none, some err)
  | .ok faceDet =>
    (some
      { faceSize := (faceSize, faceSize)
        fasSize := (fasSize, fasSize)
        faSize := (Int.tmod faSize 4 * 3, faSize)
        faceTemplate := faceTemplate
        fasTemplate := fasTemplate
        faTemplate := faTemplate
        faceDet := some faceDet },
      none)

/-! ## pipeline.go: CropFaceIDCard -/

/-- The pointers of a slice dereferenced in order; `none` when one of them is
`nil`. -/
def derefAll : List (Option Dense) → Option (List Dense)
  | [] => some []
  | none :: _ => none
  | some d :: rest => (derefAll rest).map (fun ds => d :: ds)

/-- The last part of `CropFaceIDCard` (pipeline.go 690-704), once `box` and
`centerIdx` are known; `cvtColor` is `gocv.CvtColor` with `ColorBGRToRGB`.  A
`nil` landmark panics at `lmk.Reshape`. -/
def EKYCPipeline.alignSelected (sqrt : ℚ → ℚ) (cv : OpenCV) (cvtColor : Mat → Mat)
    (c : EKYCPipeline) (img : Mat) (landmarks : List (Option Dense)) (box : Option Dense)
    (centerIdx : Int) : Option (Option Mat × Option Err) :=
  if centerIdx < 0 then none
  else
    match landmarks[centerIdx.toNat]? with
    | none => none
    | some none => none
    | some (some lmk) =>
      match reshape lmk [5, 2] with
      | (_, some err) => some (none, some err)
      | (lmk, none) =>
        match c.FaceHelper.AlignFaceIDCard sqrt cv img (some lmk) box none with
        | none => none
        | some (_, _, some err) => some (none, some err)
        | some (faceImage, _, none) => some (some (cvtColor faceImage), none)

/-- The method `EKYCPipeline.CropFaceIDCard` (pipeline.go 673-705) with the
centre selection that it calls, `modules.GetCenterFace`, as the parameter
`centerFace`.  The error of the centre selection is overwritten unread; a `nil`
entry of `bBoxes` is dereferenced before the call, a panic; `w % 5` and `h % 2`
are Go's remainder. -/
def EKYCPipeline.CropFaceIDCardWith
    (centerFace : List Dense → Option Int → Option Int → Option DimensionPair →
      Option (Option Dense × Int × Option Err))
    (sqrt : ℚ → ℚ) (cv : OpenCV) (cvtColor : Mat → Mat)
    (c : EKYCPipeline) (img : Mat) : Option (Option Mat × Option Err) :=
  let h : Int := img.rows
  let w : Int := img.cols
  match c.FaceHelper.GetFaceLandmarks5 sqrt cv [img] (some true) none none none none with
  | none => none
  | some (_, _, some err) => some (none, some err)
  | some (bBoxes, landmarks, none) =>
    if bBoxes.length = 0 then some (none, some "cannot detect face in input face image")
    else
      match derefAll bBoxes with
      | none => none
      | some detFaces =>
        match centerFace detFaces none none (some ⟨Int.tmod w 5, Int.tmod h 2⟩) with
        | none => none
        | some (box, centerIdx, _) =>
          c.alignSelected sqrt cv cvtColor img landmarks box centerIdx

/-- The method `EKYCPipeline.CropFaceIDCard` (pipeline.go 673-705): the centre
selection is `modules.GetCenterFace`. -/
def EKYCPipeline.CropFaceIDCard (sqrt : ℚ → ℚ) (cv : OpenCV) (cvtColor : Mat → Mat)
    (c : EKYCPipeline) (img : Mat) : Option (Option Mat × Option Err) :=
  c.CropFaceIDCardWith (GetCenterFace sqrt) sqrt cv cvtColor img

/-- A centre selection that shows the reference point it is called with: it
answers, with the first box and the index 0, only when the explicit reference
point is `(x, y)`, and panics on every other call. -/
def probeCenterFace (x y : Int) (detFaces : List Dense) (_h _w : Option Int)
    (center : Option DimensionPair) : Option (Option Dense × Int × Option Err) :=
  match center with
  | some c => if c.Width = x ∧ c.Height = y then some (detFaces.head?, 0, none) else none
  | none => none

/-- The `float32` distance between the first two points (the eyes) of a
landmark: the divisor `norms` of `dCBoxEyes` and of `dNoseEyes`. -/
def idCardEyeDistance (sqrt : ℚ → ℚ) (lmk : Dense) : ℚ :=
  distance32 sqrt (lmk.data.getD 0 0) (lmk.data.getD 1 0) (lmk.data.getD 2 0)
    (lmk.data.getD 3 0)

/-- The `float32` cross product `a0 * b1 - a1 * b0` of two plane vectors. -/
def cross32 (a0 a1 b0 b1 : ℚ) : XFloat :=
  XFloat.sub (XFloat.mul (XFloat.ofRat a0) (XFloat.ofRat b1))
    (XFloat.mul (XFloat.ofRat a1) (XFloat.ofRat b0))

/-- The `float32` cross product of the eye vector `e0 - e1` with the nose
vector `n - e1` of a landmark: the numerator of `dNoseEyes`. -/
def idCardNoseCross (lmk : Dense) : XFloat :=
  cross32 (f32 (lmk.data.getD 0 0 - lmk.data.getD 2 0))
    (f32 (lmk.data.getD 1 0 - lmk.data.getD 3 0))
    (f32 (lmk.data.getD 4 0 - lmk.data.getD 2 0))
    (f32 (lmk.data.getD 5 0 - lmk.data.getD 3 0))

/-- The `float32` cross product of the eye vector `e0 - e1` with the vector
`c - e1` from the second eye to the `float32` centre `c` of a box: the
numerator of `dCBoxEyes`. -/
def idCardBoxCross (lmk bbox : Dense) : XFloat :=
  cross32 (f32 (lmk.data.getD 0 0 - lmk.data.getD 2 0))
    (f32 (lmk.data.getD 1 0 - lmk.data.getD 3 0))
    (f32 ((boxCentre32 bbox).1 - lmk.data.getD 2 0))
    (f32 ((boxCentre32 bbox).2 - lmk.data.getD 3 0))

/-- The `float32` ratio `dCBoxEyes / dNoseEyes` of a landmark and a box: the box
cross product over the eye distance, divided by the nose cross product over
the eye distance; NaN or an infinity when a division by zero makes it so. -/
def rawFaceRatio (sqrt : ℚ → ℚ) (lmk bbox : Dense) : XFloat :=
  XFloat.div
    (XFloat.div (idCardBoxCross lmk bbox) (XFloat.ofRat (idCardEyeDistance sqrt lmk)))
    (XFloat.div (idCardNoseCross lmk) (XFloat.ofRat (idCardEyeDistance sqrt lmk)))

/-- The interpolation formula of the document template in exact arithmetic,
for a baby-template coordinate `b`, an adult-template coordinate `a` and a
face ratio `r`: it is `b` at `ratioBaby` and `a` at `ratioAdult`. -/
def interpolate (b a r : ℚ) : ℚ :=
  ((b * ratioAdult - a * ratioBaby) + (a - b) * r) / (ratioAdult - ratioBaby)

/-- The interpolation formula of the document template in `float32`
arithmetic, every operation rounded, in the order of the source. -/
def interpolate32 (b a r : ℚ) : ℚ :=
  f32 (f32 (f32 (f32 (ratioAdult * b) - f32 (ratioBaby * a)) + f32 (r * f32 (a - b))) /
    f32 (ratioAdult - ratioBaby))

/-- A raw detection that the detection loop of `GetFaceLandmarks5` appends to
the filtered lists: the face candidates of the claims. -/
def isKept (sqrt : ℚ → ℚ) (scoreThreshold : ℚ) (eyeDistanceThreshold : Option ℚ)
    (offX offY : Int) (r : FaceDetectionOutput) : Bool :=
  match filterStep sqrt scoreThreshold eyeDistanceThreshold offX offY r with
  | some (.emit _) => true
  | _ => false

/-- The face candidates of one image in `GetFaceLandmarks5`: of the raw
detections that count for the image (the first pass `results0`, or the pass on
the padded image when that is run), those that the detection loop keeps. -/
def candidatesOf (sqrt : ℚ → ℚ) (cv : OpenCV) (faceDet : FaceDetectionClient)
    (scoreThreshold : ℚ) (eyeDistanceThreshold : Option ℚ) (tryPadding : Bool) (img : Mat)
    (results0 : List FaceDetectionOutput) : List FaceDetectionOutput :=
  (paddingRetry cv faceDet tryPadding img results0).1.filter
    (isKept sqrt scoreThreshold eyeDistanceThreshold
      (paddingRetry cv faceDet tryPadding img results0).2.1
      (paddingRetry cv faceDet tryPadding img results0).2.2)

/-! ## Theorems -/

/-! ### Rounding -/

/-- An integer bound above `n / d` bounds the nearest integer. -/
theorem nearestEven_le {n d M : Nat} (hd : 0 < d) (h : n ≤ M * d) : nearestEven n d ≤ M := by
  have hdm := Nat.div_add_mod n d
  have hlt := Nat.mod_lt n hd
  have ha : n / d ≤ M := Nat.div_le_of_le_mul (by rw [Nat.mul_comm]; exact h)
  by_cases hr : n % d = 0
  · unfold nearestEven
    rw [hr]
    simp [hd, ha]
  · have ha2 : n / d < M := by
      by_contra hc
      have : n / d = M := by omega
      rw [this] at hdm
      have : d * M = M * d := Nat.mul_comm _ _
      omega
    unfold nearestEven
    split_ifs <;> omega

/-- An integer bound below `n / d` bounds the nearest integer. -/
theorem le_nearestEven {n d M : Nat} (hd : 0 < d) (h : M * d ≤ n) : M ≤ nearestEven n d := by
  have ha : M ≤ n / d := (Nat.le_div_iff_mul_le hd).2 h
  unfold nearestEven
  split_ifs <;> omega

/-- The binary exponent is not below the least exponent. -/
theorem binaryExponent_ge (emin : Int) (n d : Nat) : emin ≤ binaryExponent emin n d := by
  unfold binaryExponent
  split_ifs
  · exact le_max_right _ _
  · exact le_max_right _ _
  · exact le_refl _

/-- The test `pow2Le` decides `2 ^ e ≤ n / d`. -/
theorem pow2Le_iff (e : Int) (n d : Nat) (hd : 0 < d) :
    pow2Le e n d = true ↔ (2 : ℚ) ^ e ≤ (n : ℚ) / d := by
  have hdq : (0 : ℚ) < d := by exact_mod_cast hd
  unfold pow2Le
  rw [decide_eq_true_iff, le_div_iff₀ hdq]
  rcases le_total 0 e with he | he
  · obtain ⟨m, rfl⟩ := Int.eq_ofNat_of_zero_le he
    have h1 : (-(m : Int)).toNat = 0 := by simp
    simp only [Int.toNat_ofNat, h1, pow_zero, mul_one, zpow_natCast]
    rw [mul_comm]
    exact_mod_cast Iff.rfl
  · obtain ⟨m, hm⟩ := Int.eq_ofNat_of_zero_le (neg_nonneg.2 he)
    have he2 : e = -(m : Int) := by omega
    subst he2
    have h1 : (-(m : Int)).toNat = 0 := by simp
    simp only [h1, neg_neg, Int.toNat_ofNat, pow_zero, mul_one, zpow_neg, zpow_natCast]
    have h2 : (0 : ℚ) < 2 ^ m := by positivity
    rw [inv_mul_le_iff₀ h2, mul_comm]
    exact_mod_cast Iff.rfl

/-- The binary exponent is the least exponent, or the power of two at it is at
most `n / d`. -/
theorem binaryExponent_spec (emin : Int) (n d : Nat) (hd : 0 < d) :
    binaryExponent emin n d = emin ∨ (2 : ℚ) ^ binaryExponent emin n d ≤ (n : ℚ) / d := by
  unfold binaryExponent
  split_ifs with h1 h2
  · rcases le_total ((log2Fuel n n : Int) - (log2Fuel d d : Int)) emin with h | h
    · left; exact max_eq_right h
    · right; rw [max_eq_left h]; exact (pow2Le_iff _ n d hd).1 h1
  · rcases le_total ((log2Fuel n n : Int) - (log2Fuel d d : Int) - 1) emin with h | h
    · left; exact max_eq_right h
    · right; rw [max_eq_left h]; exact (pow2Le_iff _ n d hd).1 h2
  · left; rfl

/-- An upper bound `A * 2 ^ k` on `n / d`, as the comparison of natural numbers
that `roundMag` works with. -/
theorem scaled_le_iff (k : Int) (n d A : Nat) (hd : 0 < d) :
    n * 2 ^ (-k).toNat ≤ A * (d * 2 ^ k.toNat) ↔ (n : ℚ) / d ≤ (A : ℚ) * (2 : ℚ) ^ k := by
  have hdq : (0 : ℚ) < d := by exact_mod_cast hd
  rw [div_le_iff₀ hdq]
  rcases le_total 0 k with he | he
  · obtain ⟨m, rfl⟩ := Int.eq_ofNat_of_zero_le he
    have h1 : (-(m : Int)).toNat = 0 := by simp
    simp only [Int.toNat_ofNat, h1, pow_zero, mul_one, zpow_natCast]
    rw [show (A : ℚ) * 2 ^ m * d = ((A * (d * 2 ^ m) : Nat) : ℚ) by push_cast; ring]
    exact_mod_cast Iff.rfl
  · obtain ⟨m, hm⟩ := Int.eq_ofNat_of_zero_le (neg_nonneg.2 he)
    have he2 : k = -(m : Int) := by omega
    subst he2
    have h1 : (-(m : Int)).toNat = 0 := by simp
    simp only [h1, neg_neg, Int.toNat_ofNat, pow_zero, mul_one, zpow_neg, zpow_natCast]
    have h2 : (0 : ℚ) < 2 ^ m := by positivity
    rw [show (A : ℚ) * (2 ^ m)⁻¹ * d = (A * d : ℚ) / 2 ^ m by field_simp, le_div_iff₀ h2]
    exact_mod_cast Iff.rfl

/-- A lower bound `A * 2 ^ k` on `n / d`, as the comparison of natural numbers
that `roundMag` works with. -/
theorem le_scaled_iff (k : Int) (n d A : Nat) (hd : 0 < d) :
    A * (d * 2 ^ k.toNat) ≤ n * 2 ^ (-k).toNat ↔ (A : ℚ) * (2 : ℚ) ^ k ≤ (n : ℚ) / d := by
  have hdq : (0 : ℚ) < d := by exact_mod_cast hd
  rw [le_div_iff₀ hdq]
  rcases le_total 0 k with he | he
  · obtain ⟨m, rfl⟩ := Int.eq_ofNat_of_zero_le he
    have h1 : (-(m : Int)).toNat = 0 := by simp
    simp only [Int.toNat_ofNat, h1, pow_zero, mul_one, zpow_natCast]
    rw [show (A : ℚ) * 2 ^ m * d = ((A * (d * 2 ^ m) : Nat) : ℚ) by push_cast; ring]
    exact_mod_cast Iff.rfl
  · obtain ⟨m, hm⟩ := Int.eq_ofNat_of_zero_le (neg_nonneg.2 he)
    have he2 : k = -(m : Int) := by omega
    subst he2
    have h1 : (-(m : Int)).toNat = 0 := by simp
    simp only [h1, neg_neg, Int.toNat_ofNat, pow_zero, mul_one, zpow_neg, zpow_natCast]
    have h2 : (0 : ℚ) < 2 ^ m := by positivity
    rw [show (A : ℚ) * (2 ^ m)⁻¹ * d = (A * d : ℚ) / 2 ^ m by field_simp, div_le_iff₀ h2]
    exact_mod_cast Iff.rfl

/-- The grid of `n / d` is at least as fine as that of a number of the format
above it. -/
theorem gridExponent_le (prec : Nat) (emin : Int) (n d M : Nat) (j : Int) (hprec : 1 ≤ prec)
    (hd : 0 < d) (hM : M < 2 ^ prec) (hj : emin - ((prec - 1 : Nat) : Int) ≤ j)
    (h : (n : ℚ) / d ≤ (M : ℚ) * (2 : ℚ) ^ j) : gridExponent prec emin n d ≤ j := by
  unfold gridExponent
  rcases binaryExponent_spec emin n d hd with he | he
  · rw [he]; exact hj
  · have h2 : (0 : ℚ) < (2 : ℚ) ^ j := by positivity
    have hMq : (M : ℚ) < (2 : ℚ) ^ prec := by exact_mod_cast hM
    have h3 : (2 : ℚ) ^ binaryExponent emin n d < (2 : ℚ) ^ ((prec : Int) + j) := by
      calc (2 : ℚ) ^ binaryExponent emin n d ≤ (M : ℚ) * (2 : ℚ) ^ j := le_trans he h
        _ < (2 : ℚ) ^ prec * (2 : ℚ) ^ j := by
            exact mul_lt_mul_of_pos_right hMq h2
        _ = (2 : ℚ) ^ ((prec : Int) + j) := by
            rw [zpow_add₀ (by norm_num : (2 : ℚ) ≠ 0), zpow_natCast]
    have h4 : binaryExponent emin n d < (prec : Int) + j :=
      (zpow_lt_zpow_iff_right₀ (by norm_num : (1 : ℚ) < 2)).1 h3
    have h5 : ((prec - 1 : Nat) : Int) = (prec : Int) - 1 := by omega
    omega

/-- The rounding of a magnitude is not negative. -/
theorem roundMag_nonneg (prec : Nat) (emin : Int) (n d : Nat) : 0 ≤ roundMag prec emin n d := by
  unfold roundMag
  positivity

/-- A number `M * 2 ^ j` of the format that bounds `n / d` from above bounds its
rounding. -/
theorem roundMag_le (prec : Nat) (emin : Int) (n d M : Nat) (j : Int) (hprec : 1 ≤ prec)
    (hd : 0 < d) (hM : M < 2 ^ prec) (hj : emin - ((prec - 1 : Nat) : Int) ≤ j)
    (h : (n : ℚ) / d ≤ (M : ℚ) * (2 : ℚ) ^ j) : roundMag prec emin n d ≤ (M : ℚ) * (2 : ℚ) ^ j := by
  have hk := gridExponent_le prec emin n d M j hprec hd hM hj h
  obtain ⟨t, ht⟩ := Int.eq_ofNat_of_zero_le (sub_nonneg.2 hk)
  have hjk : j = gridExponent prec emin n d + (t : Int) := by omega
  have hc : (M : ℚ) * (2 : ℚ) ^ j = ((M * 2 ^ t : Nat) : ℚ) * (2 : ℚ) ^ gridExponent prec emin n d := by
    rw [hjk, zpow_add₀ (by norm_num : (2 : ℚ) ≠ 0), zpow_natCast]
    push_cast
    ring
  have hpos : (0 : ℚ) < (2 : ℚ) ^ gridExponent prec emin n d := by positivity
  have hD : 0 < d * 2 ^ (gridExponent prec emin n d).toNat := by positivity
  rw [hc] at h ⊢
  have hne := nearestEven_le hD ((scaled_le_iff _ n d (M * 2 ^ t) hd).2 h)
  unfold roundMag
  exact mul_le_mul_of_nonneg_right (by exact_mod_cast hne) hpos.le

/-- A number `M * 2 ^ j` of the format that bounds `n / d` from below bounds its
rounding. -/
theorem le_roundMag (prec : Nat) (emin : Int) (n d M : Nat) (j : Int) (hprec : 1 ≤ prec)
    (hd : 0 < d) (hM : M < 2 ^ prec) (hj : emin - ((prec - 1 : Nat) : Int) ≤ j)
    (h : (M : ℚ) * (2 : ℚ) ^ j ≤ (n : ℚ) / d) : (M : ℚ) * (2 : ℚ) ^ j ≤ roundMag prec emin n d := by
  have hpos : (0 : ℚ) < (2 : ℚ) ^ gridExponent prec emin n d := by positivity
  have hD : 0 < d * 2 ^ (gridExponent prec emin n d).toNat := by positivity
  rcases le_or_lt (gridExponent prec emin n d) j with hk | hk
  · obtain ⟨t, ht⟩ := Int.eq_ofNat_of_zero_le (sub_nonneg.2 hk)
    have hjk : j = gridExponent prec emin n d + (t : Int) := by omega
    have hc : (M : ℚ) * (2 : ℚ) ^ j =
        ((M * 2 ^ t : Nat) : ℚ) * (2 : ℚ) ^ gridExponent prec emin n d := by
      rw [hjk, zpow_add₀ (by norm_num : (2 : ℚ) ≠ 0), zpow_natCast]
      push_cast
      ring
    rw [hc] at h ⊢
    have hne := le_nearestEven hD ((le_scaled_iff _ n d (M * 2 ^ t) hd).2 h)
    unfold roundMag
    exact mul_le_mul_of_nonneg_right (by exact_mod_cast hne) hpos.le
  · have h5 : ((prec - 1 : Nat) : Int) = (prec : Int) - 1 := by omega
    have hspec := binaryExponent_spec emin n d hd
    have hge : (2 : ℚ) ^ binaryExponent emin n d ≤ (n : ℚ) / d := by
      rcases hspec with he | he
      · exfalso
        unfold gridExponent at hk
        rw [he] at hk
        omega
      · exact he
    have hbe : binaryExponent emin n d =
        gridExponent prec emin n d + ((prec - 1 : Nat) : Int) := by
      unfold gridExponent; omega
    have hc : (2 : ℚ) ^ binaryExponent emin n d =
        ((2 ^ (prec - 1) : Nat) : ℚ) * (2 : ℚ) ^ gridExponent prec emin n d := by
      rw [hbe, zpow_add₀ (by norm_num : (2 : ℚ) ≠ 0), zpow_natCast]
      push_cast
      ring
    have hne := le_nearestEven hD ((le_scaled_iff _ n d (2 ^ (prec - 1)) hd).2 (by rw [← hc]; exact hge))
    have hr : (2 : ℚ) ^ binaryExponent emin n d ≤ roundMag prec emin n d := by
      rw [hc]
      unfold roundMag
      exact mul_le_mul_of_nonneg_right (by exact_mod_cast hne) hpos.le
    have h2 : (0 : ℚ) < (2 : ℚ) ^ j := by positivity
    have hMq : (M : ℚ) < (2 : ℚ) ^ prec := by exact_mod_cast hM
    have h3 : (M : ℚ) * (2 : ℚ) ^ j ≤ (2 : ℚ) ^ binaryExponent emin n d := by
      calc (M : ℚ) * (2 : ℚ) ^ j ≤ (2 : ℚ) ^ prec * (2 : ℚ) ^ j :=
            mul_le_mul_of_nonneg_right hMq.le h2.le
        _ = (2 : ℚ) ^ ((prec : Int) + j) := by
            rw [zpow_add₀ (by norm_num : (2 : ℚ) ≠ 0), zpow_natCast]
        _ ≤ (2 : ℚ) ^ binaryExponent emin n d := by
            apply zpow_le_zpow_right₀ (by norm_num : (1 : ℚ) ≤ 2)
            omega
    exact le_trans h3 hr

/-- A positive rational is the quotient of the magnitude of its numerator by
its denominator. -/
theorem rat_natAbs_div_den (q : ℚ) (hq : 0 < q) : ((q.num.natAbs : Nat) : ℚ) / (q.den : ℚ) = q := by
  have h1 : (0 : Int) < q.num := Rat.num_pos.2 hq
  have h3 : ((q.num.natAbs : Nat) : ℚ) = (q.num : ℚ) := by
    rw [Nat.cast_natAbs, abs_of_pos h1]
  rw [h3]
  exact Rat.num_div_den q

/-- Rounding commutes with negation. -/
theorem roundNE_neg (prec : Nat) (emin : Int) (q : ℚ) :
    roundNE prec emin (-q) = -roundNE prec emin q := by
  unfold roundNE
  rcases lt_trichotomy q 0 with h | h | h
  · have h1 : ¬ (-q = 0) := by intro h0; linarith
    have h2 : ¬ (-q < 0) := by intro h0; linarith
    rw [if_neg h1, if_neg h2, if_neg (ne_of_lt h), if_pos h]
    simp
  · subst h; simp
  · have h1 : ¬ (-q = 0) := by intro h0; linarith
    have h2 : -q < 0 := by linarith
    rw [if_neg h1, if_pos h2, if_neg (ne_of_gt h), if_neg (not_lt.2 h.le)]
    simp

/-- A number `M * 2 ^ j` of the format that bounds `q` from above bounds its
rounding. -/
theorem roundNE_le (prec : Nat) (emin : Int) (q : ℚ) (M : Nat) (j : Int) (hprec : 1 ≤ prec)
    (hM : M < 2 ^ prec) (hj : emin - ((prec - 1 : Nat) : Int) ≤ j)
    (h : q ≤ (M : ℚ) * (2 : ℚ) ^ j) : roundNE prec emin q ≤ (M : ℚ) * (2 : ℚ) ^ j := by
  have hc : (0 : ℚ) ≤ (M : ℚ) * (2 : ℚ) ^ j := by positivity
  unfold roundNE
  split_ifs with h0 h1
  · exact hc
  · exact le_trans (neg_nonpos.2 (roundMag_nonneg _ _ _ _)) hc
  · have hq : 0 < q := lt_of_le_of_ne (not_lt.1 h1) (Ne.symm h0)
    exact roundMag_le prec emin _ _ M j hprec q.den_pos hM hj
      (by rw [rat_natAbs_div_den q hq]; exact h)

/-- A number `M * 2 ^ j` of the format that bounds `q` from below bounds its
rounding. -/
theorem le_roundNE (prec : Nat) (emin : Int) (q : ℚ) (M : Nat) (j : Int) (hprec : 1 ≤ prec)
    (hM : M < 2 ^ prec) (hj : emin - ((prec - 1 : Nat) : Int) ≤ j)
    (h : (M : ℚ) * (2 : ℚ) ^ j ≤ q) : (M : ℚ) * (2 : ℚ) ^ j ≤ roundNE prec emin q := by
  have hc : (0 : ℚ) ≤ (M : ℚ) * (2 : ℚ) ^ j := by positivity
  unfold roundNE
  split_ifs with h0 h1
  · rw [h0] at h; exact h
  · exact absurd (le_trans hc h) (not_le.2 h1)
  · have hq : 0 < q := lt_of_le_of_ne (not_lt.1 h1) (Ne.symm h0)
    exact le_roundMag prec emin _ _ M j hprec q.den_pos hM hj
      (by rw [rat_natAbs_div_den q hq]; exact h)

/-- A number of the format is its own rounding. -/
theorem roundNE_exact (prec : Nat) (emin : Int) (M : Nat) (j : Int) (hprec : 1 ≤ prec)
    (hM : M < 2 ^ prec) (hj : emin - ((prec - 1 : Nat) : Int) ≤ j) :
    roundNE prec emin ((M : ℚ) * (2 : ℚ) ^ j) = (M : ℚ) * (2 : ℚ) ^ j :=
  le_antisymm (roundNE_le prec emin _ M j hprec hM hj (le_refl _))
    (le_roundNE prec emin _ M j hprec hM hj (le_refl _))


/-- With enough fuel `log2Fuel` is the position of the leading binary digit. -/
theorem log2Fuel_spec (fuel n : Nat) (h : n ≤ fuel) (hn : 0 < n) :
    2 ^ log2Fuel fuel n ≤ n ∧ n < 2 ^ (log2Fuel fuel n + 1) := by
  induction fuel generalizing n with
  | zero => omega
  | succ fuel ih =>
    unfold log2Fuel
    by_cases h2 : n < 2
    · rw [if_pos h2]
      simp only [pow_zero, zero_add, pow_one]
      omega
    · rw [if_neg h2]
      obtain ⟨h3, h4⟩ := ih (n / 2) (by omega) (by omega)
      rw [pow_succ, pow_succ (n := log2Fuel fuel (n / 2) + 1)]
      constructor <;> omega

/-- A positive rational is below the power of two after its binary exponent. -/
theorem binaryExponent_lt (emin : Int) (n d : Nat) (hn : 0 < n) (hd : 0 < d) :
    (n : ℚ) / d < (2 : ℚ) ^ (binaryExponent emin n d + 1) := by
  obtain ⟨hn1, hn2⟩ := log2Fuel_spec n n (le_refl _) hn
  obtain ⟨hd1, hd2⟩ := log2Fuel_spec d d (le_refl _) hd
  have hdq : (0 : ℚ) < d := by exact_mod_cast hd
  have two : (2 : ℚ) ≠ 0 := by norm_num
  have hn2q : (n : ℚ) < (2 : ℚ) ^ (log2Fuel n n + 1) := by exact_mod_cast hn2
  have hn1q : (2 : ℚ) ^ (log2Fuel n n) ≤ (n : ℚ) := by exact_mod_cast hn1
  have hd1q : (2 : ℚ) ^ (log2Fuel d d) ≤ (d : ℚ) := by exact_mod_cast hd1
  have hd2q : (d : ℚ) < (2 : ℚ) ^ (log2Fuel d d + 1) := by exact_mod_cast hd2
  have hup : (n : ℚ) / d < (2 : ℚ) ^ ((log2Fuel n n : Int) - (log2Fuel d d : Int) + 1) := by
    rw [div_lt_iff₀ hdq]
    have e : (2 : ℚ) ^ ((log2Fuel n n : Int) - (log2Fuel d d : Int) + 1) * (2 : ℚ) ^ (log2Fuel d d) =
        (2 : ℚ) ^ (log2Fuel n n + 1) := by
      rw [← zpow_natCast, ← zpow_natCast, ← zpow_add₀ two]
      congr 1
      push_cast
      ring
    calc (n : ℚ) < (2 : ℚ) ^ (log2Fuel n n + 1) := hn2q
      _ = (2 : ℚ) ^ ((log2Fuel n n : Int) - (log2Fuel d d : Int) + 1) * (2 : ℚ) ^ (log2Fuel d d) :=
          e.symm
      _ ≤ (2 : ℚ) ^ ((log2Fuel n n : Int) - (log2Fuel d d : Int) + 1) * d :=
          mul_le_mul_of_nonneg_left hd1q (by positivity)
  have hlow : (2 : ℚ) ^ ((log2Fuel n n : Int) - (log2Fuel d d : Int) - 1) ≤ (n : ℚ) / d := by
    rw [le_div_iff₀ hdq]
    have e : (2 : ℚ) ^ ((log2Fuel n n : Int) - (log2Fuel d d : Int) - 1) *
        (2 : ℚ) ^ (log2Fuel d d + 1) = (2 : ℚ) ^ (log2Fuel n n) := by
      rw [← zpow_natCast, ← zpow_natCast, ← zpow_add₀ two]
      congr 1
      push_cast
      ring
    calc (2 : ℚ) ^ ((log2Fuel n n : Int) - (log2Fuel d d : Int) - 1) * d
        ≤ (2 : ℚ) ^ ((log2Fuel n n : Int) - (log2Fuel d d : Int) - 1) *
            (2 : ℚ) ^ (log2Fuel d d + 1) := mul_le_mul_of_nonneg_left hd2q.le (by positivity)
      _ = (2 : ℚ) ^ (log2Fuel n n) := e
      _ ≤ n := hn1q
  have one2 : (1 : ℚ) ≤ 2 := by norm_num
  unfold binaryExponent
  split_ifs with h1 h2
  · have hm := le_max_left ((log2Fuel n n : Int) - (log2Fuel d d : Int)) emin
    exact lt_of_lt_of_le hup (zpow_le_zpow_right₀ one2 (by omega))
  · have h3 : ¬ ((2 : ℚ) ^ ((log2Fuel n n : Int) - (log2Fuel d d : Int)) ≤ (n : ℚ) / d) :=
      fun hc => h1 ((pow2Le_iff _ n d hd).2 hc)
    have hm := le_max_left ((log2Fuel n n : Int) - (log2Fuel d d : Int) - 1) emin
    exact lt_of_lt_of_le (not_le.1 h3) (zpow_le_zpow_right₀ one2 (by omega))
  · exact absurd ((pow2Le_iff _ n d hd).2 hlow) h2

/-- The rounding of a positive rational is a number of the format. -/
theorem roundMag_mem (prec : Nat) (emin : Int) (n d : Nat) (hprec : 1 ≤ prec) (hn : 0 < n)
    (hd : 0 < d) :
    ∃ (M : Nat) (j : Int), M < 2 ^ prec ∧ emin - ((prec - 1 : Nat) : Int) ≤ j ∧
      roundMag prec emin n d = (M : ℚ) * (2 : ℚ) ^ j := by
  have two : (2 : ℚ) ≠ 0 := by norm_num
  have h5 : ((prec - 1 : Nat) : Int) = (prec : Int) - 1 := by omega
  have hD : 0 < d * 2 ^ (gridExponent prec emin n d).toNat := by positivity
  have hk : emin - ((prec - 1 : Nat) : Int) ≤ gridExponent prec emin n d := by
    unfold gridExponent
    have := binaryExponent_ge emin n d
    omega
  have hlt := binaryExponent_lt emin n d hn hd
  have hbe : binaryExponent emin n d + 1 = gridExponent prec emin n d + (prec : Int) := by
    unfold gridExponent; omega
  have hle : (n : ℚ) / d ≤ ((2 ^ prec : Nat) : ℚ) * (2 : ℚ) ^ gridExponent prec emin n d := by
    rw [hbe, zpow_add₀ two, zpow_natCast] at hlt
    push_cast
    rw [mul_comm]
    exact hlt.le
  have hne := nearestEven_le hD ((scaled_le_iff _ n d (2 ^ prec) hd).2 hle)
  rcases Nat.lt_or_ge (nearestEven (n * 2 ^ (-(gridExponent prec emin n d)).toNat)
      (d * 2 ^ (gridExponent prec emin n d).toNat)) (2 ^ prec) with hlt2 | hge2
  · exact ⟨_, gridExponent prec emin n d, hlt2, hk, rfl⟩
  · have heq : nearestEven (n * 2 ^ (-(gridExponent prec emin n d)).toNat)
        (d * 2 ^ (gridExponent prec emin n d).toNat) = 2 ^ prec := le_antisymm hne hge2
    refine ⟨2 ^ (prec - 1), gridExponent prec emin n d + 1,
      Nat.pow_lt_pow_right (by norm_num) (by omega), by omega, ?_⟩
    have hp : (2 : ℚ) ^ prec = (2 : ℚ) ^ (prec - 1) * 2 := by
      rw [← pow_succ]
      congr 1
      omega
    unfold roundMag
    rw [heq, zpow_add₀ two]
    push_cast
    rw [hp]
    ring

/-- Rounding twice is rounding once. -/
theorem roundNE_idem (prec : Nat) (emin : Int) (q : ℚ) (hprec : 1 ≤ prec) :
    roundNE prec emin (roundNE prec emin q) = roundNE prec emin q := by
  have key : ∀ q : ℚ, 0 < q → roundNE prec emin (roundNE prec emin q) = roundNE prec emin q := by
    intro q hq
    have e : roundNE prec emin q = roundMag prec emin q.num.natAbs q.den := by
      unfold roundNE
      rw [if_neg (ne_of_gt hq), if_neg (not_lt.2 hq.le)]
    have hn : 0 < q.num.natAbs := Int.natAbs_pos.2 (ne_of_gt (Rat.num_pos.2 hq))
    obtain ⟨M, j, hM, hj, hr⟩ := roundMag_mem prec emin q.num.natAbs q.den hprec hn q.den_pos
    rw [e, hr]
    exact roundNE_exact prec emin M j hprec hM hj
  rcases lt_trichotomy q 0 with h | h | h
  · have := key (-q) (neg_pos.2 h)
    rw [roundNE_neg, roundNE_neg, neg_inj] at this
    exact this
  · subst h
    simp [roundNE]
  · exact key q h

/-- Rounding to `float32` twice is rounding once. -/
theorem f32_idem (x : ℚ) : f32 (f32 x) = f32 x := roundNE_idem 24 (-126) x (by norm_num)

/-- The rounding of zero is zero. -/
theorem f32_zero : f32 0 = 0 := by simp [f32, roundNE]

/-- The rounding of a non-negative number is not negative. -/
theorem f32_nonneg (x : ℚ) (h : 0 ≤ x) : 0 ≤ f32 x := by
  have := le_roundNE 24 (-126) x 0 0 (by norm_num) (by norm_num) (by norm_num) (by simpa using h)
  simpa [f32] using this

/-- The distance that `ComputeLinearNorm` computes between two tensors of shape
`(1, 2)` is the `float32` distance of the two points. -/
theorem ComputeLinearNorm_pair (sqrt : ℚ → ℚ) (x0 y0 x1 y1 : ℚ) :
    ComputeLinearNorm sqrt ⟨[1, 2], [x0, y0]⟩ ⟨[1, 2], [x1, y1]⟩ =
      (distance32 sqrt x0 y0 x1 y1, none) := by
  simp [ComputeLinearNorm, shapeEq, distance32, f32_idem]

/-! ### Claims -/

/-- Swapping the two vectors swaps the two norm accumulators of the loop and
keeps the dot-product accumulator. -/
theorem similarityLoop_swap (a b : List ℚ) (d na nb : ℚ) :
    similarityLoop b a (d, nb, na) =
      ((similarityLoop a b (d, na, nb)).1, (similarityLoop a b (d, na, nb)).2.2,
        (similarityLoop a b (d, na, nb)).2.1) := by
  induction a generalizing b d na nb with
  | nil => cases b <;> simp [similarityLoop]
  | cons x xs ih =>
    cases b with
    | nil => simp [similarityLoop]
    | cons y ys =>
      simp only [similarityLoop]
      rw [mul_comm y x]
      exact ih ys _ _ _

/-- C3: cosine similarity is symmetric; `similarityScore` gives the same
outcome, value and error alike, when its two vectors are exchanged. -/
theorem similarityScore_symm (sqrt : ℚ → ℚ) (A B : Dense) :
    similarityScore sqrt A B = similarityScore sqrt B A := by
  unfold similarityScore
  by_cases h : A.data.length = B.data.length
  · have hs := similarityLoop_swap A.data B.data 0 0 0
    rw [if_neg (not_not.2 h), if_neg (not_not.2 h.symm)]
    simp only [hs]
    by_cases hz : sqrt (similarityLoop A.data B.data (0, 0, 0)).2.1 = 0 ∨
        sqrt (similarityLoop A.data B.data (0, 0, 0)).2.2 = 0
    · rw [if_pos hz, if_pos (Or.symm hz)]
    · rw [if_neg hz, if_neg (fun h3 => hz (Or.symm h3)), mul_comm (sqrt _)]
  · rw [if_pos h, if_pos (fun e => h e.symm)]

/-- C1: whenever `samePersonCheck` returns the scores `scoreFM`, `scoreMN` and
the decision `isSamePerson` without error, the decision is true exactly when
both scores are at least `ThresholdSamePerson`; two scores equal to the
threshold give `true`. -/
theorem samePersonCheck_inclusive (sqrt : ℚ → ℚ) (cv : OpenCV) (c : EKYCPipeline)
    (imgFar imgMid imgNear : Mat) (lmkFar lmkMid lmkNear : Option Dense)
    (scoreFM scoreMN : ℚ) (isSamePerson : Bool)
    (h : c.samePersonCheck sqrt cv imgFar imgMid imgNear lmkFar lmkMid lmkNear =
      some (scoreFM, scoreMN, isSamePerson, none)) :
    (isSamePerson = true ↔
      scoreFM ≥ c.FaceID.ModelParams.ThresholdSamePerson ∧
        scoreMN ≥ c.FaceID.ModelParams.ThresholdSamePerson) ∧
    (scoreFM = c.FaceID.ModelParams.ThresholdSamePerson →
      scoreMN = c.FaceID.ModelParams.ThresholdSamePerson → isSamePerson = true) := by
  have key : isSamePerson = true ↔
      scoreFM ≥ c.FaceID.ModelParams.ThresholdSamePerson ∧
        scoreMN ≥ c.FaceID.ModelParams.ThresholdSamePerson := by
    unfold EKYCPipeline.samePersonCheck at h
    split at h
    · exact absurd h (by simp)
    · exact absurd h (by simp)
    · split at h
      · exact absurd h (by simp)
      · split at h
        · split at h
          · exact absurd h (by simp)
          · split at h
            · exact absurd h (by simp)
            · simp only [Option.some.injEq, Prod.mk.injEq, and_true] at h
              obtain ⟨h1, h2, h3⟩ := h
              subst h1 h2
              rw [← h3]
              simp
        · exact absurd h (by simp)
  refine ⟨key, ?_⟩
  intro h1 h2
  exact key.2 ⟨le_of_eq h1.symm, le_of_eq h2.symm⟩

/-- Witness of C1: three equal embeddings have similarity `1`; with the
threshold `1` both scores equal the threshold and the decision is `true`. -/
theorem samePersonCheck_inclusive_witness :
    (examplePipeline none (.ok [⟨[2], [1, 0]⟩, ⟨[2], [1, 0]⟩, ⟨[2], [1, 0]⟩]) (.ok [])
        (.ok 1) (.ok 1) 1 (1 / 2) (1 / 2)).samePersonCheck ceilSqrt exampleCV
        exampleImage exampleImage exampleImage
        (some exampleLandmark) (some exampleLandmark) (some exampleLandmark) =
      some (1, 1, true, none) ∧
    (true = true ↔ (1 : ℚ) ≥ 1 ∧ (1 : ℚ) ≥ 1) :=
  ⟨by decide!,
    (samePersonCheck_inclusive ceilSqrt exampleCV
      (examplePipeline none (.ok [⟨[2], [1, 0]⟩, ⟨[2], [1, 0]⟩, ⟨[2], [1, 0]⟩]) (.ok [])
        (.ok 1) (.ok 1) 1 (1 / 2) (1 / 2))
      exampleImage exampleImage exampleImage
      (some exampleLandmark) (some exampleLandmark) (some exampleLandmark)
      1 1 true (by decide!)).1⟩

/-- C2: whenever `livenessActiveCheck` or `livenessPassiveCheck` returns the
scores `livenessScoreCrop`, `livenessScoreFull` and the decision `isLiveness`
without error, the decision is true exactly when each score is strictly above
the threshold of its model; a score equal to its threshold gives `false`. -/
theorem liveness_exclusive (cv : OpenCV) (c : EKYCPipeline)
    (imgFar imgMid imgNear cImgFar cImgMid cImgNear : Mat)
    (lmkFar lmkMid lmkNear : Option Dense)
    (livenessScoreCrop livenessScoreFull : ℚ) (isLiveness : Bool)
    (h : c.livenessActiveCheck cv imgFar imgMid imgNear lmkFar lmkMid lmkNear =
        some (livenessScoreCrop, livenessScoreFull, isLiveness, none) ∨
      c.livenessPassiveCheck imgFar imgMid imgNear cImgFar cImgMid cImgNear =
        (livenessScoreCrop, livenessScoreFull, isLiveness, none)) :
    (isLiveness = true ↔
      livenessScoreCrop > c.FaceASCrop.ModelParams.Threshold ∧
        livenessScoreFull > c.FaceASFull.ModelParams.Threshold) ∧
    (livenessScoreCrop = c.FaceASCrop.ModelParams.Threshold ∨
      livenessScoreFull = c.FaceASFull.ModelParams.Threshold → isLiveness = false) := by
  have key : isLiveness = true ↔
      livenessScoreCrop > c.FaceASCrop.ModelParams.Threshold ∧
        livenessScoreFull > c.FaceASFull.ModelParams.Threshold := by
    rcases h with h | h
    · unfold EKYCPipeline.livenessActiveCheck at h
      split at h
      · exact absurd h (by simp)
      · exact absurd h (by simp)
      · split at h
        · split at h
          · exact absurd h (by simp)
          · split at h
            · exact absurd h (by simp)
            · simp only [Option.some.injEq, Prod.mk.injEq, and_true] at h
              obtain ⟨h1, h2, h3⟩ := h
              subst h1 h2
              rw [← h3]
              simp
        · exact absurd h (by simp)
    · unfold EKYCPipeline.livenessPassiveCheck at h
      split at h
      · exact absurd h (by simp)
      · split at h
        · exact absurd h (by simp)
        · simp only [Prod.mk.injEq, and_true] at h
          obtain ⟨h1, h2, h3⟩ := h
          subst h1 h2
          rw [← h3]
          simp
  refine ⟨key, ?_⟩
  intro h1
  cases hb : isLiveness with
  | false => rfl
  | true =>
    have h2 := key.1 hb
    rcases h1 with h1 | h1
    · exact absurd h1 (ne_of_gt h2.1)
    · exact absurd h1 (ne_of_gt h2.2)

/-- Witness of C2: the crop model answers `0.58`, its threshold, and the full
model answers `0.9` above its threshold `0.48`; both checks return `false`. -/
theorem liveness_exclusive_witness :
    (examplePipeline none (.ok []) (.ok []) (.ok (58 / 100)) (.ok (9 / 10)) (4 / 10)
        (58 / 100) (48 / 100)).livenessActiveCheck exampleCV
        exampleImage exampleImage exampleImage
        (some exampleLandmark) (some exampleLandmark) (some exampleLandmark) =
      some (58 / 100, 9 / 10, false, none) ∧
    (examplePipeline none (.ok []) (.ok []) (.ok (58 / 100)) (.ok (9 / 10)) (4 / 10)
        (58 / 100) (48 / 100)).livenessPassiveCheck
        exampleImage exampleImage exampleImage exampleImage exampleImage exampleImage =
      (58 / 100, 9 / 10, false, none) ∧
    (false = true ↔ (58 / 100 : ℚ) > 58 / 100 ∧ (9 / 10 : ℚ) > 48 / 100) :=
  ⟨by decide!, by decide!,
    (liveness_exclusive exampleCV
      (examplePipeline none (.ok []) (.ok []) (.ok (58 / 100)) (.ok (9 / 10)) (4 / 10)
        (58 / 100) (48 / 100))
      exampleImage exampleImage exampleImage exampleImage exampleImage exampleImage
      (some exampleLandmark) (some exampleLandmark) (some exampleLandmark)
      (58 / 100) (9 / 10) false (Or.inl (by decide!))).1⟩

/-- On a well-formed detection the loop body of `GetFaceLandmarks5` keeps the
shifted box and landmark when the detection passes the filter and skips it
otherwise. -/
theorem filterStep_eq (sqrt : ℚ → ℚ) (scoreThreshold : ℚ) (eyeDistanceThreshold : Option ℚ)
    (offX offY : Int) (r : FaceDetectionOutput) (hwf : wellFormed r) :
    filterStep sqrt scoreThreshold eyeDistanceThreshold offX offY r =
      some (if isCandidate sqrt scoreThreshold eyeDistanceThreshold offX offY r = true
        then Step.emit (shiftBox offX offY r, shiftLandmark offX offY r) else Step.skip) := by
  obtain ⟨⟨bs, bd⟩, ⟨ss, sd⟩, cls, ⟨ls, ld⟩⟩ := r
  obtain ⟨hb, h1, hl, h2, h3⟩ := hwf
  simp only at hb h1 hl h2 h3
  match bd, h1, ld, h2, sd, h3 with
  | [b0, b1, b2, b3], _, [l0, l1, l2, l3, l4, l5, l6, l7, l8, l9], _, s :: srest, _ =>
    have he : eyeDistance sqrt offX offY
        ⟨⟨bs, [b0, b1, b2, b3]⟩, ⟨ss, s :: srest⟩, cls,
          ⟨ls, [l0, l1, l2, l3, l4, l5, l6, l7, l8, l9]⟩⟩ =
        distance32 sqrt (f32 (l0 - f32 (offX : ℚ))) (f32 (l1 - f32 (offY : ℚ)))
          (f32 (l2 - f32 (offX : ℚ))) (f32 (l3 - f32 (offY : ℚ))) := by
      simp [eyeDistance, shift32]
    cases eyeDistanceThreshold with
    | none =>
      by_cases hs : s < scoreThreshold
      · simp [filterStep, tensorSub, hb, hl, ComputeLinearNorm_pair, isCandidate, rawScore, hs]
      · simp [filterStep, tensorSub, hb, hl, ComputeLinearNorm_pair, isCandidate, rawScore, hs,
          shiftBox, shiftLandmark]
    | some t =>
      by_cases hs : s < scoreThreshold
      · by_cases ht : distance32 sqrt (f32 (l0 - f32 (offX : ℚ))) (f32 (l1 - f32 (offY : ℚ)))
            (f32 (l2 - f32 (offX : ℚ))) (f32 (l3 - f32 (offY : ℚ))) < t
        · simp [filterStep, tensorSub, hb, hl, ComputeLinearNorm_pair, isCandidate, rawScore, hs,
            he, ht]
        · simp [filterStep, tensorSub, hb, hl, ComputeLinearNorm_pair, isCandidate, rawScore, hs,
            he, ht]
      · by_cases ht : distance32 sqrt (f32 (l0 - f32 (offX : ℚ))) (f32 (l1 - f32 (offY : ℚ)))
            (f32 (l2 - f32 (offX : ℚ))) (f32 (l3 - f32 (offY : ℚ))) < t
        · simp [filterStep, tensorSub, hb, hl, ComputeLinearNorm_pair, isCandidate, rawScore, hs,
            he, ht]
        · simp [filterStep, tensorSub, hb, hl, ComputeLinearNorm_pair, isCandidate, rawScore, hs,
            he, ht, shiftBox, shiftLandmark]

/-- C8 (evaluation at the failing input): with a detector whose calls fail,
both verification flows return the result they created at their start next
to the detector's error; in that result ScoreMN, ScoreFM, LivenessScoreFull,
LivenessScoreCrop and FaceMaskScore are `-1` and SimilarityScore, which the
literal leaves out, is `0`. -/
theorem verify_initial_result_similarityScore :
    (examplePipeline (some failingDetector) (.ok []) (.ok []) (.ok 1) (.ok 1) (4 / 10)
        (58 / 100) (48 / 100)).FaceAntiSpoofingPassiveVerify ceilSqrt exampleCV
        exampleImage exampleImage exampleImage =
      some (initialVerify, some "inference transport error") ∧
    (examplePipeline (some failingDetector) (.ok []) (.ok []) (.ok 1) (.ok 1) (4 / 10)
        (58 / 100) (48 / 100)).FaceAntiSpoofingActiveVerify ceilSqrt exampleCV
        exampleImage exampleImage exampleImage none none none =
      some (initialVerify, some "inference transport error") ∧
    initialVerify.ScoreMN = -1 ∧ initialVerify.ScoreFM = -1 ∧
    initialVerify.LivenessScoreFull = -1 ∧ initialVerify.LivenessScoreCrop = -1 ∧
    initialVerify.FaceMaskScore = -1 ∧
    initialVerify.SimilarityScore = 0 ∧ initialVerify.SimilarityScore ≠ -1 := by
  refine ⟨by decide!, by decide!, rfl, rfl, rfl, rfl, rfl, rfl, ?_⟩
  simp [initialVerify]

/-- C9: `FaceAntiSpoofingActiveVerify` either stops in landmark localisation
with the initial result, or runs the stages same-person, quality, liveness in
this order on the landmarks it has; a failing stage returns its error with the
fields of the completed stages filled and the fields of the failed and later
stages at `-1` and `false`. -/
theorem activeVerify_partial_result (sqrt : ℚ → ℚ) (cv : OpenCV) (c : EKYCPipeline)
    (imgFar imgMid imgNear : Mat) :
    (∀ lmkFar lmkMid lmkNear : Option Dense,
      c.FaceAntiSpoofingActiveVerify sqrt cv imgFar imgMid imgNear lmkFar lmkMid lmkNear = none ∨
      (∃ e, c.FaceAntiSpoofingActiveVerify sqrt cv imgFar imgMid imgNear lmkFar lmkMid lmkNear =
        some (initialVerify, some e)) ∨
      (∃ l1 l2 l3, c.FaceAntiSpoofingActiveVerify sqrt cv imgFar imgMid imgNear lmkFar lmkMid
          lmkNear = c.activeStages sqrt cv initialVerify imgFar imgMid imgNear l1 l2 l3)) ∧
    (∀ lmkFar lmkMid lmkNear : Dense,
      c.FaceAntiSpoofingActiveVerify sqrt cv imgFar imgMid imgNear (some lmkFar) (some lmkMid)
          (some lmkNear) =
        c.activeStages sqrt cv initialVerify imgFar imgMid imgNear (some lmkFar) (some lmkMid)
          (some lmkNear)) ∧
    (∀ (l1 l2 l3 : Option Dense) (a b : ℚ) (s : Bool) (e : Err),
      c.samePersonCheck sqrt cv imgFar imgMid imgNear l1 l2 l3 = some (a, b, s, some e) →
      c.activeStages sqrt cv initialVerify imgFar imgMid imgNear l1 l2 l3 =
        some (initialVerify, some e)) ∧
    (∀ (l1 l2 l3 : Option Dense) (scoreFM scoreMN : ℚ) (isSamePerson : Bool) (m : ℚ) (k : Bool)
      (e : Err),
      c.samePersonCheck sqrt cv imgFar imgMid imgNear l1 l2 l3 =
        some (scoreFM, scoreMN, isSamePerson, none) →
      c.getFaceQuality cv imgFar imgMid imgNear l1 l2 l3 = some (m, k, some e) →
      c.activeStages sqrt cv initialVerify imgFar imgMid imgNear l1 l2 l3 =
        some ({ IsFaceMask := false, IsLiveness := false, IsSamePerson := isSamePerson,
                ScoreMN := scoreMN, ScoreFM := scoreFM, LivenessScoreFull := -1,
                LivenessScoreCrop := -1, SimilarityScore := 0, FaceMaskScore := -1 },
          some e)) ∧
    (∀ (l1 l2 l3 : Option Dense) (scoreFM scoreMN : ℚ) (isSamePerson : Bool) (maskScore : ℚ)
      (isFaceMask : Bool) (x y : ℚ) (z : Bool) (e : Err),
      c.samePersonCheck sqrt cv imgFar imgMid imgNear l1 l2 l3 =
        some (scoreFM, scoreMN, isSamePerson, none) →
      c.getFaceQuality cv imgFar imgMid imgNear l1 l2 l3 = some (maskScore, isFaceMask, none) →
      c.livenessActiveCheck cv imgFar imgMid imgNear l1 l2 l3 = some (x, y, z, some e) →
      c.activeStages sqrt cv initialVerify imgFar imgMid imgNear l1 l2 l3 =
        some ({ IsFaceMask := isFaceMask, IsLiveness := false, IsSamePerson := isSamePerson,
                ScoreMN := scoreMN, ScoreFM := scoreFM, LivenessScoreFull := -1,
                LivenessScoreCrop := -1, SimilarityScore := 0, FaceMaskScore := maskScore },
          some e)) ∧
    (∀ (l1 l2 l3 : Option Dense) (scoreFM scoreMN : ℚ) (isSamePerson : Bool) (maskScore : ℚ)
      (isFaceMask : Bool) (livenessScoreCrop livenessScoreFull : ℚ) (isLiveness : Bool),
      c.samePersonCheck sqrt cv imgFar imgMid imgNear l1 l2 l3 =
        some (scoreFM, scoreMN, isSamePerson, none) →
      c.getFaceQuality cv imgFar imgMid imgNear l1 l2 l3 = some (maskScore, isFaceMask, none) →
      c.livenessActiveCheck cv imgFar imgMid imgNear l1 l2 l3 =
        some (livenessScoreCrop, livenessScoreFull, isLiveness, none) →
      c.activeStages sqrt cv initialVerify imgFar imgMid imgNear l1 l2 l3 =
        some ({ IsFaceMask := isFaceMask, IsLiveness := isLiveness,
                IsSamePerson := isSamePerson, ScoreMN := scoreMN, ScoreFM := scoreFM,
                LivenessScoreFull := livenessScoreFull, LivenessScoreCrop := livenessScoreCrop,
                SimilarityScore := 0, FaceMaskScore := maskScore }, none)) := by
  refine ⟨?_, ?_, ?_, ?_, ?_, ?_⟩
  · intro lmkFar lmkMid lmkNear
    unfold EKYCPipeline.FaceAntiSpoofingActiveVerify
    simp only
    split
    · exact Or.inl rfl
    · exact Or.inr (Or.inl ⟨_, rfl⟩)
    · split
      · exact Or.inl rfl
      · exact Or.inr (Or.inl ⟨_, rfl⟩)
      · split
        · exact Or.inl rfl
        · exact Or.inr (Or.inl ⟨_, rfl⟩)
        · exact Or.inr (Or.inr ⟨_, _, _, rfl⟩)
  · intro lmkFar lmkMid lmkNear
    rfl
  · intro l1 l2 l3 a b s e h
    simp only [EKYCPipeline.activeStages, h]
  · intro l1 l2 l3 scoreFM scoreMN isSamePerson m k e h1 h2
    simp only [EKYCPipeline.activeStages, h1, h2, initialVerify]
  · intro l1 l2 l3 scoreFM scoreMN isSamePerson maskScore isFaceMask x y z e h1 h2 h3
    simp only [EKYCPipeline.activeStages, h1, h2, h3, initialVerify]
  · intro l1 l2 l3 scoreFM scoreMN isSamePerson maskScore isFaceMask lc lf lv h1 h2 h3
    simp only [EKYCPipeline.activeStages, h1, h2, h3, initialVerify]

/-- Witness of C9: three equal embeddings pass the same-person stage with
scores `1`, the quality model fails; the call returns the quality error with
the same-person fields filled and the quality and liveness fields at their
initial values. -/
theorem activeVerify_partial_result_witness :
    (examplePipeline none (.ok [⟨[2], [1, 0]⟩, ⟨[2], [1, 0]⟩, ⟨[2], [1, 0]⟩])
        (.error "quality inference failed") (.ok 1) (.ok 1) (4 / 10) (58 / 100)
        (48 / 100)).activeStages ceilSqrt exampleCV initialVerify
        exampleImage exampleImage exampleImage
        (some exampleLandmark) (some exampleLandmark) (some exampleLandmark) =
      some ({ IsFaceMask := false, IsLiveness := false, IsSamePerson := true,
              ScoreMN := 1, ScoreFM := 1, LivenessScoreFull := -1,
              LivenessScoreCrop := -1, SimilarityScore := 0, FaceMaskScore := -1 },
        some "quality inference failed") ∧
    (examplePipeline none (.ok [⟨[2], [1, 0]⟩, ⟨[2], [1, 0]⟩, ⟨[2], [1, 0]⟩])
        (.error "quality inference failed") (.ok 1) (.ok 1) (4 / 10) (58 / 100)
        (48 / 100)).FaceAntiSpoofingActiveVerify ceilSqrt exampleCV
        exampleImage exampleImage exampleImage
        (some exampleLandmark) (some exampleLandmark) (some exampleLandmark) =
      some ({ IsFaceMask := false, IsLiveness := false, IsSamePerson := true,
              ScoreMN := 1, ScoreFM := 1, LivenessScoreFull := -1,
              LivenessScoreCrop := -1, SimilarityScore := 0, FaceMaskScore := -1 },
        some "quality inference failed") :=
  ⟨(activeVerify_partial_result ceilSqrt exampleCV
    (examplePipeline none (.ok [⟨[2], [1, 0]⟩, ⟨[2], [1, 0]⟩, ⟨[2], [1, 0]⟩])
      (.error "quality inference failed") (.ok 1) (.ok 1) (4 / 10) (58 / 100) (48 / 100))
    exampleImage exampleImage exampleImage).2.2.2.1
    (some exampleLandmark) (some exampleLandmark) (some exampleLandmark)
    1 1 true 0 false "quality inference failed" (by decide!) (by decide!), by decide!⟩

/-- C10 (evaluation at the failing input): every image has a face, the
face-ID inference fails, the quality model answers `0.3` and the two liveness
models `0.9`.  `samePersonCheck` returns the error, yet
`FaceAntiSpoofingPassiveVerify` runs the quality and liveness stages and
returns no error, with `0` in both similarity scores; on the same input
`FaceAntiSpoofingActiveVerify` stops and returns the error. -/
theorem passiveVerify_drops_samePerson_error :
    (examplePipeline (some exampleDetector) (.error "face-id inference failed")
        (.ok [⟨[1], [3 / 10]⟩]) (.ok (9 / 10)) (.ok (9 / 10)) (4 / 10) (58 / 100)
        (48 / 100)).samePersonCheck ceilSqrt exampleCV exampleImage exampleImage exampleImage
        (some (shiftLandmark 0 0 exampleDetection)) (some (shiftLandmark 0 0 exampleDetection))
        (some (shiftLandmark 0 0 exampleDetection)) =
      some (0, 0, false, some "face-id inference failed") ∧
    (examplePipeline (some exampleDetector) (.error "face-id inference failed")
        (.ok [⟨[1], [3 / 10]⟩]) (.ok (9 / 10)) (.ok (9 / 10)) (4 / 10) (58 / 100)
        (48 / 100)).FaceAntiSpoofingPassiveVerify ceilSqrt exampleCV
        exampleImage exampleImage exampleImage =
      some ({ IsFaceMask := false, IsLiveness := true, IsSamePerson := false,
              ScoreMN := 0, ScoreFM := 0, LivenessScoreFull := 9 / 10,
              LivenessScoreCrop := 9 / 10, SimilarityScore := 0, FaceMaskScore := 3 / 10 },
        none) ∧
    (examplePipeline (some exampleDetector) (.error "face-id inference failed")
        (.ok [⟨[1], [3 / 10]⟩]) (.ok (9 / 10)) (.ok (9 / 10)) (4 / 10) (58 / 100)
        (48 / 100)).FaceAntiSpoofingActiveVerify ceilSqrt exampleCV
        exampleImage exampleImage exampleImage none none none =
      some (initialVerify, some "face-id inference failed") := by
  refine ⟨by decide!, by decide!, by decide!⟩

/-- C11 (evaluation at the failing input): no face is found in any image, not
even in the padded pass.  With `keepLargest` set `GetFaceLandmarks5` returns
a list holding one `nil` landmark and no error, so the emptiness test of
`FaceAntiSpoofingPassiveVerify` does not fire; the flow goes on to
`AlignWarpFaces` with the `nil` landmark, which panics, and no error is
returned. -/
theorem passiveVerify_missing_landmark_panics :
    (exampleHelper (some emptyDetector)).GetFaceLandmarks5 ceilSqrt exampleCV [exampleImage]
        (some true) none none none (some true) = some ([none], [none], none) ∧
    (examplePipeline (some emptyDetector) (.ok []) (.ok []) (.ok 1) (.ok 1) (4 / 10)
        (58 / 100) (48 / 100)).locateLandmark ceilSqrt exampleCV exampleImage (some true) none
        "cannot detect any face in far-face image" = some (none, none) ∧
    (exampleHelper (some emptyDetector)).AlignWarpFaces exampleCV
        [exampleImage, exampleImage, exampleImage] [none, none, none] none = none ∧
    (examplePipeline (some emptyDetector) (.ok []) (.ok []) (.ok 1) (.ok 1) (4 / 10)
        (58 / 100) (48 / 100)).FaceAntiSpoofingPassiveVerify ceilSqrt exampleCV
        exampleImage exampleImage exampleImage = none := by
  refine ⟨by decide!, by decide!, by decide!, by decide!⟩

/-- C12 (evaluation at the failing input): the batch pass finds no face and the
detector call on the padded image fails.  `GetFaceLandmarks5` returns no
error: the image is treated as one without detections and gets a `nil` box and
a `nil` landmark, whereas a failure of the batch call is returned. -/
theorem GetFaceLandmarks5_drops_retry_error :
    retryFailingDetector.InferSingle [(padImage exampleCV exampleImage (1 / 2)).1] =
      .error "inference transport error" ∧
    (exampleHelper (some retryFailingDetector)).GetFaceLandmarks5 ceilSqrt exampleCV
        [exampleImage] (some true) none none none (some true) = some ([none], [none], none) ∧
    (exampleHelper (some retryFailingDetector)).GetFaceLandmarks5 ceilSqrt exampleCV
        [exampleImage] none none none none (some true) = some ([], [], none) ∧
    (exampleHelper (some failingDetector)).GetFaceLandmarks5 ceilSqrt exampleCV
        [exampleImage] (some true) none none none (some true) =
      some ([], [], some "inference transport error") := by
  refine ⟨rfl, by decide!, by decide!, by decide!⟩

/-- The box that `getLargestFace` returns is the entry of the list at the
returned index, and no error is returned. -/
theorem getLargestFace_index (detFaces : List Dense) (h w : Int) (face : Dense) (idx : Nat)
    (e : Option Err) (hr : getLargestFace detFaces h w = some (face, idx, e)) :
    detFaces[idx]? = some face ∧ e = none := by
  unfold getLargestFace at hr
  simp only [Option.bind_eq_bind, Option.pure_def, Option.bind_eq_some, Option.some.injEq,
    Prod.mk.injEq] at hr
  obtain ⟨areas, _, m, _, f, hf, h1, h2, h3⟩ := hr
  subst h1 h2 h3
  exact ⟨hf, rfl⟩

/-- The box that `GetCenterFace` returns without error is the entry of the list
at the returned index. -/
theorem GetCenterFace_index (sqrt : ℚ → ℚ) (detFaces : List Dense) (h w : Option Int)
    (center : Option DimensionPair) (face : Option Dense) (idx : Int)
    (hr : GetCenterFace sqrt detFaces h w center = some (face, idx, none)) :
    ∃ f, face = some f ∧ 0 ≤ idx ∧ detFaces[idx.toNat]? = some f := by
  unfold GetCenterFace at hr
  simp only at hr
  split at hr
  · exact absurd hr (by simp)
  · exact absurd hr (by simp)
  · split at hr
    · exact absurd hr (by simp)
    · split at hr
      · exact absurd hr (by simp)
      · split at hr
        · exact absurd hr (by simp)
        · rename_i hidx _ f hf
          simp only [Option.some.injEq, Prod.mk.injEq, and_true] at hr
          obtain ⟨h1, h2⟩ := hr
          subst h1 h2
          exact ⟨f, rfl, by omega, hf⟩

/-- C14 (counterexample): the first pass returns one raw detection of score
`0.1`, which the score filter rejects, so the image has zero candidates; with
`tryPadding` set the detection loop still runs on the first-pass output with
offsets `0`, the detector is not consulted on the padded image (where it would
find a face), and the image gets a `nil` box and landmark. -/
theorem GetFaceLandmarks5_no_retry_after_filter :
    filterLoop ceilSqrt (1 / 2) none 0 0 [{ exampleDetection with Score := ⟨[1], [1 / 10]⟩ }]
        ([], []) = some ([], [], none) ∧
    lowScoreDetector.InferSingle [(padImage exampleCV exampleImage (1 / 2)).1] =
      .ok [exampleDetection] ∧
    paddingRetry exampleCV lowScoreDetector true exampleImage
        [{ exampleDetection with Score := ⟨[1], [1 / 10]⟩ }] =
      ([{ exampleDetection with Score := ⟨[1], [1 / 10]⟩ }], 0, 0) ∧
    (exampleHelper (some lowScoreDetector)).GetFaceLandmarks5 ceilSqrt exampleCV [exampleImage]
        (some true) none none none (some true) = some ([none], [none], none) := by
  refine ⟨by decide!, rfl, by decide!, by decide!⟩

/-- C14 (amended): with `tryPadding` set, an image whose first pass returned no
raw detection is detected again on its padded copy, the detection loop then
running on the output of that call (on nothing when the call fails); an image
with raw detections is not detected again, whatever the filter does with
them, and is processed as without `tryPadding`. -/
theorem GetFaceLandmarks5_retry_on_raw_results (sqrt : ℚ → ℚ) (cv : OpenCV)
    (faceDet : FaceDetectionClient) (img : Mat) :
    (∀ retried : List FaceDetectionOutput,
      faceDet.InferSingle [(padImage cv img (1 / 2)).1] = .ok retried →
      paddingRetry cv faceDet true img [] =
        (retried, (padImage cv img (1 / 2)).2.1, (padImage cv img (1 / 2)).2.2)) ∧
    (∀ err : Err,
      faceDet.InferSingle [(padImage cv img (1 / 2)).1] = .error err →
      paddingRetry cv faceDet true img [] =
        ([], (padImage cv img (1 / 2)).2.1, (padImage cv img (1 / 2)).2.2)) ∧
    (∀ results : List FaceDetectionOutput, results ≠ [] →
      paddingRetry cv faceDet true img results = (results, 0, 0)) ∧
    (∀ (keepLargest keepCenter : Bool) (scoreThreshold : ℚ) (eyeDistanceThreshold : Option ℚ)
      (batchResults : List (List FaceDetectionOutput)) (idx : Nat)
      (results : List FaceDetectionOutput),
      batchResults[idx]? = some results → results ≠ [] →
      imageStep sqrt cv faceDet keepLargest keepCenter scoreThreshold eyeDistanceThreshold true
          batchResults img idx =
        imageStep sqrt cv faceDet keepLargest keepCenter scoreThreshold eyeDistanceThreshold
          false batchResults img idx) := by
  have hne : ∀ results : List FaceDetectionOutput, results ≠ [] →
      paddingRetry cv faceDet true img results = (results, 0, 0) := by
    intro results hr
    unfold paddingRetry
    rw [if_neg]
    rintro ⟨_, hl⟩
    exact hr (List.length_eq_zero.1 hl)
  refine ⟨?_, ?_, hne, ?_⟩
  · intro retried hd
    unfold paddingRetry
    rw [if_pos ⟨rfl, rfl⟩]
    simp only [hd]
  · intro err hd
    unfold paddingRetry
    rw [if_pos ⟨rfl, rfl⟩]
    simp only [hd]
  · intro keepLargest keepCenter scoreThreshold eyeDistanceThreshold batchResults idx results
      hb hr
    unfold imageStep
    simp only [hb, hne results hr]
    have hf : paddingRetry cv faceDet false img results = (results, 0, 0) := by
      unfold paddingRetry
      rw [if_neg]
      rintro ⟨h1, _⟩
      exact absurd h1 (by simp)
    rw [hf]

/-- Witness of C14 (amended): the image with one rejected raw detection is not
detected again. -/
theorem GetFaceLandmarks5_retry_on_raw_results_witness :
    paddingRetry exampleCV lowScoreDetector true exampleImage
        [{ exampleDetection with Score := ⟨[1], [1 / 10]⟩ }] =
      ([{ exampleDetection with Score := ⟨[1], [1 / 10]⟩ }], 0, 0) ∧
    paddingRetry exampleCV paddedOnlyDetector true exampleImage [] =
      ([exampleDetection], (padImage exampleCV exampleImage (1 / 2)).2.1,
        (padImage exampleCV exampleImage (1 / 2)).2.2) :=
  ⟨(GetFaceLandmarks5_retry_on_raw_results ceilSqrt exampleCV lowScoreDetector
      exampleImage).2.2.1 [{ exampleDetection with Score := ⟨[1], [1 / 10]⟩ }] (by simp),
    (GetFaceLandmarks5_retry_on_raw_results ceilSqrt exampleCV paddedOnlyDetector
      exampleImage).1 [exampleDetection] rfl⟩

/-- C15 (evaluation at the failing input): the detector finds two faces in the
image and both pass the filters; called with neither `keepLargest` nor
`keepCenter`, `GetFaceLandmarks5` returns for the image one `nil` box and one
`nil` landmark instead of the two filtered candidates. -/
theorem GetFaceLandmarks5_no_policy_returns_nil :
    filterLoop ceilSqrt (1 / 2) none 0 0 [wideDetection, centredDetection] ([], []) =
      some ([shiftBox 0 0 wideDetection, shiftBox 0 0 centredDetection],
        [shiftLandmark 0 0 wideDetection, shiftLandmark 0 0 centredDetection], none) ∧
    (exampleHelper (some twoFaceDetector)).GetFaceLandmarks5 ceilSqrt exampleCV [exampleImage]
        none none none none none = some ([none], [none], none) ∧
    (exampleHelper (some twoFaceDetector)).GetFaceLandmarks5 ceilSqrt exampleCV [exampleImage]
        (some false) (some false) none none (some true) = some ([none], [none], none) := by
  refine ⟨by decide!, by decide!, by decide!⟩

/-- C17 (evaluation at the failing input): the quality model answers three
negative values, the largest being `-0.25`; `getFaceQuality` and
`FaceQualityVerify` return the mask score `0`, the start value of the scan. -/
theorem getFaceQuality_negative_values :
    (examplePipeline none (.ok []) (.ok [⟨[3], [-1 / 2, -1 / 4, -3 / 4]⟩]) (.ok 1) (.ok 1)
        (4 / 10) (58 / 100) (48 / 100)).getFaceQuality exampleCV
        exampleImage exampleImage exampleImage
        (some exampleLandmark) (some exampleLandmark) (some exampleLandmark) =
      some (0, false, none) ∧
    (examplePipeline none (.ok []) (.ok [⟨[3], [-1 / 2, -1 / 4, -3 / 4]⟩]) (.ok 1) (.ok 1)
        (4 / 10) (58 / 100) (48 / 100)).FaceQualityVerify exampleCV
        exampleImage exampleImage exampleImage
        (some exampleLandmark) (some exampleLandmark) (some exampleLandmark) =
      some (0, false, none) ∧
    slicesMax [-1 / 2, -1 / 4, -3 / 4] = some (-1 / 4) := by
  refine ⟨by decide!, by decide!, by decide!⟩

/-- Reading `n` points from position `i` of a backing that is long enough. -/
theorem pointsFrom_eq (data : List ℚ) (n i : Nat) (hlen : (i + n) * 2 ≤ data.length) :
    pointsFrom data n i =
      some ((List.range n).map
        (fun k => (data.getD ((i + k) * 2) 0, data.getD ((i + k) * 2 + 1) 0))) := by
  induction n generalizing i with
  | zero => simp [pointsFrom]
  | succ n ih =>
    have h1 : i * 2 < data.length := by omega
    have h2 : i * 2 + 1 < data.length := by omega
    have e1 : data[i * 2]? = some (data.getD (i * 2) 0) := by
      rw [List.getD_eq_getElem?_getD, List.getElem?_eq_getElem h1]; rfl
    have e2 : data[i * 2 + 1]? = some (data.getD (i * 2 + 1) 0) := by
      rw [List.getD_eq_getElem?_getD, List.getElem?_eq_getElem h2]; rfl
    have ih2 := ih (i + 1) (by omega)
    simp only [pointsFrom, e1, e2, ih2, Option.pure_def, Option.bind_eq_bind, Option.some_bind,
      List.range_succ_eq_map, List.map_cons, List.map_map, Nat.add_zero, Option.some.injEq,
      List.cons.injEq, true_and]
    apply List.map_congr_left
    intro k _
    simp only [Function.comp_apply]
    have e3 : i + 1 + k = i + (k + 1) := by omega
    rw [e3]

/-- A tensor of shape `(n, 2)` converts to its points without error. -/
theorem TensorToPoint2fVector_eq (t : Dense) (ht : isPointTensor t) :
    TensorToPoint2fVector t = some (pointsOf t, none) := by
  obtain ⟨n, hs, hl⟩ := ht
  unfold TensorToPoint2fVector pointsOf
  rw [hs]
  simp only [pointsFrom_eq t.data n 0 (by omega), Nat.zero_add, List.headD_cons]

/-- On equally many images and landmarks of shape `(n, 2)` the alignment loop
appends the crop and the transform of every image, in order. -/
theorem alignLoop_eq (cv : OpenCV) (template : Dense) (size : Int × Int) (borderMode : Nat)
    (ht : isPointTensor template) (imgs : List Mat) (lmks : List Dense)
    (acc : List Mat × List Mat) (hlen : imgs.length = lmks.length)
    (hl : ∀ l ∈ lmks, isPointTensor l) :
    alignLoop cv template size borderMode imgs (lmks.map some) acc =
      some (acc.1 ++ (List.zipWith (alignedPair cv template size borderMode) imgs lmks).map
          (fun p => p.1),
        acc.2 ++ (List.zipWith (alignedPair cv template size borderMode) imgs lmks).map
          (fun p => p.2), none) := by
  induction imgs generalizing lmks acc with
  | nil =>
    cases lmks with
    | nil => simp [alignLoop]
    | cons l ls => simp at hlen
  | cons img imgs ih =>
    cases lmks with
    | nil => simp at hlen
    | cons l ls =>
      simp only [List.length_cons, Nat.add_right_cancel_iff] at hlen
      have hl1 : isPointTensor l := hl l (List.mem_cons_self _ _)
      have hl2 : ∀ x ∈ ls, isPointTensor x := fun x hx => hl x (List.mem_cons_of_mem _ hx)
      obtain ⟨accC, accM⟩ := acc
      simp only [List.map_cons, alignLoop, TensorToPoint2fVector_eq l hl1,
        TensorToPoint2fVector_eq template ht, ih ls _ hlen hl2, List.zipWith_cons_cons,
        alignedPair, List.append_assoc, List.singleton_append]

/-- C20: `AlignWarpFaces` and `AlignFASFaces` return the length-mismatch error
with empty crop and transform lists whenever the numbers of images and
landmarks differ; on equally many images and landmarks of shape `(n, 2)`,
the template of the client being of shape `(m, 2)`, they return no error and
the crop and the transform of every image, in input order. -/
theorem alignFaces_lengths :
    (∀ (cv : OpenCV) (c : FaceHelperClient) (inputImgs : List Mat)
      (landmarks : List (Option Dense)) (borderMode : Option Nat),
      inputImgs.length ≠ landmarks.length →
      c.AlignWarpFaces cv inputImgs landmarks borderMode =
        some ([], [], some "number of input images and landmarks must be equal") ∧
      c.AlignFASFaces cv inputImgs landmarks borderMode =
        some ([], [], some "number of input images and landmarks must be equal")) ∧
    (∀ (cv : OpenCV) (c : FaceHelperClient) (inputImgs : List Mat) (landmarks : List Dense)
      (borderMode : Option Nat),
      inputImgs.length = landmarks.length → (∀ l ∈ landmarks, isPointTensor l) →
      (isPointTensor c.faceTemplate →
        c.AlignWarpFaces cv inputImgs (landmarks.map some) borderMode =
          some ((List.zipWith (alignedPair cv c.faceTemplate c.faceSize
                (borderMode.getD BorderConstant)) inputImgs landmarks).map (fun p => p.1),
            (List.zipWith (alignedPair cv c.faceTemplate c.faceSize
                (borderMode.getD BorderConstant)) inputImgs landmarks).map (fun p => p.2),
            none)) ∧
      (isPointTensor c.fasTemplate →
        c.AlignFASFaces cv inputImgs (landmarks.map some) borderMode =
          some ((List.zipWith (alignedPair cv c.fasTemplate c.fasSize
                (borderMode.getD BorderConstant)) inputImgs landmarks).map (fun p => p.1),
            (List.zipWith (alignedPair cv c.fasTemplate c.fasSize
                (borderMode.getD BorderConstant)) inputImgs landmarks).map (fun p => p.2),
            none)) ∧
      ((List.zipWith (alignedPair cv c.faceTemplate c.faceSize
          (borderMode.getD BorderConstant)) inputImgs landmarks).length = inputImgs.length ∧
        (List.zipWith (alignedPair cv c.fasTemplate c.fasSize
          (borderMode.getD BorderConstant)) inputImgs landmarks).length = inputImgs.length)) := by
  refine ⟨?_, ?_⟩
  · intro cv c inputImgs landmarks borderMode hne
    unfold FaceHelperClient.AlignWarpFaces FaceHelperClient.AlignFASFaces
    simp only [if_pos hne, and_self]
  · intro cv c inputImgs landmarks borderMode hlen hl
    have hlen2 : inputImgs.length = (landmarks.map some).length := by
      rw [List.length_map]; exact hlen
    refine ⟨?_, ?_, ?_⟩
    · intro ht
      unfold FaceHelperClient.AlignWarpFaces
      simp only
      rw [if_neg (not_not.2 hlen2)]
      have := alignLoop_eq cv c.faceTemplate c.faceSize (borderMode.getD BorderConstant) ht
        inputImgs landmarks ([], []) hlen hl
      cases borderMode <;> simpa using this
    · intro ht
      unfold FaceHelperClient.AlignFASFaces
      simp only
      rw [if_neg (not_not.2 hlen2)]
      have := alignLoop_eq cv c.fasTemplate c.fasSize (borderMode.getD BorderConstant) ht
        inputImgs landmarks ([], []) hlen hl
      cases borderMode <;> simpa using this
    · simp [List.length_zipWith, hlen]

/-- Witness of C20: three images and three landmarks of shape `(5, 2)` give
three crops of the recognition size and three transforms; three images and two
landmarks give the error and empty lists. -/
theorem alignFaces_lengths_witness :
    (exampleHelper none).AlignWarpFaces exampleCV [exampleImage, exampleImage, exampleImage]
        ([exampleLandmark, exampleLandmark, exampleLandmark].map some) none =
      some ([⟨112, 112, []⟩, ⟨112, 112, []⟩, ⟨112, 112, []⟩],
        [⟨2, 3, []⟩, ⟨2, 3, []⟩, ⟨2, 3, []⟩], none) ∧
    (exampleHelper none).AlignWarpFaces exampleCV [exampleImage, exampleImage, exampleImage]
        [some exampleLandmark, some exampleLandmark] none =
      some ([], [], some "number of input images and landmarks must be equal") :=
  ⟨((alignFaces_lengths.2 exampleCV (exampleHelper none)
      [exampleImage, exampleImage, exampleImage]
      [exampleLandmark, exampleLandmark, exampleLandmark] none rfl
      (by
        intro l hl
        simp only [List.mem_cons, List.mem_singleton, List.not_mem_nil, or_false, or_self] at hl
        subst hl
        exact ⟨5, rfl, rfl⟩)).1 ⟨5, rfl, rfl⟩).trans (by decide!),
    (alignFaces_lengths.1 exampleCV (exampleHelper none)
      [exampleImage, exampleImage, exampleImage] [some exampleLandmark, some exampleLandmark]
      none (by decide)).1⟩

/-- The scan of `getFaceQuality` never goes below its start value. -/
theorem maskScan_ge (data : List ℚ) (m : ℚ) : m ≤ maskScan data m := by
  induction data generalizing m with
  | nil => exact le_refl m
  | cons v vs ih =>
    simp only [maskScan, List.foldl_cons]
    by_cases hv : v > m
    · rw [if_pos hv]
      exact le_trans (le_of_lt hv) (ih v)
    · rw [if_neg hv]
      exact ih m

/-- The scan of `getFaceQuality` over all tensors never goes below its start value. -/
theorem maskFold_ge (ts : List Dense) (m : ℚ) :
    m ≤ ts.foldl (fun m t => maskScan t.data m) m := by
  induction ts generalizing m with
  | nil => exact le_refl m
  | cons t ts ih =>
    simp only [List.foldl_cons]
    exact le_trans (maskScan_ge t.data m) (ih _)

/-- The mask score that `getFaceQuality` returns is never negative. -/
theorem getFaceQuality_nonneg (cv : OpenCV) (c : EKYCPipeline) (imgFar imgMid imgNear : Mat)
    (lmkFar lmkMid lmkNear : Option Dense) (m : ℚ) (k : Bool) (e : Option Err)
    (h : c.getFaceQuality cv imgFar imgMid imgNear lmkFar lmkMid lmkNear = some (m, k, e)) :
    0 ≤ m := by
  unfold EKYCPipeline.getFaceQuality at h
  simp only at h
  split at h
  · exact absurd h (by simp)
  · simp only [Option.some.injEq, Prod.mk.injEq] at h
    rw [← h.1]
  · split at h
    · simp only [Option.some.injEq, Prod.mk.injEq] at h
      rw [← h.1]
    · simp only [Option.some.injEq, Prod.mk.injEq] at h
      rw [← h.1]
      exact maskFold_ge _ 0

/-- C18 (counterexample): every image holds one valid face and the embeddings
of the far and the near image are the opposite of the embedding of the mid
image; `FaceAntiSpoofingPassiveVerify` completes without error and both
ScoreFM and ScoreMN are the cosine similarity `-1`, the value of the sentinel. -/
theorem passiveVerify_score_equals_sentinel :
    (examplePipeline (some exampleDetector)
        (.ok [⟨[2], [1, 0]⟩, ⟨[2], [-1, 0]⟩, ⟨[2], [1, 0]⟩]) (.ok [⟨[1], [3 / 10]⟩])
        (.ok (9 / 10)) (.ok (9 / 10)) (4 / 10) (58 / 100)
        (48 / 100)).FaceAntiSpoofingPassiveVerify ceilSqrt exampleCV
        exampleImage exampleImage exampleImage =
      some ({ IsFaceMask := false, IsLiveness := true, IsSamePerson := false,
              ScoreMN := -1, ScoreFM := -1, LivenessScoreFull := 9 / 10,
              LivenessScoreCrop := 9 / 10, SimilarityScore := 0, FaceMaskScore := 3 / 10 },
        none) := by
  decide!

/-- C18 (amended): whenever `FaceAntiSpoofingPassiveVerify` completes without
error, FaceMaskScore holds the score `getFaceQuality` returned, which is not
negative and so differs from `-1`; LivenessScoreCrop and LivenessScoreFull
hold the scores `livenessActiveCheck` returned and, when `samePersonCheck`
returned no error, ScoreFM and ScoreMN hold its two similarities. -/
theorem passiveVerify_scores_filled (sqrt : ℚ → ℚ) (cv : OpenCV) (c : EKYCPipeline)
    (fImgFar fImgMid fImgNear : Mat) (r : FaceAntiSpoofingVerify)
    (h : c.FaceAntiSpoofingPassiveVerify sqrt cv fImgFar fImgMid fImgNear = some (r, none)) :
    ∃ (l1 l2 l3 : Option Dense) (scoreFM scoreMN : ℚ) (isSamePerson : Bool) (e : Option Err)
      (maskScore : ℚ) (isFaceMask : Bool) (livenessCrop livenessFull : ℚ) (isLiveness : Bool),
      c.samePersonCheck sqrt cv fImgFar fImgMid fImgNear l1 l2 l3 =
        some (scoreFM, scoreMN, isSamePerson, e) ∧
      c.getFaceQuality cv fImgFar fImgMid fImgNear l1 l2 l3 =
        some (maskScore, isFaceMask, none) ∧
      c.livenessActiveCheck cv fImgFar fImgMid fImgNear l1 l2 l3 =
        some (livenessCrop, livenessFull, isLiveness, none) ∧
      (e = none → r.ScoreFM = scoreFM ∧ r.ScoreMN = scoreMN) ∧
      r.FaceMaskScore = maskScore ∧ 0 ≤ r.FaceMaskScore ∧ r.FaceMaskScore ≠ -1 ∧
      r.LivenessScoreCrop = livenessCrop ∧ r.LivenessScoreFull = livenessFull := by
  unfold EKYCPipeline.FaceAntiSpoofingPassiveVerify at h
  simp only at h
  split at h
  · exact absurd h (by simp)
  · exact absurd h (by simp)
  · split at h
    · exact absurd h (by simp)
    · exact absurd h (by simp)
    · split at h
      · exact absurd h (by simp)
      · exact absurd h (by simp)
      · rename_i l1 _ _ l2 _ _ l3 _
        unfold EKYCPipeline.passiveStages at h
        split at h
        · exact absurd h (by simp)
        · rename_i fm mn sp e hsp
          simp only at h
          split at h
          · exact absurd h (by simp)
          · exact absurd h (by simp)
          · rename_i m k hq
            split at h
            · exact absurd h (by simp)
            · exact absurd h (by simp)
            · rename_i lc lf lv hlv
              simp only [Option.some.injEq, Prod.mk.injEq, and_true] at h
              have hm : 0 ≤ m := getFaceQuality_nonneg _ _ _ _ _ _ _ _ _ _ _ hq
              refine ⟨_, _, _, fm, mn, sp, e, m, k, lc, lf, lv, hsp, hq, hlv, ?_, ?_, ?_, ?_,
                ?_, ?_⟩
              · intro _
                rw [← h]
                exact ⟨rfl, rfl⟩
              · rw [← h]
              · rw [← h]; exact hm
              · rw [← h]
                intro hneg
                have : m = -1 := hneg
                linarith
              · rw [← h]
              · rw [← h]

/-- Witness of C18 (amended): a run on three images with one valid face each;
the quality model answers `0.3`, and the mask score of the result is `0.3`. -/
theorem passiveVerify_scores_filled_witness :
    ∃ (l1 l2 l3 : Option Dense) (scoreFM scoreMN : ℚ) (isSamePerson : Bool) (e : Option Err)
      (maskScore : ℚ) (isFaceMask : Bool) (livenessCrop livenessFull : ℚ) (isLiveness : Bool),
      (examplePipeline (some exampleDetector)
          (.ok [⟨[2], [1, 0]⟩, ⟨[2], [1, 0]⟩, ⟨[2], [1, 0]⟩]) (.ok [⟨[1], [3 / 10]⟩])
          (.ok (9 / 10)) (.ok (9 / 10)) (4 / 10) (58 / 100) (48 / 100)).samePersonCheck
          ceilSqrt exampleCV exampleImage exampleImage exampleImage l1 l2 l3 =
        some (scoreFM, scoreMN, isSamePerson, e) ∧
      (examplePipeline (some exampleDetector)
          (.ok [⟨[2], [1, 0]⟩, ⟨[2], [1, 0]⟩, ⟨[2], [1, 0]⟩]) (.ok [⟨[1], [3 / 10]⟩])
          (.ok (9 / 10)) (.ok (9 / 10)) (4 / 10) (58 / 100) (48 / 100)).getFaceQuality
          exampleCV exampleImage exampleImage exampleImage l1 l2 l3 =
        some (maskScore, isFaceMask, none) ∧
      (examplePipeline (some exampleDetector)
          (.ok [⟨[2], [1, 0]⟩, ⟨[2], [1, 0]⟩, ⟨[2], [1, 0]⟩]) (.ok [⟨[1], [3 / 10]⟩])
          (.ok (9 / 10)) (.ok (9 / 10)) (4 / 10) (58 / 100) (48 / 100)).livenessActiveCheck
          exampleCV exampleImage exampleImage exampleImage l1 l2 l3 =
        some (livenessCrop, livenessFull, isLiveness, none) ∧
      (e = none →
        (⟨false, true, true, 1, 1, 9 / 10, 9 / 10, 0, 3 / 10⟩ : FaceAntiSpoofingVerify).ScoreFM =
            scoreFM ∧
          (⟨false, true, true, 1, 1, 9 / 10, 9 / 10, 0, 3 / 10⟩ : FaceAntiSpoofingVerify).ScoreMN =
            scoreMN) ∧
      (⟨false, true, true, 1, 1, 9 / 10, 9 / 10, 0, 3 / 10⟩ : FaceAntiSpoofingVerify).FaceMaskScore =
        maskScore ∧
      0 ≤ (⟨false, true, true, 1, 1, 9 / 10, 9 / 10, 0, 3 / 10⟩ :
        FaceAntiSpoofingVerify).FaceMaskScore ∧
      (⟨false, true, true, 1, 1, 9 / 10, 9 / 10, 0, 3 / 10⟩ :
        FaceAntiSpoofingVerify).FaceMaskScore ≠ -1 ∧
      (⟨false, true, true, 1, 1, 9 / 10, 9 / 10, 0, 3 / 10⟩ :
        FaceAntiSpoofingVerify).LivenessScoreCrop = livenessCrop ∧
      (⟨false, true, true, 1, 1, 9 / 10, 9 / 10, 0, 3 / 10⟩ :
        FaceAntiSpoofingVerify).LivenessScoreFull = livenessFull :=
  passiveVerify_scores_filled ceilSqrt exampleCV
    (examplePipeline (some exampleDetector)
      (.ok [⟨[2], [1, 0]⟩, ⟨[2], [1, 0]⟩, ⟨[2], [1, 0]⟩]) (.ok [⟨[1], [3 / 10]⟩])
      (.ok (9 / 10)) (.ok (9 / 10)) (4 / 10) (58 / 100) (48 / 100))
    exampleImage exampleImage exampleImage
    ⟨false, true, true, 1, 1, 9 / 10, 9 / 10, 0, 3 / 10⟩ (by decide!)

/-- C25: for every `FaceLandmark` the tensor of `ConvertMetadataToTensors` has
shape `(5, 2)` and ten entries, and its rows are, in this order, LeftEye,
RightEye, Nose, LeftMouth, RightMouth, each row the point's `X` then its `Y`,
unchanged; `TensorToPoint2fVector` reads the same five points back. -/
theorem ConvertMetadataToTensors_rows (m : FaceLandmark) :
    (ConvertMetadataToTensors m).shape = [5, 2] ∧
    (ConvertMetadataToTensors m).data =
      [m.LeftEye.X, m.LeftEye.Y, m.RightEye.X, m.RightEye.Y, m.Nose.X, m.Nose.Y,
        m.LeftMouth.X, m.LeftMouth.Y, m.RightMouth.X, m.RightMouth.Y] ∧
    pointsOf (ConvertMetadataToTensors m) =
      [(m.LeftEye.X, m.LeftEye.Y), (m.RightEye.X, m.RightEye.Y), (m.Nose.X, m.Nose.Y),
        (m.LeftMouth.X, m.LeftMouth.Y), (m.RightMouth.X, m.RightMouth.Y)] ∧
    TensorToPoint2fVector (ConvertMetadataToTensors m) =
      some ([(m.LeftEye.X, m.LeftEye.Y), (m.RightEye.X, m.RightEye.Y), (m.Nose.X, m.Nose.Y),
        (m.LeftMouth.X, m.LeftMouth.Y), (m.RightMouth.X, m.RightMouth.Y)], none) := by
  refine ⟨rfl, rfl, ?_, ?_⟩
  · simp [pointsOf, ConvertMetadataToTensors, List.range_succ]
  · simp [TensorToPoint2fVector, ConvertMetadataToTensors, pointsFrom]

/-- The flag that `getFaceQuality` returns is `false`. -/
theorem getFaceQuality_flag (cv : OpenCV) (c : EKYCPipeline) (imgFar imgMid imgNear : Mat)
    (lmkFar lmkMid lmkNear : Option Dense) (m : ℚ) (k : Bool) (e : Option Err)
    (h : c.getFaceQuality cv imgFar imgMid imgNear lmkFar lmkMid lmkNear = some (m, k, e)) :
    k = false := by
  unfold EKYCPipeline.getFaceQuality at h
  simp only at h
  split at h
  · exact absurd h (by simp)
  · simp only [Option.some.injEq, Prod.mk.injEq] at h
    exact h.2.1.symm
  · split at h
    · simp only [Option.some.injEq, Prod.mk.injEq] at h
      exact h.2.1.symm
    · simp only [Option.some.injEq, Prod.mk.injEq] at h
      exact h.2.1.symm

/-- The stages of the active flow leave a `false` mask flag `false`. -/
theorem activeStages_flag (sqrt : ℚ → ℚ) (cv : OpenCV) (c : EKYCPipeline)
    (resp : FaceAntiSpoofingVerify) (imgFar imgMid imgNear : Mat)
    (lmkFar lmkMid lmkNear : Option Dense) (r : FaceAntiSpoofingVerify) (e : Option Err)
    (h0 : resp.IsFaceMask = false)
    (h : c.activeStages sqrt cv resp imgFar imgMid imgNear lmkFar lmkMid lmkNear = some (r, e)) :
    r.IsFaceMask = false := by
  unfold EKYCPipeline.activeStages at h
  split at h
  · exact absurd h (by simp)
  · simp only [Option.some.injEq, Prod.mk.injEq] at h
    rw [← h.1]; exact h0
  · simp only at h
    split at h
    · exact absurd h (by simp)
    · simp only [Option.some.injEq, Prod.mk.injEq] at h
      rw [← h.1]; exact h0
    · rename_i maskScore isFaceMask hq
      have hk := getFaceQuality_flag cv c _ _ _ _ _ _ _ _ _ hq
      split at h
      · exact absurd h (by simp)
      · simp only [Option.some.injEq, Prod.mk.injEq] at h
        rw [← h.1]; exact hk
      · simp only [Option.some.injEq, Prod.mk.injEq] at h
        rw [← h.1]; exact hk

/-- The stages of the passive flow leave a `false` mask flag `false`. -/
theorem passiveStages_flag (sqrt : ℚ → ℚ) (cv : OpenCV) (c : EKYCPipeline)
    (resp : FaceAntiSpoofingVerify) (imgFar imgMid imgNear : Mat)
    (lmkFar lmkMid lmkNear : Option Dense) (r : FaceAntiSpoofingVerify) (e : Option Err)
    (h0 : resp.IsFaceMask = false)
    (h : c.passiveStages sqrt cv resp imgFar imgMid imgNear lmkFar lmkMid lmkNear = some (r, e)) :
    r.IsFaceMask = false := by
  unfold EKYCPipeline.passiveStages at h
  split at h
  · exact absurd h (by simp)
  · simp only at h
    split at h
    · exact absurd h (by simp)
    · simp only [Option.some.injEq, Prod.mk.injEq] at h
      rw [← h.1]; exact h0
    · rename_i maskScore isFaceMask hq
      have hk := getFaceQuality_flag cv c _ _ _ _ _ _ _ _ _ hq
      split at h
      · exact absurd h (by simp)
      · simp only [Option.some.injEq, Prod.mk.injEq] at h
        rw [← h.1]; exact hk
      · simp only [Option.some.injEq, Prod.mk.injEq] at h
        rw [← h.1]; exact hk

/-- C28: the flag that `getFaceQuality` returns is `false` for every input and
every outcome, the result of `getFaceQuality` does not depend on the
configured quality parameters (thresholds included), and so the decision of
`FaceQualityVerify` and the `IsFaceMask` field of every result of the active
and of the passive verification are `false`. -/
theorem isFaceMask_always_false (sqrt : ℚ → ℚ) (cv : OpenCV) (c : EKYCPipeline)
    (imgFar imgMid imgNear : Mat) (lmkFar lmkMid lmkNear : Option Dense) :
    (∀ (m : ℚ) (k : Bool) (e : Option Err),
      c.getFaceQuality cv imgFar imgMid imgNear lmkFar lmkMid lmkNear = some (m, k, e) →
        k = false) ∧
    (∀ p : FaceQualityParams,
      ({ c with FaceQuality := { c.FaceQuality with ModelParams := p } } :
          EKYCPipeline).getFaceQuality cv imgFar imgMid imgNear lmkFar lmkMid lmkNear =
        c.getFaceQuality cv imgFar imgMid imgNear lmkFar lmkMid lmkNear) ∧
    (∀ (m : ℚ) (k : Bool) (e : Option Err),
      c.FaceQualityVerify cv imgFar imgMid imgNear lmkFar lmkMid lmkNear = some (m, k, e) →
        k = false) ∧
    (∀ (r : FaceAntiSpoofingVerify) (e : Option Err),
      c.FaceAntiSpoofingActiveVerify sqrt cv imgFar imgMid imgNear lmkFar lmkMid lmkNear =
        some (r, e) → r.IsFaceMask = false) ∧
    (∀ (r : FaceAntiSpoofingVerify) (e : Option Err),
      c.FaceAntiSpoofingPassiveVerify sqrt cv imgFar imgMid imgNear = some (r, e) →
        r.IsFaceMask = false) := by
  refine ⟨fun m k e h => getFaceQuality_flag cv c _ _ _ _ _ _ m k e h, fun p => rfl,
    fun m k e h => getFaceQuality_flag cv c _ _ _ _ _ _ m k e h, ?_, ?_⟩
  · intro r e h
    unfold EKYCPipeline.FaceAntiSpoofingActiveVerify at h
    simp only at h
    split at h
    · exact absurd h (by simp)
    · simp only [Option.some.injEq, Prod.mk.injEq] at h
      rw [← h.1]; rfl
    · split at h
      · exact absurd h (by simp)
      · simp only [Option.some.injEq, Prod.mk.injEq] at h
        rw [← h.1]; rfl
      · split at h
        · exact absurd h (by simp)
        · simp only [Option.some.injEq, Prod.mk.injEq] at h
          rw [← h.1]; rfl
        · exact activeStages_flag sqrt cv c _ _ _ _ _ _ _ r e rfl h
  · intro r e h
    unfold EKYCPipeline.FaceAntiSpoofingPassiveVerify at h
    simp only at h
    split at h
    · exact absurd h (by simp)
    · simp only [Option.some.injEq, Prod.mk.injEq] at h
      rw [← h.1]; rfl
    · split at h
      · exact absurd h (by simp)
      · simp only [Option.some.injEq, Prod.mk.injEq] at h
        rw [← h.1]; rfl
      · split at h
        · exact absurd h (by simp)
        · simp only [Option.some.injEq, Prod.mk.injEq] at h
          rw [← h.1]; rfl
        · exact passiveStages_flag sqrt cv c _ _ _ _ _ _ _ r e rfl h

/-- Witness of C28: the quality model answers a mask score of `0.97`, far above
both configured thresholds of `0.5`; `getFaceQuality` returns the score with
the flag `false`. -/
theorem isFaceMask_always_false_witness :
    (examplePipeline none (.ok [⟨[2], [1, 0]⟩, ⟨[2], [1, 0]⟩, ⟨[2], [1, 0]⟩])
        (.ok [⟨[1], [97 / 100]⟩]) (.ok 1) (.ok 1) (4 / 10) (58 / 100)
        (48 / 100)).getFaceQuality exampleCV exampleImage exampleImage exampleImage
        (some exampleLandmark) (some exampleLandmark) (some exampleLandmark) =
      some (97 / 100, false, none) ∧ false = false :=
  ⟨by decide!,
    (isFaceMask_always_false ceilSqrt exampleCV
      (examplePipeline none (.ok [⟨[2], [1, 0]⟩, ⟨[2], [1, 0]⟩, ⟨[2], [1, 0]⟩])
        (.ok [⟨[1], [97 / 100]⟩]) (.ok 1) (.ok 1) (4 / 10) (58 / 100) (48 / 100))
      exampleImage exampleImage exampleImage
      (some exampleLandmark) (some exampleLandmark) (some exampleLandmark)).1
      (97 / 100) false none (by decide!)⟩

/-- C24 (evaluation at the failing input): with no template given,
`NewFaceHelperClient` for `faceSize = 112` keeps the canonical template, and
for `faceSize = 224` it stores the canonical template divided by `2`, in a
crop of 224 by 224: the first coordinate is `19.1473`, where twice the
canonical coordinate is `76.5892`.  For `faceSize = 112 * k` with `k ≥ 1` the
stored template is the canonical one divided by `k`. -/
theorem NewFaceHelperClient_template_divided :
    (NewFaceHelperClient (.ok exampleDetector) 112 0 0 none none none).1.map
        (fun c => c.faceTemplate) = some exampleFaceTemplate ∧
    (NewFaceHelperClient (.ok exampleDetector) 224 0 0 none none none).1.map
        (fun c => (c.faceSize, c.faceTemplate)) =
      some ((224, 224), divScalar exampleFaceTemplate 2) ∧
    (divScalar exampleFaceTemplate 2).data.getD 0 0 = 19.1473 ∧
    2 * exampleFaceTemplate.data.getD 0 0 = 76.5892 ∧
    (∀ k : Nat,
      (NewFaceHelperClient (.ok exampleDetector) (112 * ((k : Int) + 1)) 0 0 none none none).1.map
          (fun c => c.faceTemplate) =
        some (divScalar exampleFaceTemplate ((k : ℚ) + 1))) := by
  refine ⟨by decide!, by decide!, by decide!, by decide!, ?_⟩
  intro k
  have h0 : ¬ (112 * ((k : Int) + 1) = 0) := by omega
  have h1 : Int.tdiv (112 * ((k : Int) + 1)) 112 = (k : Int) + 1 :=
    Int.mul_tdiv_cancel_left _ (by norm_num)
  have h2 : (⟨[5, 2], [38.2946, 51.6963, 73.5318, 51.5014, 56.0252, 71.7366, 41.5493, 92.3655,
      70.7299, 92.2041]⟩ : Dense) = exampleFaceTemplate := by decide!
  simp only [NewFaceHelperClient, if_neg h0, h1, h2, Option.map_some', Int.cast_add,
    Int.cast_natCast, Int.cast_one]

/-- A detection that the loop body of `GetFaceLandmarks5` appends is appended
as its shifted box and its shifted landmark. -/
theorem filterStep_emit (sqrt : ℚ → ℚ) (scoreThreshold : ℚ) (eyeDistanceThreshold : Option ℚ)
    (offX offY : Int) (r : FaceDetectionOutput) (b l : Dense)
    (h : filterStep sqrt scoreThreshold eyeDistanceThreshold offX offY r = some (.emit (b, l))) :
    b = shiftBox offX offY r ∧ l = shiftLandmark offX offY r := by
  unfold filterStep at h
  dsimp only at h
  by_cases h1 : shapeEq r.Box.shape [1, 4] = false
  · have e : tensorSub r.Box
        ⟨[1, 4], [f32 (offX : ℚ), f32 (offY : ℚ), f32 (offX : ℚ), f32 (offY : ℚ)]⟩ =
        (none, some "shape mismatch") := by
      simp [tensorSub, h1]
    rw [e] at h
    exact absurd h (by simp)
  · have e : tensorSub r.Box
        ⟨[1, 4], [f32 (offX : ℚ), f32 (offY : ℚ), f32 (offX : ℚ), f32 (offY : ℚ)]⟩ =
        (some (shiftBox offX offY r), none) := by
      simp [tensorSub, shiftBox, h1]
    rw [e] at h
    dsimp only at h
    by_cases h2 : shapeEq r.Landmark.shape [1, 10] = false
    · have e2 : tensorSub r.Landmark ⟨[1, 10],
          [f32 (offX : ℚ), f32 (offY : ℚ), f32 (offX : ℚ), f32 (offY : ℚ), f32 (offX : ℚ),
            f32 (offY : ℚ), f32 (offX : ℚ), f32 (offY : ℚ), f32 (offX : ℚ), f32 (offY : ℚ)]⟩ =
          (none, some "shape mismatch") := by
        simp [tensorSub, h2]
      rw [e2] at h
      exact absurd h (by simp)
    · have e2 : tensorSub r.Landmark ⟨[1, 10],
          [f32 (offX : ℚ), f32 (offY : ℚ), f32 (offX : ℚ), f32 (offY : ℚ), f32 (offX : ℚ),
            f32 (offY : ℚ), f32 (offX : ℚ), f32 (offY : ℚ), f32 (offX : ℚ), f32 (offY : ℚ)]⟩ =
          (some ⟨r.Landmark.shape, (shiftLandmark offX offY r).data⟩, none) := by
        simp [tensorSub, shiftLandmark, h2]
      rw [e2] at h
      dsimp only at h
      repeat' (split at h)
      all_goals first
        | (simp only [Option.some.injEq, Step.emit.injEq, Prod.mk.injEq] at h
           exact ⟨h.1.symm, h.2.symm⟩)
        | exact absurd h (by simp)
/-- When the detection loop of `GetFaceLandmarks5` ends without error, the
lists it returns are the shifted boxes and the shifted landmarks of the
detections it kept, in order. -/
theorem filterLoop_kept (sqrt : ℚ → ℚ) (scoreThreshold : ℚ) (eyeDistanceThreshold : Option ℚ)
    (offX offY : Int) (results : List FaceDetectionOutput) (acc : List Dense × List Dense)
    (bs ls : List Dense)
    (h : filterLoop sqrt scoreThreshold eyeDistanceThreshold offX offY results acc =
      some (bs, ls, none)) :
    bs = acc.1 ++ (results.filter
        (isKept sqrt scoreThreshold eyeDistanceThreshold offX offY)).map (shiftBox offX offY) ∧
    ls = acc.2 ++ (results.filter
        (isKept sqrt scoreThreshold eyeDistanceThreshold offX offY)).map
          (shiftLandmark offX offY) := by
  induction results generalizing acc with
  | nil =>
    simp only [filterLoop, Option.some.injEq, Prod.mk.injEq, and_true] at h
    simp [h.1, h.2]
  | cons r rs ih =>
    unfold filterLoop at h
    cases hs : filterStep sqrt scoreThreshold eyeDistanceThreshold offX offY r with
    | none =>
      rw [hs] at h
      exact absurd h (by simp)
    | some step =>
      rw [hs] at h
      cases step with
      | fail e => exact absurd h (by simp)
      | skip =>
        have hk : isKept sqrt scoreThreshold eyeDistanceThreshold offX offY r = false := by
          simp [isKept, hs]
        have := ih acc h
        rw [List.filter_cons_of_neg (by simp [hk])]
        exact this
      | emit p =>
        obtain ⟨b, l⟩ := p
        have hk : isKept sqrt scoreThreshold eyeDistanceThreshold offX offY r = true := by
          simp [isKept, hs]
        obtain ⟨hb, hl⟩ := filterStep_emit sqrt scoreThreshold eyeDistanceThreshold offX offY
          r b l hs
        have := ih (acc.1 ++ [b], acc.2 ++ [l]) h
        rw [List.filter_cons_of_pos hk]
        simp only [List.map_cons, ← hb, ← hl]
        simpa using this

/-- On a well-formed detection the loop keeps exactly the face candidates. -/
theorem isKept_eq_isCandidate (sqrt : ℚ → ℚ) (scoreThreshold : ℚ)
    (eyeDistanceThreshold : Option ℚ) (offX offY : Int) (r : FaceDetectionOutput)
    (hwf : wellFormed r) :
    isKept sqrt scoreThreshold eyeDistanceThreshold offX offY r =
      isCandidate sqrt scoreThreshold eyeDistanceThreshold offX offY r := by
  unfold isKept
  rw [filterStep_eq sqrt scoreThreshold eyeDistanceThreshold offX offY r hwf]
  cases isCandidate sqrt scoreThreshold eyeDistanceThreshold offX offY r <;> simp

/-- With a selection flag set, `selectFace` never skips an image: an empty
candidate list gives the pair of `nil`s, a non-empty one a box and the landmark
at the same index. -/
theorem selectFace_flag (sqrt : ℚ → ℚ) (keepLargest keepCenter : Bool) (img : Mat)
    (filterBBoxes filterLandmarks : List Dense) (step : Step (Option Dense × Option Dense))
    (hflag : keepLargest = true ∨ keepCenter = true)
    (h : selectFace sqrt keepLargest keepCenter img filterBBoxes filterLandmarks = some step) :
    (∃ e, step = .fail e) ∨
      (filterBBoxes = [] ∧ step = .emit (none, none)) ∨
      (∃ (i : Nat) (b l : Dense), filterBBoxes[i]? = some b ∧ filterLandmarks[i]? = some l ∧
        step = .emit (some b, some l)) := by
  unfold selectFace at h
  by_cases h0 : filterBBoxes.length = 0
  · rw [if_pos h0, if_pos hflag] at h
    simp only [Option.some.injEq] at h
    exact Or.inr (Or.inl ⟨List.length_eq_zero.1 h0, h.symm⟩)
  · rw [if_neg h0] at h
    by_cases hl : keepLargest = true
    · rw [if_pos hl] at h
      dsimp only at h
      cases hg : getLargestFace filterBBoxes (img.rows : Int) (img.cols : Int) with
      | none =>
        rw [hg] at h
        exact absurd h (by simp)
      | some res =>
        obtain ⟨face, idx, e⟩ := res
        rw [hg] at h
        obtain ⟨hidx, he⟩ := getLargestFace_index filterBBoxes _ _ face idx e hg
        subst he
        dsimp only at h
        cases hlm : filterLandmarks[idx]? with
        | none =>
          rw [hlm] at h
          exact absurd h (by simp)
        | some l =>
          rw [hlm] at h
          simp only [Option.some.injEq] at h
          exact Or.inr (Or.inr ⟨idx, face, l, hidx, hlm, h.symm⟩)
    · rw [if_neg hl] at h
      have hc : keepCenter = true := by
        rcases hflag with h1 | h1
        · exact absurd h1 hl
        · exact h1
      rw [if_pos hc] at h
      dsimp only at h
      cases hg : GetCenterFace sqrt filterBBoxes (some (img.rows : Int))
          (some (img.cols : Int)) none with
      | none =>
        rw [hg] at h
        exact absurd h (by simp)
      | some res =>
        obtain ⟨face, idx, e⟩ := res
        rw [hg] at h
        cases e with
        | some err =>
          simp only [Option.some.injEq] at h
          exact Or.inl ⟨err, h.symm⟩
        | none =>
          obtain ⟨f, hf, hpos, hidx⟩ := GetCenterFace_index sqrt filterBBoxes _ _ _ face idx hg
          subst hf
          dsimp only at h
          cases hlm : filterLandmarks[idx.toNat]? with
          | none =>
            rw [hlm] at h
            exact absurd h (by simp)
          | some l =>
            rw [hlm] at h
            simp only [Option.some.injEq] at h
            exact Or.inr (Or.inr ⟨idx.toNat, f, l, hidx, hlm, h.symm⟩)
/-- With a selection flag set, the body of the image loop either fails or
produces one pair for the image: the pair of `nil`s when no detection of the
image is kept, else the shifted box and the shifted landmark of one kept
detection. -/
theorem imageStep_flag (sqrt : ℚ → ℚ) (cv : OpenCV) (faceDet : FaceDetectionClient)
    (keepLargest keepCenter : Bool) (scoreThreshold : ℚ) (eyeDistanceThreshold : Option ℚ)
    (tryPadding : Bool) (batchResults : List (List FaceDetectionOutput)) (img : Mat) (idx : Nat)
    (step : Step (Option Dense × Option Dense))
    (hflag : keepLargest = true ∨ keepCenter = true)
    (h : imageStep sqrt cv faceDet keepLargest keepCenter scoreThreshold eyeDistanceThreshold
      tryPadding batchResults img idx = some step) :
    ∃ results0, batchResults[idx]? = some results0 ∧
      ((∃ e, step = .fail e) ∨
        ((paddingRetry cv faceDet tryPadding img results0).1.filter
            (isKept sqrt scoreThreshold eyeDistanceThreshold
              (paddingRetry cv faceDet tryPadding img results0).2.1
              (paddingRetry cv faceDet tryPadding img results0).2.2) = [] ∧
          step = .emit (none, none)) ∨
        (∃ r ∈ (paddingRetry cv faceDet tryPadding img results0).1.filter
            (isKept sqrt scoreThreshold eyeDistanceThreshold
              (paddingRetry cv faceDet tryPadding img results0).2.1
              (paddingRetry cv faceDet tryPadding img results0).2.2),
          step = .emit
            (some (shiftBox (paddingRetry cv faceDet tryPadding img results0).2.1
              (paddingRetry cv faceDet tryPadding img results0).2.2 r),
             some (shiftLandmark (paddingRetry cv faceDet tryPadding img results0).2.1
              (paddingRetry cv faceDet tryPadding img results0).2.2 r)))) := by
  unfold imageStep at h
  cases hb : batchResults[idx]? with
  | none =>
    rw [hb] at h
    exact absurd h (by simp)
  | some results0 =>
    rw [hb] at h
    dsimp only at h
    refine ⟨results0, rfl, ?_⟩
    cases hf : filterLoop sqrt scoreThreshold eyeDistanceThreshold
        (paddingRetry cv faceDet tryPadding img results0).2.1
        (paddingRetry cv faceDet tryPadding img results0).2.2
        (paddingRetry cv faceDet tryPadding img results0).1 ([], []) with
    | none =>
      rw [hf] at h
      exact absurd h (by simp)
    | some res =>
      obtain ⟨fb, fl, e⟩ := res
      rw [hf] at h
      cases e with
      | some err =>
        simp only [Option.some.injEq] at h
        exact Or.inl ⟨err, h.symm⟩
      | none =>
        dsimp only at h
        obtain ⟨hfb, hfl⟩ := filterLoop_kept sqrt scoreThreshold eyeDistanceThreshold _ _ _ _
          fb fl hf
        simp only [List.nil_append] at hfb hfl
        rcases selectFace_flag sqrt keepLargest keepCenter img fb fl step hflag h with
          he | ⟨hnil, hs⟩ | ⟨i, b, l, hib, hil, hs⟩
        · exact Or.inl he
        · refine Or.inr (Or.inl ⟨?_, hs⟩)
          rw [hfb] at hnil
          exact List.map_eq_nil_iff.1 hnil
        · refine Or.inr (Or.inr ?_)
          rw [hfb, List.getElem?_map] at hib
          rw [hfl, List.getElem?_map] at hil
          cases hr : ((paddingRetry cv faceDet tryPadding img results0).1.filter
              (isKept sqrt scoreThreshold eyeDistanceThreshold
                (paddingRetry cv faceDet tryPadding img results0).2.1
                (paddingRetry cv faceDet tryPadding img results0).2.2))[i]? with
          | none =>
            rw [hr] at hib
            exact absurd hib (by simp)
          | some r =>
            rw [hr] at hib hil
            simp only [Option.map_some', Option.some.injEq] at hib hil
            exact ⟨r, List.getElem?_mem hr, by rw [hs, hib, hil]⟩

/-- With a selection flag set, an image loop that ends without error has
appended exactly one pair per image, in order: the pair that the loop body
produces for that image. -/
theorem imageLoop_flag (sqrt : ℚ → ℚ) (cv : OpenCV) (faceDet : FaceDetectionClient)
    (keepLargest keepCenter : Bool) (scoreThreshold : ℚ) (eyeDistanceThreshold : Option ℚ)
    (tryPadding : Bool) (batchResults : List (List FaceDetectionOutput)) (imgs : List Mat)
    (idx : Nat) (acc : List (Option Dense) × List (Option Dense))
    (bs ls : List (Option Dense)) (hflag : keepLargest = true ∨ keepCenter = true)
    (h : imageLoop sqrt cv faceDet keepLargest keepCenter scoreThreshold eyeDistanceThreshold
      tryPadding batchResults imgs idx acc = some (bs, ls, none)) :
    ∃ pairs : List (Option Dense × Option Dense),
      bs = acc.1 ++ pairs.map (fun p => p.1) ∧ ls = acc.2 ++ pairs.map (fun p => p.2) ∧
      pairs.length = imgs.length ∧
      ∀ k img, imgs[k]? = some img → ∃ p, pairs[k]? = some p ∧
        imageStep sqrt cv faceDet keepLargest keepCenter scoreThreshold eyeDistanceThreshold
          tryPadding batchResults img (idx + k) = some (.emit p) := by
  induction imgs generalizing idx acc with
  | nil =>
    simp only [imageLoop, Option.some.injEq, Prod.mk.injEq, and_true] at h
    exact ⟨[], by simp [h.1], by simp [h.2], rfl, by simp⟩
  | cons img rest ih =>
    unfold imageLoop at h
    cases hs : imageStep sqrt cv faceDet keepLargest keepCenter scoreThreshold
        eyeDistanceThreshold tryPadding batchResults img idx with
    | none =>
      rw [hs] at h
      exact absurd h (by simp)
    | some step =>
      rw [hs] at h
      obtain ⟨results0, _, hcase⟩ := imageStep_flag sqrt cv faceDet keepLargest keepCenter
        scoreThreshold eyeDistanceThreshold tryPadding batchResults img idx step hflag hs
      cases step with
      | fail e => exact absurd h (by simp)
      | skip =>
        rcases hcase with ⟨e, he⟩ | ⟨_, he⟩ | ⟨r, _, he⟩ <;> exact absurd he (by simp)
      | emit p =>
        obtain ⟨box, lmk⟩ := p
        dsimp only at h
        obtain ⟨pairs, hbs, hls, hlen, hall⟩ := ih (idx + 1) (acc.1 ++ [box], acc.2 ++ [lmk]) h
        refine ⟨(box, lmk) :: pairs, by simp [hbs], by simp [hls], by simp [hlen], ?_⟩
        intro k im hk
        cases k with
        | zero =>
          simp only [List.getElem?_cons_zero, Option.some.injEq] at hk
          subst hk
          exact ⟨(box, lmk), List.getElem?_cons_zero, hs⟩
        | succ k =>
          simp only [List.getElem?_cons_succ] at hk
          obtain ⟨p, hp, hstep⟩ := hall k im hk
          refine ⟨p, by simpa using hp, ?_⟩
          rw [show idx + (k + 1) = idx + 1 + k by omega]
          exact hstep

/-- The call of `GetFaceLandmarks5` on a client with a detection client, its
optional arguments replaced by their defaults. -/
theorem GetFaceLandmarks5_defaults (sqrt : ℚ → ℚ) (cv : OpenCV) (c : FaceHelperClient)
    (faceDet : FaceDetectionClient) (batchImages : List Mat)
    (keepLargest keepCenter : Option Bool) (scoreThreshold eyeDistanceThreshold : Option ℚ)
    (tryPadding : Option Bool) (hdet : c.faceDet = some faceDet) :
    c.GetFaceLandmarks5 sqrt cv batchImages keepLargest keepCenter scoreThreshold
        eyeDistanceThreshold tryPadding =
      match faceDet.InferBatch [batchImages] with
      | .error err => some ([], [], some err)
      | .ok batchResults =>
        imageLoop sqrt cv faceDet (keepLargest.getD false) (keepCenter.getD false)
          (scoreThreshold.getD (1 / 2)) eyeDistanceThreshold (tryPadding.getD false)
          batchResults batchImages 0 ([], []) := by
  unfold FaceHelperClient.GetFaceLandmarks5
  rw [hdet]
  cases keepLargest <;> cases keepCenter <;> cases scoreThreshold <;> cases tryPadding <;> rfl

/-- C29 (counterexample): a helper client without a detection client, called
on one image with `keepLargest` set, returns no error and two empty lists:
there is no entry for the image. -/
theorem GetFaceLandmarks5_no_detector_no_entry :
    (exampleHelper none).GetFaceLandmarks5 ceilSqrt exampleCV [exampleImage] (some true) none
        none none none = some ([], [], none) ∧
    ([] : List (Option Dense)).length ≠ [exampleImage].length := by
  decide!

/-- C29 (amended): when `GetFaceLandmarks5` is called on a client that has a
detection client, with `keepLargest` or `keepCenter` set, and returns without
error, the
box list and the landmark list both have one entry per input image, in input
order: for the image at index `k` both entries are `nil` when the image has no
face candidate, and otherwise they are the shifted box and the shifted
landmark of one and the same candidate.  On well-formed detections the
candidates are the detections that pass the score and eye-distance filter. -/
theorem GetFaceLandmarks5_one_entry_per_image (sqrt : ℚ → ℚ) (cv : OpenCV)
    (c : FaceHelperClient) (faceDet : FaceDetectionClient) (batchImages : List Mat)
    (keepLargest keepCenter : Option Bool) (scoreThreshold eyeDistanceThreshold : Option ℚ)
    (tryPadding : Option Bool) (boxes lmks : List (Option Dense))
    (hdet : c.faceDet = some faceDet)
    (hflag : keepLargest = some true ∨ keepCenter = some true)
    (h : c.GetFaceLandmarks5 sqrt cv batchImages keepLargest keepCenter scoreThreshold
      eyeDistanceThreshold tryPadding = some (boxes, lmks, none)) :
    boxes.length = batchImages.length ∧ lmks.length = batchImages.length ∧
    (∃ batchResults, faceDet.InferBatch [batchImages] = .ok batchResults ∧
      ∀ (k : Nat) (img : Mat), batchImages[k]? = some img →
        ∃ (results0 : List FaceDetectionOutput) (box lmk : Option Dense),
          batchResults[k]? = some results0 ∧ boxes[k]? = some box ∧ lmks[k]? = some lmk ∧
          ((candidatesOf sqrt cv faceDet (scoreThreshold.getD (1 / 2)) eyeDistanceThreshold
                (tryPadding.getD false) img results0 = [] ∧ box = none ∧ lmk = none) ∨
            (∃ r ∈ candidatesOf sqrt cv faceDet (scoreThreshold.getD (1 / 2))
                eyeDistanceThreshold (tryPadding.getD false) img results0,
              box = some (shiftBox
                (paddingRetry cv faceDet (tryPadding.getD false) img results0).2.1
                (paddingRetry cv faceDet (tryPadding.getD false) img results0).2.2 r) ∧
              lmk = some (shiftLandmark
                (paddingRetry cv faceDet (tryPadding.getD false) img results0).2.1
                (paddingRetry cv faceDet (tryPadding.getD false) img results0).2.2 r)))) ∧
    (∀ (offX offY : Int) (r : FaceDetectionOutput), wellFormed r →
      isKept sqrt (scoreThreshold.getD (1 / 2)) eyeDistanceThreshold offX offY r =
        isCandidate sqrt (scoreThreshold.getD (1 / 2)) eyeDistanceThreshold offX offY r) := by
  have hflag2 : keepLargest.getD false = true ∨ keepCenter.getD false = true := by
    rcases hflag with h1 | h1
    · left; rw [h1]; rfl
    · right; rw [h1]; rfl
  rw [GetFaceLandmarks5_defaults sqrt cv c faceDet batchImages keepLargest keepCenter
    scoreThreshold eyeDistanceThreshold tryPadding hdet] at h
  cases hb : faceDet.InferBatch [batchImages] with
  | error err =>
    rw [hb] at h
    exact absurd h (by simp)
  | ok batchResults =>
    rw [hb] at h
    dsimp only at h
    obtain ⟨pairs, hbs, hls, hlen, hall⟩ := imageLoop_flag sqrt cv faceDet _ _ _ _ _
      batchResults batchImages 0 ([], []) boxes lmks hflag2 h
    simp only [List.nil_append] at hbs hls
    refine ⟨by rw [hbs, List.length_map, hlen], by rw [hls, List.length_map, hlen],
      ⟨batchResults, rfl, ?_⟩,
      fun offX offY r hwf => isKept_eq_isCandidate sqrt _ _ offX offY r hwf⟩
    intro k img hk
    obtain ⟨p, hp, hstep⟩ := hall k img hk
    rw [Nat.zero_add] at hstep
    obtain ⟨results0, hr0, hcase⟩ := imageStep_flag sqrt cv faceDet _ _ _ _ _ batchResults
      img k _ hflag2 hstep
    refine ⟨results0, p.1, p.2, hr0, by rw [hbs, List.getElem?_map, hp]; rfl,
      by rw [hls, List.getElem?_map, hp]; rfl, ?_⟩
    rcases hcase with ⟨e, he⟩ | ⟨hnil, he⟩ | ⟨r, hr, he⟩
    · exact absurd he (by simp)
    · simp only [Step.emit.injEq] at he
      left
      exact ⟨hnil, by rw [he], by rw [he]⟩
    · simp only [Step.emit.injEq] at he
      right
      exact ⟨r, hr, by rw [he], by rw [he]⟩

/-- Witness of C29 (amended): a batch of a 480-by-640 image, in which the detector finds
one face, and a 100-by-100 image, in which it finds none; with `keepLargest`
the call returns two boxes and two landmarks, the second of each `nil`. -/
theorem GetFaceLandmarks5_one_entry_per_image_witness :
    (exampleHelper (some selectiveDetector)).GetFaceLandmarks5 ceilSqrt exampleCV
        [exampleImage, ⟨100, 100, []⟩] (some true) none none none none =
      some ([some (shiftBox 0 0 exampleDetection), none],
        [some (shiftLandmark 0 0 exampleDetection), none], none) ∧
    [some (shiftBox 0 0 exampleDetection), none].length =
      [exampleImage, (⟨100, 100, []⟩ : Mat)].length ∧
    [some (shiftLandmark 0 0 exampleDetection), none].length =
      [exampleImage, (⟨100, 100, []⟩ : Mat)].length :=
  ⟨by decide!,
    (GetFaceLandmarks5_one_entry_per_image ceilSqrt exampleCV
      (exampleHelper (some selectiveDetector)) selectiveDetector
      [exampleImage, ⟨100, 100, []⟩] (some true) none none none none
      [some (shiftBox 0 0 exampleDetection), none]
      [some (shiftLandmark 0 0 exampleDetection), none] rfl (Or.inl rfl) (by decide!)).1,
    (GetFaceLandmarks5_one_entry_per_image ceilSqrt exampleCV
      (exampleHelper (some selectiveDetector)) selectiveDetector
      [exampleImage, ⟨100, 100, []⟩] (some true) none none none none
      [some (shiftBox 0 0 exampleDetection), none]
      [some (shiftLandmark 0 0 exampleDetection), none] rfl (Or.inl rfl) (by decide!)).2.1⟩

/-- On a non-negative length `getLocation` is the clamp to `[0, length]`. -/
theorem getLocation_eq_clamp (val length : ℚ) (hl : 0 ≤ length) :
    getLocation val length = clamp val 0 length := by
  unfold getLocation clamp
  by_cases h1 : val < 0
  · rw [if_pos h1, min_eq_left (by linarith), max_eq_left (le_of_lt h1)]
  · rw [if_neg h1]
    push_neg at h1
    by_cases h2 : val > length
    · rw [if_pos h2, min_eq_right (le_of_lt h2), max_eq_right hl]
    · rw [if_neg h2]
      push_neg at h2
      rw [min_eq_left h2, max_eq_right h1]

/-- A box with four entries has the `float32` clipped area of the claims. -/
theorem faceArea_eq (box : Dense) (h w : Nat) (hlen : 4 ≤ box.data.length) :
    faceArea box.data (h : Int) (w : Int) = some (clippedArea32 box h w) := by
  obtain ⟨shape, data⟩ := box
  have hw : (0 : ℚ) ≤ f32 (w : ℚ) := f32_nonneg _ (Nat.cast_nonneg w)
  have hh : (0 : ℚ) ≤ f32 (h : ℚ) := f32_nonneg _ (Nat.cast_nonneg h)
  match data, hlen with
  | a :: b :: c :: d :: rest, _ =>
    simp only [faceArea, clippedArea32, List.getD_cons_zero, List.getD_cons_succ,
      List.getElem?_cons_zero, List.getElem?_cons_succ, Option.pure_def, Option.bind_eq_bind,
      Option.some_bind, Int.cast_natCast]
    rw [getLocation_eq_clamp _ _ hw, getLocation_eq_clamp _ _ hw,
      getLocation_eq_clamp _ _ hh, getLocation_eq_clamp _ _ hh]

/-- The areas computed by the first loop of `getLargestFace`. -/
theorem faceAreas_eq (detFaces : List Dense) (h w : Nat)
    (hwf : ∀ d ∈ detFaces, 4 ≤ d.data.length) :
    detFaces.mapM (fun detFace => faceArea detFace.data (h : Int) (w : Int)) =
      some (detFaces.map (fun d => clippedArea32 d h w)) := by
  induction detFaces with
  | nil => rfl
  | cons d ds ih =>
    rw [List.mapM_cons, faceArea_eq d h w (hwf d (List.mem_cons_self _ _)),
      ih (fun x hx => hwf x (List.mem_cons_of_mem _ hx))]
    rfl

/-- The left fold of `max` is an upper bound of its start value and of the list. -/
theorem foldl_max_ge (xs : List ℚ) (x : ℚ) :
    x ≤ xs.foldl max x ∧ ∀ y ∈ xs, y ≤ xs.foldl max x := by
  induction xs generalizing x with
  | nil => simp
  | cons z zs ih =>
    simp only [List.foldl_cons, List.mem_cons, forall_eq_or_imp]
    obtain ⟨h1, h2⟩ := ih (max x z)
    exact ⟨le_trans (le_max_left x z) h1, le_trans (le_max_right x z) h1, h2⟩

/-- The left fold of `max` is its start value or an element of the list. -/
theorem foldl_max_mem (xs : List ℚ) (x : ℚ) : xs.foldl max x = x ∨ xs.foldl max x ∈ xs := by
  induction xs generalizing x with
  | nil => simp
  | cons z zs ih =>
    simp only [List.foldl_cons, List.mem_cons]
    rcases ih (max x z) with h | h
    · rcases max_choice x z with h2 | h2
      · left; rw [h, h2]
      · right; left; rw [h, h2]
    · right; right; exact h

/-- The function `slicesMax` returns an element of a non-empty list that bounds the list. -/
theorem slicesMax_spec (l : List ℚ) (hne : l ≠ []) :
    ∃ m, slicesMax l = some m ∧ m ∈ l ∧ ∀ y ∈ l, y ≤ m := by
  cases l with
  | nil => exact absurd rfl hne
  | cons x xs =>
    refine ⟨xs.foldl max x, rfl, ?_, ?_⟩
    · rcases foldl_max_mem xs x with h | h
      · rw [h]; exact List.mem_cons_self _ _
      · exact List.mem_cons_of_mem _ h
    · intro y hy
      rcases List.mem_cons.1 hy with h | h
      · rw [h]; exact (foldl_max_ge xs x).1
      · exact (foldl_max_ge xs x).2 y h

/-- When `m` occurs in the list, `firstMaxIdx` entered at `k` returns `k + i`
for the first position `i` holding `m`. -/
theorem firstMaxIdx_spec (m : ℚ) (l : List ℚ) (k : Nat) (hm : m ∈ l) :
    ∃ i, firstMaxIdx m l k = k + i ∧ l[i]? = some m ∧ ∀ j, j < i → l[j]? ≠ some m := by
  induction l generalizing k with
  | nil => simp at hm
  | cons x xs ih =>
    by_cases hx : x = m
    · refine ⟨0, ?_, ?_, ?_⟩
      · simp [firstMaxIdx, hx]
      · simp [hx]
      · intro j hj; omega
    · have hm2 : m ∈ xs := by
        rcases List.mem_cons.1 hm with h | h
        · exact absurd h.symm hx
        · exact h
      obtain ⟨i, h1, h2, h3⟩ := ih (k + 1) hm2
      refine ⟨i + 1, ?_, ?_, ?_⟩
      · simp only [firstMaxIdx, if_neg hx, h1]; omega
      · simpa using h2
      · intro j hj
        cases j with
        | zero => simpa using hx
        | succ j => simpa using h3 j (by omega)

/-- On well-formed boxes `getLargestFace` is: take the maximum of the `float32`
clipped areas, find its first position, return the box there. -/
theorem getLargestFace_eq (detFaces : List Dense) (h w : Nat)
    (hwf : ∀ d ∈ detFaces, 4 ≤ d.data.length) :
    getLargestFace detFaces (h : Int) (w : Int) =
      (slicesMax (detFaces.map (fun d => clippedArea32 d h w))).bind (fun m =>
        (detFaces[firstMaxIdx m (detFaces.map (fun d => clippedArea32 d h w)) 0]?).bind
          (fun face =>
            some (face, firstMaxIdx m (detFaces.map (fun d => clippedArea32 d h w)) 0, none))) := by
  unfold getLargestFace
  rw [faceAreas_eq detFaces h w hwf]
  rfl

/-- On a non-empty list of boxes with four entries `getLargestFace` returns
the first box of maximal `float32` clipped area and its index. -/
theorem getLargestFace_first_max (detFaces : List Dense) (h w : Nat) (hne : detFaces ≠ [])
    (hwf : ∀ d ∈ detFaces, 4 ≤ d.data.length) :
    ∃ i face, getLargestFace detFaces (h : Int) (w : Int) = some (face, i, none) ∧
      detFaces[i]? = some face ∧
      (∀ d ∈ detFaces, clippedArea32 d h w ≤ clippedArea32 face h w) ∧
      (∀ j d, j < i → detFaces[j]? = some d → clippedArea32 d h w ≠ clippedArea32 face h w) := by
  have hne2 : detFaces.map (fun d => clippedArea32 d h w) ≠ [] := by
    simpa using hne
  obtain ⟨m, hm1, hm2, hm3⟩ := slicesMax_spec _ hne2
  obtain ⟨i, hi1, hi2, hi3⟩ := firstMaxIdx_spec m _ 0 hm2
  rw [Nat.zero_add] at hi1
  rw [List.getElem?_map] at hi2
  cases hf : detFaces[i]? with
  | none => rw [hf] at hi2; simp at hi2
  | some face =>
    rw [hf] at hi2
    simp only [Option.map_some', Option.some.injEq] at hi2
    refine ⟨i, face, ?_, hf, ?_, ?_⟩
    · rw [getLargestFace_eq detFaces h w hwf, hm1]
      simp only [Option.some_bind, hi1, hf]
    · intro d hd
      rw [hi2]
      exact hm3 _ (List.mem_map_of_mem _ hd)
    · intro j d hj hjd
      have := hi3 j hj
      rw [List.getElem?_map, hjd] at this
      simp only [Option.map_some', ne_eq, Option.some.injEq] at this
      rw [hi2]
      exact this

/-- C5 (counterexample): in a 5000-by-5000 image the box `(0, 0, 4096, 4098)`
has the clipped area 16785408 and the box `(0, 0, 4097, 4097)` the larger
clipped area 16785409; both `float32` areas are 16785408, and
`getLargestFace` returns the first box with index 0, which is not a box of
maximal clipped area. -/
theorem getLargestFace_float_tie :
    getLargestFace [⟨[4], [0, 0, 4096, 4098]⟩, ⟨[4], [0, 0, 4097, 4097]⟩] 5000 5000 =
      some (⟨[4], [0, 0, 4096, 4098]⟩, 0, none) ∧
    clippedArea ⟨[4], [0, 0, 4096, 4098]⟩ 5000 5000 = 16785408 ∧
    clippedArea ⟨[4], [0, 0, 4097, 4097]⟩ 5000 5000 = 16785409 ∧
    clippedArea32 ⟨[4], [0, 0, 4096, 4098]⟩ 5000 5000 = 16785408 ∧
    clippedArea32 ⟨[4], [0, 0, 4097, 4097]⟩ 5000 5000 = 16785408 := by
  decide!

/-- C5 (amended): on a non-empty list of boxes with four entries and an image
of height `h` and width `w`, `getLargestFace` returns the box at the smallest
index whose `float32` clipped area is the maximum over all boxes, together
with that index; boxes of `float32` areas `[10, 50, 30]` give index 1 and the
tie `[50, 50]` gives index 0. -/
theorem getLargestFace_first_largest :
    (∀ (detFaces : List Dense) (h w : Nat), detFaces ≠ [] →
      (∀ d ∈ detFaces, 4 ≤ d.data.length) →
      ∃ i face, getLargestFace detFaces (h : Int) (w : Int) = some (face, i, none) ∧
        detFaces[i]? = some face ∧
        (∀ d ∈ detFaces, clippedArea32 d h w ≤ clippedArea32 face h w) ∧
        (∀ j d, j < i → detFaces[j]? = some d →
          clippedArea32 d h w ≠ clippedArea32 face h w)) ∧
    (∀ (detFaces : List Dense) (h w : Nat), (∀ d ∈ detFaces, 4 ≤ d.data.length) →
      detFaces.map (fun d => clippedArea32 d h w) = [10, 50, 30] →
      ∃ face, getLargestFace detFaces (h : Int) (w : Int) = some (face, 1, none) ∧
        detFaces[1]? = some face) ∧
    (∀ (detFaces : List Dense) (h w : Nat), (∀ d ∈ detFaces, 4 ≤ d.data.length) →
      detFaces.map (fun d => clippedArea32 d h w) = [50, 50] →
      ∃ face, getLargestFace detFaces (h : Int) (w : Int) = some (face, 0, none) ∧
        detFaces[0]? = some face) := by
  refine ⟨?_, ?_, ?_⟩
  · intro detFaces h w hne hwf
    exact getLargestFace_first_max detFaces h w hne hwf
  · intro detFaces h w hwf hmap
    have hl : detFaces.length = 3 := by
      have := congrArg List.length hmap
      simpa using this
    obtain ⟨a, b, c, rfl⟩ := List.length_eq_three.1 hl
    rw [getLargestFace_eq _ h w hwf, hmap]
    · refine ⟨b, ?_, rfl⟩
      have h1 : slicesMax [10, 50, 30] = some 50 := by decide!
      have h2 : firstMaxIdx 50 [10, 50, 30] 0 = 1 := by decide!
      rw [h1]
      simp only [Option.some_bind, h2]
      rfl
  · intro detFaces h w hwf hmap
    have hl : detFaces.length = 2 := by
      have := congrArg List.length hmap
      simpa using this
    obtain ⟨a, b, rfl⟩ := List.length_eq_two.1 hl
    rw [getLargestFace_eq _ h w hwf, hmap]
    · refine ⟨a, ?_, rfl⟩
      have h1 : slicesMax [50, 50] = some 50 := by decide!
      have h2 : firstMaxIdx 50 [50, 50] 0 = 0 := by decide!
      rw [h1]
      simp only [Option.some_bind, h2]
      rfl

/-- Witness of C5 (amended): three boxes of `float32` clipped areas 10, 50 and
30 in a 100-by-100 image; the second box is returned with index 1, and it is
of maximal `float32` clipped area. -/
theorem getLargestFace_first_largest_witness :
    (∃ i face, getLargestFace
        [⟨[4], [0, 0, 10, 1]⟩, ⟨[4], [0, 0, 50, 1]⟩, ⟨[4], [0, 0, 30, 1]⟩]
        ((100 : Nat) : Int) ((100 : Nat) : Int) = some (face, i, none) ∧
      [(⟨[4], [0, 0, 10, 1]⟩ : Dense), ⟨[4], [0, 0, 50, 1]⟩, ⟨[4], [0, 0, 30, 1]⟩][i]? =
        some face ∧
      (∀ d ∈ [(⟨[4], [0, 0, 10, 1]⟩ : Dense), ⟨[4], [0, 0, 50, 1]⟩, ⟨[4], [0, 0, 30, 1]⟩],
        clippedArea32 d 100 100 ≤ clippedArea32 face 100 100) ∧
      (∀ j d, j < i →
        [(⟨[4], [0, 0, 10, 1]⟩ : Dense), ⟨[4], [0, 0, 50, 1]⟩, ⟨[4], [0, 0, 30, 1]⟩][j]? =
          some d → clippedArea32 d 100 100 ≠ clippedArea32 face 100 100)) ∧
    (∃ face, getLargestFace
        [⟨[4], [0, 0, 10, 1]⟩, ⟨[4], [0, 0, 50, 1]⟩, ⟨[4], [0, 0, 30, 1]⟩]
        ((100 : Nat) : Int) ((100 : Nat) : Int) = some (face, 1, none) ∧
      [(⟨[4], [0, 0, 10, 1]⟩ : Dense), ⟨[4], [0, 0, 50, 1]⟩, ⟨[4], [0, 0, 30, 1]⟩][1]? =
        some face) :=
  ⟨getLargestFace_first_largest.1
      [⟨[4], [0, 0, 10, 1]⟩, ⟨[4], [0, 0, 50, 1]⟩, ⟨[4], [0, 0, 30, 1]⟩] 100 100
      (by decide) (by decide),
    getLargestFace_first_largest.2.1
      [⟨[4], [0, 0, 10, 1]⟩, ⟨[4], [0, 0, 50, 1]⟩, ⟨[4], [0, 0, 30, 1]⟩] 100 100
      (by decide) (by decide!)⟩

/-- A box with four entries is at the `float32` distance `centreDistance32`
from the reference point. -/
theorem centerDistOf_eq (sqrt : ℚ → ℚ) (box : Dense) (x y : ℚ) (hlen : 4 ≤ box.data.length) :
    centerDistOf sqrt ⟨[1, 2], [x, y]⟩ box.data = some (centreDistance32 sqrt box x y, none) := by
  obtain ⟨shape, data⟩ := box
  match data, hlen with
  | a :: b :: c :: d :: rest, _ =>
    simp [centerDistOf, centreDistance32, boxCentre32, ComputeLinearNorm_pair]

/-- On well-formed boxes the loop of `GetCenterFace` appends the distance of
every box, in order. -/
theorem centerDistLoop_eq (sqrt : ℚ → ℚ) (x y : ℚ) (detFaces : List Dense) (acc : List ℚ)
    (hwf : ∀ d ∈ detFaces, 4 ≤ d.data.length) :
    centerDistLoop sqrt ⟨[1, 2], [x, y]⟩ detFaces acc =
      some (acc ++ detFaces.map (fun d => centreDistance32 sqrt d x y), none) := by
  induction detFaces generalizing acc with
  | nil => simp [centerDistLoop]
  | cons d ds ih =>
    simp only [centerDistLoop, centerDistOf_eq sqrt d x y (hwf d (List.mem_cons_self _ _))]
    rw [ih _ (fun z hz => hwf z (List.mem_cons_of_mem _ hz))]
    simp

/-- The left fold of `min` is a lower bound of its start value and of the list. -/
theorem foldl_min_le (xs : List ℚ) (x : ℚ) :
    xs.foldl min x ≤ x ∧ ∀ y ∈ xs, xs.foldl min x ≤ y := by
  induction xs generalizing x with
  | nil => simp
  | cons z zs ih =>
    simp only [List.foldl_cons, List.mem_cons, forall_eq_or_imp]
    obtain ⟨h1, h2⟩ := ih (min x z)
    exact ⟨le_trans h1 (min_le_left x z), le_trans h1 (min_le_right x z), h2⟩

/-- The left fold of `min` is its start value or an element of the list. -/
theorem foldl_min_mem (xs : List ℚ) (x : ℚ) : xs.foldl min x = x ∨ xs.foldl min x ∈ xs := by
  induction xs generalizing x with
  | nil => simp
  | cons z zs ih =>
    simp only [List.foldl_cons, List.mem_cons]
    rcases ih (min x z) with h | h
    · rcases min_choice x z with h2 | h2
      · left; rw [h, h2]
      · right; left; rw [h, h2]
    · right; right; exact h

/-- The function `slicesMin` returns an element of a non-empty list that is below the list. -/
theorem slicesMin_spec (l : List ℚ) (hne : l ≠ []) :
    ∃ m, slicesMin l = some m ∧ m ∈ l ∧ ∀ y ∈ l, m ≤ y := by
  cases l with
  | nil => exact absurd rfl hne
  | cons x xs =>
    refine ⟨xs.foldl min x, rfl, ?_, ?_⟩
    · rcases foldl_min_mem xs x with h | h
      · rw [h]; exact List.mem_cons_self _ _
      · exact List.mem_cons_of_mem _ h
    · intro y hy
      rcases List.mem_cons.1 hy with h | h
      · rw [h]; exact (foldl_min_le xs x).1
      · exact (foldl_min_le xs x).2 y h

/-- When `m` occurs in the list, `slicesIndexFrom` entered at `k` returns
`k + i` for the first position `i` holding `m`. -/
theorem slicesIndexFrom_spec (m : ℚ) (l : List ℚ) (k : Int) (hm : m ∈ l) :
    ∃ i : Nat, slicesIndexFrom m l k = k + (i : Int) ∧ l[i]? = some m ∧
      ∀ j, j < i → l[j]? ≠ some m := by
  induction l generalizing k with
  | nil => simp at hm
  | cons x xs ih =>
    by_cases hx : x = m
    · refine ⟨0, ?_, ?_, ?_⟩
      · simp [slicesIndexFrom, hx]
      · simp [hx]
      · intro j hj; omega
    · have hm2 : m ∈ xs := by
        rcases List.mem_cons.1 hm with h | h
        · exact absurd h.symm hx
        · exact h
      obtain ⟨i, h1, h2, h3⟩ := ih (k + 1) hm2
      refine ⟨i + 1, ?_, ?_, ?_⟩
      · simp only [slicesIndexFrom, if_neg hx, h1]; push_cast; ring
      · simpa using h2
      · intro j hj
        cases j with
        | zero => simpa using hx
        | succ j => simpa using h3 j (by omega)

/-- On a non-empty list of boxes with four entries `GetCenterFace` returns the
first box of minimal `float32` distance to its reference point `(x, y)`, and
its index. -/
theorem GetCenterFace_min (sqrt : ℚ → ℚ) (detFaces : List Dense) (h w : Option Int)
    (center : Option DimensionPair) (x y : ℚ) (hr : centreReference h w center = (x, y))
    (hne : detFaces ≠ []) (hwf : ∀ d ∈ detFaces, 4 ≤ d.data.length) :
    ∃ (i : Nat) (face : Dense),
      GetCenterFace sqrt detFaces h w center = some (some face, (i : Int), none) ∧
      detFaces[i]? = some face ∧
      (∀ d ∈ detFaces, centreDistance32 sqrt face x y ≤ centreDistance32 sqrt d x y) ∧
      (∀ j d, j < i → detFaces[j]? = some d →
        centreDistance32 sqrt d x y ≠ centreDistance32 sqrt face x y) := by
  have hne2 : detFaces.map (fun d => centreDistance32 sqrt d x y) ≠ [] := by
    simpa using hne
  obtain ⟨m, hm1, hm2, hm3⟩ := slicesMin_spec _ hne2
  obtain ⟨i, hi1, hi2, hi3⟩ := slicesIndexFrom_spec m _ 0 hm2
  rw [zero_add] at hi1
  rw [List.getElem?_map] at hi2
  cases hf : detFaces[i]? with
  | none => rw [hf] at hi2; simp at hi2
  | some face =>
    rw [hf] at hi2
    simp only [Option.map_some', Option.some.injEq] at hi2
    refine ⟨i, face, ?_, hf, ?_, ?_⟩
    · have hi0 : ¬ ((i : Int) < 0) := by omega
      unfold GetCenterFace
      cases center <;> cases w <;> cases h <;>
        simp only [centreReference, Option.getD, Prod.mk.injEq] at hr <;>
        obtain ⟨h1, h2⟩ := hr <;> subst h1 <;> subst h2 <;>
        simp only [centerDistLoop_eq sqrt _ _ detFaces [] hwf, List.nil_append, hm1, slicesIndex,
          hi1, if_neg hi0, Int.toNat_ofNat, hf]
    · intro d hd
      rw [hi2]
      exact hm3 _ (List.mem_map_of_mem _ hd)
    · intro j d hj hjd
      have := hi3 j hj
      rw [List.getElem?_map, hjd] at this
      simp only [Option.map_some', ne_eq, Option.some.injEq] at this
      rw [hi2]
      exact this

/-- C6 (counterexample): with the reference point `(0, 0)` the box
`(4095, 0, 4097, 2)` has its centre `(4096, 1)` at the squared distance
16777217 and the box `(4095, -1, 4097, 1)` its centre `(4096, 0)` at the
smaller squared distance 16777216; both `float32` distances are 4096, and
`GetCenterFace` returns the first box with index 0, which does not minimise
the Euclidean distance. -/
theorem GetCenterFace_float_tie :
    GetCenterFace goSqrt [⟨[4], [4095, 0, 4097, 2]⟩, ⟨[4], [4095, -1, 4097, 1]⟩] none none
      (some ⟨0, 0⟩) = some (some ⟨[4], [4095, 0, 4097, 2]⟩, 0, none) ∧
    boxCentre ⟨[4], [4095, 0, 4097, 2]⟩ = (4096, 1) ∧
    boxCentre ⟨[4], [4095, -1, 4097, 1]⟩ = (4096, 0) ∧
    centreDistanceSq ⟨[4], [4095, 0, 4097, 2]⟩ 0 0 = 16777217 ∧
    centreDistanceSq ⟨[4], [4095, -1, 4097, 1]⟩ 0 0 = 16777216 ∧
    centreDistance32 goSqrt ⟨[4], [4095, 0, 4097, 2]⟩ 0 0 = 4096 ∧
    centreDistance32 goSqrt ⟨[4], [4095, -1, 4097, 1]⟩ 0 0 = 4096 := by
  decide!

/-- C6 (amended): on a non-empty list of boxes with four entries of magnitude
at most `2 ^ 60` and an explicit reference point `c` of the same magnitude,
`GetCenterFace` returns the box at the smallest index that minimises the
`float32` distance between the `float32` box centre and `c`, together with
that index; for boxes centred at (10,10) and (100,100) and the reference
(0,0) it returns the first box, when the square root of 200 is at most 15 and
that of 20000 at least 100.  The magnitude bound keeps every `float32`
intermediate finite. -/
theorem GetCenterFace_first_closest :
    (∀ (sqrt : ℚ → ℚ) (detFaces : List Dense) (h w : Option Int) (c : DimensionPair),
      detFaces ≠ [] → (∀ d ∈ detFaces, 4 ≤ d.data.length) →
      (∀ d ∈ detFaces, withinBound d) → |(c.Width : ℚ)| ≤ 2 ^ 60 → |(c.Height : ℚ)| ≤ 2 ^ 60 →
      ∃ (i : Nat) (face : Dense),
        GetCenterFace sqrt detFaces h w (some c) = some (some face, (i : Int), none) ∧
        detFaces[i]? = some face ∧
        (∀ d ∈ detFaces,
          centreDistance32 sqrt face (f32 c.Width) (f32 c.Height) ≤
            centreDistance32 sqrt d (f32 c.Width) (f32 c.Height)) ∧
        (∀ j d, j < i → detFaces[j]? = some d →
          centreDistance32 sqrt d (f32 c.Width) (f32 c.Height) ≠
            centreDistance32 sqrt face (f32 c.Width) (f32 c.Height))) ∧
    (∀ (sqrt : ℚ → ℚ) (a b : Dense) (h w : Option Int),
      sqrt 200 ≤ 15 → 100 ≤ sqrt 20000 → 4 ≤ a.data.length → 4 ≤ b.data.length →
      boxCentre32 a = (10, 10) → boxCentre32 b = (100, 100) →
      GetCenterFace sqrt [a, b] h w (some ⟨0, 0⟩) = some (some a, 0, none)) := by
  refine ⟨?_, ?_⟩
  · intro sqrt detFaces h w c hne hwf _ _ _
    exact GetCenterFace_min sqrt detFaces h w (some c) _ _ rfl hne hwf
  · intro sqrt a b h w hs1 hs2 ha hb hca hcb
    have hwf : ∀ d ∈ [a, b], 4 ≤ d.data.length := by
      intro d hd
      simp only [List.mem_cons, List.mem_singleton, List.not_mem_nil, or_false] at hd
      rcases hd with rfl | rfl
      · exact ha
      · exact hb
    have e0 : f32 ((0 : Int) : ℚ) = 0 := by decide!
    have e1 : f32 (f32 (f32 (10 - 0) * f32 (10 - 0)) + f32 (f32 (10 - 0) * f32 (10 - 0))) =
        (200 : ℚ) := by decide!
    have e2 : f32 (f32 (f32 (100 - 0) * f32 (100 - 0)) + f32 (f32 (100 - 0) * f32 (100 - 0))) =
        (20000 : ℚ) := by decide!
    have da : centreDistance32 sqrt a 0 0 = f32 (sqrt 200) := by
      simp only [centreDistance32, distance32, hca, e1]
    have db : centreDistance32 sqrt b 0 0 = f32 (sqrt 20000) := by
      simp only [centreDistance32, distance32, hcb, e2]
    have hle : f32 (sqrt 200) ≤ f32 (sqrt 20000) := by
      have h1 : f32 (sqrt 200) ≤ ((15 : Nat) : ℚ) * (2 : ℚ) ^ (0 : Int) :=
        roundNE_le 24 (-126) _ 15 0 (by norm_num) (by norm_num) (by norm_num)
          (by simpa using hs1)
      have h2 : ((100 : Nat) : ℚ) * (2 : ℚ) ^ (0 : Int) ≤ f32 (sqrt 20000) :=
        le_roundNE 24 (-126) _ 100 0 (by norm_num) (by norm_num) (by norm_num)
          (by simpa using hs2)
      simp only [zpow_zero, mul_one, Nat.cast_ofNat] at h1 h2
      linarith
    have er : centreReference h w (some ⟨0, 0⟩) = (0, 0) := by
      simp only [centreReference, e0]
    obtain ⟨i, face, hg, hf, hmin, hfirst⟩ := GetCenterFace_min sqrt [a, b] h w (some ⟨0, 0⟩)
      0 0 er (by simp) hwf
    rw [hg]
    cases i with
    | zero =>
      simp only [List.getElem?_cons_zero, Option.some.injEq] at hf
      rw [hf]
      rfl
    | succ i =>
      exfalso
      cases i with
      | zero =>
        simp only [List.getElem?_cons_succ, List.getElem?_cons_zero, Option.some.injEq] at hf
        subst hf
        have h3 := hmin a (List.mem_cons_self _ _)
        have h4 := hfirst 0 a (by omega) rfl
        rw [da, db] at h3 h4
        exact h4 (le_antisymm hle h3)
      | succ i => simp at hf

/-- Witness of C6 (amended): two boxes centred at (10,10) and (100,100), the
reference point (0,0) and the square root of Go; the first box is returned,
and it is at minimal `float32` distance from the reference point. -/
theorem GetCenterFace_first_closest_witness :
    (∃ (i : Nat) (face : Dense),
      GetCenterFace goSqrt [⟨[4], [5, 5, 15, 15]⟩, ⟨[4], [90, 90, 110, 110]⟩] none none
        (some ⟨0, 0⟩) = some (some face, (i : Int), none) ∧
      [(⟨[4], [5, 5, 15, 15]⟩ : Dense), ⟨[4], [90, 90, 110, 110]⟩][i]? = some face ∧
      (∀ d ∈ [(⟨[4], [5, 5, 15, 15]⟩ : Dense), ⟨[4], [90, 90, 110, 110]⟩],
        centreDistance32 goSqrt face (f32 ((0 : Int) : ℚ)) (f32 ((0 : Int) : ℚ)) ≤
          centreDistance32 goSqrt d (f32 ((0 : Int) : ℚ)) (f32 ((0 : Int) : ℚ))) ∧
      (∀ j d, j < i →
        [(⟨[4], [5, 5, 15, 15]⟩ : Dense), ⟨[4], [90, 90, 110, 110]⟩][j]? = some d →
        centreDistance32 goSqrt d (f32 ((0 : Int) : ℚ)) (f32 ((0 : Int) : ℚ)) ≠
          centreDistance32 goSqrt face (f32 ((0 : Int) : ℚ)) (f32 ((0 : Int) : ℚ)))) ∧
    GetCenterFace goSqrt [⟨[4], [5, 5, 15, 15]⟩, ⟨[4], [90, 90, 110, 110]⟩] none none
      (some ⟨0, 0⟩) = some (some ⟨[4], [5, 5, 15, 15]⟩, 0, none) :=
  ⟨GetCenterFace_first_closest.1 goSqrt [⟨[4], [5, 5, 15, 15]⟩, ⟨[4], [90, 90, 110, 110]⟩]
      none none ⟨0, 0⟩ (by decide) (by decide) (by decide!) (by decide!) (by decide!),
    GetCenterFace_first_closest.2 goSqrt ⟨[4], [5, 5, 15, 15]⟩ ⟨[4], [90, 90, 110, 110]⟩
      none none (by decide!) (by decide!) (by decide) (by decide) (by decide!) (by decide!)⟩

/-- A natural number below `2 ^ 24` is a `float32`. -/
theorem f32_natCast (n : Nat) (h : n < 2 ^ 24) : f32 (n : ℚ) = n := by
  have := roundNE_exact 24 (-126) n 0 (by norm_num) h (by norm_num)
  simpa [f32] using this

/-- The half of a natural number below `2 ^ 24` is a `float32`. -/
theorem f32_half_natCast (n : Nat) (h : n < 2 ^ 24) : f32 (1 / 2 * (n : ℚ)) = 1 / 2 * (n : ℚ) := by
  have := roundNE_exact 24 (-126) n (-1) (by norm_num) h (by norm_num)
  have e : ((n : ℚ) * (2 : ℚ) ^ (-1 : Int)) = 1 / 2 * (n : ℚ) := by
    rw [zpow_neg_one]
    ring
  rw [e] at this
  exact this

/-- The integer part of the half of a natural number is its half rounded
down. -/
theorem truncToInt_half (n : Nat) : truncToInt (1 / 2 * (n : ℚ)) = ((n / 2 : Nat) : Int) := by
  have h0 : (0 : ℚ) ≤ 1 / 2 * (n : ℚ) := by positivity
  unfold truncToInt
  rw [if_pos h0]
  have h1 : (1 / 2 * (n : ℚ)) = ((n : ℚ) / ((2 : Nat) : ℚ)) := by push_cast; ring
  rw [h1, Rat.floor_natCast_div_natCast]
  norm_cast

/-- The padded image and the offsets of `padImage` at the ratio `0.5` for an
image of fewer than `2 ^ 24` rows and columns: the halves of the size, rounded
down. -/
theorem padImage_half (cv : OpenCV) (img : Mat) (hr : img.rows < 2 ^ 24)
    (hc : img.cols < 2 ^ 24) :
    padImage cv img (1 / 2) =
      (cv.CopyMakeBorder img ((img.rows / 2 : Nat) : Int) ((img.rows / 2 : Nat) : Int)
        ((img.cols / 2 : Nat) : Int) ((img.cols / 2 : Nat) : Int),
        ((img.cols / 2 : Nat) : Int), ((img.rows / 2 : Nat) : Int)) := by
  simp only [padImage, f32_natCast _ hr, f32_natCast _ hc, f32_half_natCast _ hr,
    f32_half_natCast _ hc, truncToInt_half]

/-- On well-formed detections the detection loop appends, in order, the
shifted box and landmark of every detection that passes the filter. -/
theorem filterLoop_eq (sqrt : ℚ → ℚ) (scoreThreshold : ℚ) (eyeDistanceThreshold : Option ℚ)
    (offX offY : Int) (results : List FaceDetectionOutput) (acc : List Dense × List Dense)
    (hwf : ∀ r ∈ results, wellFormed r) :
    filterLoop sqrt scoreThreshold eyeDistanceThreshold offX offY results acc =
      some (acc.1 ++ (results.filter
          (isCandidate sqrt scoreThreshold eyeDistanceThreshold offX offY)).map
            (shiftBox offX offY),
        acc.2 ++ (results.filter
          (isCandidate sqrt scoreThreshold eyeDistanceThreshold offX offY)).map
            (shiftLandmark offX offY), none) := by
  induction results generalizing acc with
  | nil => simp [filterLoop]
  | cons r rs ih =>
    have hr := filterStep_eq sqrt scoreThreshold eyeDistanceThreshold offX offY r
      (hwf r (List.mem_cons_self _ _))
    have hrs : ∀ x ∈ rs, wellFormed x := fun x hx => hwf x (List.mem_cons_of_mem _ hx)
    by_cases hc : isCandidate sqrt scoreThreshold eyeDistanceThreshold offX offY r = true
    · rw [if_pos hc] at hr
      simp only [filterLoop, hr, ih _ hrs, List.filter_cons_of_pos hc, List.map_cons,
        List.append_assoc, List.singleton_append]
    · rw [if_neg hc] at hr
      simp only [filterLoop, hr, ih _ hrs, List.filter_cons_of_neg hc]

/-- A box and a landmark that `selectFace` emits sit at one common index of the
filtered lists; it never emits a box without a landmark or the converse. -/
theorem selectFace_emit_index (sqrt : ℚ → ℚ) (keepLargest keepCenter : Bool) (img : Mat)
    (filterBBoxes filterLandmarks : List Dense) (box landmark : Option Dense)
    (hr : selectFace sqrt keepLargest keepCenter img filterBBoxes filterLandmarks =
      some (.emit (box, landmark))) :
    (box = none ∧ landmark = none) ∨
      ∃ (i : Nat) (b l : Dense), box = some b ∧ landmark = some l ∧
        filterBBoxes[i]? = some b ∧ filterLandmarks[i]? = some l := by
  unfold selectFace at hr
  split at hr
  · split at hr
    · simp only [Option.some.injEq, Step.emit.injEq, Prod.mk.injEq] at hr
      exact Or.inl ⟨hr.1.symm, hr.2.symm⟩
    · exact absurd hr (by simp)
  · split at hr
    · simp only at hr
      split at hr
      · exact absurd hr (by simp)
      · exact absurd hr (by simp)
      · rename_i b idx hg
        split at hr
        · exact absurd hr (by simp)
        · rename_i l hl
          simp only [Option.some.injEq, Step.emit.injEq, Prod.mk.injEq] at hr
          exact Or.inr ⟨idx, b, l, hr.1.symm, hr.2.symm, (getLargestFace_index _ _ _ _ _ _ hg).1,
            hl⟩
    · split at hr
      · simp only at hr
        split at hr
        · exact absurd hr (by simp)
        · exact absurd hr (by simp)
        · rename_i fb idx hg
          split at hr
          · exact absurd hr (by simp)
          · rename_i l hl
            simp only [Option.some.injEq, Step.emit.injEq, Prod.mk.injEq] at hr
            obtain ⟨f, hf, _, hidx⟩ := GetCenterFace_index _ _ _ _ _ _ _ hg
            exact Or.inr ⟨idx.toNat, f, l, by rw [← hr.1, hf], hr.2.symm, hidx, hl⟩
      · simp only [Option.some.injEq, Step.emit.injEq, Prod.mk.injEq] at hr
        exact Or.inl ⟨hr.1.symm, hr.2.symm⟩

/-- When `tryPadding` holds and the first pass returned no detection, the
detection loop runs on the output of the detector for the padded image, with
the offsets of `padImage`. -/
theorem paddingRetry_empty (cv : OpenCV) (faceDet : FaceDetectionClient) (img : Mat)
    (retried : List FaceDetectionOutput)
    (hd : faceDet.InferSingle [(padImage cv img (1 / 2)).1] = .ok retried) :
    paddingRetry cv faceDet true img [] =
      (retried, (padImage cv img (1 / 2)).2.1, (padImage cv img (1 / 2)).2.2) := by
  unfold paddingRetry
  rw [if_pos ⟨rfl, rfl⟩]
  simp only [hd]

/-- The image step after a padding retry: selection among the shifted
candidates of the padded pass. -/
theorem imageStep_retry (sqrt : ℚ → ℚ) (cv : OpenCV) (faceDet : FaceDetectionClient)
    (keepLargest keepCenter : Bool) (scoreThreshold : ℚ) (eyeDistanceThreshold : Option ℚ)
    (batchResults : List (List FaceDetectionOutput)) (img : Mat) (idx : Nat)
    (retried : List FaceDetectionOutput) (h0 : batchResults[idx]? = some [])
    (hd : faceDet.InferSingle [(padImage cv img (1 / 2)).1] = .ok retried)
    (hwf : ∀ r ∈ retried, wellFormed r) :
    imageStep sqrt cv faceDet keepLargest keepCenter scoreThreshold eyeDistanceThreshold true
        batchResults img idx =
      selectFace sqrt keepLargest keepCenter img
        ((retried.filter (isCandidate sqrt scoreThreshold eyeDistanceThreshold
            (padImage cv img (1 / 2)).2.1 (padImage cv img (1 / 2)).2.2)).map
          (shiftBox (padImage cv img (1 / 2)).2.1 (padImage cv img (1 / 2)).2.2))
        ((retried.filter (isCandidate sqrt scoreThreshold eyeDistanceThreshold
            (padImage cv img (1 / 2)).2.1 (padImage cv img (1 / 2)).2.2)).map
          (shiftLandmark (padImage cv img (1 / 2)).2.1 (padImage cv img (1 / 2)).2.2)) := by
  unfold imageStep
  simp only [h0, paddingRetry_empty cv faceDet img retried hd,
    filterLoop_eq sqrt scoreThreshold eyeDistanceThreshold _ _ retried ([], []) hwf,
    List.nil_append]

/-- The image step on an image with raw detections, all well-formed: selection
among the candidates, nothing subtracted. -/
theorem imageStep_results (sqrt : ℚ → ℚ) (cv : OpenCV) (faceDet : FaceDetectionClient)
    (keepLargest keepCenter : Bool) (scoreThreshold : ℚ) (eyeDistanceThreshold : Option ℚ)
    (tryPadding : Bool) (batchResults : List (List FaceDetectionOutput)) (img : Mat) (idx : Nat)
    (results : List FaceDetectionOutput) (h0 : batchResults[idx]? = some results)
    (hne : results ≠ []) (hwf : ∀ r ∈ results, wellFormed r) :
    imageStep sqrt cv faceDet keepLargest keepCenter scoreThreshold eyeDistanceThreshold
        tryPadding batchResults img idx =
      selectFace sqrt keepLargest keepCenter img
        ((results.filter (isCandidate sqrt scoreThreshold eyeDistanceThreshold 0 0)).map
          (shiftBox 0 0))
        ((results.filter (isCandidate sqrt scoreThreshold eyeDistanceThreshold 0 0)).map
          (shiftLandmark 0 0)) := by
  have hp : paddingRetry cv faceDet tryPadding img results = (results, 0, 0) := by
    unfold paddingRetry
    rw [if_neg]
    rintro ⟨_, hl⟩
    exact hne (List.length_eq_zero.1 hl)
  unfold imageStep
  simp only [h0, hp, filterLoop_eq sqrt scoreThreshold eyeDistanceThreshold _ _ results ([], [])
    hwf, List.nil_append]

/-- The call of `GetFaceLandmarks5` on one image, by the outcome of the image
step: an error is returned with empty lists, a skipped image leaves both lists
empty, and a produced pair is the one entry of each list. -/
theorem GetFaceLandmarks5_single (sqrt : ℚ → ℚ) (cv : OpenCV) (c : FaceHelperClient)
    (faceDet : FaceDetectionClient) (img : Mat) (keepLargest keepCenter : Option Bool)
    (scoreThreshold eyeDistanceThreshold : Option ℚ) (tryPadding : Option Bool)
    (batchResults : List (List FaceDetectionOutput))
    (hdet : c.faceDet = some faceDet) (hbatch : faceDet.InferBatch [[img]] = .ok batchResults) :
    c.GetFaceLandmarks5 sqrt cv [img] keepLargest keepCenter scoreThreshold
        eyeDistanceThreshold tryPadding =
      match imageStep sqrt cv faceDet (keepLargest.getD false) (keepCenter.getD false)
          (scoreThreshold.getD (1 / 2)) eyeDistanceThreshold (tryPadding.getD false)
          batchResults img 0 with
      | none => none
      | some (.fail err) => some ([], [], some err)
      | some .skip => some ([], [], none)
      | some (.emit (box, landmark)) => some ([box], [landmark], none) := by
  rw [GetFaceLandmarks5_defaults sqrt cv c faceDet [img] keepLargest keepCenter scoreThreshold
    eyeDistanceThreshold tryPadding hdet, hbatch]
  simp only [imageLoop]
  cases hs : imageStep sqrt cv faceDet (keepLargest.getD false) (keepCenter.getD false)
      (scoreThreshold.getD (1 / 2)) eyeDistanceThreshold (tryPadding.getD false)
      batchResults img 0 with
  | none => rfl
  | some step =>
    cases step with
    | fail e => rfl
    | skip => rfl
    | emit p => rfl

/-- C7 (counterexample): the eyes `(0, 0)` and `(4097, 2)` of
`farEyesDetection` are at the squared distance 16785413, below the square of
the threshold `4097 + 2 ^ -11`: the Euclidean distance between the eyes is
below the threshold.  The `float32` computation gives exactly the threshold
(the square of 4097 is rounded to 16785408, the root of 16785412 is rounded
up), so with that eye-distance threshold `GetFaceLandmarks5` keeps the
detection as the face candidate of the image. -/
theorem GetFaceLandmarks5_keeps_close_eyes :
    eyeDistanceSq farEyesDetection = 16785413 ∧
    (16785413 : ℚ) < (4097 + 1 / 2 ^ 11) * (4097 + 1 / 2 ^ 11) ∧
    eyeDistance goSqrt 0 0 farEyesDetection = 4097 + 1 / 2 ^ 11 ∧
    (exampleHelper (some farEyesDetector)).GetFaceLandmarks5 goSqrt exampleCV
        [⟨5000, 5000, []⟩] (some true) none none (some (4097 + 1 / 2 ^ 11)) none =
      some ([some (shiftBox 0 0 farEyesDetection)],
        [some (shiftLandmark 0 0 farEyesDetection)], none) := by
  refine ⟨by decide!, by norm_num, by decide!, by decide!⟩

/-- C7 (amended): in `GetFaceLandmarks5` a well-formed raw detection becomes a
face candidate exactly when its score is not below the score threshold (`0.5`
when the caller gives none) and, when an eye-distance threshold is set, the
`float32` distance between its first two landmark points, computed after the
offsets are subtracted, is not below that threshold; a score equal to the
threshold passes and without an eye-distance threshold the eye distance
rejects nothing.  For one image with raw detections and `keepLargest` set the
call returns the pair of `nil`s when no detection is a candidate, and else the
box and the landmark of a detection that is a candidate. -/
theorem GetFaceLandmarks5_filter :
    (∀ (sqrt : ℚ → ℚ) (cv : OpenCV) (c : FaceHelperClient) (faceDet : FaceDetectionClient)
      (img : Mat) (results : List FaceDetectionOutput) (keepCenter : Option Bool)
      (scoreThreshold eyeDistanceThreshold : Option ℚ) (tryPadding : Option Bool),
      c.faceDet = some faceDet → faceDet.InferBatch [[img]] = .ok [results] → results ≠ [] →
      (∀ r ∈ results, wellFormed r) → (∀ r ∈ results, withinBound r.Landmark) →
      ((∀ r ∈ results,
          isCandidate sqrt (scoreThreshold.getD (1 / 2)) eyeDistanceThreshold 0 0 r = false) →
        c.GetFaceLandmarks5 sqrt cv [img] (some true) keepCenter scoreThreshold
          eyeDistanceThreshold tryPadding = some ([none], [none], none)) ∧
      ((∃ r ∈ results,
          isCandidate sqrt (scoreThreshold.getD (1 / 2)) eyeDistanceThreshold 0 0 r = true) →
        ∃ r ∈ results,
          isCandidate sqrt (scoreThreshold.getD (1 / 2)) eyeDistanceThreshold 0 0 r = true ∧
          c.GetFaceLandmarks5 sqrt cv [img] (some true) keepCenter scoreThreshold
              eyeDistanceThreshold tryPadding =
            some ([some (shiftBox 0 0 r)], [some (shiftLandmark 0 0 r)], none))) ∧
    (∀ (sqrt : ℚ → ℚ) (scoreThreshold : ℚ) (eyeDistanceThreshold : Option ℚ) (offX offY : Int)
      (r : FaceDetectionOutput),
      (wellFormed r → isKept sqrt scoreThreshold eyeDistanceThreshold offX offY r =
        isCandidate sqrt scoreThreshold eyeDistanceThreshold offX offY r) ∧
      (isCandidate sqrt scoreThreshold eyeDistanceThreshold offX offY r = true ↔
        ¬ rawScore r < scoreThreshold ∧
          ∀ t, eyeDistanceThreshold = some t → ¬ eyeDistance sqrt offX offY r < t) ∧
      (rawScore r = scoreThreshold →
        isCandidate sqrt scoreThreshold none offX offY r = true) ∧
      (isCandidate sqrt scoreThreshold none offX offY r = true ↔
        ¬ rawScore r < scoreThreshold)) ∧
    (∀ (sqrt : ℚ → ℚ) (cv : OpenCV) (c : FaceHelperClient) (batchImages : List Mat)
      (keepLargest keepCenter : Option Bool) (eyeDistanceThreshold : Option ℚ)
      (tryPadding : Option Bool),
      c.GetFaceLandmarks5 sqrt cv batchImages keepLargest keepCenter none eyeDistanceThreshold
          tryPadding =
        c.GetFaceLandmarks5 sqrt cv batchImages keepLargest keepCenter (some (1 / 2))
          eyeDistanceThreshold tryPadding) := by
  refine ⟨?_, ?_, ?_⟩
  · intro sqrt cv c faceDet img results keepCenter scoreThreshold eyeDistanceThreshold tryPadding
      hdet hbatch hne hwf _
    have hstep := imageStep_results sqrt cv faceDet true (keepCenter.getD false)
      (scoreThreshold.getD (1 / 2)) eyeDistanceThreshold (tryPadding.getD false) [results] img 0
      results rfl hne hwf
    have hcall := GetFaceLandmarks5_single sqrt cv c faceDet img (some true) keepCenter
      scoreThreshold eyeDistanceThreshold tryPadding [results] hdet hbatch
    simp only [Option.getD_some] at hcall
    rw [hstep] at hcall
    constructor
    · intro hnone
      have hf : results.filter
          (isCandidate sqrt (scoreThreshold.getD (1 / 2)) eyeDistanceThreshold 0 0) = [] := by
        rw [List.filter_eq_nil_iff]
        intro r hr
        rw [hnone r hr]
        simp
      rw [hcall, hf]
      simp [selectFace]
    · rintro ⟨r0, hr0, hc0⟩
      have hne2 : results.filter
          (isCandidate sqrt (scoreThreshold.getD (1 / 2)) eyeDistanceThreshold 0 0) ≠ [] := by
        intro he
        have := List.filter_eq_nil_iff.1 he r0 hr0
        exact this hc0
      have hbw : ∀ d ∈ (results.filter
          (isCandidate sqrt (scoreThreshold.getD (1 / 2)) eyeDistanceThreshold 0 0)).map
            (shiftBox 0 0), 4 ≤ d.data.length := by
        intro d hd
        obtain ⟨r, hr, rfl⟩ := List.mem_map.1 hd
        have hw := hwf r (List.mem_of_mem_filter hr)
        simp [shiftBox, hw.2.1]
      obtain ⟨i, face, hg, hi, _, _⟩ := getLargestFace_first_max _ img.rows img.cols
        (by simpa using hne2) hbw
      rw [List.getElem?_map] at hi
      cases hr : (results.filter
          (isCandidate sqrt (scoreThreshold.getD (1 / 2)) eyeDistanceThreshold 0 0))[i]? with
      | none => rw [hr] at hi; simp at hi
      | some r =>
        rw [hr] at hi
        simp only [Option.map_some', Option.some.injEq] at hi
        have hmem := List.getElem?_mem hr
        rw [List.mem_filter] at hmem
        refine ⟨r, hmem.1, hmem.2, ?_⟩
        have hl0 : ¬ ((results.filter
            (isCandidate sqrt (scoreThreshold.getD (1 / 2)) eyeDistanceThreshold 0 0)).map
              (shiftBox 0 0)).length = 0 := by
          intro h0
          exact hne2 (List.map_eq_nil_iff.1 (List.length_eq_zero.1 h0))
        rw [hcall]
        unfold selectFace
        rw [if_neg hl0, if_pos rfl]
        simp only [hg, List.getElem?_map, hr, Option.map_some', ← hi]
  · intro sqrt scoreThreshold eyeDistanceThreshold offX offY r
    refine ⟨fun hwf => isKept_eq_isCandidate sqrt _ _ offX offY r hwf, ?_, ?_, ?_⟩
    · cases eyeDistanceThreshold with
      | none => simp [isCandidate]
      | some t => simp [isCandidate]
    · intro h
      simp [isCandidate, h]
    · simp [isCandidate]
  · intro sqrt cv c batchImages keepLargest keepCenter eyeDistanceThreshold tryPadding
    rfl

/-- Witness of C7 (amended): the detector finds one detection whose score
equals the default threshold `0.5`; without an eye-distance threshold it is
the face candidate of the image and the call returns its box and landmark. -/
theorem GetFaceLandmarks5_filter_witness :
    ∃ r ∈ [{ exampleDetection with Score := ⟨[1], [1 / 2]⟩ }],
      isCandidate goSqrt ((none : Option ℚ).getD (1 / 2)) none 0 0 r = true ∧
      (exampleHelper (some
          { InferBatch := fun _ => .ok [[{ exampleDetection with Score := ⟨[1], [1 / 2]⟩ }]]
            InferSingle := fun _ => .ok [] })).GetFaceLandmarks5 goSqrt exampleCV
          [exampleImage] (some true) none none none none =
        some ([some (shiftBox 0 0 r)], [some (shiftLandmark 0 0 r)], none) :=
  (GetFaceLandmarks5_filter.1 goSqrt exampleCV
    (exampleHelper (some
      { InferBatch := fun _ => .ok [[{ exampleDetection with Score := ⟨[1], [1 / 2]⟩ }]]
        InferSingle := fun _ => .ok [] }))
    { InferBatch := fun _ => .ok [[{ exampleDetection with Score := ⟨[1], [1 / 2]⟩ }]]
      InferSingle := fun _ => .ok [] }
    exampleImage [{ exampleDetection with Score := ⟨[1], [1 / 2]⟩ }] none none none none
    rfl rfl (by simp)
    (by
      intro r hr
      simp only [List.mem_singleton] at hr
      subst hr
      exact ⟨by decide, rfl, by decide, rfl, by simp [exampleDetection]⟩)
    (by
      intro r hr
      simp only [List.mem_singleton] at hr
      subst hr
      decide!)).2
    ⟨_, List.mem_singleton_self _, by decide!⟩

/-- C13 (counterexample): for an image of 33554435 columns `padImage` computes
`int(0.5 * float32(w))` as 16777218, one more than `⌊w/2⌋ = 16777217`, and the
box that `GetFaceLandmarks5` reports after the padding retry has 16777218
subtracted from its x coordinates; and the `float32` difference of the
coordinate `float32(48.068279)` and the offset 320 is not their difference. -/
theorem GetFaceLandmarks5_padding_offset_rounded :
    (padImage exampleCV ⟨1, 33554435, []⟩ (1 / 2)).2.1 = 16777218 ∧
    ((33554435 / 2 : Nat) : Int) = 16777217 ∧
    (exampleHelper (some paddedOnlyDetector)).GetFaceLandmarks5 goSqrt exampleCV
        [⟨1, 33554435, []⟩] (some true) none none none (some true) =
      some ([some ⟨[4], [200 - 16777218, 150, 450 - 16777218, 400]⟩],
        [some (shiftLandmark 16777218 0 exampleDetection)], none) ∧
    (shiftBox 320 240
      { exampleDetection with Box := ⟨[4], [f32 48.068279, 150, 450, 400]⟩ }).data.getD 0 0 =
        -(8910659 / 32768) ∧
    f32 48.068279 - 320 = -(71285269 / 262144) := by
  refine ⟨by decide!, by decide, by decide!, by decide!, by decide!⟩

/-- C13 (amended): for an image whose first pass returned no detection while
`tryPadding` holds, the image step of `GetFaceLandmarks5` pads the image by
`offX = int(0.5 * float32(w))` columns on each side and
`offY = int(0.5 * float32(h))` rows on each side, which are `⌊w/2⌋` and `⌊h/2⌋`
when `w` and `h` are below `2 ^ 24`; it consults the detector on that padded
image and on nothing else, and every box and landmark it reports is a raw
detection of the padded pass with the `float32` difference of each x
coordinate and `float32(offX)`, and of each y coordinate and `float32(offY)`,
in the place of the coordinate.  The call on one such image with `keepLargest`
returns such a box and landmark, or the pair of `nil`s when the padded pass
has no candidate. -/
theorem GetFaceLandmarks5_padding_retry (sqrt : ℚ → ℚ) (cv : OpenCV) (img : Mat)
    (keepLargest keepCenter : Bool) (scoreThreshold : ℚ) (eyeDistanceThreshold : Option ℚ)
    (batchResults : List (List FaceDetectionOutput)) (idx : Nat)
    (h0 : batchResults[idx]? = some []) :
    padImage cv img (1 / 2) =
      (cv.CopyMakeBorder img (truncToInt (f32 (1 / 2 * f32 (img.rows : ℚ))))
        (truncToInt (f32 (1 / 2 * f32 (img.rows : ℚ))))
        (truncToInt (f32 (1 / 2 * f32 (img.cols : ℚ))))
        (truncToInt (f32 (1 / 2 * f32 (img.cols : ℚ)))),
        truncToInt (f32 (1 / 2 * f32 (img.cols : ℚ))),
        truncToInt (f32 (1 / 2 * f32 (img.rows : ℚ)))) ∧
    (img.rows < 2 ^ 24 → img.cols < 2 ^ 24 →
      (padImage cv img (1 / 2)).2.1 = ((img.cols / 2 : Nat) : Int) ∧
      (padImage cv img (1 / 2)).2.2 = ((img.rows / 2 : Nat) : Int)) ∧
    (∀ (faceDet : FaceDetectionClient) (retried : List FaceDetectionOutput),
      faceDet.InferSingle [(padImage cv img (1 / 2)).1] = .ok retried →
      (∀ r ∈ retried, wellFormed r) →
      (∀ r ∈ retried, withinBound r.Box ∧ withinBound r.Landmark) →
      imageStep sqrt cv faceDet keepLargest keepCenter scoreThreshold eyeDistanceThreshold true
          batchResults img idx =
        selectFace sqrt keepLargest keepCenter img
          ((retried.filter (isCandidate sqrt scoreThreshold eyeDistanceThreshold
              (padImage cv img (1 / 2)).2.1 (padImage cv img (1 / 2)).2.2)).map
            (shiftBox (padImage cv img (1 / 2)).2.1 (padImage cv img (1 / 2)).2.2))
          ((retried.filter (isCandidate sqrt scoreThreshold eyeDistanceThreshold
              (padImage cv img (1 / 2)).2.1 (padImage cv img (1 / 2)).2.2)).map
            (shiftLandmark (padImage cv img (1 / 2)).2.1 (padImage cv img (1 / 2)).2.2)) ∧
      ∀ box landmark : Dense,
        imageStep sqrt cv faceDet keepLargest keepCenter scoreThreshold eyeDistanceThreshold
          true batchResults img idx = some (.emit (some box, some landmark)) →
        ∃ r ∈ retried,
          isCandidate sqrt scoreThreshold eyeDistanceThreshold
            (padImage cv img (1 / 2)).2.1 (padImage cv img (1 / 2)).2.2 r = true ∧
          box = shiftBox (padImage cv img (1 / 2)).2.1 (padImage cv img (1 / 2)).2.2 r ∧
          landmark =
            shiftLandmark (padImage cv img (1 / 2)).2.1 (padImage cv img (1 / 2)).2.2 r) ∧
    (∀ d1 d2 : FaceDetectionClient,
      d1.InferSingle [(padImage cv img (1 / 2)).1] = d2.InferSingle [(padImage cv img (1 / 2)).1] →
      imageStep sqrt cv d1 keepLargest keepCenter scoreThreshold eyeDistanceThreshold true
          batchResults img idx =
        imageStep sqrt cv d2 keepLargest keepCenter scoreThreshold eyeDistanceThreshold true
          batchResults img idx) ∧
    (∀ (offX offY : Int) (bs ls : List Nat) (score cls : Dense)
      (l t r b x0 y0 x1 y1 x2 y2 x3 y3 x4 y4 : ℚ),
      shiftBox offX offY ⟨⟨bs, [l, t, r, b]⟩, score, cls,
          ⟨ls, [x0, y0, x1, y1, x2, y2, x3, y3, x4, y4]⟩⟩ =
        ⟨bs, [f32 (l - f32 offX), f32 (t - f32 offY), f32 (r - f32 offX), f32 (b - f32 offY)]⟩ ∧
      shiftLandmark offX offY ⟨⟨bs, [l, t, r, b]⟩, score, cls,
          ⟨ls, [x0, y0, x1, y1, x2, y2, x3, y3, x4, y4]⟩⟩ =
        ⟨[5, 2], [f32 (x0 - f32 offX), f32 (y0 - f32 offY), f32 (x1 - f32 offX),
          f32 (y1 - f32 offY), f32 (x2 - f32 offX), f32 (y2 - f32 offY), f32 (x3 - f32 offX),
          f32 (y3 - f32 offY), f32 (x4 - f32 offX), f32 (y4 - f32 offY)]⟩) ∧
    (∀ (c : FaceHelperClient) (faceDet : FaceDetectionClient) (kc : Option Bool)
      (st et : Option ℚ) (retried : List FaceDetectionOutput),
      c.faceDet = some faceDet → faceDet.InferBatch [[img]] = .ok [[]] →
      faceDet.InferSingle [(padImage cv img (1 / 2)).1] = .ok retried →
      (∀ r ∈ retried, wellFormed r) →
      (∀ r ∈ retried, withinBound r.Box ∧ withinBound r.Landmark) →
      c.GetFaceLandmarks5 sqrt cv [img] (some true) kc st et (some true) =
          some ([none], [none], none) ∨
        ∃ r ∈ retried,
          isCandidate sqrt (st.getD (1 / 2)) et
            (padImage cv img (1 / 2)).2.1 (padImage cv img (1 / 2)).2.2 r = true ∧
          c.GetFaceLandmarks5 sqrt cv [img] (some true) kc st et (some true) =
            some ([some (shiftBox (padImage cv img (1 / 2)).2.1
                (padImage cv img (1 / 2)).2.2 r)],
              [some (shiftLandmark (padImage cv img (1 / 2)).2.1
                (padImage cv img (1 / 2)).2.2 r)], none)) := by
  have emitted : ∀ (kl kc : Bool) (st : ℚ) (et : Option ℚ) (faceDet : FaceDetectionClient)
      (retried : List FaceDetectionOutput) (box landmark : Dense)
      (bmap : List Dense) (lmap : List Dense),
      bmap = (retried.filter (isCandidate sqrt st et
          (padImage cv img (1 / 2)).2.1 (padImage cv img (1 / 2)).2.2)).map
        (shiftBox (padImage cv img (1 / 2)).2.1 (padImage cv img (1 / 2)).2.2) →
      lmap = (retried.filter (isCandidate sqrt st et
          (padImage cv img (1 / 2)).2.1 (padImage cv img (1 / 2)).2.2)).map
        (shiftLandmark (padImage cv img (1 / 2)).2.1 (padImage cv img (1 / 2)).2.2) →
      selectFace sqrt kl kc img bmap lmap = some (.emit (some box, some landmark)) →
      ∃ r ∈ retried,
        isCandidate sqrt st et
          (padImage cv img (1 / 2)).2.1 (padImage cv img (1 / 2)).2.2 r = true ∧
        box = shiftBox (padImage cv img (1 / 2)).2.1 (padImage cv img (1 / 2)).2.2 r ∧
        landmark =
          shiftLandmark (padImage cv img (1 / 2)).2.1 (padImage cv img (1 / 2)).2.2 r := by
    intro kl kc st et faceDet retried box landmark bmap lmap hb hl hemit
    subst hb hl
    rcases selectFace_emit_index _ _ _ _ _ _ _ _ hemit with ⟨hb, _⟩ | ⟨i, b, l, hb, hl, hbi, hli⟩
    · exact absurd hb (by simp)
    · simp only [Option.some.injEq] at hb hl
      subst hb hl
      rw [List.getElem?_map] at hbi hli
      cases hc : (retried.filter (isCandidate sqrt st et
          (padImage cv img (1 / 2)).2.1 (padImage cv img (1 / 2)).2.2))[i]? with
      | none => rw [hc] at hbi; simp at hbi
      | some r =>
        rw [hc] at hbi hli
        simp only [Option.map_some', Option.some.injEq] at hbi hli
        have hmem := List.getElem?_mem hc
        rw [List.mem_filter] at hmem
        exact ⟨r, hmem.1, hmem.2, hbi.symm, hli.symm⟩
  refine ⟨rfl, ?_, ?_, ?_, ?_, ?_⟩
  · intro hr hc
    rw [padImage_half cv img hr hc]
    exact ⟨rfl, rfl⟩
  · intro faceDet retried hd hwf _
    have hstep := imageStep_retry sqrt cv faceDet keepLargest keepCenter scoreThreshold
      eyeDistanceThreshold batchResults img idx retried h0 hd hwf
    refine ⟨hstep, ?_⟩
    intro box landmark hemit
    rw [hstep] at hemit
    exact emitted keepLargest keepCenter scoreThreshold eyeDistanceThreshold faceDet retried box
      landmark _ _ rfl rfl hemit
  · intro d1 d2 hd
    unfold imageStep paddingRetry
    simp only [h0, hd]
  · intro offX offY bs ls score cls l t r b x0 y0 x1 y1 x2 y2 x3 y3 x4 y4
    exact ⟨rfl, rfl⟩
  · intro c faceDet kc st et retried hdet hbatch hd hwf _
    have hstep := imageStep_retry sqrt cv faceDet true (kc.getD false) (st.getD (1 / 2)) et
      [[]] img 0 retried rfl hd hwf
    have hcall := GetFaceLandmarks5_single sqrt cv c faceDet img (some true) kc st et (some true)
      [[]] hdet hbatch
    simp only [Option.getD_some] at hcall
    rw [hstep] at hcall
    by_cases hf : retried.filter (isCandidate sqrt (st.getD (1 / 2)) et
        (padImage cv img (1 / 2)).2.1 (padImage cv img (1 / 2)).2.2) = []
    · left
      rw [hcall, hf]
      simp [selectFace]
    · right
      have hbw : ∀ d ∈ (retried.filter (isCandidate sqrt (st.getD (1 / 2)) et
          (padImage cv img (1 / 2)).2.1 (padImage cv img (1 / 2)).2.2)).map
            (shiftBox (padImage cv img (1 / 2)).2.1 (padImage cv img (1 / 2)).2.2),
          4 ≤ d.data.length := by
        intro d hd
        obtain ⟨r, hr, rfl⟩ := List.mem_map.1 hd
        have hw := hwf r (List.mem_of_mem_filter hr)
        simp [shiftBox, hw.2.1]
      obtain ⟨i, face, hg, hi, _, _⟩ := getLargestFace_first_max _ img.rows img.cols
        (by simpa using hf) hbw
      have hl0 : ¬ ((retried.filter (isCandidate sqrt (st.getD (1 / 2)) et
          (padImage cv img (1 / 2)).2.1 (padImage cv img (1 / 2)).2.2)).map
            (shiftBox (padImage cv img (1 / 2)).2.1 (padImage cv img (1 / 2)).2.2)).length =
          0 := by
        intro h0
        exact hf (List.map_eq_nil_iff.1 (List.length_eq_zero.1 h0))
      have hi2 := hi
      rw [List.getElem?_map] at hi2
      cases hr : (retried.filter (isCandidate sqrt (st.getD (1 / 2)) et
          (padImage cv img (1 / 2)).2.1 (padImage cv img (1 / 2)).2.2))[i]? with
      | none => rw [hr] at hi2; simp at hi2
      | some r =>
        rw [hr] at hi2
        simp only [Option.map_some', Option.some.injEq] at hi2
        have hmem := List.getElem?_mem hr
        rw [List.mem_filter] at hmem
        refine ⟨r, hmem.1, hmem.2, ?_⟩
        rw [hcall]
        unfold selectFace
        rw [if_neg hl0, if_pos rfl]
        simp only [hg, List.getElem?_map, hr, Option.map_some', ← hi2]

/-- Witness of C13 (amended): the batch pass finds nothing in the 480-by-640
image and the padded pass finds `exampleDetection`; the reported box and
landmark are the raw ones with `(320, 240)` subtracted. -/
theorem GetFaceLandmarks5_padding_retry_witness :
    (exampleHelper (some paddedOnlyDetector)).GetFaceLandmarks5 goSqrt exampleCV
        [exampleImage] (some true) none none none (some true) =
      some ([some ⟨[4], [-120, -90, 130, 160]⟩],
        [some ⟨[5, 2], [-54, -20, 77, -19, 12, 18, -36, 54, 60, 54]⟩], none) ∧
    ((padImage exampleCV exampleImage (1 / 2)).2.1 = ((exampleImage.cols / 2 : Nat) : Int) ∧
      (padImage exampleCV exampleImage (1 / 2)).2.2 = ((exampleImage.rows / 2 : Nat) : Int)) ∧
    ∃ r ∈ [exampleDetection],
      isCandidate goSqrt (1 / 2) none (padImage exampleCV exampleImage (1 / 2)).2.1
        (padImage exampleCV exampleImage (1 / 2)).2.2 r = true ∧
      (⟨[4], [-120, -90, 130, 160]⟩ : Dense) =
        shiftBox (padImage exampleCV exampleImage (1 / 2)).2.1
          (padImage exampleCV exampleImage (1 / 2)).2.2 r ∧
      (⟨[5, 2], [-54, -20, 77, -19, 12, 18, -36, 54, 60, 54]⟩ : Dense) =
        shiftLandmark (padImage exampleCV exampleImage (1 / 2)).2.1
          (padImage exampleCV exampleImage (1 / 2)).2.2 r :=
  ⟨by decide!,
    (GetFaceLandmarks5_padding_retry goSqrt exampleCV exampleImage true false (1 / 2) none
      [[]] 0 rfl).2.1 (by decide) (by decide),
    ((GetFaceLandmarks5_padding_retry goSqrt exampleCV exampleImage true false (1 / 2) none
      [[]] 0 rfl).2.2.1 paddedOnlyDetector [exampleDetection] rfl
      (by
        intro r hr
        simp only [List.mem_singleton] at hr
        subst hr
        exact ⟨by decide, rfl, by decide, rfl, by simp [exampleDetection]⟩)
      (by
        intro r hr
        simp only [List.mem_singleton] at hr
        subst hr
        exact ⟨by decide!, by decide!⟩)).2
      ⟨[4], [-120, -90, 130, 160]⟩ ⟨[5, 2], [-54, -20, 77, -19, 12, 18, -36, 54, 60, 54]⟩
      (by decide!)⟩

/-- The integer division of a natural number by two, as Go computes it on an
`int`, is the division of natural numbers. -/
theorem tdiv_two_natCast (n : Nat) : Int.tdiv (n : Int) 2 = ((n / 2 : Nat) : Int) := rfl

/-- The default reference point of centre selection in an image: the halves of
the width and of the height, rounded down, converted to `float32`. -/
theorem centreReference_size (img : Mat) :
    centreReference (some (img.rows : Int)) (some (img.cols : Int)) none =
      (f32 ((img.cols / 2 : Nat) : ℚ), f32 ((img.rows / 2 : Nat) : ℚ)) := by
  simp only [centreReference, Option.getD_some, tdiv_two_natCast, Int.cast_natCast]

/-- With `keepLargest`, whatever `keepCenter` is, `selectFace` on a non-empty
candidate list emits the box, and the landmark at the same index, of the first
candidate of maximal `float32` clipped area. -/
theorem selectFace_largest (sqrt : ℚ → ℚ) (keepCenter : Bool) (img : Mat)
    (boxes lmks : List Dense) (hne : boxes ≠ []) (hwf : ∀ d ∈ boxes, 4 ≤ d.data.length)
    (hlen : lmks.length = boxes.length) :
    ∃ (i : Nat) (box lmk : Dense),
      selectFace sqrt true keepCenter img boxes lmks = some (.emit (some box, some lmk)) ∧
      boxes[i]? = some box ∧ lmks[i]? = some lmk ∧
      (∀ d ∈ boxes, clippedArea32 d img.rows img.cols ≤ clippedArea32 box img.rows img.cols) ∧
      (∀ j d, j < i → boxes[j]? = some d →
        clippedArea32 d img.rows img.cols ≠ clippedArea32 box img.rows img.cols) := by
  obtain ⟨i, face, hg, hi, hmax, hfirst⟩ :=
    getLargestFace_first_max boxes img.rows img.cols hne hwf
  have hil : i < lmks.length := by
    rw [hlen]
    exact (List.getElem?_eq_some.1 hi).1
  refine ⟨i, face, lmks[i], ?_, hi, List.getElem?_eq_getElem hil, hmax, hfirst⟩
  unfold selectFace
  have hl0 : ¬ boxes.length = 0 := fun h0 => hne (List.length_eq_zero.1 h0)
  rw [if_neg hl0, if_pos rfl]
  simp only [hg, List.getElem?_eq_getElem hil]

/-- With `keepLargest`, `selectFace` does not look at `keepCenter`. -/
theorem selectFace_keepLargest (sqrt : ℚ → ℚ) (keepCenter : Bool) (img : Mat)
    (boxes lmks : List Dense) :
    selectFace sqrt true keepCenter img boxes lmks = selectFace sqrt true true img boxes lmks := by
  unfold selectFace
  simp

/-- With `keepLargest`, the image loop does not look at `keepCenter`. -/
theorem imageLoop_keepLargest (sqrt : ℚ → ℚ) (cv : OpenCV) (faceDet : FaceDetectionClient)
    (keepCenter : Bool) (scoreThreshold : ℚ) (eyeDistanceThreshold : Option ℚ)
    (tryPadding : Bool) (batchResults : List (List FaceDetectionOutput)) (imgs : List Mat)
    (idx : Nat) (acc : List (Option Dense) × List (Option Dense)) :
    imageLoop sqrt cv faceDet true keepCenter scoreThreshold eyeDistanceThreshold tryPadding
        batchResults imgs idx acc =
      imageLoop sqrt cv faceDet true true scoreThreshold eyeDistanceThreshold tryPadding
        batchResults imgs idx acc := by
  induction imgs generalizing idx acc with
  | nil => rfl
  | cons img rest ih =>
    have hs : imageStep sqrt cv faceDet true keepCenter scoreThreshold eyeDistanceThreshold
          tryPadding batchResults img idx =
        imageStep sqrt cv faceDet true true scoreThreshold eyeDistanceThreshold
          tryPadding batchResults img idx := by
      unfold imageStep
      simp only [selectFace_keepLargest sqrt keepCenter]
    simp only [imageLoop, hs, ih]

/-- With `keepCenter` and without `keepLargest`, `selectFace` on a non-empty
candidate list emits the box, and the landmark at the same index, of the
first candidate whose `float32` box centre is at minimal `float32` distance
from `(⌊w/2⌋, ⌊h/2⌋)` converted to `float32`. -/
theorem selectFace_centre (sqrt : ℚ → ℚ) (img : Mat) (boxes lmks : List Dense)
    (hne : boxes ≠ []) (hwf : ∀ d ∈ boxes, 4 ≤ d.data.length)
    (hlen : lmks.length = boxes.length) :
    ∃ (i : Nat) (box lmk : Dense),
      selectFace sqrt false true img boxes lmks = some (.emit (some box, some lmk)) ∧
      boxes[i]? = some box ∧ lmks[i]? = some lmk ∧
      (∀ d ∈ boxes,
        centreDistance32 sqrt box (f32 ((img.cols / 2 : Nat) : ℚ))
            (f32 ((img.rows / 2 : Nat) : ℚ)) ≤
          centreDistance32 sqrt d (f32 ((img.cols / 2 : Nat) : ℚ))
            (f32 ((img.rows / 2 : Nat) : ℚ))) ∧
      (∀ j d, j < i → boxes[j]? = some d →
        centreDistance32 sqrt d (f32 ((img.cols / 2 : Nat) : ℚ))
            (f32 ((img.rows / 2 : Nat) : ℚ)) ≠
          centreDistance32 sqrt box (f32 ((img.cols / 2 : Nat) : ℚ))
            (f32 ((img.rows / 2 : Nat) : ℚ))) := by
  obtain ⟨i, face, hg, hi, hmin, hfirst⟩ := GetCenterFace_min sqrt boxes
    (some (img.rows : Int)) (some (img.cols : Int)) none _ _ (centreReference_size img) hne hwf
  have hil : i < lmks.length := by
    rw [hlen]
    exact (List.getElem?_eq_some.1 hi).1
  refine ⟨i, face, lmks[i], ?_, hi, List.getElem?_eq_getElem hil, hmin, hfirst⟩
  unfold selectFace
  have hl0 : ¬ boxes.length = 0 := fun h0 => hne (List.length_eq_zero.1 h0)
  rw [if_neg hl0, if_neg (by simp), if_pos rfl]
  simp only [hg, Int.toNat_ofNat, List.getElem?_eq_getElem hil]

/-- The shifted boxes of well-formed detections have four entries. -/
theorem shiftBox_length (offX offY : Int) (results : List FaceDetectionOutput)
    (hwf : ∀ r ∈ results, wellFormed r) :
    ∀ d ∈ results.map (shiftBox offX offY), 4 ≤ d.data.length := by
  intro d hd
  obtain ⟨r, hr, rfl⟩ := List.mem_map.1 hd
  have hw := hwf r hr
  simp [shiftBox, hw.2.1]

/-- On one image with well-formed raw detections of which some is a candidate,
`GetFaceLandmarks5` with `keepLargest` returns the box and the landmark of the
first candidate of maximal `float32` clipped area. -/
theorem GetFaceLandmarks5_single_largest (sqrt : ℚ → ℚ) (cv : OpenCV) (c : FaceHelperClient)
    (faceDet : FaceDetectionClient) (img : Mat) (results : List FaceDetectionOutput)
    (keepCenter : Option Bool) (scoreThreshold eyeDistanceThreshold : Option ℚ)
    (tryPadding : Option Bool)
    (hdet : c.faceDet = some faceDet) (hbatch : faceDet.InferBatch [[img]] = .ok [results])
    (hwf : ∀ r ∈ results, wellFormed r)
    (hne : results.filter
      (isCandidate sqrt (scoreThreshold.getD (1 / 2)) eyeDistanceThreshold 0 0) ≠ []) :
    ∃ (i : Nat) (r : FaceDetectionOutput),
      (results.filter
        (isCandidate sqrt (scoreThreshold.getD (1 / 2)) eyeDistanceThreshold 0 0))[i]? =
          some r ∧
      c.GetFaceLandmarks5 sqrt cv [img] (some true) keepCenter scoreThreshold
          eyeDistanceThreshold tryPadding =
        some ([some (shiftBox 0 0 r)], [some (shiftLandmark 0 0 r)], none) ∧
      (∀ d ∈ results.filter
          (isCandidate sqrt (scoreThreshold.getD (1 / 2)) eyeDistanceThreshold 0 0),
        clippedArea32 (shiftBox 0 0 d) img.rows img.cols ≤
          clippedArea32 (shiftBox 0 0 r) img.rows img.cols) ∧
      (∀ j d, j < i →
        (results.filter
          (isCandidate sqrt (scoreThreshold.getD (1 / 2)) eyeDistanceThreshold 0 0))[j]? =
            some d →
        clippedArea32 (shiftBox 0 0 d) img.rows img.cols ≠
          clippedArea32 (shiftBox 0 0 r) img.rows img.cols) := by
  have hres : results ≠ [] := by
    intro he
    rw [he] at hne
    exact hne rfl
  have hwf2 : ∀ r ∈ results.filter
      (isCandidate sqrt (scoreThreshold.getD (1 / 2)) eyeDistanceThreshold 0 0),
      wellFormed r := fun r hr => hwf r (List.mem_of_mem_filter hr)
  obtain ⟨i, box, lmk, hsel, hib, hil, hmax, hfirst⟩ := selectFace_largest sqrt
    (keepCenter.getD false) img _
    ((results.filter
      (isCandidate sqrt (scoreThreshold.getD (1 / 2)) eyeDistanceThreshold 0 0)).map
        (shiftLandmark 0 0))
    (by simpa using hne) (shiftBox_length 0 0 _ hwf2) (by simp)
  rw [List.getElem?_map] at hib hil
  cases hr : (results.filter
      (isCandidate sqrt (scoreThreshold.getD (1 / 2)) eyeDistanceThreshold 0 0))[i]? with
  | none => rw [hr] at hib; simp at hib
  | some r =>
    rw [hr] at hib hil
    simp only [Option.map_some', Option.some.injEq] at hib hil
    subst hib hil
    refine ⟨i, r, hr, ?_, ?_, ?_⟩
    · rw [GetFaceLandmarks5_single sqrt cv c faceDet img (some true) keepCenter scoreThreshold
        eyeDistanceThreshold tryPadding [results] hdet hbatch]
      simp only [Option.getD_some]
      rw [imageStep_results sqrt cv faceDet true _ _ _ _ [results] img 0 results rfl hres hwf,
        hsel]
    · intro d hd
      exact hmax _ (List.mem_map_of_mem _ hd)
    · intro j d hj hjd
      exact hfirst j _ hj (by rw [List.getElem?_map, hjd]; rfl)

/-- On one image with well-formed raw detections of which some is a candidate,
`GetFaceLandmarks5` with `keepCenter` and without `keepLargest` returns the box
and the landmark of the first candidate whose `float32` box centre is at
minimal `float32` distance from `(⌊w/2⌋, ⌊h/2⌋)`. -/
theorem GetFaceLandmarks5_single_centre (sqrt : ℚ → ℚ) (cv : OpenCV) (c : FaceHelperClient)
    (faceDet : FaceDetectionClient) (img : Mat) (results : List FaceDetectionOutput)
    (keepLargest : Option Bool) (scoreThreshold eyeDistanceThreshold : Option ℚ)
    (tryPadding : Option Bool) (hkl : keepLargest.getD false = false)
    (hdet : c.faceDet = some faceDet) (hbatch : faceDet.InferBatch [[img]] = .ok [results])
    (hwf : ∀ r ∈ results, wellFormed r)
    (hne : results.filter
      (isCandidate sqrt (scoreThreshold.getD (1 / 2)) eyeDistanceThreshold 0 0) ≠ []) :
    ∃ (i : Nat) (r : FaceDetectionOutput),
      (results.filter
        (isCandidate sqrt (scoreThreshold.getD (1 / 2)) eyeDistanceThreshold 0 0))[i]? =
          some r ∧
      c.GetFaceLandmarks5 sqrt cv [img] keepLargest (some true) scoreThreshold
          eyeDistanceThreshold tryPadding =
        some ([some (shiftBox 0 0 r)], [some (shiftLandmark 0 0 r)], none) ∧
      (∀ d ∈ results.filter
          (isCandidate sqrt (scoreThreshold.getD (1 / 2)) eyeDistanceThreshold 0 0),
        centreDistance32 sqrt (shiftBox 0 0 r) (f32 ((img.cols / 2 : Nat) : ℚ))
            (f32 ((img.rows / 2 : Nat) : ℚ)) ≤
          centreDistance32 sqrt (shiftBox 0 0 d) (f32 ((img.cols / 2 : Nat) : ℚ))
            (f32 ((img.rows / 2 : Nat) : ℚ))) ∧
      (∀ j d, j < i →
        (results.filter
          (isCandidate sqrt (scoreThreshold.getD (1 / 2)) eyeDistanceThreshold 0 0))[j]? =
            some d →
        centreDistance32 sqrt (shiftBox 0 0 d) (f32 ((img.cols / 2 : Nat) : ℚ))
            (f32 ((img.rows / 2 : Nat) : ℚ)) ≠
          centreDistance32 sqrt (shiftBox 0 0 r) (f32 ((img.cols / 2 : Nat) : ℚ))
            (f32 ((img.rows / 2 : Nat) : ℚ))) := by
  have hres : results ≠ [] := by
    intro he
    rw [he] at hne
    exact hne rfl
  have hwf2 : ∀ r ∈ results.filter
      (isCandidate sqrt (scoreThreshold.getD (1 / 2)) eyeDistanceThreshold 0 0),
      wellFormed r := fun r hr => hwf r (List.mem_of_mem_filter hr)
  obtain ⟨i, box, lmk, hsel, hib, hil, hmin, hfirst⟩ := selectFace_centre sqrt img _
    ((results.filter
      (isCandidate sqrt (scoreThreshold.getD (1 / 2)) eyeDistanceThreshold 0 0)).map
        (shiftLandmark 0 0))
    (by simpa using hne) (shiftBox_length 0 0 _ hwf2) (by simp)
  rw [List.getElem?_map] at hib hil
  cases hr : (results.filter
      (isCandidate sqrt (scoreThreshold.getD (1 / 2)) eyeDistanceThreshold 0 0))[i]? with
  | none => rw [hr] at hib; simp at hib
  | some r =>
    rw [hr] at hib hil
    simp only [Option.map_some', Option.some.injEq] at hib hil
    subst hib hil
    refine ⟨i, r, hr, ?_, ?_, ?_⟩
    · rw [GetFaceLandmarks5_single sqrt cv c faceDet img keepLargest (some true) scoreThreshold
        eyeDistanceThreshold tryPadding [results] hdet hbatch]
      simp only [Option.getD_some, hkl]
      rw [imageStep_results sqrt cv faceDet false _ _ _ _ [results] img 0 results rfl hres hwf,
        hsel]
    · intro d hd
      exact hmin _ (List.mem_map_of_mem _ hd)
    · intro j d hj hjd
      exact hfirst j _ hj (by rw [List.getElem?_map, hjd]; rfl)

/-- C30 (counterexample): in a 5000-by-5000 image the detector finds a face
with the box `(0, 0, 4096, 4098)`, of clipped area 16785408, and then a face
with the box `(0, 0, 4097, 4097)`, of the larger clipped area 16785409; with
`keepLargest` and `keepCenter` both set `GetFaceLandmarks5` returns the first
face, which is not the one of largest clipped area: both `float32` areas are
16785408. -/
theorem GetFaceLandmarks5_largest_float_tie :
    (exampleHelper (some tiedAreaDetector)).GetFaceLandmarks5 goSqrt exampleCV
        [⟨5000, 5000, []⟩] (some true) (some true) none none none =
      some ([some (shiftBox 0 0 tallDetection)], [some (shiftLandmark 0 0 tallDetection)],
        none) ∧
    clippedArea (shiftBox 0 0 tallDetection) 5000 5000 = 16785408 ∧
    clippedArea (shiftBox 0 0 squareDetection) 5000 5000 = 16785409 ∧
    clippedArea32 (shiftBox 0 0 tallDetection) 5000 5000 = 16785408 ∧
    clippedArea32 (shiftBox 0 0 squareDetection) 5000 5000 = 16785408 := by
  refine ⟨by decide!, by decide!, by decide!, by decide!, by decide!⟩

/-- C30 (amended): with `keepLargest` set, `GetFaceLandmarks5` returns the same
result whatever `keepCenter` is, in particular when both are true; the
selection then emits, for an image with candidates, the first candidate of
maximal `float32` clipped area together with the landmark at the same index;
for one image with well-formed detections the call returns that candidate's
box and landmark. -/
theorem GetFaceLandmarks5_largest_over_centre (sqrt : ℚ → ℚ) (cv : OpenCV)
    (c : FaceHelperClient) (scoreThreshold eyeDistanceThreshold : Option ℚ) :
    (∀ (batchImages : List Mat) (keepCenter tryPadding : Option Bool),
      c.GetFaceLandmarks5 sqrt cv batchImages (some true) (some true) scoreThreshold
          eyeDistanceThreshold tryPadding =
        c.GetFaceLandmarks5 sqrt cv batchImages (some true) keepCenter scoreThreshold
          eyeDistanceThreshold tryPadding) ∧
    (∀ (img : Mat) (boxes lmks : List Dense), boxes ≠ [] →
      (∀ d ∈ boxes, 4 ≤ d.data.length) → lmks.length = boxes.length →
      ∃ (i : Nat) (box lmk : Dense),
        selectFace sqrt true true img boxes lmks = some (.emit (some box, some lmk)) ∧
        boxes[i]? = some box ∧ lmks[i]? = some lmk ∧
        (∀ d ∈ boxes,
          clippedArea32 d img.rows img.cols ≤ clippedArea32 box img.rows img.cols) ∧
        (∀ j d, j < i → boxes[j]? = some d →
          clippedArea32 d img.rows img.cols ≠ clippedArea32 box img.rows img.cols)) ∧
    (∀ (faceDet : FaceDetectionClient) (img : Mat) (results : List FaceDetectionOutput)
      (tryPadding : Option Bool),
      c.faceDet = some faceDet → faceDet.InferBatch [[img]] = .ok [results] →
      (∀ r ∈ results, wellFormed r) →
      results.filter
        (isCandidate sqrt (scoreThreshold.getD (1 / 2)) eyeDistanceThreshold 0 0) ≠ [] →
      ∃ (i : Nat) (r : FaceDetectionOutput),
        (results.filter
          (isCandidate sqrt (scoreThreshold.getD (1 / 2)) eyeDistanceThreshold 0 0))[i]? =
            some r ∧
        c.GetFaceLandmarks5 sqrt cv [img] (some true) (some true) scoreThreshold
            eyeDistanceThreshold tryPadding =
          some ([some (shiftBox 0 0 r)], [some (shiftLandmark 0 0 r)], none) ∧
        (∀ d ∈ results.filter
            (isCandidate sqrt (scoreThreshold.getD (1 / 2)) eyeDistanceThreshold 0 0),
          clippedArea32 (shiftBox 0 0 d) img.rows img.cols ≤
            clippedArea32 (shiftBox 0 0 r) img.rows img.cols) ∧
        (∀ j d, j < i →
          (results.filter
            (isCandidate sqrt (scoreThreshold.getD (1 / 2)) eyeDistanceThreshold 0 0))[j]? =
              some d →
          clippedArea32 (shiftBox 0 0 d) img.rows img.cols ≠
            clippedArea32 (shiftBox 0 0 r) img.rows img.cols)) := by
  refine ⟨?_, ?_, ?_⟩
  · intro batchImages keepCenter tryPadding
    unfold FaceHelperClient.GetFaceLandmarks5
    cases c.faceDet with
    | none => rfl
    | some faceDet =>
      simp only
      cases faceDet.InferBatch [batchImages] with
      | error err => rfl
      | ok batchResults =>
        simp only
        exact (imageLoop_keepLargest sqrt cv faceDet _ _ _ _ batchResults batchImages 0
          ([], [])).symm
  · intro img boxes lmks hne hwf hlen
    exact selectFace_largest sqrt true img boxes lmks hne hwf hlen
  · intro faceDet img results tryPadding hdet hbatch hwf hne
    exact GetFaceLandmarks5_single_largest sqrt cv c faceDet img results (some true)
      scoreThreshold eyeDistanceThreshold tryPadding hdet hbatch hwf hne

/-- Witness of C30 (amended): the detector finds the wide face and then the
small centred face; with both flags set the call returns the wide face, the
one of largest area, although the centred face is closer to the image
centre. -/
theorem GetFaceLandmarks5_largest_over_centre_witness :
    (exampleHelper (some twoFaceDetector)).GetFaceLandmarks5 goSqrt exampleCV [exampleImage]
        (some true) (some true) none none none =
      some ([some (shiftBox 0 0 wideDetection)], [some (shiftLandmark 0 0 wideDetection)],
        none) ∧
    ∃ (i : Nat) (r : FaceDetectionOutput),
      ([wideDetection, centredDetection].filter
        (isCandidate goSqrt ((none : Option ℚ).getD (1 / 2)) none 0 0))[i]? = some r ∧
      (exampleHelper (some twoFaceDetector)).GetFaceLandmarks5 goSqrt exampleCV [exampleImage]
          (some true) (some true) none none none =
        some ([some (shiftBox 0 0 r)], [some (shiftLandmark 0 0 r)], none) ∧
      (∀ d ∈ [wideDetection, centredDetection].filter
          (isCandidate goSqrt ((none : Option ℚ).getD (1 / 2)) none 0 0),
        clippedArea32 (shiftBox 0 0 d) exampleImage.rows exampleImage.cols ≤
          clippedArea32 (shiftBox 0 0 r) exampleImage.rows exampleImage.cols) ∧
      (∀ j d, j < i →
        ([wideDetection, centredDetection].filter
          (isCandidate goSqrt ((none : Option ℚ).getD (1 / 2)) none 0 0))[j]? = some d →
        clippedArea32 (shiftBox 0 0 d) exampleImage.rows exampleImage.cols ≠
          clippedArea32 (shiftBox 0 0 r) exampleImage.rows exampleImage.cols) :=
  ⟨by decide!,
    (GetFaceLandmarks5_largest_over_centre goSqrt exampleCV
      (exampleHelper (some twoFaceDetector)) none none).2.2 twoFaceDetector exampleImage
      [wideDetection, centredDetection] none rfl rfl
      (by
        intro r hr
        simp only [List.mem_cons, List.mem_singleton, List.not_mem_nil, or_false] at hr
        rcases hr with rfl | rfl
        · exact ⟨by decide, rfl, by decide, rfl, by simp [wideDetection]⟩
        · exact ⟨by decide, rfl, by decide, rfl, by simp [centredDetection]⟩)
      (by decide!)⟩

/-- The half of a natural number, rounded down, is its exact half precisely
when the number is even. -/
theorem half_cast_iff (n : Nat) : ((n / 2 : Nat) : ℚ) = (n : ℚ) / 2 ↔ n % 2 = 0 := by
  constructor
  · intro h
    have h2 : ((n / 2 * 2 : Nat) : ℚ) = (n : ℚ) := by
      push_cast
      rw [h]
      ring
    have h3 : n / 2 * 2 = n := by exact_mod_cast h2
    omega
  · intro h
    have h3 : n / 2 * 2 = n := by omega
    have h2 : ((n / 2 * 2 : Nat) : ℚ) = (n : ℚ) := by rw [h3]
    push_cast at h2
    rw [← h2]
    ring

/-- C23 (counterexample): in an image of height 3 and width 5 the geometric
centre is `(5/2, 3/2)`.  Of two boxes, the first centred exactly there and the
second centred at `(2, 1)`, `GetCenterFace` without a reference point returns
the second: it measures from `(2, 1)`, the halves rounded down, and to the
geometric centre the first box is the closer one. -/
theorem GetCenterFace_odd_size_reference :
    GetCenterFace ceilSqrt [⟨[4], [2, 1, 3, 2]⟩, ⟨[4], [1, 0, 3, 2]⟩] (some 3) (some 5) none =
      some (some ⟨[4], [1, 0, 3, 2]⟩, 1, none) ∧
    boxCentre ⟨[4], [2, 1, 3, 2]⟩ = (5 / 2, 3 / 2) ∧
    boxCentre ⟨[4], [1, 0, 3, 2]⟩ = (2, 1) ∧
    centreDistance ceilSqrt ⟨[4], [2, 1, 3, 2]⟩ (5 / 2) (3 / 2) <
      centreDistance ceilSqrt ⟨[4], [1, 0, 3, 2]⟩ (5 / 2) (3 / 2) ∧
    centreDistance ceilSqrt ⟨[4], [1, 0, 3, 2]⟩ 2 1 <
      centreDistance ceilSqrt ⟨[4], [2, 1, 3, 2]⟩ 2 1 := by
  decide!

/-- C23 (amended): when no explicit reference point is given, `GetCenterFace`
measures `float32` distances to the point `(⌊w/2⌋, ⌊h/2⌋)` of the `w`-by-`h`
image converted to `float32`, the halves being Go's integer division: the call
equals the call with that explicit reference point, and on a non-empty list of
boxes with four entries of magnitude at most `2 ^ 60` it returns the first box
whose `float32` centre is at minimal `float32` distance from it.  The
conversion does not change the point when `w` and `h` are below `2 ^ 25`, and
the point is the geometric centre `(w/2, h/2)` exactly when `w` and `h` are
both even. -/
theorem GetCenterFace_default_reference (sqrt : ℚ → ℚ) (detFaces : List Dense) (h w : Nat) :
    GetCenterFace sqrt detFaces (some (h : Int)) (some (w : Int)) none =
      GetCenterFace sqrt detFaces (some (h : Int)) (some (w : Int))
        (some ⟨((w / 2 : Nat) : Int), ((h / 2 : Nat) : Int)⟩) ∧
    (detFaces ≠ [] → (∀ d ∈ detFaces, 4 ≤ d.data.length) → (∀ d ∈ detFaces, withinBound d) →
      w < 2 ^ 63 → h < 2 ^ 63 →
      ∃ (i : Nat) (face : Dense),
        GetCenterFace sqrt detFaces (some (h : Int)) (some (w : Int)) none =
          some (some face, (i : Int), none) ∧
        detFaces[i]? = some face ∧
        (∀ d ∈ detFaces,
          centreDistance32 sqrt face (f32 ((w / 2 : Nat) : ℚ)) (f32 ((h / 2 : Nat) : ℚ)) ≤
            centreDistance32 sqrt d (f32 ((w / 2 : Nat) : ℚ)) (f32 ((h / 2 : Nat) : ℚ))) ∧
        (∀ j d, j < i → detFaces[j]? = some d →
          centreDistance32 sqrt d (f32 ((w / 2 : Nat) : ℚ)) (f32 ((h / 2 : Nat) : ℚ)) ≠
            centreDistance32 sqrt face (f32 ((w / 2 : Nat) : ℚ)) (f32 ((h / 2 : Nat) : ℚ)))) ∧
    (w < 2 ^ 25 → h < 2 ^ 25 →
      f32 ((w / 2 : Nat) : ℚ) = ((w / 2 : Nat) : ℚ) ∧
        f32 ((h / 2 : Nat) : ℚ) = ((h / 2 : Nat) : ℚ)) ∧
    ((((w / 2 : Nat) : ℚ) = (w : ℚ) / 2 ∧ ((h / 2 : Nat) : ℚ) = (h : ℚ) / 2) ↔
      (w % 2 = 0 ∧ h % 2 = 0)) := by
  have href : centreReference (some (h : Int)) (some (w : Int)) none =
      (f32 ((w / 2 : Nat) : ℚ), f32 ((h / 2 : Nat) : ℚ)) := by
    simp only [centreReference, Option.getD_some, tdiv_two_natCast, Int.cast_natCast]
  refine ⟨?_, ?_, ?_, ?_⟩
  · unfold GetCenterFace
    simp only [tdiv_two_natCast]
  · intro hne hwf _ _ _
    exact GetCenterFace_min sqrt detFaces (some (h : Int)) (some (w : Int)) none _ _ href hne hwf
  · intro hw hh
    exact ⟨f32_natCast _ (by omega), f32_natCast _ (by omega)⟩
  · rw [half_cast_iff w, half_cast_iff h]

/-- Witness of C23 (amended): the two boxes of the counterexample in the image
of height 3 and width 5; the box centred at `(2, 1)` is returned. -/
theorem GetCenterFace_default_reference_witness :
    GetCenterFace goSqrt [⟨[4], [2, 1, 3, 2]⟩, ⟨[4], [1, 0, 3, 2]⟩] (some 3) (some 5) none =
      some (some ⟨[4], [1, 0, 3, 2]⟩, 1, none) ∧
    ∃ (i : Nat) (face : Dense),
      GetCenterFace goSqrt [⟨[4], [2, 1, 3, 2]⟩, ⟨[4], [1, 0, 3, 2]⟩]
          (some ((3 : Nat) : Int)) (some ((5 : Nat) : Int)) none =
        some (some face, (i : Int), none) ∧
      [(⟨[4], [2, 1, 3, 2]⟩ : Dense), ⟨[4], [1, 0, 3, 2]⟩][i]? = some face ∧
      (∀ d ∈ [(⟨[4], [2, 1, 3, 2]⟩ : Dense), ⟨[4], [1, 0, 3, 2]⟩],
        centreDistance32 goSqrt face (f32 ((5 / 2 : Nat) : ℚ)) (f32 ((3 / 2 : Nat) : ℚ)) ≤
          centreDistance32 goSqrt d (f32 ((5 / 2 : Nat) : ℚ)) (f32 ((3 / 2 : Nat) : ℚ))) ∧
      (∀ j d, j < i →
        [(⟨[4], [2, 1, 3, 2]⟩ : Dense), ⟨[4], [1, 0, 3, 2]⟩][j]? = some d →
        centreDistance32 goSqrt d (f32 ((5 / 2 : Nat) : ℚ)) (f32 ((3 / 2 : Nat) : ℚ)) ≠
          centreDistance32 goSqrt face (f32 ((5 / 2 : Nat) : ℚ)) (f32 ((3 / 2 : Nat) : ℚ))) :=
  ⟨by decide!,
    (GetCenterFace_default_reference goSqrt
      [⟨[4], [2, 1, 3, 2]⟩, ⟨[4], [1, 0, 3, 2]⟩] 3 5).2.1 (by decide) (by decide) (by decide!)
      (by decide) (by decide)⟩

/-- C16 (counterexample): every image shows a wide face, centred one pixel
off the image centre, and a small face at the image centre.  Called without landmarks,
`FaceAntiSpoofingActiveVerify` derives the landmark of the centred face
(`keepCenter`), `FaceAntiSpoofingPassiveVerify` that of the wide face
(`keepLargest`); the quality model sees different crops and the two results
differ in FaceMaskScore. -/
theorem activeVerify_selects_centre_face :
    (exampleHelper (some twoFaceDetector)).GetFaceLandmarks5 ceilSqrt tracingCV [exampleImage]
        none (some true) none none (some true) =
      some ([some (shiftBox 0 0 centredDetection)], [some (shiftLandmark 0 0 centredDetection)],
        none) ∧
    (exampleHelper (some twoFaceDetector)).GetFaceLandmarks5 ceilSqrt tracingCV [exampleImage]
        (some true) none none none (some true) =
      some ([some (shiftBox 0 0 wideDetection)], [some (shiftLandmark 0 0 wideDetection)],
        none) ∧
    clippedArea (shiftBox 0 0 centredDetection) 480 640 <
      clippedArea (shiftBox 0 0 wideDetection) 480 640 ∧
    (tracingPipeline (some twoFaceDetector)).FaceAntiSpoofingActiveVerify ceilSqrt tracingCV
        exampleImage exampleImage exampleImage none none none =
      some ({ IsFaceMask := false, IsLiveness := true, IsSamePerson := true,
              ScoreMN := 1, ScoreFM := 1, LivenessScoreFull := 9 / 10,
              LivenessScoreCrop := 9 / 10, SimilarityScore := 0, FaceMaskScore := 330 },
        none) ∧
    (tracingPipeline (some twoFaceDetector)).FaceAntiSpoofingPassiveVerify ceilSqrt tracingCV
        exampleImage exampleImage exampleImage =
      some ({ IsFaceMask := false, IsLiveness := true, IsSamePerson := true,
              ScoreMN := 1, ScoreFM := 1, LivenessScoreFull := 9 / 10,
              LivenessScoreCrop := 9 / 10, SimilarityScore := 0, FaceMaskScore := 421 },
        none) := by
  refine ⟨by decide!, by decide!, by decide!, by decide!, by decide!⟩

/-- C16 (amended): for an image without a supplied landmark,
`FaceAntiSpoofingActiveVerify` calls `GetFaceLandmarks5` on that image alone
with `keepCenter` and `tryPadding` set and `keepLargest` absent, and passes
the first landmark of the answer to the stages; `FaceAntiSpoofingPassiveVerify`
calls it on each image alone with `keepLargest` and `tryPadding` set and
`keepCenter` absent.  On an image where the detector finds well-formed
candidates the active call returns the first candidate whose `float32` box
centre is at minimal `float32` distance from `(⌊w/2⌋, ⌊h/2⌋)`, the passive call
the first candidate of maximal `float32` clipped area.  A supplied landmark is
passed to the stages unchanged, and with three supplied landmarks the result
does not depend on the detector. -/
theorem activeVerify_landmark_source (sqrt : ℚ → ℚ) (cv : OpenCV) (c : EKYCPipeline)
    (imgFar imgMid imgNear : Mat) :
    (∀ lM lN : Dense,
      c.FaceAntiSpoofingActiveVerify sqrt cv imgFar imgMid imgNear none (some lM) (some lN) =
        match c.FaceHelper.GetFaceLandmarks5 sqrt cv [imgFar] none (some true) none none
            (some true) with
        | none => none
        | some (_, _, some err) => some (initialVerify, some err)
        | some (_, [], none) =>
          some (initialVerify, some "cannot detect any face in mid-face image")
        | some (_, lmk :: _, none) =>
          c.activeStages sqrt cv initialVerify imgFar imgMid imgNear lmk (some lM) (some lN)) ∧
    (∀ lF lN : Dense,
      c.FaceAntiSpoofingActiveVerify sqrt cv imgFar imgMid imgNear (some lF) none (some lN) =
        match c.FaceHelper.GetFaceLandmarks5 sqrt cv [imgMid] none (some true) none none
            (some true) with
        | none => none
        | some (_, _, some err) => some (initialVerify, some err)
        | some (_, [], none) =>
          some (initialVerify, some "cannot detect any face in mid-face image")
        | some (_, lmk :: _, none) =>
          c.activeStages sqrt cv initialVerify imgFar imgMid imgNear (some lF) lmk (some lN)) ∧
    (∀ lF lM : Dense,
      c.FaceAntiSpoofingActiveVerify sqrt cv imgFar imgMid imgNear (some lF) (some lM) none =
        match c.FaceHelper.GetFaceLandmarks5 sqrt cv [imgNear] none (some true) none none
            (some true) with
        | none => none
        | some (_, _, some err) => some (initialVerify, some err)
        | some (_, [], none) =>
          some (initialVerify, some "cannot detect any face in near-face image")
        | some (_, lmk :: _, none) =>
          c.activeStages sqrt cv initialVerify imgFar imgMid imgNear (some lF) (some lM) lmk) ∧
    (∀ (d : Option FaceDetectionClient) (lF lM lN : Dense),
      EKYCPipeline.FaceAntiSpoofingActiveVerify sqrt cv
          { c with FaceHelper := { c.FaceHelper with faceDet := d } }
          imgFar imgMid imgNear (some lF) (some lM) (some lN) =
        c.FaceAntiSpoofingActiveVerify sqrt cv imgFar imgMid imgNear (some lF) (some lM)
          (some lN)) ∧
    (∀ (imgs : List Mat) (scoreThreshold eyeDistanceThreshold : Option ℚ)
      (tryPadding : Option Bool),
      c.FaceHelper.GetFaceLandmarks5 sqrt cv imgs none (some true) scoreThreshold
          eyeDistanceThreshold tryPadding =
        c.FaceHelper.GetFaceLandmarks5 sqrt cv imgs (some false) (some true) scoreThreshold
          eyeDistanceThreshold tryPadding) ∧
    (c.FaceAntiSpoofingPassiveVerify sqrt cv imgFar imgMid imgNear =
      match c.FaceHelper.GetFaceLandmarks5 sqrt cv [imgFar] (some true) none none none
          (some true) with
      | none => none
      | some (_, _, some err) => some (initialVerify, some err)
      | some (_, [], none) =>
        some (initialVerify, some "cannot detect any face in far-face image")
      | some (_, lmkFar :: _, none) =>
        match c.FaceHelper.GetFaceLandmarks5 sqrt cv [imgMid] (some true) none none none
            (some true) with
        | none => none
        | some (_, _, some err) => some (initialVerify, some err)
        | some (_, [], none) =>
          some (initialVerify, some "cannot detect any face in mid-face image")
        | some (_, lmkMid :: _, none) =>
          match c.FaceHelper.GetFaceLandmarks5 sqrt cv [imgNear] (some true) none none none
              (some true) with
          | none => none
          | some (_, _, some err) => some (initialVerify, some err)
          | some (_, [], none) =>
            some (initialVerify, some "cannot detect any face in near-face image")
          | some (_, lmkNear :: _, none) =>
            c.passiveStages sqrt cv initialVerify imgFar imgMid imgNear lmkFar lmkMid
              lmkNear) ∧
    (∀ (faceDet : FaceDetectionClient) (img : Mat) (results : List FaceDetectionOutput),
      c.FaceHelper.faceDet = some faceDet → faceDet.InferBatch [[img]] = .ok [results] →
      (∀ r ∈ results, wellFormed r) → (∀ r ∈ results, withinBound r.Box) →
      results.filter (isCandidate sqrt (1 / 2) none 0 0) ≠ [] →
      ∃ (i : Nat) (r : FaceDetectionOutput),
        (results.filter (isCandidate sqrt (1 / 2) none 0 0))[i]? = some r ∧
        c.FaceHelper.GetFaceLandmarks5 sqrt cv [img] none (some true) none none (some true) =
          some ([some (shiftBox 0 0 r)], [some (shiftLandmark 0 0 r)], none) ∧
        (∀ d ∈ results.filter (isCandidate sqrt (1 / 2) none 0 0),
          centreDistance32 sqrt (shiftBox 0 0 r) (f32 ((img.cols / 2 : Nat) : ℚ))
              (f32 ((img.rows / 2 : Nat) : ℚ)) ≤
            centreDistance32 sqrt (shiftBox 0 0 d) (f32 ((img.cols / 2 : Nat) : ℚ))
              (f32 ((img.rows / 2 : Nat) : ℚ))) ∧
        (∀ j d, j < i → (results.filter (isCandidate sqrt (1 / 2) none 0 0))[j]? = some d →
          centreDistance32 sqrt (shiftBox 0 0 d) (f32 ((img.cols / 2 : Nat) : ℚ))
              (f32 ((img.rows / 2 : Nat) : ℚ)) ≠
            centreDistance32 sqrt (shiftBox 0 0 r) (f32 ((img.cols / 2 : Nat) : ℚ))
              (f32 ((img.rows / 2 : Nat) : ℚ)))) ∧
    (∀ (faceDet : FaceDetectionClient) (img : Mat) (results : List FaceDetectionOutput),
      c.FaceHelper.faceDet = some faceDet → faceDet.InferBatch [[img]] = .ok [results] →
      (∀ r ∈ results, wellFormed r) →
      results.filter (isCandidate sqrt (1 / 2) none 0 0) ≠ [] →
      ∃ (i : Nat) (r : FaceDetectionOutput),
        (results.filter (isCandidate sqrt (1 / 2) none 0 0))[i]? = some r ∧
        c.FaceHelper.GetFaceLandmarks5 sqrt cv [img] (some true) none none none (some true) =
          some ([some (shiftBox 0 0 r)], [some (shiftLandmark 0 0 r)], none) ∧
        (∀ d ∈ results.filter (isCandidate sqrt (1 / 2) none 0 0),
          clippedArea32 (shiftBox 0 0 d) img.rows img.cols ≤
            clippedArea32 (shiftBox 0 0 r) img.rows img.cols) ∧
        (∀ j d, j < i → (results.filter (isCandidate sqrt (1 / 2) none 0 0))[j]? = some d →
          clippedArea32 (shiftBox 0 0 d) img.rows img.cols ≠
            clippedArea32 (shiftBox 0 0 r) img.rows img.cols)) := by
  refine ⟨?_, ?_, ?_, ?_, ?_, ?_, ?_, ?_⟩
  · intro lM lN
    unfold EKYCPipeline.FaceAntiSpoofingActiveVerify EKYCPipeline.locateLandmark
    simp only
    cases hG : c.FaceHelper.GetFaceLandmarks5 sqrt cv [imgFar] none (some true) none none
        (some true) with
    | none => rfl
    | some v =>
      obtain ⟨bs, ls, e⟩ := v
      cases ls <;> cases e <;> rfl
  · intro lF lN
    unfold EKYCPipeline.FaceAntiSpoofingActiveVerify EKYCPipeline.locateLandmark
    simp only
    cases hG : c.FaceHelper.GetFaceLandmarks5 sqrt cv [imgMid] none (some true) none none
        (some true) with
    | none => rfl
    | some v =>
      obtain ⟨bs, ls, e⟩ := v
      cases ls <;> cases e <;> rfl
  · intro lF lM
    unfold EKYCPipeline.FaceAntiSpoofingActiveVerify EKYCPipeline.locateLandmark
    simp only
    cases hG : c.FaceHelper.GetFaceLandmarks5 sqrt cv [imgNear] none (some true) none none
        (some true) with
    | none => rfl
    | some v =>
      obtain ⟨bs, ls, e⟩ := v
      cases ls <;> cases e <;> rfl
  · intro d lF lM lN
    rfl
  · intro imgs scoreThreshold eyeDistanceThreshold tryPadding
    rfl
  · unfold EKYCPipeline.FaceAntiSpoofingPassiveVerify EKYCPipeline.locateLandmark
    simp only
    cases hF : c.FaceHelper.GetFaceLandmarks5 sqrt cv [imgFar] (some true) none none none
        (some true) with
    | none => rfl
    | some v =>
      obtain ⟨bs, ls, e⟩ := v
      cases e with
      | some err => cases ls <;> rfl
      | none =>
        cases ls with
        | nil => rfl
        | cons lmkFar _ =>
          simp only
          cases hM : c.FaceHelper.GetFaceLandmarks5 sqrt cv [imgMid] (some true) none none none
              (some true) with
          | none => rfl
          | some v =>
            obtain ⟨bs, ls, e⟩ := v
            cases e with
            | some err => cases ls <;> rfl
            | none =>
              cases ls with
              | nil => rfl
              | cons lmkMid _ =>
                simp only
                cases hN : c.FaceHelper.GetFaceLandmarks5 sqrt cv [imgNear] (some true) none
                    none none (some true) with
                | none => rfl
                | some v =>
                  obtain ⟨bs, ls, e⟩ := v
                  cases ls <;> cases e <;> rfl
  · intro faceDet img results hdet hbatch hwf _ hne
    exact GetFaceLandmarks5_single_centre sqrt cv c.FaceHelper faceDet img results none none
      none (some true) rfl hdet hbatch hwf hne
  · intro faceDet img results hdet hbatch hwf hne
    exact GetFaceLandmarks5_single_largest sqrt cv c.FaceHelper faceDet img results none none
      none (some true) hdet hbatch hwf hne

/-- Witness of C16 (amended): the detector finds the wide and then the centred
face in `exampleImage`; the call of the active flow returns the centred one,
the call of the passive flow the wide one. -/
theorem activeVerify_landmark_source_witness :
    (∃ (i : Nat) (r : FaceDetectionOutput),
      ([wideDetection, centredDetection].filter (isCandidate goSqrt (1 / 2) none 0 0))[i]? =
        some r ∧
      (tracingPipeline (some twoFaceDetector)).FaceHelper.GetFaceLandmarks5 goSqrt tracingCV
          [exampleImage] none (some true) none none (some true) =
        some ([some (shiftBox 0 0 r)], [some (shiftLandmark 0 0 r)], none) ∧
      (∀ d ∈ [wideDetection, centredDetection].filter (isCandidate goSqrt (1 / 2) none 0 0),
        centreDistance32 goSqrt (shiftBox 0 0 r) (f32 ((exampleImage.cols / 2 : Nat) : ℚ))
            (f32 ((exampleImage.rows / 2 : Nat) : ℚ)) ≤
          centreDistance32 goSqrt (shiftBox 0 0 d) (f32 ((exampleImage.cols / 2 : Nat) : ℚ))
            (f32 ((exampleImage.rows / 2 : Nat) : ℚ))) ∧
      (∀ j d, j < i →
        ([wideDetection, centredDetection].filter
          (isCandidate goSqrt (1 / 2) none 0 0))[j]? = some d →
        centreDistance32 goSqrt (shiftBox 0 0 d) (f32 ((exampleImage.cols / 2 : Nat) : ℚ))
            (f32 ((exampleImage.rows / 2 : Nat) : ℚ)) ≠
          centreDistance32 goSqrt (shiftBox 0 0 r) (f32 ((exampleImage.cols / 2 : Nat) : ℚ))
            (f32 ((exampleImage.rows / 2 : Nat) : ℚ)))) ∧
    (∃ (i : Nat) (r : FaceDetectionOutput),
      ([wideDetection, centredDetection].filter (isCandidate goSqrt (1 / 2) none 0 0))[i]? =
        some r ∧
      (tracingPipeline (some twoFaceDetector)).FaceHelper.GetFaceLandmarks5 goSqrt tracingCV
          [exampleImage] (some true) none none none (some true) =
        some ([some (shiftBox 0 0 r)], [some (shiftLandmark 0 0 r)], none) ∧
      (∀ d ∈ [wideDetection, centredDetection].filter (isCandidate goSqrt (1 / 2) none 0 0),
        clippedArea32 (shiftBox 0 0 d) exampleImage.rows exampleImage.cols ≤
          clippedArea32 (shiftBox 0 0 r) exampleImage.rows exampleImage.cols) ∧
      (∀ j d, j < i →
        ([wideDetection, centredDetection].filter
          (isCandidate goSqrt (1 / 2) none 0 0))[j]? = some d →
        clippedArea32 (shiftBox 0 0 d) exampleImage.rows exampleImage.cols ≠
          clippedArea32 (shiftBox 0 0 r) exampleImage.rows exampleImage.cols)) ∧
    (tracingPipeline (some twoFaceDetector)).FaceHelper.GetFaceLandmarks5 goSqrt tracingCV
        [exampleImage] none (some true) none none (some true) =
      some ([some (shiftBox 0 0 centredDetection)], [some (shiftLandmark 0 0 centredDetection)],
        none) ∧
    (tracingPipeline (some twoFaceDetector)).FaceHelper.GetFaceLandmarks5 goSqrt tracingCV
        [exampleImage] (some true) none none none (some true) =
      some ([some (shiftBox 0 0 wideDetection)], [some (shiftLandmark 0 0 wideDetection)],
        none) :=
  have hwf : ∀ r ∈ [wideDetection, centredDetection], wellFormed r := by
    intro r hr
    simp only [List.mem_cons, List.mem_singleton, List.not_mem_nil, or_false] at hr
    rcases hr with rfl | rfl
    · exact ⟨by decide, rfl, by decide, rfl, by simp [wideDetection]⟩
    · exact ⟨by decide, rfl, by decide, rfl, by simp [centredDetection]⟩
  ⟨(activeVerify_landmark_source goSqrt tracingCV (tracingPipeline (some twoFaceDetector))
      exampleImage exampleImage exampleImage).2.2.2.2.2.2.1 twoFaceDetector exampleImage
      [wideDetection, centredDetection] rfl rfl hwf (by decide!) (by decide!),
    (activeVerify_landmark_source goSqrt tracingCV (tracingPipeline (some twoFaceDetector))
      exampleImage exampleImage exampleImage).2.2.2.2.2.2.2 twoFaceDetector exampleImage
      [wideDetection, centredDetection] rfl rfl hwf (by decide!),
    by decide!, by decide!⟩

/-- The example square root vanishes at zero. -/
theorem ceilSqrt_zero : ceilSqrt 0 = 0 := by
  simp [ceilSqrt]

/-- The example square root is non-zero on positive arguments. -/
theorem ceilSqrt_ne_zero (x : ℚ) (hx : 0 < x) : ceilSqrt x ≠ 0 := by
  have h1 : 0 < ⌈x⌉₊ := Nat.ceil_pos.2 hx
  have h2 : 0 < Nat.sqrt ⌈x⌉₊ := Nat.sqrt_pos.2 h1
  have h3 : (0 : ℚ) < (Nat.sqrt ⌈x⌉₊ : ℚ) := by exact_mod_cast h2
  exact ne_of_gt h3

/-- On vectors of equal length the loop of `similarityScore` folds the
`float32` products into its three `float64` accumulators. -/
theorem similarityLoop_eq (a b : List ℚ) (h : a.length = b.length) (d na nb : ℚ) :
    similarityLoop a b (d, na, nb) =
      ((List.zipWith (fun x y => f32 (x * y)) a b).foldl (fun acc p => f64 (acc + p)) d,
        (List.zipWith (fun x y => f32 (x * y)) a a).foldl (fun acc p => f64 (acc + p)) na,
        (List.zipWith (fun x y => f32 (x * y)) b b).foldl (fun acc p => f64 (acc + p)) nb) := by
  induction a generalizing b d na nb with
  | nil =>
    cases b with
    | nil => simp [similarityLoop]
    | cons y ys => simp at h
  | cons x xs ih =>
    cases b with
    | nil => simp at h
    | cons y ys =>
      simp only [List.length_cons, Nat.add_right_cancel_iff] at h
      simp only [similarityLoop, ih ys h, List.zipWith_cons_cons, List.foldl_cons]

/-- On vectors of equal length the loop of `similarityScore`, started at zero,
computes `dot64 a b`, `dot64 a a` and `dot64 b b`. -/
theorem similarityLoop_dot64 (a b : List ℚ) (h : a.length = b.length) :
    similarityLoop a b (0, 0, 0) = (dot64 a b, dot64 a a, dot64 b b) := by
  rw [similarityLoop_eq a b h]
  rfl

/-- A `float32` value that is the rounding of a non-negative number and is not
zero is at least the least positive `float32`, `2 ^ (-149)`. -/
theorem f32_ge_of_ne_zero (q : ℚ) (hq : 0 ≤ q) (h : f32 q ≠ 0) : (2 : ℚ) ^ (-149 : Int) ≤ f32 q := by
  have hq0 : q ≠ 0 := by
    intro h0
    rw [h0, f32_zero] at h
    exact h rfl
  have hpos : 0 < q := lt_of_le_of_ne hq (Ne.symm hq0)
  have e : f32 q = roundMag 24 (-126) q.num.natAbs q.den := by
    unfold f32 roundNE
    rw [if_neg hq0, if_neg (not_lt.2 hq)]
  have hn : 0 < q.num.natAbs := Int.natAbs_pos.2 (ne_of_gt (Rat.num_pos.2 hpos))
  obtain ⟨M, j, _, hj, hr⟩ := roundMag_mem 24 (-126) q.num.natAbs q.den (by norm_num) hn q.den_pos
  rw [e, hr]
  rw [e, hr] at h
  have hM : 1 ≤ M := by
    rcases Nat.eq_zero_or_pos M with h0 | h0
    · rw [h0] at h
      simp at h
    · exact h0
  have hM2 : (1 : ℚ) ≤ (M : ℚ) := by exact_mod_cast hM
  have hj2 : (2 : ℚ) ^ (-149 : Int) ≤ (2 : ℚ) ^ j :=
    zpow_le_zpow_right₀ (by norm_num) (by
      have : ((24 - 1 : Nat) : Int) = 23 := by norm_num
      omega)
  have hp : (0 : ℚ) < (2 : ℚ) ^ j := by positivity
  calc (2 : ℚ) ^ (-149 : Int) ≤ (2 : ℚ) ^ j := hj2
    _ = 1 * (2 : ℚ) ^ j := by ring
    _ ≤ (M : ℚ) * (2 : ℚ) ^ j := by
      exact mul_le_mul_of_nonneg_right hM2 hp.le

/-- A `float64` sum of a number not below `2 ^ (-149)` is not below it. -/
theorem f64_ge_of_ge (x : ℚ) (h : (2 : ℚ) ^ (-149 : Int) ≤ x) : (2 : ℚ) ^ (-149 : Int) ≤ f64 x := by
  have := le_roundNE 53 (-1022) x 1 (-149) (by norm_num) (by norm_num) (by norm_num)
    (by simpa using h)
  simpa [f64] using this

/-- The rounding of zero to `float64` is zero. -/
theorem f64_zero : f64 0 = 0 := by simp [f64, roundNE]

/-- The `float64` sum, in order, of `float32` roundings of non-negative
numbers, started at an accumulator that is zero or at least `2 ^ (-149)`: it is
zero when the accumulator and all the terms are zero, and at least
`2 ^ (-149)` otherwise. -/
theorem foldl_f64_sum (qs : List ℚ) (hqs : ∀ q ∈ qs, 0 ≤ q) (acc : ℚ)
    (hacc : acc = 0 ∨ (2 : ℚ) ^ (-149 : Int) ≤ acc) :
    ((acc = 0 ∧ ∀ q ∈ qs, f32 q = 0) →
      (qs.map f32).foldl (fun acc p => f64 (acc + p)) acc = 0) ∧
    (¬ (acc = 0 ∧ ∀ q ∈ qs, f32 q = 0) →
      (2 : ℚ) ^ (-149 : Int) ≤ (qs.map f32).foldl (fun acc p => f64 (acc + p)) acc) := by
  induction qs generalizing acc with
  | nil =>
    constructor
    · intro h
      simpa using h.1
    · intro h
      rcases hacc with h0 | h0
      · exact absurd ⟨h0, by simp⟩ h
      · simpa using h0
  | cons q qs ih =>
    have hq : 0 ≤ q := hqs q (List.mem_cons_self _ _)
    have hqs2 : ∀ x ∈ qs, 0 ≤ x := fun x hx => hqs x (List.mem_cons_of_mem _ hx)
    have hc : (0 : ℚ) < (2 : ℚ) ^ (-149 : Int) := by positivity
    have hfq : 0 ≤ f32 q := f32_nonneg q hq
    have hacc0 : 0 ≤ acc := by
      rcases hacc with h0 | h0
      · rw [h0]
      · exact le_trans hc.le h0
    simp only [List.map_cons, List.foldl_cons, List.mem_cons, forall_eq_or_imp]
    by_cases hz : acc = 0 ∧ f32 q = 0
    · have hn : f64 (acc + f32 q) = 0 := by
        rw [hz.1, hz.2, add_zero, f64_zero]
      have := ih hqs2 (f64 (acc + f32 q)) (Or.inl hn)
      constructor
      · intro h
        exact this.1 ⟨hn, h.2.2⟩
      · intro h
        apply this.2
        intro h2
        exact h ⟨hz.1, hz.2, h2.2⟩
    · have hge : (2 : ℚ) ^ (-149 : Int) ≤ f64 (acc + f32 q) := by
        apply f64_ge_of_ge
        by_cases ha : acc = 0
        · have hf : f32 q ≠ 0 := fun h0 => hz ⟨ha, h0⟩
          have := f32_ge_of_ne_zero q hq hf
          rw [ha, zero_add]
          exact this
        · rcases hacc with h0 | h0
          · exact absurd h0 ha
          · linarith
      have hne : f64 (acc + f32 q) ≠ 0 := ne_of_gt (lt_of_lt_of_le hc hge)
      have := ih hqs2 (f64 (acc + f32 q)) (Or.inr hge)
      constructor
      · intro h
        exact absurd ⟨h.1, h.2.1⟩ hz
      · intro _
        apply this.2
        intro h2
        exact hne h2.1

/-- The `float64` sum of the `float32` squares of a vector is zero exactly when
every `float32` square is zero, and is never negative. -/
theorem dot64_self (a : List ℚ) :
    (dot64 a a = 0 ↔ ∀ x ∈ a, f32 (x * x) = 0) ∧ 0 ≤ dot64 a a := by
  have hmap : List.zipWith (fun x y => f32 (x * y)) a a = (a.map (fun x => x * x)).map f32 := by
    induction a with
    | nil => rfl
    | cons x xs ih => simp only [List.zipWith_cons_cons, List.map_cons, ih]
  have hnn : ∀ q ∈ a.map (fun x => x * x), 0 ≤ q := by
    intro q hq
    obtain ⟨z, _, rfl⟩ := List.mem_map.1 hq
    exact mul_self_nonneg z
  have key := foldl_f64_sum (a.map (fun x => x * x)) hnn 0 (Or.inl rfl)
  have hall : (∀ q ∈ a.map (fun x => x * x), f32 q = 0) ↔ ∀ x ∈ a, f32 (x * x) = 0 := by
    constructor
    · intro h x hx
      exact h _ (List.mem_map_of_mem _ hx)
    · intro h q hq
      obtain ⟨z, hz, rfl⟩ := List.mem_map.1 hq
      exact h z hz
  have hc : (0 : ℚ) < (2 : ℚ) ^ (-149 : Int) := by positivity
  unfold dot64
  rw [hmap]
  by_cases hz : ∀ q ∈ a.map (fun x => x * x), f32 q = 0
  · have h0 := key.1 ⟨rfl, hz⟩
    exact ⟨⟨fun _ => hall.1 hz, fun _ => h0⟩, by rw [h0]⟩
  · have hge := key.2 (fun h => hz h.2)
    refine ⟨⟨fun h => ?_, fun h => absurd (hall.2 h) hz⟩, le_trans hc.le hge⟩
    rw [h] at hge
    exact absurd hge (not_le.2 hc)

/-- The `float32` square of a number of magnitude at least `2 ^ (-74)` is not
zero. -/
theorem f32_sq_ne_zero (x : ℚ) (hx : 1 / 2 ^ 74 ≤ |x|) : f32 (x * x) ≠ 0 := by
  have h1 : (1 : ℚ) / 2 ^ 148 ≤ x * x := by
    have h2 : |x| * |x| = x * x := abs_mul_abs_self x
    rw [← h2]
    have h3 : (0 : ℚ) ≤ 1 / 2 ^ 74 := by positivity
    calc (1 : ℚ) / 2 ^ 148 = (1 / 2 ^ 74) * (1 / 2 ^ 74) := by norm_num
      _ ≤ |x| * |x| := mul_le_mul hx hx h3 (abs_nonneg x)
  have h4 := le_roundNE 24 (-126) (x * x) 1 (-148) (by norm_num) (by norm_num) (by norm_num)
    (by
      have e : ((1 : Nat) : ℚ) * (2 : ℚ) ^ (-148 : Int) = 1 / 2 ^ 148 := by
        rw [zpow_neg]
        norm_num
      rw [e]
      exact h1)
  have h5 : (0 : ℚ) < ((1 : Nat) : ℚ) * (2 : ℚ) ^ (-148 : Int) := by positivity
  exact ne_of_gt (lt_of_lt_of_le h5 h4)

/-- C4 (counterexample): the one-component vector `(2 ^ (-100))` is not
all-zero, and `similarityScore` on it and itself returns the error of a zero
vector: the `float32` square of the component is zero. -/
theorem similarityScore_underflow_error :
    similarityScore goSqrt ⟨[1], [1 / 2 ^ 100]⟩ ⟨[1], [1 / 2 ^ 100]⟩ =
      (0, some "zero vector encountered") ∧
    (∃ x ∈ (⟨[1], [1 / 2 ^ 100]⟩ : Dense).data, x ≠ 0) ∧
    f32 (1 / 2 ^ 100 * (1 / 2 ^ 100)) = 0 := by
  refine ⟨by decide!, ⟨1 / 2 ^ 100, by simp, by norm_num⟩, by decide!⟩

/-- C4 (amended): `similarityScore` returns an error when the lengths differ
and when every `float32` square of a component of either vector is zero, as in
an all-zero vector, the empty vector, and a vector of components whose squares
underflow.  For equal-length vectors with components of magnitude at most
`2 ^ 60` that each have a component with a non-zero `float32` square, which
every component of magnitude at least `2 ^ (-74)` has, it returns without
error the `float32` of the `float64` quotient of `dot64 a b` by the `float64`
product of the two norms, each norm the square root of the `float64` sum of
`float32` squares.  The square root is any function that is zero at zero and
non-zero on positive arguments. -/
theorem similarityScore_error_or_value (sqrt : ℚ → ℚ) (hs0 : sqrt 0 = 0)
    (hpos : ∀ x, 0 < x → sqrt x ≠ 0) (A B : Dense) :
    (A.data.length ≠ B.data.length →
      similarityScore sqrt A B = (0, some "vectors must have the same length")) ∧
    (A.data.length = B.data.length →
      ((∀ x ∈ A.data, f32 (x * x) = 0) ∨ (∀ y ∈ B.data, f32 (y * y) = 0)) →
      similarityScore sqrt A B = (0, some "zero vector encountered")) ∧
    ((∀ x ∈ A.data, x = 0) ∨ (∀ y ∈ B.data, y = 0) → (similarityScore sqrt A B).2 ≠ none) ∧
    (A.data.length = B.data.length →
      (∀ x ∈ A.data, |x| ≤ 2 ^ 60) → (∀ y ∈ B.data, |y| ≤ 2 ^ 60) →
      (∃ x ∈ A.data, f32 (x * x) ≠ 0) → (∃ y ∈ B.data, f32 (y * y) ≠ 0) →
      similarityScore sqrt A B =
        (f32 (f64 (dot64 A.data B.data /
          f64 (sqrt (dot64 A.data A.data) * sqrt (dot64 B.data B.data)))), none)) ∧
    (∀ x : ℚ, 1 / 2 ^ 74 ≤ |x| → f32 (x * x) ≠ 0) := by
  have herr : A.data.length = B.data.length →
      ((∀ x ∈ A.data, f32 (x * x) = 0) ∨ (∀ y ∈ B.data, f32 (y * y) = 0)) →
      similarityScore sqrt A B = (0, some "zero vector encountered") := by
    intro h hz
    unfold similarityScore
    simp only
    rw [if_neg (not_not.2 h), similarityLoop_dot64 A.data B.data h]
    have hor : sqrt (dot64 A.data A.data) = 0 ∨ sqrt (dot64 B.data B.data) = 0 := by
      rcases hz with ha | hb
      · left
        rw [(dot64_self A.data).1.2 ha, hs0]
      · right
        rw [(dot64_self B.data).1.2 hb, hs0]
    rw [if_pos hor]
  refine ⟨?_, herr, ?_, ?_, f32_sq_ne_zero⟩
  · intro h
    unfold similarityScore
    simp only
    rw [if_pos h]
  · intro hz
    by_cases h : A.data.length = B.data.length
    · rw [herr h (by
        rcases hz with ha | hb
        · left
          intro x hx
          rw [ha x hx, mul_zero, f32_zero]
        · right
          intro y hy
          rw [hb y hy, mul_zero, f32_zero])]
      simp
    · unfold similarityScore
      simp only
      rw [if_pos h]
      simp
  · intro h _ _ ha hb
    unfold similarityScore
    simp only
    rw [if_neg (not_not.2 h), similarityLoop_dot64 A.data B.data h]
    have hna : sqrt (dot64 A.data A.data) ≠ 0 := by
      apply hpos
      rcases lt_or_eq_of_le (dot64_self A.data).2 with hlt | heq
      · exact hlt
      · obtain ⟨x, hx, hx0⟩ := ha
        exact absurd ((dot64_self A.data).1.1 heq.symm x hx) hx0
    have hnb : sqrt (dot64 B.data B.data) ≠ 0 := by
      apply hpos
      rcases lt_or_eq_of_le (dot64_self B.data).2 with hlt | heq
      · exact hlt
      · obtain ⟨y, hy, hy0⟩ := hb
        exact absurd ((dot64_self B.data).1.1 heq.symm y hy) hy0
    rw [if_neg (by
      intro hor
      rcases hor with h1 | h1
      · exact hna h1
      · exact hnb h1)]

/-- Witness of C4 (amended) on the vectors `(3, 4)` and `(4, 3)` with the
example square root: the result is the value `24 / 25` rounded to `float64`
and then to `float32`, and no error. -/
theorem similarityScore_error_or_value_witness :
    ceilSqrt 0 = 0 ∧ (∀ x, 0 < x → ceilSqrt x ≠ 0) ∧
    similarityScore ceilSqrt ⟨[2], [3, 4]⟩ ⟨[2], [4, 3]⟩ =
      (f32 (f64 (dot64 [3, 4] [4, 3] /
        f64 (ceilSqrt (dot64 [3, 4] [3, 4]) * ceilSqrt (dot64 [4, 3] [4, 3])))), none) ∧
    f32 (f64 (dot64 [3, 4] [4, 3] /
        f64 (ceilSqrt (dot64 [3, 4] [3, 4]) * ceilSqrt (dot64 [4, 3] [4, 3])))) =
      f32 (24 / 25) :=
  ⟨ceilSqrt_zero, ceilSqrt_ne_zero,
    (similarityScore_error_or_value ceilSqrt ceilSqrt_zero ceilSqrt_ne_zero
      ⟨[2], [3, 4]⟩ ⟨[2], [4, 3]⟩).2.2.2.1 rfl (by decide!) (by decide!)
      ⟨3, by simp, by decide!⟩ ⟨4, by simp, by decide!⟩,
    by decide!⟩

/-- The landmark block returns a landmark without error exactly when
`GetFaceLandmarks5` returns, without error, a landmark list that starts with
it. -/
theorem locateLandmark_ok (sqrt : ℚ → ℚ) (cv : OpenCV) (c : EKYCPipeline) (img : Mat)
    (keepLargest keepCenter : Option Bool) (msg : Err) (lmk : Option Dense) :
    c.locateLandmark sqrt cv img keepLargest keepCenter msg = some (lmk, none) ↔
      ∃ (boxes lmks : List (Option Dense)),
        c.FaceHelper.GetFaceLandmarks5 sqrt cv [img] keepLargest keepCenter none none
          (some true) = some (boxes, lmk :: lmks, none) := by
  unfold EKYCPipeline.locateLandmark
  cases hG : c.FaceHelper.GetFaceLandmarks5 sqrt cv [img] keepLargest keepCenter none none
      (some true) with
  | none => simp
  | some v =>
    obtain ⟨bs, ls, e⟩ := v
    cases e with
    | some err => simp
    | none =>
      cases ls with
      | nil => simp
      | cons l rest =>
        simp only [Option.some.injEq, Prod.mk.injEq, and_true, List.cons.injEq, true_and]
        constructor
        · intro h
          exact ⟨bs, rest, rfl, h, rfl⟩
        · rintro ⟨_, _, _, h, _⟩
          exact h

/-- C19: whenever `PersonIDCardVerify` returns a score and a decision without
error, the document landmark is the first one that `GetFaceLandmarks5` returns
for the document image alone (largest face, padding retry), the selfie
landmark is the supplied one or the first one returned for the selfie alone
(centre face, padding retry), the two crops are those of `AlignWarpFaces` on
the document and the selfie with these landmarks, the embeddings are those of
the two crops, the score is `similarityScore` of the document embedding and
the selfie embedding, and the decision is true exactly when the score is at
least `ThresholdSameEKYC`.  Conversely, when these stages succeed the call
returns that score and that decision.  The whole result is the same for every
value of `ThresholdSamePerson`. -/
theorem personIDCardVerify_document_threshold (sqrt : ℚ → ℚ) (cv : OpenCV) (c : EKYCPipeline)
    (cardImg ImgFar : Mat) (lmkFar : Option Dense) :
    (∀ (score : ℚ) (isSamePerson : Bool),
      c.PersonIDCardVerify sqrt cv cardImg ImgFar lmkFar = some (score, isSamePerson, none) →
      ∃ (boxes lmks : List (Option Dense)) (cardLmk farLmk : Option Dense)
        (croppedFaces mats : List Mat) (alignErr : Option Err) (extractions : List Dense)
        (vCar vFar : Dense),
        c.FaceHelper.GetFaceLandmarks5 sqrt cv [cardImg] (some true) none none none
          (some true) = some (boxes, cardLmk :: lmks, none) ∧
        (∀ l, lmkFar = some l → farLmk = some l) ∧
        (lmkFar = none → ∃ (boxes2 lmks2 : List (Option Dense)),
          c.FaceHelper.GetFaceLandmarks5 sqrt cv [ImgFar] none (some true) none none
            (some true) = some (boxes2, farLmk :: lmks2, none)) ∧
        c.FaceHelper.AlignWarpFaces cv [cardImg, ImgFar] [cardLmk, farLmk] none =
          some (croppedFaces, mats, alignErr) ∧
        c.embeddingExtraction croppedFaces = (extractions, none) ∧
        extractions[0]? = some vCar ∧ extractions[1]? = some vFar ∧
        similarityScore sqrt vCar vFar = (score, none) ∧
        (isSamePerson = true ↔ score ≥ c.FaceID.ModelParams.ThresholdSameEKYC)) ∧
    (∀ (boxes lmks : List (Option Dense)) (cardLmk farLmk : Option Dense)
      (croppedFaces mats : List Mat) (alignErr : Option Err) (extractions : List Dense)
      (vCar vFar : Dense) (score : ℚ),
      c.FaceHelper.GetFaceLandmarks5 sqrt cv [cardImg] (some true) none none none
        (some true) = some (boxes, cardLmk :: lmks, none) →
      (∀ l, lmkFar = some l → farLmk = some l) →
      (lmkFar = none → ∃ (boxes2 lmks2 : List (Option Dense)),
        c.FaceHelper.GetFaceLandmarks5 sqrt cv [ImgFar] none (some true) none none
          (some true) = some (boxes2, farLmk :: lmks2, none)) →
      c.FaceHelper.AlignWarpFaces cv [cardImg, ImgFar] [cardLmk, farLmk] none =
        some (croppedFaces, mats, alignErr) →
      c.embeddingExtraction croppedFaces = (extractions, none) →
      extractions[0]? = some vCar → extractions[1]? = some vFar →
      similarityScore sqrt vCar vFar = (score, none) →
      c.PersonIDCardVerify sqrt cv cardImg ImgFar lmkFar =
        some (score, decide (score ≥ c.FaceID.ModelParams.ThresholdSameEKYC), none)) ∧
    (∀ t : ℚ,
      EKYCPipeline.PersonIDCardVerify sqrt cv
          { c with FaceID := { c.FaceID with
              ModelParams := { c.FaceID.ModelParams with ThresholdSamePerson := t } } }
          cardImg ImgFar lmkFar =
        c.PersonIDCardVerify sqrt cv cardImg ImgFar lmkFar) := by
  refine ⟨?_, ?_, fun t => rfl⟩
  · intro score isSamePerson h
    unfold EKYCPipeline.PersonIDCardVerify at h
    cases hcard : c.locateLandmark sqrt cv cardImg (some true) none
        "cannot detect face in card image" with
    | none => rw [hcard] at h; exact absurd h (by simp)
    | some v =>
      obtain ⟨cardLmk, e⟩ := v
      rw [hcard] at h
      cases e with
      | some err => exact absurd h (by simp)
      | none =>
        simp only at h
        obtain ⟨boxes, lmks, hG⟩ := (locateLandmark_ok sqrt cv c cardImg _ _ _ cardLmk).1 hcard
        have key : ∀ farLmk : Option Dense,
            (∀ l, lmkFar = some l → farLmk = some l) →
            (lmkFar = none → ∃ (boxes2 lmks2 : List (Option Dense)),
              c.FaceHelper.GetFaceLandmarks5 sqrt cv [ImgFar] none (some true) none none
                (some true) = some (boxes2, farLmk :: lmks2, none)) →
            (match c.FaceHelper.AlignWarpFaces cv [cardImg, ImgFar] [cardLmk, farLmk] none with
              | none => none
              | some (croppedFaces, _, _) =>
                match c.embeddingExtraction croppedFaces with
                | (_, some err) => some (0, false, some err)
                | (extractions, none) =>
                  match extractions[0]?, extractions[1]? with
                  | some vCar, some vFar =>
                    match similarityScore sqrt vCar vFar with
                    | (score, some err) => some (score, false, some err)
                    | (score, none) =>
                      some (score, decide (score ≥ c.FaceID.ModelParams.ThresholdSameEKYC),
                        none)
                  | _, _ => none) = some (score, isSamePerson, none) →
            ∃ (boxes lmks : List (Option Dense)) (cardLmk farLmk : Option Dense)
              (croppedFaces mats : List Mat) (alignErr : Option Err) (extractions : List Dense)
              (vCar vFar : Dense),
              c.FaceHelper.GetFaceLandmarks5 sqrt cv [cardImg] (some true) none none none
                (some true) = some (boxes, cardLmk :: lmks, none) ∧
              (∀ l, lmkFar = some l → farLmk = some l) ∧
              (lmkFar = none → ∃ (boxes2 lmks2 : List (Option Dense)),
                c.FaceHelper.GetFaceLandmarks5 sqrt cv [ImgFar] none (some true) none none
                  (some true) = some (boxes2, farLmk :: lmks2, none)) ∧
              c.FaceHelper.AlignWarpFaces cv [cardImg, ImgFar] [cardLmk, farLmk] none =
                some (croppedFaces, mats, alignErr) ∧
              c.embeddingExtraction croppedFaces = (extractions, none) ∧
              extractions[0]? = some vCar ∧ extractions[1]? = some vFar ∧
              similarityScore sqrt vCar vFar = (score, none) ∧
              (isSamePerson = true ↔ score ≥ c.FaceID.ModelParams.ThresholdSameEKYC) := by
          intro farLmk hf1 hf2 h
          cases hA : c.FaceHelper.AlignWarpFaces cv [cardImg, ImgFar] [cardLmk, farLmk]
              none with
          | none => rw [hA] at h; exact absurd h (by simp)
          | some v =>
            obtain ⟨croppedFaces, mats, alignErr⟩ := v
            rw [hA] at h
            simp only at h
            cases hE : c.embeddingExtraction croppedFaces with
            | mk extractions e =>
              rw [hE] at h
              cases e with
              | some err => exact absurd h (by simp)
              | none =>
                simp only at h
                cases h0 : extractions[0]? with
                | none => rw [h0] at h; exact absurd h (by simp)
                | some vCar =>
                  cases h1 : extractions[1]? with
                  | none => rw [h0, h1] at h; exact absurd h (by simp)
                  | some vFar =>
                    rw [h0, h1] at h
                    simp only at h
                    cases hS : similarityScore sqrt vCar vFar with
                    | mk s e =>
                      rw [hS] at h
                      cases e with
                      | some err => exact absurd h (by simp)
                      | none =>
                        simp only [Option.some.injEq, Prod.mk.injEq, and_true] at h
                        obtain ⟨h2, h3⟩ := h
                        subst h2
                        refine ⟨boxes, lmks, cardLmk, farLmk, croppedFaces, mats, alignErr,
                          extractions, vCar, vFar, hG, hf1, hf2, hA, hE, h0, h1, hS, ?_⟩
                        rw [← h3]
                        simp
        cases lmkFar with
        | some l =>
          simp only at h
          exact key (some l) (fun l2 hl => hl.symm ▸ rfl) (fun hn => absurd hn (by simp)) h
        | none =>
          simp only at h
          cases hfar : c.locateLandmark sqrt cv ImgFar none (some true)
              "cannot detect face in input face image" with
          | none => rw [hfar] at h; exact absurd h (by simp)
          | some v =>
            obtain ⟨farLmk, e⟩ := v
            rw [hfar] at h
            cases e with
            | some err => exact absurd h (by simp)
            | none =>
              simp only at h
              exact key farLmk (fun l hl => absurd hl (by simp))
                (fun _ => (locateLandmark_ok sqrt cv c ImgFar _ _ _ farLmk).1 hfar) h
  · intro boxes lmks cardLmk farLmk croppedFaces mats alignErr extractions vCar vFar score
      hG hf1 hf2 hA hE h0 h1 hS
    have hcard := (locateLandmark_ok sqrt cv c cardImg (some true) none
      "cannot detect face in card image" cardLmk).2 ⟨boxes, lmks, hG⟩
    unfold EKYCPipeline.PersonIDCardVerify
    rw [hcard]
    cases lmkFar with
    | some l =>
      have hl := hf1 l rfl
      subst hl
      simp only [hA, hE, h0, h1, hS]
    | none =>
      have hfar := (locateLandmark_ok sqrt cv c ImgFar none (some true)
        "cannot detect face in input face image" farLmk).2 (hf2 rfl)
      simp only [hfar, hA, hE, h0, h1, hS]

/-- Witness of C19: the document and selfie embeddings `(1, 0)` and `(3, 4)`
have similarity `0.6` in `float32`, which is above the document threshold
`0.3` and below the same-person threshold `0.9`; the decision is `true`. -/
theorem personIDCardVerify_document_threshold_witness :
    (examplePipeline (some exampleDetector) (.ok [⟨[2], [1, 0]⟩, ⟨[2], [3, 4]⟩]) (.ok [])
        (.ok 1) (.ok 1) (9 / 10) (58 / 100) (48 / 100)).PersonIDCardVerify goSqrt exampleCV
        exampleImage exampleImage none = some (5033165 / 8388608, true, none) ∧
    ∃ (boxes lmks : List (Option Dense)) (cardLmk farLmk : Option Dense)
      (croppedFaces mats : List Mat) (alignErr : Option Err) (extractions : List Dense)
      (vCar vFar : Dense),
      (examplePipeline (some exampleDetector) (.ok [⟨[2], [1, 0]⟩, ⟨[2], [3, 4]⟩]) (.ok [])
        (.ok 1) (.ok 1) (9 / 10) (58 / 100) (48 / 100)).FaceHelper.GetFaceLandmarks5 goSqrt
          exampleCV [exampleImage] (some true) none none none (some true) =
        some (boxes, cardLmk :: lmks, none) ∧
      (∀ l, (none : Option Dense) = some l → farLmk = some l) ∧
      ((none : Option Dense) = none → ∃ (boxes2 lmks2 : List (Option Dense)),
        (examplePipeline (some exampleDetector) (.ok [⟨[2], [1, 0]⟩, ⟨[2], [3, 4]⟩]) (.ok [])
          (.ok 1) (.ok 1) (9 / 10) (58 / 100) (48 / 100)).FaceHelper.GetFaceLandmarks5 goSqrt
            exampleCV [exampleImage] none (some true) none none (some true) =
          some (boxes2, farLmk :: lmks2, none)) ∧
      (examplePipeline (some exampleDetector) (.ok [⟨[2], [1, 0]⟩, ⟨[2], [3, 4]⟩]) (.ok [])
        (.ok 1) (.ok 1) (9 / 10) (58 / 100) (48 / 100)).FaceHelper.AlignWarpFaces exampleCV
          [exampleImage, exampleImage] [cardLmk, farLmk] none =
        some (croppedFaces, mats, alignErr) ∧
      (examplePipeline (some exampleDetector) (.ok [⟨[2], [1, 0]⟩, ⟨[2], [3, 4]⟩]) (.ok [])
        (.ok 1) (.ok 1) (9 / 10) (58 / 100) (48 / 100)).embeddingExtraction croppedFaces =
          (extractions, none) ∧
      extractions[0]? = some vCar ∧ extractions[1]? = some vFar ∧
      similarityScore goSqrt vCar vFar = (5033165 / 8388608, none) ∧
      (true = true ↔ (5033165 / 8388608 : ℚ) ≥
        (examplePipeline (some exampleDetector) (.ok [⟨[2], [1, 0]⟩, ⟨[2], [3, 4]⟩]) (.ok [])
          (.ok 1) (.ok 1) (9 / 10) (58 / 100) (48 / 100)).FaceID.ModelParams.ThresholdSameEKYC) :=
  ⟨by decide!,
    (personIDCardVerify_document_threshold goSqrt exampleCV
      (examplePipeline (some exampleDetector) (.ok [⟨[2], [1, 0]⟩, ⟨[2], [3, 4]⟩]) (.ok [])
        (.ok 1) (.ok 1) (9 / 10) (58 / 100) (48 / 100))
      exampleImage exampleImage none).1 (5033165 / 8388608) true (by decide!)⟩

/-- A slice of pointers that are all non-`nil` is the slice of the pointers to
its dereferenced entries. -/
theorem derefAll_eq (bs : List (Option Dense)) (ds : List Dense) (h : derefAll bs = some ds) :
    bs = ds.map some := by
  induction bs generalizing ds with
  | nil =>
    simp only [derefAll, Option.some.injEq] at h
    rw [← h]; rfl
  | cons b bs ih =>
    cases b with
    | none => simp [derefAll] at h
    | some d =>
      simp only [derefAll, Option.map_eq_some'] at h
      obtain ⟨ds2, h1, h2⟩ := h
      rw [← h2, ih ds2 h1]
      rfl

/-- The point `(w mod 5, h mod 2)` is not the geometric centre `(w/2, h/2)` of
a non-empty image. -/
theorem mod_reference_ne_centre (w h : Nat) (hpos : 0 < w ∨ 0 < h) :
    (((w % 5 : Nat) : ℚ), ((h % 2 : Nat) : ℚ)) ≠ ((w : ℚ) / 2, (h : ℚ) / 2) := by
  intro heq
  simp only [Prod.mk.injEq] at heq
  obtain ⟨h1, h2⟩ := heq
  have h3 : ((w % 5 * 2 : Nat) : ℚ) = (w : ℚ) := by
    push_cast
    rw [h1]
    ring
  have h4 : ((h % 2 * 2 : Nat) : ℚ) = (h : ℚ) := by
    push_cast
    rw [h2]
    ring
  have h5 : w % 5 * 2 = w := by exact_mod_cast h3
  have h6 : h % 2 * 2 = h := by exact_mod_cast h4
  omega

/-- C26: for an image of width `w` and height `h`, `CropFaceIDCard` is the
method body run with `GetCenterFace` as its centre selection, and the body
calls its centre selection, whatever function that is, once, on the detected
boxes, without image sizes and with the explicit reference point
`(w mod 5, h mod 2)`: its result is determined by the answer to that call, and
two centre selections that agree at that reference point give the same result.
With `GetCenterFace` the box passed on is the first of minimal `float32`
distance to that point.  For every non-empty image the point differs from the
geometric centre `(w/2, h/2)`; it equals the point of the halves rounded down
only for `w` in `{0, 9}` and `h` in `{0, 3}`. -/
theorem CropFaceIDCard_reference (sqrt : ℚ → ℚ) (cv : OpenCV) (cvtColor : Mat → Mat)
    (c : EKYCPipeline) (img : Mat) :
    c.CropFaceIDCard sqrt cv cvtColor img =
      c.CropFaceIDCardWith (GetCenterFace sqrt) sqrt cv cvtColor img ∧
    (∀ (centerFace : List Dense → Option Int → Option Int → Option DimensionPair →
        Option (Option Dense × Int × Option Err))
      (bBoxes landmarks : List (Option Dense)) (detFaces : List Dense),
      c.FaceHelper.GetFaceLandmarks5 sqrt cv [img] (some true) none none none none =
        some (bBoxes, landmarks, none) →
      derefAll bBoxes = some detFaces → detFaces ≠ [] →
      c.CropFaceIDCardWith centerFace sqrt cv cvtColor img =
        match centerFace detFaces none none
            (some ⟨((img.cols % 5 : Nat) : Int), ((img.rows % 2 : Nat) : Int)⟩) with
        | none => none
        | some (box, centerIdx, _) =>
          c.alignSelected sqrt cv cvtColor img landmarks box centerIdx) ∧
    (∀ (g1 g2 : List Dense → Option Int → Option Int → Option DimensionPair →
        Option (Option Dense × Int × Option Err)),
      (∀ detFaces : List Dense,
        g1 detFaces none none
            (some ⟨((img.cols % 5 : Nat) : Int), ((img.rows % 2 : Nat) : Int)⟩) =
          g2 detFaces none none
            (some ⟨((img.cols % 5 : Nat) : Int), ((img.rows % 2 : Nat) : Int)⟩)) →
      c.CropFaceIDCardWith g1 sqrt cv cvtColor img =
        c.CropFaceIDCardWith g2 sqrt cv cvtColor img) ∧
    (∀ (bBoxes landmarks : List (Option Dense)) (detFaces : List Dense),
      c.FaceHelper.GetFaceLandmarks5 sqrt cv [img] (some true) none none none none =
        some (bBoxes, landmarks, none) →
      derefAll bBoxes = some detFaces → detFaces ≠ [] →
      (∀ d ∈ detFaces, 4 ≤ d.data.length) → (∀ d ∈ detFaces, withinBound d) →
      ∃ (i : Nat) (face : Dense),
        GetCenterFace sqrt detFaces none none
            (some ⟨((img.cols % 5 : Nat) : Int), ((img.rows % 2 : Nat) : Int)⟩) =
          some (some face, (i : Int), none) ∧
        c.CropFaceIDCard sqrt cv cvtColor img =
          c.alignSelected sqrt cv cvtColor img landmarks (some face) (i : Int) ∧
        detFaces[i]? = some face ∧
        (∀ d ∈ detFaces,
          centreDistance32 sqrt face (f32 ((img.cols % 5 : Nat) : ℚ))
              (f32 ((img.rows % 2 : Nat) : ℚ)) ≤
            centreDistance32 sqrt d (f32 ((img.cols % 5 : Nat) : ℚ))
              (f32 ((img.rows % 2 : Nat) : ℚ))) ∧
        (∀ j d, j < i → detFaces[j]? = some d →
          centreDistance32 sqrt d (f32 ((img.cols % 5 : Nat) : ℚ))
              (f32 ((img.rows % 2 : Nat) : ℚ)) ≠
            centreDistance32 sqrt face (f32 ((img.cols % 5 : Nat) : ℚ))
              (f32 ((img.rows % 2 : Nat) : ℚ)))) ∧
    ((0 < img.cols ∨ 0 < img.rows) →
      (((img.cols % 5 : Nat) : ℚ), ((img.rows % 2 : Nat) : ℚ)) ≠
        ((img.cols : ℚ) / 2, (img.rows : ℚ) / 2)) ∧
    ((img.cols % 5 = img.cols / 2 ∧ img.rows % 2 = img.rows / 2) ↔
      ((img.cols = 0 ∨ img.cols = 9) ∧ (img.rows = 0 ∨ img.rows = 3))) := by
  have hbody : ∀ (centerFace : List Dense → Option Int → Option Int → Option DimensionPair →
        Option (Option Dense × Int × Option Err))
      (bBoxes landmarks : List (Option Dense)) (detFaces : List Dense),
      c.FaceHelper.GetFaceLandmarks5 sqrt cv [img] (some true) none none none none =
        some (bBoxes, landmarks, none) →
      derefAll bBoxes = some detFaces → detFaces ≠ [] →
      c.CropFaceIDCardWith centerFace sqrt cv cvtColor img =
        match centerFace detFaces none none
            (some ⟨((img.cols % 5 : Nat) : Int), ((img.rows % 2 : Nat) : Int)⟩) with
        | none => none
        | some (box, centerIdx, _) =>
          c.alignSelected sqrt cv cvtColor img landmarks box centerIdx := by
    intro centerFace bBoxes landmarks detFaces hdet hderef hne
    have hlen : ¬ bBoxes.length = 0 := by
      rw [derefAll_eq bBoxes detFaces hderef, List.length_map]
      exact fun h0 => hne (List.length_eq_zero.1 h0)
    unfold EKYCPipeline.CropFaceIDCardWith
    simp only [hdet, if_neg hlen, hderef]
    rfl
  refine ⟨rfl, hbody, ?_, ?_, mod_reference_ne_centre img.cols img.rows, by omega⟩
  · intro g1 g2 hg
    unfold EKYCPipeline.CropFaceIDCardWith
    simp only
    cases hG : c.FaceHelper.GetFaceLandmarks5 sqrt cv [img] (some true) none none none
        none with
    | none => rfl
    | some v =>
      obtain ⟨bBoxes, landmarks, e⟩ := v
      cases e with
      | some err => rfl
      | none =>
        simp only
        by_cases hl : bBoxes.length = 0
        · rw [if_pos hl, if_pos hl]
        · rw [if_neg hl, if_neg hl]
          cases hd : derefAll bBoxes with
          | none => rfl
          | some detFaces =>
            have hg2 : g1 detFaces none none
                (some ⟨Int.tmod (img.cols : Int) 5, Int.tmod (img.rows : Int) 2⟩) =
              g2 detFaces none none
                (some ⟨Int.tmod (img.cols : Int) 5, Int.tmod (img.rows : Int) 2⟩) := hg detFaces
            simp only [hg2]
  · intro bBoxes landmarks detFaces hdet hderef hne hwf _
    obtain ⟨i, face, hg, hi, hmin, hfirst⟩ := GetCenterFace_min sqrt detFaces none none
      (some ⟨((img.cols % 5 : Nat) : Int), ((img.rows % 2 : Nat) : Int)⟩)
      (f32 ((img.cols % 5 : Nat) : ℚ)) (f32 ((img.rows % 2 : Nat) : ℚ))
      (by simp only [centreReference, Int.cast_natCast]) hne hwf
    refine ⟨i, face, hg, ?_, hi, hmin, hfirst⟩
    have := hbody (GetCenterFace sqrt) bBoxes landmarks detFaces hdet hderef hne
    rw [hg] at this
    exact this

/-- Witness of C26: the detector finds one face in an image of 481 rows and
643 columns.  Run with a centre selection that answers only at the reference
point `(643 mod 5, 481 mod 2) = (3, 1)`, the method body goes on to align the
face; run with one that answers only at `(321, 240)`, the halves rounded down,
it panics: the call is made at `(3, 1)`. -/
theorem CropFaceIDCard_reference_witness :
    (examplePipeline (some exampleDetector) (.ok []) (.ok []) (.ok 1) (.ok 1) (4 / 10)
        (58 / 100) (48 / 100)).CropFaceIDCardWith (probeCenterFace 3 1) goSqrt exampleCV id
        ⟨481, 643, []⟩ =
      (examplePipeline (some exampleDetector) (.ok []) (.ok []) (.ok 1) (.ok 1) (4 / 10)
        (58 / 100) (48 / 100)).alignSelected goSqrt exampleCV id ⟨481, 643, []⟩
        [some (shiftLandmark 0 0 exampleDetection)] (some (shiftBox 0 0 exampleDetection)) 0 ∧
    (examplePipeline (some exampleDetector) (.ok []) (.ok []) (.ok 1) (.ok 1) (4 / 10)
        (58 / 100) (48 / 100)).CropFaceIDCardWith (probeCenterFace 3 1) goSqrt exampleCV id
        ⟨481, 643, []⟩ ≠ none ∧
    (examplePipeline (some exampleDetector) (.ok []) (.ok []) (.ok 1) (.ok 1) (4 / 10)
        (58 / 100) (48 / 100)).CropFaceIDCardWith (probeCenterFace 321 240) goSqrt exampleCV id
        ⟨481, 643, []⟩ = none :=
  ⟨(CropFaceIDCard_reference goSqrt exampleCV id
      (examplePipeline (some exampleDetector) (.ok []) (.ok []) (.ok 1) (.ok 1) (4 / 10)
        (58 / 100) (48 / 100)) ⟨481, 643, []⟩).2.1 (probeCenterFace 3 1)
      [some (shiftBox 0 0 exampleDetection)] [some (shiftLandmark 0 0 exampleDetection)]
      [shiftBox 0 0 exampleDetection] (by decide!) rfl (by simp),
    by decide!, by decide!⟩

/-- On a landmark of shape `(5, 2)` and a box of four entries
`idCardFaceRatio` returns, without error, the clamped `float32` ratio
`dCBoxEyes / dNoseEyes`. -/
theorem idCardFaceRatio_eq (sqrt : ℚ → ℚ) (lmk bbox : Dense) (hs : lmk.shape = [5, 2])
    (hl : lmk.data.length = 10) (hb : bbox.data.length = 4) :
    idCardFaceRatio sqrt lmk bbox =
      some (XFloat.minPos (XFloat.maxPos (rawFaceRatio sqrt lmk bbox) ratioBaby) ratioAdult,
        none) := by
  obtain ⟨lshape, ldata⟩ := lmk
  obtain ⟨bshape, bdata⟩ := bbox
  simp only at hs hl hb
  subst hs
  rcases ldata with _ | ⟨l0, _ | ⟨l1, _ | ⟨l2, _ | ⟨l3, _ | ⟨l4, _ | ⟨l5, _ | ⟨l6, _ | ⟨l7,
    _ | ⟨l8, _ | ⟨l9, _ | ⟨l10, lrest⟩⟩⟩⟩⟩⟩⟩⟩⟩⟩⟩ <;>
    simp only [List.length_cons, List.length_nil] at hl <;> try omega
  rcases bdata with _ | ⟨b0, _ | ⟨b1, _ | ⟨b2, _ | ⟨b3, _ | ⟨b4, brest⟩⟩⟩⟩⟩ <;>
    simp only [List.length_cons, List.length_nil] at hb <;> try omega
  simp [idCardFaceRatio, reshape, sliceRow, tensorSub, shapeEq, Cross2D, ComputeLinearNorm,
    rawFaceRatio, idCardBoxCross, idCardNoseCross, idCardEyeDistance, cross32, distance32,
    boxCentre32, f32_idem]

/-- The template that `AlignFaceIDCard` computes for a finite face ratio is,
entry by entry, the `float32` interpolation formula of the baby and the adult
template. -/
theorem idCardFaceTemplate_eq (r : ℚ) :
    idCardFaceTemplate r =
      (some ⟨[5, 2], List.zipWith (fun b a => interpolate32 b a r) faceTemplateBaby.data
        faceTemplateAdult.data⟩, none) := by
  simp only [idCardFaceTemplate, mulScalar, tensorSub, tensorAdd, divScalar32, faceTemplateBaby,
    faceTemplateAdult, shapeEq, List.map_cons, List.map_nil, List.zipWith_cons_cons,
    List.zipWith_nil_right, decide_True, Bool.true_eq_false, if_false, interpolate32]

/-- The clamp of `AlignFaceIDCard` gives NaN or a number of
`[ratioBaby, ratioAdult]`, and NaN only on NaN. -/
theorem clampRatio_cases (x : XFloat) :
    (x = .nan → XFloat.minPos (XFloat.maxPos x ratioBaby) ratioAdult = .nan) ∧
    (x ≠ .nan → ∃ q, XFloat.minPos (XFloat.maxPos x ratioBaby) ratioAdult = .num q ∧
      ratioBaby ≤ q ∧ q ≤ ratioAdult) := by
  have hBA : ratioBaby ≤ ratioAdult := by decide!
  constructor
  · intro h
    rw [h]
    rfl
  · intro h
    cases x with
    | nan => exact absurd rfl h
    | inf neg =>
      cases neg
      · exact ⟨ratioAdult, rfl, hBA, le_refl _⟩
      · exact ⟨min ratioBaby ratioAdult, rfl, by rw [min_eq_left hBA], min_le_right _ _⟩
    | zero neg =>
      exact ⟨min ratioBaby ratioAdult, rfl, by rw [min_eq_left hBA], min_le_right _ _⟩
    | num q =>
      exact ⟨min (max q ratioBaby) ratioAdult, rfl, le_min (le_max_right _ _) hBA,
        min_le_right _ _⟩

/-- With a landmark of shape `(5, 2)`, a box of four entries and a face ratio
that is a number, `AlignFaceIDCard` aligns the image to the `float32`
interpolation of the two templates at that face ratio. -/
theorem AlignFaceIDCard_finite (sqrt : ℚ → ℚ) (cv : OpenCV) (c : FaceHelperClient) (img : Mat)
    (lmk bbox : Dense) (borderMode : Option Nat) (q : ℚ) (hs : lmk.shape = [5, 2])
    (hl : lmk.data.length = 10)
    (hr : idCardFaceRatio sqrt lmk bbox = some (.num q, none)) :
    c.AlignFaceIDCard sqrt cv img (some lmk) (some bbox) borderMode =
      some ((alignedPair cv
          ⟨[5, 2], List.zipWith (fun b a => interpolate32 b a q) faceTemplateBaby.data
            faceTemplateAdult.data⟩ (240, 320) (borderMode.getD BorderConstant) img lmk).1,
        (alignedPair cv
          ⟨[5, 2], List.zipWith (fun b a => interpolate32 b a q) faceTemplateBaby.data
            faceTemplateAdult.data⟩ (240, 320) (borderMode.getD BorderConstant) img lmk).2,
        none) := by
  have hp1 : TensorToPoint2fVector lmk = some (pointsOf lmk, none) :=
    TensorToPoint2fVector_eq lmk ⟨5, hs, hl⟩
  have hp2 : TensorToPoint2fVector
        ⟨[5, 2], List.zipWith (fun b a => interpolate32 b a q) faceTemplateBaby.data
          faceTemplateAdult.data⟩ =
      some (pointsOf ⟨[5, 2], List.zipWith (fun b a => interpolate32 b a q)
        faceTemplateBaby.data faceTemplateAdult.data⟩, none) :=
    TensorToPoint2fVector_eq _ ⟨5, rfl, rfl⟩
  unfold FaceHelperClient.AlignFaceIDCard
  simp only [hr, XFloat.finite, idCardFaceTemplate_eq, hp1, hp2, alignedPair]
  cases borderMode <;> rfl

/-- With a landmark of shape `(5, 2)` and a face ratio that is NaN,
`AlignFaceIDCard` raises no error of its own: it hands a template of NaN to
OpenCV and returns what OpenCV makes of it. -/
theorem AlignFaceIDCard_nan (sqrt : ℚ → ℚ) (cv : OpenCV) (c : FaceHelperClient) (img : Mat)
    (lmk bbox : Dense) (borderMode : Option Nat) (hs : lmk.shape = [5, 2])
    (hl : lmk.data.length = 10)
    (hr : idCardFaceRatio sqrt lmk bbox = some (.nan, none)) :
    c.AlignFaceIDCard sqrt cv img (some lmk) (some bbox) borderMode =
      some (cv.WarpAffineWithParams img
          (cv.EstimateAffineNonFinite (pointsOf lmk) .nan HomograpyMethodLMEDS 3 2000
            (99 / 100) 10) (240, 320) (borderMode.getD BorderConstant),
        cv.EstimateAffineNonFinite (pointsOf lmk) .nan HomograpyMethodLMEDS 3 2000
          (99 / 100) 10,
        none) := by
  have hp1 : TensorToPoint2fVector lmk = some (pointsOf lmk, none) :=
    TensorToPoint2fVector_eq lmk ⟨5, hs, hl⟩
  unfold FaceHelperClient.AlignFaceIDCard
  simp only [hr, XFloat.finite, hp1]
  cases borderMode <;> rfl

/-- When the two eyes of a landmark coincide the ratio `dCBoxEyes / dNoseEyes`
is NaN: both quotients are `0 / 0`. -/
theorem rawFaceRatio_coincident_eyes (sqrt : ℚ → ℚ) (hs0 : sqrt 0 = 0) (lmk bbox : Dense)
    (hx : lmk.data.getD 0 0 = lmk.data.getD 2 0) (hy : lmk.data.getD 1 0 = lmk.data.getD 3 0) :
    rawFaceRatio sqrt lmk bbox = .nan := by
  have hd : idCardEyeDistance sqrt lmk = 0 := by
    simp only [idCardEyeDistance, distance32, hx, hy, sub_self, f32_zero, mul_zero, add_zero, hs0]
  have hc : ∀ b0 b1 : ℚ, ∃ s, cross32 0 0 b0 b1 = .zero s := by
    intro b0 b1
    unfold cross32 XFloat.ofRat
    simp only [if_true]
    by_cases h0 : b0 = 0 <;> by_cases h1 : b1 = 0 <;> simp only [h0, h1, if_true, if_false] <;>
      exact ⟨_, rfl⟩
  unfold rawFaceRatio idCardBoxCross idCardNoseCross
  simp only [hx, hy, sub_self, f32_zero, hd]
  obtain ⟨s1, h1⟩ := hc (f32 ((boxCentre32 bbox).1 - lmk.data.getD 2 0))
    (f32 ((boxCentre32 bbox).2 - lmk.data.getD 3 0))
  obtain ⟨s2, h2⟩ := hc (f32 (lmk.data.getD 4 0 - lmk.data.getD 2 0))
    (f32 (lmk.data.getD 5 0 - lmk.data.getD 3 0))
  rw [h1, h2]
  rfl

/-- C21 (counterexample): on a landmark whose two eyes coincide at `(1, 1)`,
with a box of four entries, the face ratio of `AlignFaceIDCard` is NaN, which
is no number of `[0.306, 0.565]`: both quotients are `0 / 0`, and the clamp
keeps NaN.  `AlignFaceIDCard` raises no error of its own and returns what the
OpenCV stand-in makes of the template of NaN. -/
theorem idCardFaceRatio_nan :
    idCardFaceRatio goSqrt ⟨[5, 2], [1, 1, 1, 1, 0, 1, 0, 2, 1, 2]⟩ ⟨[4], [-1, 1, 1, 3]⟩ =
      some (.nan, none) ∧
    rawFaceRatio goSqrt ⟨[5, 2], [1, 1, 1, 1, 0, 1, 0, 2, 1, 2]⟩ ⟨[4], [-1, 1, 1, 3]⟩ = .nan ∧
    (exampleHelper none).AlignFaceIDCard goSqrt exampleCV exampleImage
        (some ⟨[5, 2], [1, 1, 1, 1, 0, 1, 0, 2, 1, 2]⟩) (some ⟨[4], [-1, 1, 1, 3]⟩) none =
      some (⟨320, 240, []⟩, ⟨0, 0, []⟩, none) := by
  refine ⟨by decide!, by decide!, by decide!⟩

/-- C21 (amended): on every landmark of shape `(5, 2)` and every box of four
entries the face ratio of `AlignFaceIDCard` is computed without error and is
the `float32` ratio `dCBoxEyes / dNoseEyes` clamped: `ratioBaby`, the `float32`
nearest to `0.306`, when the ratio is a number below it, a zero or `-Inf`;
`ratioAdult`, the `float32` nearest to `0.565`, when the ratio is a number
above it or `+Inf`; the ratio itself when it is a number between the two; and
NaN when the ratio is NaN, as it is when the eyes coincide.  Hence the face
ratio is NaN or a number of `[ratioBaby, ratioAdult]`.  With a face ratio that
is a number `AlignFaceIDCard` aligns the image to the template interpolated at
it; with NaN it raises no error of its own and returns what OpenCV makes of
a template of NaN. -/
theorem idCardFaceRatio_clamped (sqrt : ℚ → ℚ) (cv : OpenCV) (c : FaceHelperClient)
    (img : Mat) (lmk bbox : Dense) (borderMode : Option Nat)
    (hs : lmk.shape = [5, 2]) (hl : lmk.data.length = 10) (hb : bbox.data.length = 4) :
    ∃ ratio : XFloat, idCardFaceRatio sqrt lmk bbox = some (ratio, none) ∧
      (∀ q, rawFaceRatio sqrt lmk bbox = .num q → q < ratioBaby → ratio = .num ratioBaby) ∧
      (∀ q, rawFaceRatio sqrt lmk bbox = .num q → ratioAdult < q → ratio = .num ratioAdult) ∧
      (∀ q, rawFaceRatio sqrt lmk bbox = .num q → ratioBaby ≤ q → q ≤ ratioAdult →
        ratio = .num q) ∧
      (rawFaceRatio sqrt lmk bbox = .inf false → ratio = .num ratioAdult) ∧
      (rawFaceRatio sqrt lmk bbox = .inf true → ratio = .num ratioBaby) ∧
      (∀ s, rawFaceRatio sqrt lmk bbox = .zero s → ratio = .num ratioBaby) ∧
      (ratio = .nan ↔ rawFaceRatio sqrt lmk bbox = .nan) ∧
      (sqrt 0 = 0 → lmk.data.getD 0 0 = lmk.data.getD 2 0 →
        lmk.data.getD 1 0 = lmk.data.getD 3 0 → ratio = .nan) ∧
      (ratio = .nan ∨ ∃ q, ratio = .num q ∧ ratioBaby ≤ q ∧ q ≤ ratioAdult) ∧
      (∀ q, ratio = .num q →
        c.AlignFaceIDCard sqrt cv img (some lmk) (some bbox) borderMode =
          some ((alignedPair cv
              ⟨[5, 2], List.zipWith (fun b a => interpolate32 b a q) faceTemplateBaby.data
                faceTemplateAdult.data⟩ (240, 320) (borderMode.getD BorderConstant)
              img lmk).1,
            (alignedPair cv
              ⟨[5, 2], List.zipWith (fun b a => interpolate32 b a q) faceTemplateBaby.data
                faceTemplateAdult.data⟩ (240, 320) (borderMode.getD BorderConstant)
              img lmk).2,
            none)) ∧
      (ratio = .nan →
        c.AlignFaceIDCard sqrt cv img (some lmk) (some bbox) borderMode =
          some (cv.WarpAffineWithParams img
              (cv.EstimateAffineNonFinite (pointsOf lmk) .nan HomograpyMethodLMEDS 3 2000
                (99 / 100) 10) (240, 320) (borderMode.getD BorderConstant),
            cv.EstimateAffineNonFinite (pointsOf lmk) .nan HomograpyMethodLMEDS 3 2000
              (99 / 100) 10,
            none)) := by
  have hBA : ratioBaby ≤ ratioAdult := by decide!
  have heq := idCardFaceRatio_eq sqrt lmk bbox hs hl hb
  have hcl := clampRatio_cases (rawFaceRatio sqrt lmk bbox)
  refine ⟨_, heq, ?_, ?_, ?_, ?_, ?_, ?_, ?_, ?_, ?_, ?_, ?_⟩
  · intro q hq hlt
    rw [hq]
    simp only [XFloat.maxPos, XFloat.minPos, max_eq_right hlt.le, min_eq_left hBA]
  · intro q hq hgt
    rw [hq]
    simp only [XFloat.maxPos, XFloat.minPos, max_eq_left (le_trans hBA hgt.le),
      min_eq_right hgt.le]
  · intro q hq h1 h2
    rw [hq]
    simp only [XFloat.maxPos, XFloat.minPos, max_eq_left h1, min_eq_left h2]
  · intro hq
    rw [hq]
    rfl
  · intro hq
    rw [hq]
    simp only [XFloat.maxPos, XFloat.minPos, min_eq_left hBA]
  · intro s hq
    rw [hq]
    simp only [XFloat.maxPos, XFloat.minPos, min_eq_left hBA]
  · constructor
    · intro h
      by_contra hne
      obtain ⟨q, hq, _⟩ := hcl.2 hne
      rw [hq] at h
      exact absurd h (by simp)
    · exact hcl.1
  · intro hs0 hx hy
    exact hcl.1 (rawFaceRatio_coincident_eyes sqrt hs0 lmk bbox hx hy)
  · by_cases hn : rawFaceRatio sqrt lmk bbox = .nan
    · exact Or.inl (hcl.1 hn)
    · exact Or.inr (hcl.2 hn)
  · intro q hq
    exact AlignFaceIDCard_finite sqrt cv c img lmk bbox borderMode q hs hl (by rw [heq, hq])
  · intro hq
    exact AlignFaceIDCard_nan sqrt cv c img lmk bbox borderMode hs hl (by rw [heq, hq])

/-- Witness of C21 (amended): eyes at `(0, 0)` and `(1, 0)`, nose at `(0, 1)`, a
box centred at `(0, 2)`; the eye distance is `1`, the ratio
`dCBoxEyes / dNoseEyes` is `2` and the face ratio is `ratioAdult`. -/
theorem idCardFaceRatio_clamped_witness :
    idCardFaceRatio goSqrt ⟨[5, 2], [0, 0, 1, 0, 0, 1, 0, 2, 1, 2]⟩ ⟨[4], [-1, 1, 1, 3]⟩ =
      some (.num ratioAdult, none) ∧
    rawFaceRatio goSqrt ⟨[5, 2], [0, 0, 1, 0, 0, 1, 0, 2, 1, 2]⟩ ⟨[4], [-1, 1, 1, 3]⟩ =
      .num 2 ∧
    ∃ ratio : XFloat,
      idCardFaceRatio goSqrt ⟨[5, 2], [0, 0, 1, 0, 0, 1, 0, 2, 1, 2]⟩ ⟨[4], [-1, 1, 1, 3]⟩ =
        some (ratio, none) ∧
      (∀ q, rawFaceRatio goSqrt ⟨[5, 2], [0, 0, 1, 0, 0, 1, 0, 2, 1, 2]⟩
        ⟨[4], [-1, 1, 1, 3]⟩ = .num q → ratioAdult < q → ratio = .num ratioAdult) ∧
      (ratio = .nan ∨ ∃ q, ratio = .num q ∧ ratioBaby ≤ q ∧ q ≤ ratioAdult) ∧
      (∀ q, ratio = .num q →
        (exampleHelper none).AlignFaceIDCard goSqrt exampleCV exampleImage
            (some ⟨[5, 2], [0, 0, 1, 0, 0, 1, 0, 2, 1, 2]⟩) (some ⟨[4], [-1, 1, 1, 3]⟩) none =
          some ((alignedPair exampleCV
              ⟨[5, 2], List.zipWith (fun b a => interpolate32 b a q) faceTemplateBaby.data
                faceTemplateAdult.data⟩ (240, 320) ((none : Option Nat).getD BorderConstant)
              exampleImage ⟨[5, 2], [0, 0, 1, 0, 0, 1, 0, 2, 1, 2]⟩).1,
            (alignedPair exampleCV
              ⟨[5, 2], List.zipWith (fun b a => interpolate32 b a q) faceTemplateBaby.data
                faceTemplateAdult.data⟩ (240, 320) ((none : Option Nat).getD BorderConstant)
              exampleImage ⟨[5, 2], [0, 0, 1, 0, 0, 1, 0, 2, 1, 2]⟩).2,
            none)) :=
  ⟨by decide!, by decide!,
    match idCardFaceRatio_clamped goSqrt exampleCV (exampleHelper none) exampleImage
      ⟨[5, 2], [0, 0, 1, 0, 0, 1, 0, 2, 1, 2]⟩ ⟨[4], [-1, 1, 1, 3]⟩ none rfl rfl rfl with
    | ⟨ratio, h1, _, h3, _, _, _, _, _, _, h10, h11, _⟩ => ⟨ratio, h1, h3, h10, h11⟩⟩

/-- The integer nearest to `n / d` is within a half of it. -/
theorem nearestEven_abs_sub (n d : Nat) (hd : 0 < d) :
    |((nearestEven n d : Nat) : ℚ) - (n : ℚ) / d| ≤ 1 / 2 := by
  have hdq : (0 : ℚ) < d := by exact_mod_cast hd
  have hdm : (n : ℚ) = (d : ℚ) * ((n / d : Nat) : ℚ) + ((n % d : Nat) : ℚ) := by
    exact_mod_cast (Nat.div_add_mod n d).symm
  have hdiv : (n : ℚ) / d = ((n / d : Nat) : ℚ) + ((n % d : Nat) : ℚ) / d := by
    rw [eq_comm, ← sub_eq_zero]
    have : ((n / d : Nat) : ℚ) + ((n % d : Nat) : ℚ) / d - (n : ℚ) / d =
        ((d : ℚ) * ((n / d : Nat) : ℚ) + ((n % d : Nat) : ℚ) - (n : ℚ)) / d := by
      field_simp
      ring
    rw [this, ← hdm, sub_self, zero_div]
  have hr0 : (0 : ℚ) ≤ ((n % d : Nat) : ℚ) / d := by positivity
  rw [hdiv, abs_le]
  unfold nearestEven
  split_ifs with h1 h2 h3
  · have h1q : (2 : ℚ) * ((n % d : Nat) : ℚ) < d := by exact_mod_cast h1
    have : ((n % d : Nat) : ℚ) / d ≤ 1 / 2 := by
      rw [div_le_iff₀ hdq]
      linarith
    constructor <;> linarith
  · have h2q : (d : ℚ) < 2 * ((n % d : Nat) : ℚ) := by exact_mod_cast h2
    have hlt : ((n % d : Nat) : ℚ) < d := by exact_mod_cast Nat.mod_lt n hd
    have h5 : (1 : ℚ) / 2 ≤ ((n % d : Nat) : ℚ) / d := by
      rw [le_div_iff₀ hdq]
      linarith
    have h6 : ((n % d : Nat) : ℚ) / d ≤ 1 := by
      rw [div_le_one hdq]
      exact hlt.le
    push_cast
    constructor <;> linarith
  · have he : 2 * (n % d) = d := by omega
    have heq : (2 : ℚ) * ((n % d : Nat) : ℚ) = d := by exact_mod_cast he
    have : ((n % d : Nat) : ℚ) / d = 1 / 2 := by
      rw [div_eq_iff (ne_of_gt hdq)]
      linarith
    constructor <;> linarith
  · have he : 2 * (n % d) = d := by omega
    have heq : (2 : ℚ) * ((n % d : Nat) : ℚ) = d := by exact_mod_cast he
    have : ((n % d : Nat) : ℚ) / d = 1 / 2 := by
      rw [div_eq_iff (ne_of_gt hdq)]
      linarith
    push_cast
    constructor <;> linarith

/-- The quotient that `roundMag` rounds to an integer is `n / d` in units of
the grid. -/
theorem scaled_div_eq (k : Int) (n d : Nat) :
    ((n * 2 ^ (-k).toNat : Nat) : ℚ) / ((d * 2 ^ k.toNat : Nat) : ℚ) =
      (n : ℚ) / d / (2 : ℚ) ^ k := by
  have two : (2 : ℚ) ≠ 0 := by norm_num
  rcases le_total 0 k with he | he
  · obtain ⟨m, rfl⟩ := Int.eq_ofNat_of_zero_le he
    have h1 : (-(m : Int)).toNat = 0 := by simp
    simp only [Int.toNat_ofNat, h1, pow_zero, mul_one, zpow_natCast]
    push_cast
    rw [div_div]
  · obtain ⟨m, hm⟩ := Int.eq_ofNat_of_zero_le (neg_nonneg.2 he)
    have he2 : k = -(m : Int) := by omega
    subst he2
    have h1 : (-(m : Int)).toNat = 0 := by simp
    simp only [h1, neg_neg, Int.toNat_ofNat, pow_zero, mul_one, zpow_neg, zpow_natCast]
    push_cast
    rw [div_inv_eq_mul]
    ring

/-- The rounding of a positive rational is within half a unit in the last
place of it. -/
theorem roundMag_abs_sub (prec : Nat) (emin : Int) (n d : Nat) (hd : 0 < d) :
    |roundMag prec emin n d - (n : ℚ) / d| ≤ (2 : ℚ) ^ gridExponent prec emin n d / 2 := by
  have hD : 0 < d * 2 ^ (gridExponent prec emin n d).toNat := by positivity
  have hpos : (0 : ℚ) < (2 : ℚ) ^ gridExponent prec emin n d := by positivity
  have h := nearestEven_abs_sub (n * 2 ^ (-(gridExponent prec emin n d)).toNat)
    (d * 2 ^ (gridExponent prec emin n d).toNat) hD
  rw [scaled_div_eq] at h
  have e : roundMag prec emin n d - (n : ℚ) / d =
      (((nearestEven (n * 2 ^ (-(gridExponent prec emin n d)).toNat)
        (d * 2 ^ (gridExponent prec emin n d).toNat) : Nat) : ℚ) -
          (n : ℚ) / d / (2 : ℚ) ^ gridExponent prec emin n d) *
        (2 : ℚ) ^ gridExponent prec emin n d := by
    unfold roundMag
    rw [sub_mul, div_mul_cancel₀ _ (ne_of_gt hpos)]
  rw [e, abs_mul, abs_of_pos hpos]
  calc _ ≤ 1 / 2 * (2 : ℚ) ^ gridExponent prec emin n d :=
        mul_le_mul_of_nonneg_right h hpos.le
    _ = (2 : ℚ) ^ gridExponent prec emin n d / 2 := by ring

/-- The binary exponent of a positive rational below `2 ^ (e + 1)` is at most
`e`, when `e` is not below the least exponent. -/
theorem binaryExponent_le (emin : Int) (n d : Nat) (e : Int) (hd : 0 < d) (he : emin ≤ e)
    (h : (n : ℚ) / d < (2 : ℚ) ^ (e + 1)) : binaryExponent emin n d ≤ e := by
  rcases binaryExponent_spec emin n d hd with hb | hb
  · rw [hb]
    exact he
  · have h3 : (2 : ℚ) ^ binaryExponent emin n d < (2 : ℚ) ^ (e + 1) := lt_of_le_of_lt hb h
    have h4 := (zpow_lt_zpow_iff_right₀ (by norm_num : (1 : ℚ) < 2)).1 h3
    omega

/-- Rounding moves a number of magnitude below `2 ^ (e + 1)` by at most half a
unit in the last place of that binade, `2 ^ (e - prec)`. -/
theorem roundNE_abs_sub_le (prec : Nat) (emin : Int) (q : ℚ) (e : Int) (hprec : 1 ≤ prec)
    (he : emin ≤ e) (hq : |q| < (2 : ℚ) ^ (e + 1)) :
    |roundNE prec emin q - q| ≤ (2 : ℚ) ^ (e - (prec : Int)) := by
  have two : (2 : ℚ) ≠ 0 := by norm_num
  have key : ∀ q : ℚ, 0 < q → q < (2 : ℚ) ^ (e + 1) →
      |roundNE prec emin q - q| ≤ (2 : ℚ) ^ (e - (prec : Int)) := by
    intro q h0 h1
    have e1 : roundNE prec emin q = roundMag prec emin q.num.natAbs q.den := by
      unfold roundNE
      rw [if_neg (ne_of_gt h0), if_neg (not_lt.2 h0.le)]
    have hqd := rat_natAbs_div_den q h0
    have hb := binaryExponent_le emin q.num.natAbs q.den e q.den_pos he (by rw [hqd]; exact h1)
    have hr := roundMag_abs_sub prec emin q.num.natAbs q.den q.den_pos
    rw [hqd] at hr
    rw [e1]
    have h5 : ((prec - 1 : Nat) : Int) = (prec : Int) - 1 := by omega
    have hg : gridExponent prec emin q.num.natAbs q.den ≤ e - (prec : Int) + 1 := by
      unfold gridExponent
      omega
    calc _ ≤ (2 : ℚ) ^ gridExponent prec emin q.num.natAbs q.den / 2 := hr
      _ ≤ (2 : ℚ) ^ (e - (prec : Int) + 1) / 2 := by
          apply div_le_div_of_nonneg_right _ (by norm_num)
          exact zpow_le_zpow_right₀ (by norm_num) hg
      _ = (2 : ℚ) ^ (e - (prec : Int)) := by
          rw [zpow_add₀ two]
          norm_num
  rcases lt_trichotomy q 0 with h | h | h
  · have := key (-q) (neg_pos.2 h) (by rwa [abs_of_neg h] at hq)
    rw [roundNE_neg] at this
    rw [← abs_neg]
    have e2 : -(roundNE prec emin q - q) = -roundNE prec emin q - -q := by ring
    rw [e2]
    exact this
  · subst h
    have : roundNE prec emin 0 = 0 := by simp [roundNE]
    rw [this]
    simp only [sub_zero, abs_zero]
    positivity
  · exact key q h (by rwa [abs_of_pos h] at hq)

/-- A `float32` operation moves a real result of magnitude below `2 ^ (e + 1)`
by at most `2 ^ (e - 24)`. -/
theorem f32_abs_sub_le (q : ℚ) (e : Int) (he : -126 ≤ e) (hq : |q| < (2 : ℚ) ^ (e + 1)) :
    |f32 q - q| ≤ (2 : ℚ) ^ (e - 24) :=
  roundNE_abs_sub_le 24 (-126) q e (by norm_num) he hq

/-- A `float64` operation moves a real result of magnitude below `2 ^ (e + 1)`
by at most `2 ^ (e - 53)`. -/
theorem f64_abs_sub_le (q : ℚ) (e : Int) (he : -1022 ≤ e) (hq : |q| < (2 : ℚ) ^ (e + 1)) :
    |f64 q - q| ≤ (2 : ℚ) ^ (e - 53) :=
  roundNE_abs_sub_le 53 (-1022) q e (by norm_num) he hq

/-- A linear function that is small at both ends of an interval is small on
the interval. -/
theorem linear_abs_le (α β lo hi δ r : ℚ) (hlo : |α * lo + β| ≤ δ) (hhi : |α * hi + β| ≤ δ)
    (h1 : lo ≤ r) (h2 : r ≤ hi) : |α * r + β| ≤ δ := by
  rw [abs_le] at hlo hhi ⊢
  rcases le_total 0 α with ha | ha
  · have e1 : α * lo ≤ α * r := mul_le_mul_of_nonneg_left h1 ha
    have e2 : α * r ≤ α * hi := mul_le_mul_of_nonneg_left h2 ha
    constructor <;> linarith
  · have e1 : α * r ≤ α * lo := mul_le_mul_of_nonpos_left h1 ha
    have e2 : α * hi ≤ α * r := mul_le_mul_of_nonpos_left h2 ha
    constructor <;> linarith

/-- The three roundings of the interpolation that follow the face ratio move
the result by at most `2 ^ (-15) + 2 ^ (-19)`: the product with the face
ratio, the sum and the quotient. -/
theorem interpolate_rounding (c3 c4 d r : ℚ) (hr0 : 0 ≤ r) (hr1 : r ≤ 1) (hc4 : |c4| ≤ 15)
    (hc3 : |c3| ≤ 100) (hd : 1 / 4 ≤ d) :
    |f32 (f32 (c3 + f32 (r * c4)) / d) - (c3 + r * c4) / d| ≤ 1 / 2 ^ 15 + 1 / 2 ^ 19 := by
  have hdpos : 0 < d := by linarith
  have h1 : |r * c4| ≤ 15 := by
    rw [abs_mul, abs_of_nonneg hr0]
    calc r * |c4| ≤ 1 * 15 := mul_le_mul hr1 hc4 (abs_nonneg _) (by norm_num)
      _ = 15 := by norm_num
  have hp := f32_abs_sub_le (r * c4) 3 (by norm_num) (lt_of_le_of_lt h1 (by norm_num))
  have hp2 : |f32 (r * c4) - r * c4| ≤ 1 / 2 ^ 21 := by
    refine le_trans hp ?_
    norm_num
  have hpa : |f32 (r * c4)| ≤ 16 := by
    have := abs_sub_abs_le_abs_sub (f32 (r * c4)) (r * c4)
    have h3 : (1 : ℚ) / 2 ^ 21 ≤ 1 := by norm_num
    linarith
  have hsum : |c3 + f32 (r * c4)| ≤ 116 := by
    have := abs_add c3 (f32 (r * c4))
    linarith
  have hs := f32_abs_sub_le (c3 + f32 (r * c4)) 6 (by norm_num)
    (lt_of_le_of_lt hsum (by norm_num))
  have hs2 : |f32 (c3 + f32 (r * c4)) - (c3 + f32 (r * c4))| ≤ 1 / 2 ^ 18 := by
    refine le_trans hs ?_
    norm_num
  have hsa : |f32 (c3 + f32 (r * c4))| ≤ 117 := by
    have := abs_sub_abs_le_abs_sub (f32 (c3 + f32 (r * c4))) (c3 + f32 (r * c4))
    have h3 : (1 : ℚ) / 2 ^ 18 ≤ 1 := by norm_num
    linarith
  have hq : |f32 (c3 + f32 (r * c4)) / d| ≤ 468 := by
    rw [abs_div, abs_of_pos hdpos, div_le_iff₀ hdpos]
    nlinarith
  have ht := f32_abs_sub_le (f32 (c3 + f32 (r * c4)) / d) 8 (by norm_num)
    (lt_of_le_of_lt hq (by norm_num))
  have ht2 : |f32 (f32 (c3 + f32 (r * c4)) / d) - f32 (c3 + f32 (r * c4)) / d| ≤ 1 / 2 ^ 16 := by
    refine le_trans ht ?_
    norm_num
  have hmid : |f32 (c3 + f32 (r * c4)) / d - (c3 + r * c4) / d| ≤ 1 / 2 ^ 16 + 1 / 2 ^ 19 := by
    rw [← sub_div, abs_div, abs_of_pos hdpos, div_le_iff₀ hdpos]
    have e : f32 (c3 + f32 (r * c4)) - (c3 + r * c4) =
        (f32 (c3 + f32 (r * c4)) - (c3 + f32 (r * c4))) + (f32 (r * c4) - r * c4) := by ring
    rw [e]
    have h5 := abs_add (f32 (c3 + f32 (r * c4)) - (c3 + f32 (r * c4))) (f32 (r * c4) - r * c4)
    have h6 : (1 : ℚ) / 2 ^ 18 + 1 / 2 ^ 21 ≤ (1 / 2 ^ 16 + 1 / 2 ^ 19) * d := by
      have : (1 : ℚ) / 2 ^ 18 + 1 / 2 ^ 21 = (1 / 2 ^ 16 + 1 / 2 ^ 19) * (1 / 4) := by norm_num
      rw [this]
      exact mul_le_mul_of_nonneg_left hd (by norm_num)
    linarith
  have e : f32 (f32 (c3 + f32 (r * c4)) / d) - (c3 + r * c4) / d =
      (f32 (f32 (c3 + f32 (r * c4)) / d) - f32 (c3 + f32 (r * c4)) / d) +
        (f32 (c3 + f32 (r * c4)) / d - (c3 + r * c4) / d) := by ring
  rw [e]
  have h7 := abs_add (f32 (f32 (c3 + f32 (r * c4)) / d) - f32 (c3 + f32 (r * c4)) / d)
    (f32 (c3 + f32 (r * c4)) / d - (c3 + r * c4) / d)
  have h8 : (1 : ℚ) / 2 ^ 16 + (1 / 2 ^ 16 + 1 / 2 ^ 19) = 1 / 2 ^ 15 + 1 / 2 ^ 19 := by norm_num
  linarith

/-- The interpolation in exact arithmetic is the baby coordinate at
`ratioBaby`, the adult coordinate at `ratioAdult`, and lies between the two for
a face ratio between the two ratios. -/
theorem interpolate_between (b a r : ℚ) :
    interpolate b a ratioBaby = b ∧ interpolate b a ratioAdult = a ∧
    (ratioBaby ≤ r → r ≤ ratioAdult →
      min b a ≤ interpolate b a r ∧ interpolate b a r ≤ max b a) := by
  have hBA : 0 < ratioAdult - ratioBaby := by decide!
  have hne : ratioAdult - ratioBaby ≠ 0 := ne_of_gt hBA
  have e : ∀ r, interpolate b a r = b + (a - b) * ((r - ratioBaby) / (ratioAdult - ratioBaby)) := by
    intro r
    unfold interpolate
    field_simp
    ring
  refine ⟨?_, ?_, ?_⟩
  · rw [e, sub_self, zero_div, mul_zero, add_zero]
  · rw [e, div_self hne, mul_one]
    ring
  · intro h1 h2
    rw [e]
    have ht0 : 0 ≤ (r - ratioBaby) / (ratioAdult - ratioBaby) :=
      div_nonneg (by linarith) hBA.le
    have ht1 : (r - ratioBaby) / (ratioAdult - ratioBaby) ≤ 1 := by
      rw [div_le_one hBA]
      linarith
    set t := (r - ratioBaby) / (ratioAdult - ratioBaby) with ht
    rcases le_total b a with hba | hab
    · rw [min_eq_left hba, max_eq_right hba]
      constructor
      · nlinarith [mul_nonneg (sub_nonneg.2 hba) ht0]
      · nlinarith [mul_nonneg (sub_nonneg.2 hba) (sub_nonneg.2 ht1)]
    · rw [min_eq_right hab, max_eq_left hab]
      constructor
      · nlinarith [mul_nonneg (sub_nonneg.2 hab) (sub_nonneg.2 ht1)]
      · nlinarith [mul_nonneg (sub_nonneg.2 hab) ht0]

/-- The `float32` interpolation of two coordinates is within `2 ^ (-13)` of the
exact interpolation for every face ratio between the two ratios, when the
rounded constants of the two coordinates are of the size of the templates and
the roundings before the face ratio enters move the result by at most
`2 ^ (-15)` at both ends. -/
theorem interpolate32_close (b a r : ℚ) (h1 : ratioBaby ≤ r) (h2 : r ≤ ratioAdult)
    (hc4 : |f32 (a - b)| ≤ 15)
    (hc3 : |f32 (f32 (ratioAdult * b) - f32 (ratioBaby * a))| ≤ 100)
    (hlo : |(f32 (f32 (ratioAdult * b) - f32 (ratioBaby * a)) + ratioBaby * f32 (a - b)) /
        f32 (ratioAdult - ratioBaby) - interpolate b a ratioBaby| ≤ 1 / 2 ^ 15)
    (hhi : |(f32 (f32 (ratioAdult * b) - f32 (ratioBaby * a)) + ratioAdult * f32 (a - b)) /
        f32 (ratioAdult - ratioBaby) - interpolate b a ratioAdult| ≤ 1 / 2 ^ 15) :
    |interpolate32 b a r - interpolate b a r| ≤ 1 / 2 ^ 13 := by
  have hB0 : 0 ≤ ratioBaby := by decide!
  have hA1 : ratioAdult ≤ 1 := by decide!
  have hd : 1 / 4 ≤ f32 (ratioAdult - ratioBaby) := by decide!
  have hBA : 0 < ratioAdult - ratioBaby := by decide!
  have hne : ratioAdult - ratioBaby ≠ 0 := ne_of_gt hBA
  have hdne : f32 (ratioAdult - ratioBaby) ≠ 0 := by
    intro h0
    rw [h0] at hd
    norm_num at hd
  have hround := interpolate_rounding (f32 (f32 (ratioAdult * b) - f32 (ratioBaby * a)))
    (f32 (a - b)) (f32 (ratioAdult - ratioBaby)) r (le_trans hB0 h1) (le_trans h2 hA1) hc4 hc3 hd
  have elin : ∀ x : ℚ,
      (f32 (f32 (ratioAdult * b) - f32 (ratioBaby * a)) + x * f32 (a - b)) /
          f32 (ratioAdult - ratioBaby) - interpolate b a x =
        (f32 (a - b) / f32 (ratioAdult - ratioBaby) - (a - b) / (ratioAdult - ratioBaby)) * x +
          (f32 (f32 (ratioAdult * b) - f32 (ratioBaby * a)) / f32 (ratioAdult - ratioBaby) -
            (b * ratioAdult - a * ratioBaby) / (ratioAdult - ratioBaby)) := by
    intro x
    unfold interpolate
    field_simp
    ring
  rw [elin] at hlo hhi
  have hmid := linear_abs_le _ _ ratioBaby ratioAdult (1 / 2 ^ 15) r hlo hhi h1 h2
  rw [← elin] at hmid
  have e : interpolate32 b a r - interpolate b a r =
      (interpolate32 b a r -
          (f32 (f32 (ratioAdult * b) - f32 (ratioBaby * a)) + r * f32 (a - b)) /
            f32 (ratioAdult - ratioBaby)) +
        ((f32 (f32 (ratioAdult * b) - f32 (ratioBaby * a)) + r * f32 (a - b)) /
            f32 (ratioAdult - ratioBaby) - interpolate b a r) := by ring
  rw [e]
  have h7 := abs_add (interpolate32 b a r -
      (f32 (f32 (ratioAdult * b) - f32 (ratioBaby * a)) + r * f32 (a - b)) /
        f32 (ratioAdult - ratioBaby))
    ((f32 (f32 (ratioAdult * b) - f32 (ratioBaby * a)) + r * f32 (a - b)) /
        f32 (ratioAdult - ratioBaby) - interpolate b a r)
  have h8 : (1 : ℚ) / 2 ^ 15 + 1 / 2 ^ 19 + 1 / 2 ^ 15 ≤ 1 / 2 ^ 13 := by norm_num
  have h9 : |interpolate32 b a r -
      (f32 (f32 (ratioAdult * b) - f32 (ratioBaby * a)) + r * f32 (a - b)) /
        f32 (ratioAdult - ratioBaby)| ≤ 1 / 2 ^ 15 + 1 / 2 ^ 19 := hround
  linarith

/-- Every coordinate of the `float32` interpolation of the baby and the adult
template is within `2 ^ (-13)` of the exact interpolation, for every face
ratio between the two ratios. -/
theorem template_close (r : ℚ) (h1 : ratioBaby ≤ r) (h2 : r ≤ ratioAdult) (i : Nat)
    (hi : i < 10) :
    |(List.zipWith (fun b a => interpolate32 b a r) faceTemplateBaby.data
        faceTemplateAdult.data).getD i 0 -
      interpolate (faceTemplateBaby.data.getD i 0) (faceTemplateAdult.data.getD i 0) r| ≤
        1 / 2 ^ 13 := by
  interval_cases i
  · exact interpolate32_close (f32 89.26848429) (f32 87.56117786) r h1 h2
      (by decide!) (by decide!) (by decide!) (by decide!)
  · exact interpolate32_close (f32 149.95460108) (f32 140.95207892) r h1 h2
      (by decide!) (by decide!) (by decide!) (by decide!)
  · exact interpolate32_close (f32 150.43019571) (f32 152.12076214) r h1 h2
      (by decide!) (by decide!) (by decide!) (by decide!)
  · exact interpolate32_close (f32 149.6132627) (f32 140.5917773) r h1 h2
      (by decide!) (by decide!) (by decide!) (by decide!)
  · exact interpolate32_close (f32 120.04374) (f32 120.04617) r h1 h2
      (by decide!) (by decide!) (by decide!) (by decide!)
  · exact interpolate32_close (f32 185.05220757) (f32 177.99955243) r h1 h2
      (by decide!) (by decide!) (by decide!) (by decide!)
  · exact interpolate32_close (f32 94.91771357) (f32 93.52425322) r h1 h2
      (by decide!) (by decide!) (by decide!) (by decide!)
  · exact interpolate32_close (f32 221.18065946) (f32 216.13514054) r h1 h2
      (by decide!) (by decide!) (by decide!) (by decide!)
  · exact interpolate32_close (f32 145.56689786) (f32 146.98728108) r h1 h2
      (by decide!) (by decide!) (by decide!) (by decide!)
  · exact interpolate32_close (f32 220.89799136) (f32 215.83676865) r h1 h2
      (by decide!) (by decide!) (by decide!) (by decide!)

/-- For a face ratio between the two ratios, every coordinate of the template
that `AlignFaceIDCard` computes is within `2 ^ (-13)` of the exact
interpolation, and so within `2 ^ (-13)` of the interval between the baby and
the adult coordinate. -/
theorem idCardFaceTemplate_close (r : ℚ) (h1 : ratioBaby ≤ r) (h2 : r ≤ ratioAdult) (t : Dense)
    (ht : idCardFaceTemplate r = (some t, none)) (i : Nat) (hi : i < 10) :
    |t.data.getD i 0 -
        interpolate (faceTemplateBaby.data.getD i 0) (faceTemplateAdult.data.getD i 0) r| ≤
      1 / 2 ^ 13 ∧
    min (faceTemplateBaby.data.getD i 0) (faceTemplateAdult.data.getD i 0) - 1 / 2 ^ 13 ≤
      t.data.getD i 0 ∧
    t.data.getD i 0 ≤
      max (faceTemplateBaby.data.getD i 0) (faceTemplateAdult.data.getD i 0) + 1 / 2 ^ 13 := by
  rw [idCardFaceTemplate_eq] at ht
  simp only [Prod.mk.injEq, Option.some.injEq, and_true] at ht
  subst ht
  have hc := template_close r h1 h2 i hi
  have hb := (interpolate_between (faceTemplateBaby.data.getD i 0)
    (faceTemplateAdult.data.getD i 0) r).2.2 h1 h2
  have hc2 := abs_le.1 hc
  refine ⟨hc, ?_, ?_⟩
  · linarith [hc2.1, hb.1]
  · linarith [hc2.2, hb.2]

/-- C22 (counterexample): at the face ratio `ratioAdult`, the `float32`
`0.565`, the template that `AlignFaceIDCard` computes is not the adult
template, and at `ratioBaby` it is not the baby template; at `ratioAdult` its
coordinate of index 4 is above both the baby and the adult coordinate.  The
face ratio `ratioAdult` is the one of a landmark with eyes at `(0, 0)` and
`(1, 0)` and nose at `(0, 1)` with a box centred at `(0, 2)`. -/
theorem idCardFaceTemplate_endpoint_rounding :
    idCardFaceTemplate ratioAdult ≠ (some faceTemplateAdult, none) ∧
    idCardFaceTemplate ratioBaby ≠ (some faceTemplateBaby, none) ∧
    (∃ t, idCardFaceTemplate ratioAdult = (some t, none) ∧
      max (faceTemplateBaby.data.getD 4 0) (faceTemplateAdult.data.getD 4 0) <
        t.data.getD 4 0) ∧
    idCardFaceRatio goSqrt ⟨[5, 2], [0, 0, 1, 0, 0, 1, 0, 2, 1, 2]⟩ ⟨[4], [-1, 1, 1, 3]⟩ =
      some (.num ratioAdult, none) := by
  refine ⟨by decide!, by decide!, ⟨_, idCardFaceTemplate_eq ratioAdult, by decide!⟩, by decide!⟩

/-- C22 (amended): the template that `AlignFaceIDCard` computes for a face
ratio is, coordinate by coordinate, the interpolation formula evaluated in
`float32` arithmetic.  In exact arithmetic the formula gives the baby template
at `ratioBaby` and the adult template at `ratioAdult`; for every face ratio
between the two, each of the ten computed coordinates is within `2 ^ (-13)` of
the exact interpolation, and so within `2 ^ (-13)` of the interval between the
baby and the adult coordinate.  For every landmark of shape `(5, 2)` and box
of four entries whose face ratio is a number, that number lies between the two
ratios and `AlignFaceIDCard` aligns the image to the template computed for
it. -/
theorem idCardFaceTemplate_interpolation :
    (∀ r : ℚ, idCardFaceTemplate r =
      (some ⟨[5, 2], List.zipWith (fun b a => interpolate32 b a r) faceTemplateBaby.data
        faceTemplateAdult.data⟩, none)) ∧
    (∀ b a : ℚ, interpolate b a ratioBaby = b ∧ interpolate b a ratioAdult = a) ∧
    (∀ (r : ℚ) (t : Dense), ratioBaby ≤ r → r ≤ ratioAdult →
      idCardFaceTemplate r = (some t, none) → ∀ i, i < 10 →
        |t.data.getD i 0 -
            interpolate (faceTemplateBaby.data.getD i 0) (faceTemplateAdult.data.getD i 0) r| ≤
          1 / 2 ^ 13 ∧
        min (faceTemplateBaby.data.getD i 0) (faceTemplateAdult.data.getD i 0) - 1 / 2 ^ 13 ≤
          t.data.getD i 0 ∧
        t.data.getD i 0 ≤
          max (faceTemplateBaby.data.getD i 0) (faceTemplateAdult.data.getD i 0) +
            1 / 2 ^ 13) ∧
    (∀ (sqrt : ℚ → ℚ) (cv : OpenCV) (c : FaceHelperClient) (img : Mat) (lmk bbox : Dense)
      (borderMode : Option Nat) (q : ℚ),
      lmk.shape = [5, 2] → lmk.data.length = 10 → bbox.data.length = 4 →
      idCardFaceRatio sqrt lmk bbox = some (.num q, none) →
      ratioBaby ≤ q ∧ q ≤ ratioAdult ∧
      ∃ t, idCardFaceTemplate q = (some t, none) ∧ t.shape = [5, 2] ∧ t.data.length = 10 ∧
        (∀ i, i < 10 →
          min (faceTemplateBaby.data.getD i 0) (faceTemplateAdult.data.getD i 0) -
              1 / 2 ^ 13 ≤ t.data.getD i 0 ∧
            t.data.getD i 0 ≤
              max (faceTemplateBaby.data.getD i 0) (faceTemplateAdult.data.getD i 0) +
                1 / 2 ^ 13) ∧
        c.AlignFaceIDCard sqrt cv img (some lmk) (some bbox) borderMode =
          some ((alignedPair cv t (240, 320) (borderMode.getD BorderConstant) img lmk).1,
            (alignedPair cv t (240, 320) (borderMode.getD BorderConstant) img lmk).2,
            none)) := by
  refine ⟨idCardFaceTemplate_eq, fun b a => ⟨(interpolate_between b a 0).1,
    (interpolate_between b a 0).2.1⟩, ?_, ?_⟩
  · intro r t h1 h2 ht i hi
    exact idCardFaceTemplate_close r h1 h2 t ht i hi
  · intro sqrt cv c img lmk bbox borderMode q hs hl hb hr
    have heq := idCardFaceRatio_eq sqrt lmk bbox hs hl hb
    have hcl := clampRatio_cases (rawFaceRatio sqrt lmk bbox)
    rw [heq] at hr
    simp only [Option.some.injEq, Prod.mk.injEq, and_true] at hr
    have hrange : ratioBaby ≤ q ∧ q ≤ ratioAdult := by
      by_cases hn : rawFaceRatio sqrt lmk bbox = .nan
      · rw [hcl.1 hn] at hr
        exact absurd hr (by simp)
      · obtain ⟨q2, hq2, h1, h2⟩ := hcl.2 hn
        rw [hq2] at hr
        simp only [XFloat.num.injEq] at hr
        subst hr
        exact ⟨h1, h2⟩
    refine ⟨hrange.1, hrange.2, _, idCardFaceTemplate_eq q, rfl, rfl, ?_, ?_⟩
    · intro i hi
      exact (idCardFaceTemplate_close q hrange.1 hrange.2 _ (idCardFaceTemplate_eq q) i hi).2
    · exact AlignFaceIDCard_finite sqrt cv c img lmk bbox borderMode q hs hl
        (by rw [heq, hr])

/-- Witness of C22 (amended): eyes at `(0, 0)` and `(1, 0)`, nose at `(0, 1)`, a
box centred at `(0, 2)`; the face ratio is `ratioAdult`, the template computed
for it has its ten coordinates within `2 ^ (-13)` of the interval between the
baby and the adult coordinates, and the image is aligned to it. -/
theorem idCardFaceTemplate_interpolation_witness :
    idCardFaceRatio goSqrt ⟨[5, 2], [0, 0, 1, 0, 0, 1, 0, 2, 1, 2]⟩ ⟨[4], [-1, 1, 1, 3]⟩ =
      some (.num ratioAdult, none) ∧
    ratioBaby ≤ ratioAdult ∧ ratioAdult ≤ ratioAdult ∧
    ∃ t, idCardFaceTemplate ratioAdult = (some t, none) ∧ t.shape = [5, 2] ∧
      t.data.length = 10 ∧
      (∀ i, i < 10 →
        min (faceTemplateBaby.data.getD i 0) (faceTemplateAdult.data.getD i 0) -
            1 / 2 ^ 13 ≤ t.data.getD i 0 ∧
          t.data.getD i 0 ≤
            max (faceTemplateBaby.data.getD i 0) (faceTemplateAdult.data.getD i 0) +
              1 / 2 ^ 13) ∧
      (exampleHelper none).AlignFaceIDCard goSqrt exampleCV exampleImage
          (some ⟨[5, 2], [0, 0, 1, 0, 0, 1, 0, 2, 1, 2]⟩) (some ⟨[4], [-1, 1, 1, 3]⟩) none =
        some ((alignedPair exampleCV t (240, 320) ((none : Option Nat).getD BorderConstant)
            exampleImage ⟨[5, 2], [0, 0, 1, 0, 0, 1, 0, 2, 1, 2]⟩).1,
          (alignedPair exampleCV t (240, 320) ((none : Option Nat).getD BorderConstant)
            exampleImage ⟨[5, 2], [0, 0, 1, 0, 0, 1, 0, 2, 1, 2]⟩).2,
          none) :=
  ⟨by decide!,
    idCardFaceTemplate_interpolation.2.2.2 goSqrt exampleCV (exampleHelper none) exampleImage
      ⟨[5, 2], [0, 0, 1, 0, 0, 1, 0, 2, 1, 2]⟩ ⟨[4], [-1, 1, 1, 3]⟩ none ratioAdult rfl rfl rfl
      (by decide!)⟩

/-- Rounding moves a number of magnitude at least `2 ^ emin` by at most the
fraction `2 ^ (-prec)` of it. -/
theorem roundNE_rel (prec : Nat) (emin : Int) (q : ℚ) (hprec : 1 ≤ prec)
    (h : (2 : ℚ) ^ emin ≤ |q|) : |roundNE prec emin q - q| ≤ |q| / 2 ^ prec := by
  have two : (2 : ℚ) ≠ 0 := by norm_num
  have hpos : 0 < |q| := lt_of_lt_of_le (by positivity) h
  have h1 : (2 : ℚ) ^ Int.log 2 |q| ≤ |q| := by
    have := Int.zpow_log_le_self (b := 2) (r := |q|) (by norm_num) hpos
    exact_mod_cast this
  have h2 : |q| < (2 : ℚ) ^ (Int.log 2 |q| + 1) := by
    have := Int.lt_zpow_succ_log_self (b := 2) (by norm_num) |q|
    exact_mod_cast this
  have he : emin ≤ Int.log 2 |q| := by
    have h3 : (2 : ℚ) ^ emin < (2 : ℚ) ^ (Int.log 2 |q| + 1) := lt_of_le_of_lt h h2
    have := (zpow_lt_zpow_iff_right₀ (by norm_num : (1 : ℚ) < 2)).1 h3
    omega
  have h4 := roundNE_abs_sub_le prec emin q (Int.log 2 |q|) hprec he h2
  refine le_trans h4 ?_
  rw [zpow_sub₀ two, zpow_natCast]
  exact div_le_div_of_nonneg_right h1 (by positivity)

/-- A `float32` operation moves a real result that is zero or of magnitude at
least `2 ^ (-126)` by at most the fraction `2 ^ (-24)` of it. -/
theorem f32_rel (x : ℚ) (h : x = 0 ∨ (2 : ℚ) ^ (-126 : Int) ≤ |x|) :
    |f32 x - x| ≤ |x| / 2 ^ 24 := by
  rcases h with h | h
  · rw [h, f32_zero]
    simp
  · exact roundNE_rel 24 (-126) x (by norm_num) h

/-- A `float64` value is a multiple of `2 ^ (-1074)`. -/
theorem roundNE_grid (prec : Nat) (emin : Int) (q : ℚ) (hprec : 1 ≤ prec) :
    ∃ k : Int, roundNE prec emin q =
      (k : ℚ) * (2 : ℚ) ^ (emin - ((prec - 1 : Nat) : Int)) := by
  have two : (2 : ℚ) ≠ 0 := by norm_num
  have key : ∀ q : ℚ, 0 < q → ∃ k : Int, roundNE prec emin q =
      (k : ℚ) * (2 : ℚ) ^ (emin - ((prec - 1 : Nat) : Int)) := by
    intro q hq
    have e : roundNE prec emin q = roundMag prec emin q.num.natAbs q.den := by
      unfold roundNE
      rw [if_neg (ne_of_gt hq), if_neg (not_lt.2 hq.le)]
    have hn : 0 < q.num.natAbs := Int.natAbs_pos.2 (ne_of_gt (Rat.num_pos.2 hq))
    obtain ⟨M, j, _, hj, hr⟩ := roundMag_mem prec emin q.num.natAbs q.den hprec hn q.den_pos
    obtain ⟨t, ht⟩ := Int.eq_ofNat_of_zero_le (sub_nonneg.2 hj)
    refine ⟨((M * 2 ^ t : Nat) : Int), ?_⟩
    rw [e, hr]
    have hjt : j = (emin - ((prec - 1 : Nat) : Int)) + (t : Int) := by omega
    rw [hjt, zpow_add₀ two, zpow_natCast]
    push_cast
    ring
  rcases lt_trichotomy q 0 with h | h | h
  · obtain ⟨k, hk⟩ := key (-q) (neg_pos.2 h)
    rw [roundNE_neg] at hk
    refine ⟨-k, ?_⟩
    push_cast
    linarith
  · subst h
    exact ⟨0, by simp [roundNE]⟩
  · exact key q h

/-- A `float64` operation on a real result that is a multiple of
`2 ^ (-1074)`, as a sum of `float64` and `float32` values is, moves it by at
most the fraction `2 ^ (-53)` of it: below `2 ^ (-1022)` the result is
exact. -/
theorem f64_rel_grid (x : ℚ) (k : Int) (hx : x = (k : ℚ) * (2 : ℚ) ^ (-1074 : Int)) :
    |f64 x - x| ≤ |x| / 2 ^ 53 := by
  have two : (2 : ℚ) ≠ 0 := by norm_num
  by_cases h : (2 : ℚ) ^ (-1022 : Int) ≤ |x|
  · exact roundNE_rel 53 (-1022) x (by norm_num) h
  · have hlt : |x| < (2 : ℚ) ^ (-1022 : Int) := not_le.1 h
    have hp : (0 : ℚ) < (2 : ℚ) ^ (-1074 : Int) := by positivity
    have habs : |x| = ((k.natAbs : Nat) : ℚ) * (2 : ℚ) ^ (-1074 : Int) := by
      rw [hx, abs_mul, abs_of_pos hp, Nat.cast_natAbs]
      push_cast
      rfl
    have hk : k.natAbs < 2 ^ 53 := by
      have h5 : ((k.natAbs : Nat) : ℚ) * (2 : ℚ) ^ (-1074 : Int) <
          ((2 ^ 52 : Nat) : ℚ) * (2 : ℚ) ^ (-1074 : Int) := by
        rw [← habs]
        refine lt_of_lt_of_le hlt (le_of_eq ?_)
        have e1 : ((2 ^ 52 : Nat) : ℚ) = (2 : ℚ) ^ (52 : Int) := by norm_num
        rw [e1, ← zpow_add₀ two]
        norm_num
      have h6 : ((k.natAbs : Nat) : ℚ) < ((2 ^ 52 : Nat) : ℚ) := lt_of_mul_lt_mul_right h5 hp.le
      have h7 : k.natAbs < 2 ^ 52 := by exact_mod_cast h6
      omega
    have hex : f64 |x| = |x| := by
      rw [habs]
      exact roundNE_exact 53 (-1022) k.natAbs (-1074) (by norm_num) hk (by norm_num)
    have hexact : f64 x = x := by
      rcases le_total 0 x with h0 | h0
      · rw [abs_of_nonneg h0] at hex
        exact hex
      · rw [abs_of_nonpos h0] at hex
        unfold f64 at hex ⊢
        rw [roundNE_neg] at hex
        linarith
    rw [hexact, sub_self, abs_zero]
    positivity

/-- A `float32` value is a multiple of `2 ^ (-1074)`. -/
theorem f32_grid (x : ℚ) : ∃ k : Int, f32 x = (k : ℚ) * (2 : ℚ) ^ (-1074 : Int) := by
  have two : (2 : ℚ) ≠ 0 := by norm_num
  obtain ⟨k, hk⟩ := roundNE_grid 24 (-126) x (by norm_num)
  have gen : ∀ n : Nat, (((k * 2 ^ n : Int) : Int) : ℚ) * (2 : ℚ) ^ (-1074 : Int) =
      (k : ℚ) * ((2 : ℚ) ^ (n : Int) * (2 : ℚ) ^ (-1074 : Int)) := by
    intro n
    push_cast
    rw [zpow_natCast]
    ring
  refine ⟨k * 2 ^ (925 : Nat), ?_⟩
  unfold f32
  rw [hk]
  have e : (-126 : Int) - ((24 - 1 : Nat) : Int) = ((925 : Nat) : Int) + (-1074) := by
    norm_num
  rw [e, zpow_add₀ two]
  exact (gen 925).symm

/-- A `float64` value is a multiple of `2 ^ (-1074)`. -/
theorem f64_grid (x : ℚ) : ∃ k : Int, f64 x = (k : ℚ) * (2 : ℚ) ^ (-1074 : Int) := by
  obtain ⟨k, hk⟩ := roundNE_grid 53 (-1022) x (by norm_num)
  refine ⟨k, ?_⟩
  unfold f64
  rw [hk]
  norm_num

/-- The `float32` values above `1` and below `1 + 2 ^ (-22)` are at most
`1 + 2 ^ (-23)`: there is one, `1 + 2 ^ (-23)`. -/
theorem f32_le_of_lt (y : ℚ) (h : f32 y < 1 + 1 / 2 ^ 22) : f32 y ≤ 1 + 1 / 2 ^ 23 := by
  have two : (2 : ℚ) ≠ 0 := by norm_num
  by_cases h1 : f32 y ≤ 1
  · have : (0 : ℚ) ≤ 1 / 2 ^ 23 := by positivity
    linarith
  · have hgt : 1 < f32 y := not_le.1 h1
    have hy : 0 < y := by
      by_contra hc
      have hy0 : y ≤ 0 := not_lt.1 hc
      have := roundNE_le 24 (-126) y 0 0 (by norm_num) (by norm_num) (by norm_num)
        (by simpa using hy0)
      unfold f32 at hgt
      simp only [Nat.cast_zero, zero_mul] at this
      linarith
    have e : f32 y = roundMag 24 (-126) y.num.natAbs y.den := by
      unfold f32 roundNE
      rw [if_neg (ne_of_gt hy), if_neg (not_lt.2 hy.le)]
    have hn : 0 < y.num.natAbs := Int.natAbs_pos.2 (ne_of_gt (Rat.num_pos.2 hy))
    obtain ⟨M, j, hM, hj, hr⟩ := roundMag_mem 24 (-126) y.num.natAbs y.den (by norm_num) hn
      y.den_pos
    rw [e, hr] at hgt h ⊢
    have hMq : (M : ℚ) < (2 : ℚ) ^ (24 : Nat) := by exact_mod_cast hM
    have hjpos : (0 : ℚ) < (2 : ℚ) ^ j := by positivity
    have hj23 : -23 ≤ j := by
      by_contra hc
      have hj24 : j ≤ -24 := by omega
      have h5 : (2 : ℚ) ^ j ≤ (2 : ℚ) ^ (-24 : Int) := zpow_le_zpow_right₀ (by norm_num) hj24
      have h6 : (M : ℚ) * (2 : ℚ) ^ j < (2 : ℚ) ^ (24 : Nat) * (2 : ℚ) ^ (-24 : Int) := by
        calc (M : ℚ) * (2 : ℚ) ^ j < (2 : ℚ) ^ (24 : Nat) * (2 : ℚ) ^ j :=
              mul_lt_mul_of_pos_right hMq hjpos
          _ ≤ (2 : ℚ) ^ (24 : Nat) * (2 : ℚ) ^ (-24 : Int) :=
              mul_le_mul_of_nonneg_left h5 (by positivity)
      have h7 : (2 : ℚ) ^ (24 : Nat) * (2 : ℚ) ^ (-24 : Int) = 1 := by
        rw [← zpow_natCast, ← zpow_add₀ two]
        norm_num
      linarith
    obtain ⟨t, ht⟩ := Int.eq_ofNat_of_zero_le (by omega : 0 ≤ j + 23)
    have hjt : j = (t : Int) + (-23) := by omega
    have hval : (M : ℚ) * (2 : ℚ) ^ j = ((M * 2 ^ t : Nat) : ℚ) / 2 ^ 23 := by
      rw [hjt, zpow_add₀ two, zpow_natCast]
      push_cast
      rw [zpow_neg]
      norm_num
      ring
    rw [hval] at h ⊢
    have h8 : ((M * 2 ^ t : Nat) : ℚ) < ((2 ^ 23 + 2 : Nat) : ℚ) := by
      rw [div_lt_iff₀ (by positivity)] at h
      push_cast
      push_cast at h
      linarith
    have h9 : M * 2 ^ t < 2 ^ 23 + 2 := by exact_mod_cast h8
    have h10 : M * 2 ^ t ≤ 2 ^ 23 + 1 := by omega
    have h11 : ((M * 2 ^ t : Nat) : ℚ) ≤ ((2 ^ 23 + 1 : Nat) : ℚ) := by exact_mod_cast h10
    rw [div_le_iff₀ (by positivity)]
    push_cast at h11 ⊢
    linarith

/-- A sum of squares of rationals is never negative. -/
theorem sumsq_nonneg (a : List ℚ) : 0 ≤ (a.map (fun x => x * x)).sum :=
  List.sum_nonneg (by
    intro y hy
    obtain ⟨z, _, rfl⟩ := List.mem_map.1 hy
    exact mul_self_nonneg z)

/-- The inequality of Cauchy and Schwarz for two lists of rationals of equal
length. -/
theorem dot_sq_le (a b : List ℚ) (h : a.length = b.length) :
    dot a b * dot a b ≤ (a.map (fun x => x * x)).sum * (b.map (fun x => x * x)).sum := by
  induction a generalizing b with
  | nil =>
    cases b with
    | nil => simp [dot]
    | cons y ys => simp at h
  | cons x xs ih =>
    cases b with
    | nil => simp at h
    | cons y ys =>
      simp only [List.length_cons, Nat.add_right_cancel_iff] at h
      have hD := ih ys h
      have hP := sumsq_nonneg xs
      have hQ := sumsq_nonneg ys
      simp only [dot, List.zipWith_cons_cons, List.sum_cons, List.map_cons] at hD ⊢
      set D := (List.zipWith (fun x y => x * y) xs ys).sum with hDdef
      set P := (xs.map (fun x => x * x)).sum with hPdef
      set Q := (ys.map (fun x => x * x)).sum with hQdef
      have hs : 0 ≤ P * (y * y) + Q * (x * x) :=
        add_nonneg (mul_nonneg hP (mul_self_nonneg y)) (mul_nonneg hQ (mul_self_nonneg x))
      have ht : (2 * D * x * y) ^ 2 ≤ (P * (y * y) + Q * (x * x)) ^ 2 := by
        nlinarith [mul_le_mul_of_nonneg_right hD (mul_self_nonneg (x * y)),
          sq_nonneg (P * (y * y) - Q * (x * x))]
      have hle : 2 * D * x * y ≤ P * (y * y) + Q * (x * x) :=
        (abs_le_of_sq_le_sq' ht hs).2
      nlinarith [hle]

/-- The magnitude of a `float32` value is the `float32` of the magnitude. -/
theorem f32_abs (y : ℚ) : |f32 y| = f32 |y| := by
  rcases le_total 0 y with h | h
  · rw [abs_of_nonneg h, abs_of_nonneg (f32_nonneg y h)]
  · have h2 : f32 (-y) = -f32 y := roundNE_neg 24 (-126) y
    have h3 : 0 ≤ f32 (-y) := f32_nonneg (-y) (by linarith)
    rw [abs_of_nonpos h, h2, abs_of_nonpos (by linarith)]

/-- A `float64` operation moves a real result that is zero or of magnitude at
least `2 ^ (-1022)` by at most the fraction `2 ^ (-53)` of it. -/
theorem f64_rel (x : ℚ) (h : x = 0 ∨ (2 : ℚ) ^ (-1022 : Int) ≤ |x|) :
    |f64 x - x| ≤ |x| / 2 ^ 53 := by
  rcases h with h | h
  · rw [h, f64_zero]
    simp
  · exact roundNE_rel 53 (-1022) x (by norm_num) h

/-- The `float64` sum, in order, of terms that are multiples of `2 ^ (-1074)`,
started at such a multiple, is in magnitude at most the sum of the magnitudes
enlarged by the factor `1 + 2 ^ (-53)` per term. -/
theorem foldl_f64_abs_le (ps : List ℚ)
    (hps : ∀ p ∈ ps, ∃ k : Int, p = (k : ℚ) * (2 : ℚ) ^ (-1074 : Int)) (acc : ℚ)
    (hacc : ∃ k : Int, acc = (k : ℚ) * (2 : ℚ) ^ (-1074 : Int)) :
    |ps.foldl (fun acc p => f64 (acc + p)) acc| ≤
      (1 + 1 / 2 ^ 53) ^ ps.length * (|acc| + (ps.map (fun p => |p|)).sum) := by
  induction ps generalizing acc with
  | nil => simp
  | cons p ps ih =>
    obtain ⟨k1, hk1⟩ := hacc
    obtain ⟨k2, hk2⟩ := hps p (List.mem_cons_self _ _)
    have hgrid : acc + p = ((k1 + k2 : Int) : ℚ) * (2 : ℚ) ^ (-1074 : Int) := by
      rw [hk1, hk2]
      push_cast
      ring
    have hrel := f64_rel_grid (acc + p) (k1 + k2) hgrid
    have hstep : |f64 (acc + p)| ≤ (1 + 1 / 2 ^ 53) * (|acc| + |p|) := by
      have h1 := abs_sub_abs_le_abs_sub (f64 (acc + p)) (acc + p)
      have h2 := abs_add acc p
      have h3 : |acc + p| / 2 ^ 53 ≤ (|acc| + |p|) / 2 ^ 53 :=
        div_le_div_of_nonneg_right h2 (by positivity)
      have e : (1 + 1 / 2 ^ 53) * (|acc| + |p|) = (|acc| + |p|) + (|acc| + |p|) / 2 ^ 53 := by
        ring
      rw [e]
      linarith
    have hih := ih (fun q hq => hps q (List.mem_cons_of_mem _ hq)) (f64 (acc + p))
      (f64_grid (acc + p))
    simp only [List.foldl_cons, List.length_cons, List.map_cons, List.sum_cons]
    have hsum : 0 ≤ (ps.map (fun p => |p|)).sum := List.sum_nonneg (by
      intro y hy
      obtain ⟨z, _, rfl⟩ := List.mem_map.1 hy
      exact abs_nonneg z)
    have hone : (1 : ℚ) ≤ 1 + 1 / 2 ^ 53 := by norm_num
    have hpow : (0 : ℚ) ≤ (1 + 1 / 2 ^ 53) ^ ps.length := by positivity
    calc _ ≤ (1 + 1 / 2 ^ 53) ^ ps.length *
          (|f64 (acc + p)| + (ps.map (fun p => |p|)).sum) := hih
      _ ≤ (1 + 1 / 2 ^ 53) ^ ps.length *
          ((1 + 1 / 2 ^ 53) * (|acc| + |p|) +
            (1 + 1 / 2 ^ 53) * (ps.map (fun p => |p|)).sum) := by
          apply mul_le_mul_of_nonneg_left _ hpow
          have : (ps.map (fun p => |p|)).sum ≤
              (1 + 1 / 2 ^ 53) * (ps.map (fun p => |p|)).sum := by
            nlinarith
          linarith
      _ = (1 + 1 / 2 ^ 53) ^ (ps.length + 1) *
          (|acc| + (|p| + (ps.map (fun p => |p|)).sum)) := by
          rw [pow_succ]
          ring

/-- The `float64` sum, in order, of terms that are zero or at least
`2 ^ (-149)`, started at such a number, is at least the sum reduced by the
factor `1 - 2 ^ (-53)` per term, and is zero or at least `2 ^ (-149)`. -/
theorem foldl_f64_ge (ps : List ℚ) (hps : ∀ p ∈ ps, p = 0 ∨ (2 : ℚ) ^ (-149 : Int) ≤ p)
    (acc : ℚ) (hacc : acc = 0 ∨ (2 : ℚ) ^ (-149 : Int) ≤ acc) :
    (1 - 1 / 2 ^ 53) ^ ps.length * (acc + ps.sum) ≤
        ps.foldl (fun acc p => f64 (acc + p)) acc ∧
      (ps.foldl (fun acc p => f64 (acc + p)) acc = 0 ∨
        (2 : ℚ) ^ (-149 : Int) ≤ ps.foldl (fun acc p => f64 (acc + p)) acc) := by
  have hc : (0 : ℚ) < (2 : ℚ) ^ (-149 : Int) := by positivity
  induction ps generalizing acc with
  | nil =>
    simp only [List.length_nil, pow_zero, List.sum_nil, add_zero, one_mul, List.foldl_nil]
    exact ⟨le_refl _, hacc⟩
  | cons p ps ih =>
    have hp := hps p (List.mem_cons_self _ _)
    have hps2 : ∀ q ∈ ps, q = 0 ∨ (2 : ℚ) ^ (-149 : Int) ≤ q :=
      fun q hq => hps q (List.mem_cons_of_mem _ hq)
    have hacc0 : 0 ≤ acc := by
      rcases hacc with h | h
      · rw [h]
      · linarith
    have hp0 : 0 ≤ p := by
      rcases hp with h | h
      · rw [h]
      · linarith
    have hx : acc + p = 0 ∨ (2 : ℚ) ^ (-149 : Int) ≤ acc + p := by
      rcases hacc with h | h
      · rcases hp with h2 | h2
        · left; rw [h, h2, add_zero]
        · right; linarith
      · right; linarith
    have hx' : acc + p = 0 ∨ (2 : ℚ) ^ (-1022 : Int) ≤ |acc + p| := by
      rcases hx with h | h
      · exact Or.inl h
      · right
        rw [abs_of_nonneg (by linarith)]
        refine le_trans ?_ h
        exact zpow_le_zpow_right₀ (by norm_num) (by norm_num)
    have hrel := f64_rel (acc + p) hx'
    rw [abs_of_nonneg (add_nonneg hacc0 hp0)] at hrel
    have hlow : (1 - 1 / 2 ^ 53) * (acc + p) ≤ f64 (acc + p) := by
      have := (abs_le.1 hrel).1
      have e : (1 - 1 / 2 ^ 53) * (acc + p) = (acc + p) - (acc + p) / 2 ^ 53 := by ring
      rw [e]
      linarith
    have hacc' : f64 (acc + p) = 0 ∨ (2 : ℚ) ^ (-149 : Int) ≤ f64 (acc + p) := by
      rcases hx with h | h
      · left; rw [h, f64_zero]
      · right; exact f64_ge_of_ge _ h
    obtain ⟨ih1, ih2⟩ := ih hps2 (f64 (acc + p)) hacc'
    simp only [List.foldl_cons, List.length_cons, List.sum_cons]
    refine ⟨?_, ih2⟩
    have hsum : 0 ≤ ps.sum := List.sum_nonneg (by
      intro y hy
      rcases hps2 y hy with h | h
      · rw [h]
      · linarith)
    have hone : (1 : ℚ) - 1 / 2 ^ 53 ≤ 1 := by norm_num
    have hone0 : (0 : ℚ) ≤ 1 - 1 / 2 ^ 53 := by norm_num
    have hpow : (0 : ℚ) ≤ (1 - 1 / 2 ^ 53) ^ ps.length := by positivity
    calc (1 - 1 / 2 ^ 53) ^ (ps.length + 1) * (acc + (p + ps.sum))
        = (1 - 1 / 2 ^ 53) ^ ps.length *
            ((1 - 1 / 2 ^ 53) * (acc + p) + (1 - 1 / 2 ^ 53) * ps.sum) := by
          rw [pow_succ]
          ring
      _ ≤ (1 - 1 / 2 ^ 53) ^ ps.length * (f64 (acc + p) + ps.sum) := by
          apply mul_le_mul_of_nonneg_left _ hpow
          have : (1 - 1 / 2 ^ 53) * ps.sum ≤ ps.sum := by nlinarith
          linarith
      _ ≤ _ := ih1

/-- A power of a number slightly above one, by the number of factors. -/
theorem pow_one_add_le (w : ℚ) (hw : 0 ≤ w) (k : Nat) (h : (k : ℚ) * (2 * w) ≤ 1) :
    (1 + w) ^ k ≤ 1 + 2 * k * w := by
  induction k with
  | zero => simp
  | succ k ih =>
    push_cast at h
    have hk : (k : ℚ) * (2 * w) ≤ 1 := by nlinarith
    have h1 := ih hk
    have h0 : 0 ≤ 1 + w := by linarith
    rw [pow_succ]
    push_cast
    calc (1 + w) ^ k * (1 + w) ≤ (1 + 2 * k * w) * (1 + w) :=
          mul_le_mul_of_nonneg_right h1 h0
      _ ≤ 1 + 2 * (k + 1) * w := by nlinarith [mul_nonneg hw (sub_nonneg.2 hk)]

/-- The `float32` product of two numbers that are zero or of magnitude between
`2 ^ (-60)` and `2 ^ 60` is in magnitude at most the product enlarged by
`1 + 2 ^ (-24)`. -/
theorem f32_mul_abs_le (x y : ℚ) (hx : x = 0 ∨ (1 / 2 ^ 60 ≤ |x| ∧ |x| ≤ 2 ^ 60))
    (hy : y = 0 ∨ (1 / 2 ^ 60 ≤ |y| ∧ |y| ≤ 2 ^ 60)) :
    |f32 (x * y)| ≤ (1 + 1 / 2 ^ 24) * (|x| * |y|) ∧
      (1 - 1 / 2 ^ 24) * (|x| * |y|) ≤ |f32 (x * y)| := by
  have h : x * y = 0 ∨ (2 : ℚ) ^ (-126 : Int) ≤ |x * y| := by
    rcases hx with h | h
    · left; rw [h, zero_mul]
    · rcases hy with h2 | h2
      · left; rw [h2, mul_zero]
      · right
        rw [abs_mul]
        have h3 : (1 : ℚ) / 2 ^ 60 * (1 / 2 ^ 60) ≤ |x| * |y| :=
          mul_le_mul h.1 h2.1 (by positivity) (abs_nonneg _)
        refine le_trans ?_ h3
        rw [zpow_neg]
        norm_num
  have hrel := f32_rel (x * y) h
  have h1 := abs_sub_abs_le_abs_sub (f32 (x * y)) (x * y)
  have h2 := abs_sub_abs_le_abs_sub (x * y) (f32 (x * y))
  rw [abs_sub_comm] at h2
  rw [← abs_mul]
  constructor
  · have e : (1 + 1 / 2 ^ 24) * |x * y| = |x * y| + |x * y| / 2 ^ 24 := by ring
    rw [e]
    linarith
  · have e : (1 - 1 / 2 ^ 24) * |x * y| = |x * y| - |x * y| / 2 ^ 24 := by ring
    rw [e]
    linarith

/-- The sum of the magnitudes of the `float32` products of two vectors is at
most the sum of the products of the magnitudes enlarged by `1 + 2 ^ (-24)`. -/
theorem sum_abs_products_le (a b : List ℚ)
    (ha : ∀ x ∈ a, x = 0 ∨ (1 / 2 ^ 60 ≤ |x| ∧ |x| ≤ 2 ^ 60))
    (hb : ∀ y ∈ b, y = 0 ∨ (1 / 2 ^ 60 ≤ |y| ∧ |y| ≤ 2 ^ 60)) :
    ((List.zipWith (fun x y => f32 (x * y)) a b).map (fun p => |p|)).sum ≤
      (1 + 1 / 2 ^ 24) * (List.zipWith (fun x y => |x| * |y|) a b).sum := by
  induction a generalizing b with
  | nil => simp
  | cons x xs ih =>
    cases b with
    | nil => simp
    | cons y ys =>
      have h1 := (f32_mul_abs_le x y (ha x (List.mem_cons_self _ _))
        (hb y (List.mem_cons_self _ _))).1
      have h2 := ih ys (fun z hz => ha z (List.mem_cons_of_mem _ hz))
        (fun z hz => hb z (List.mem_cons_of_mem _ hz))
      simp only [List.zipWith_cons_cons, List.map_cons, List.sum_cons]
      rw [mul_add]
      linarith

/-- The sum of the `float32` squares of a vector is at least the sum of the
squares reduced by `1 - 2 ^ (-24)`. -/
theorem sum_squares_ge (a : List ℚ) (ha : ∀ x ∈ a, x = 0 ∨ (1 / 2 ^ 60 ≤ |x| ∧ |x| ≤ 2 ^ 60)) :
    (1 - 1 / 2 ^ 24) * (a.map (fun x => x * x)).sum ≤
      ((a.map (fun x => x * x)).map f32).sum := by
  induction a with
  | nil => simp
  | cons x xs ih =>
    have hx := ha x (List.mem_cons_self _ _)
    have h1 := (f32_mul_abs_le x x hx hx).2
    rw [abs_mul_abs_self, abs_of_nonneg (f32_nonneg _ (mul_self_nonneg x))] at h1
    have h2 := ih (fun z hz => ha z (List.mem_cons_of_mem _ hz))
    simp only [List.map_cons, List.sum_cons]
    rw [mul_add]
    linarith

/-- The sum of the products of the magnitudes of two vectors of equal length
is bounded as Cauchy and Schwarz have it. -/
theorem abs_dot_sq_le (a b : List ℚ) (h : a.length = b.length) :
    (List.zipWith (fun x y => |x| * |y|) a b).sum *
        (List.zipWith (fun x y => |x| * |y|) a b).sum ≤
      (a.map (fun x => x * x)).sum * (b.map (fun x => x * x)).sum := by
  have h1 := dot_sq_le (a.map (fun x => |x|)) (b.map (fun x => |x|)) (by simpa using h)
  have e1 : dot (a.map (fun x => |x|)) (b.map (fun x => |x|)) =
      (List.zipWith (fun x y => |x| * |y|) a b).sum := by
    unfold dot
    rw [List.zipWith_map]
  have e2 : ∀ l : List ℚ, ((l.map (fun x => |x|)).map (fun x => x * x)).sum =
      (l.map (fun x => x * x)).sum := by
    intro l
    rw [List.map_map]
    congr 1
    apply List.map_congr_left
    intro x _
    exact abs_mul_abs_self x
  rw [e1, e2, e2] at h1
  exact h1

/-- The `float32` products of a vector with itself are the `float32` squares. -/
theorem zipWith_self_sq (a : List ℚ) :
    List.zipWith (fun x y => f32 (x * y)) a a = (a.map (fun x => x * x)).map f32 := by
  induction a with
  | nil => rfl
  | cons x xs ih => simp only [List.zipWith_cons_cons, List.map_cons, ih]

/-- The `float64` sum of the `float32` products of two vectors of at most
`2 ^ 20` components is in magnitude at most the sum of the products of the
magnitudes enlarged by `(1 + 2 ^ (-32)) (1 + 2 ^ (-24))`. -/
theorem dot64_abs_le (a b : List ℚ) (hlen : a.length = b.length) (hn : a.length ≤ 2 ^ 20)
    (ha : ∀ x ∈ a, x = 0 ∨ (1 / 2 ^ 60 ≤ |x| ∧ |x| ≤ 2 ^ 60))
    (hb : ∀ y ∈ b, y = 0 ∨ (1 / 2 ^ 60 ≤ |y| ∧ |y| ≤ 2 ^ 60)) :
    |dot64 a b| ≤ (1 + 1 / 2 ^ 32) * ((1 + 1 / 2 ^ 24) *
      (List.zipWith (fun x y => |x| * |y|) a b).sum) := by
  have hgrid : ∀ p ∈ List.zipWith (fun x y => f32 (x * y)) a b,
      ∃ k : Int, p = (k : ℚ) * (2 : ℚ) ^ (-1074 : Int) := by
    intro p hp
    obtain ⟨i, hi, rfl⟩ := List.mem_iff_getElem.1 hp
    simp only [List.getElem_zipWith]
    exact f32_grid _
  have h1 := foldl_f64_abs_le (List.zipWith (fun x y => f32 (x * y)) a b) hgrid 0
    ⟨0, by simp⟩
  have h2 := sum_abs_products_le a b ha hb
  have hl : (List.zipWith (fun x y => f32 (x * y)) a b).length = a.length := by
    simp [hlen]
  rw [hl, abs_zero, zero_add] at h1
  have hnq : (a.length : ℚ) ≤ 2 ^ 20 := by exact_mod_cast hn
  have hpow : (1 + 1 / 2 ^ 53 : ℚ) ^ a.length ≤ 1 + 1 / 2 ^ 32 := by
    have h3 := pow_one_add_le (1 / 2 ^ 53) (by positivity) a.length (by
      calc (a.length : ℚ) * (2 * (1 / 2 ^ 53)) ≤ 2 ^ 20 * (2 * (1 / 2 ^ 53)) :=
            mul_le_mul_of_nonneg_right hnq (by positivity)
        _ ≤ 1 := by norm_num)
    refine le_trans h3 ?_
    have : 2 * (a.length : ℚ) * (1 / 2 ^ 53) ≤ 2 * 2 ^ 20 * (1 / 2 ^ 53) := by
      apply mul_le_mul_of_nonneg_right _ (by positivity)
      linarith
    have e : (2 : ℚ) * 2 ^ 20 * (1 / 2 ^ 53) = 1 / 2 ^ 32 := by norm_num
    linarith
  have hsum0 : 0 ≤ ((List.zipWith (fun x y => f32 (x * y)) a b).map (fun p => |p|)).sum :=
    List.sum_nonneg (by
      intro y hy
      obtain ⟨z, _, rfl⟩ := List.mem_map.1 hy
      exact abs_nonneg z)
  unfold dot64
  calc _ ≤ (1 + 1 / 2 ^ 53) ^ a.length *
        ((List.zipWith (fun x y => f32 (x * y)) a b).map (fun p => |p|)).sum := h1
    _ ≤ (1 + 1 / 2 ^ 32) *
        ((List.zipWith (fun x y => f32 (x * y)) a b).map (fun p => |p|)).sum :=
        mul_le_mul_of_nonneg_right hpow hsum0
    _ ≤ _ := mul_le_mul_of_nonneg_left h2 (by positivity)

/-- The `float64` sum of the `float32` squares of a vector of at most `2 ^ 20`
components is at least the sum of the squares reduced by
`(1 - 2 ^ (-33)) (1 - 2 ^ (-24))`, and is zero or at least `2 ^ (-149)`. -/
theorem dot64_self_ge (a : List ℚ) (hn : a.length ≤ 2 ^ 20)
    (ha : ∀ x ∈ a, x = 0 ∨ (1 / 2 ^ 60 ≤ |x| ∧ |x| ≤ 2 ^ 60)) :
    (1 - 1 / 2 ^ 33) * ((1 - 1 / 2 ^ 24) * (a.map (fun x => x * x)).sum) ≤ dot64 a a ∧
      (dot64 a a = 0 ∨ (2 : ℚ) ^ (-149 : Int) ≤ dot64 a a) := by
  have hps : ∀ p ∈ (a.map (fun x => x * x)).map f32, p = 0 ∨ (2 : ℚ) ^ (-149 : Int) ≤ p := by
    intro p hp
    obtain ⟨q, hq, rfl⟩ := List.mem_map.1 hp
    obtain ⟨x, _, rfl⟩ := List.mem_map.1 hq
    by_cases h0 : f32 (x * x) = 0
    · exact Or.inl h0
    · exact Or.inr (f32_ge_of_ne_zero _ (mul_self_nonneg x) h0)
  obtain ⟨h1, h2⟩ := foldl_f64_ge ((a.map (fun x => x * x)).map f32) hps 0 (Or.inl rfl)
  have h3 := sum_squares_ge a ha
  have hl : ((a.map (fun x => x * x)).map f32).length = a.length := by simp
  rw [hl, zero_add] at h1
  have hnq : (a.length : ℚ) ≤ 2 ^ 20 := by exact_mod_cast hn
  have hpow : (1 - 1 / 2 ^ 33 : ℚ) ≤ (1 - 1 / 2 ^ 53) ^ a.length := by
    have hb := one_add_mul_le_pow (R := ℚ) (a := -(1 / 2 ^ 53)) (by norm_num) a.length
    have e : (1 : ℚ) + -(1 / 2 ^ 53) = 1 - 1 / 2 ^ 53 := by ring
    rw [e] at hb
    refine le_trans ?_ hb
    have : (a.length : ℚ) * (1 / 2 ^ 53) ≤ 2 ^ 20 * (1 / 2 ^ 53) :=
      mul_le_mul_of_nonneg_right hnq (by positivity)
    have e2 : (2 : ℚ) ^ 20 * (1 / 2 ^ 53) = 1 / 2 ^ 33 := by norm_num
    linarith
  have hS0 : 0 ≤ (a.map (fun x => x * x)).sum := sumsq_nonneg a
  have hsum0 : 0 ≤ ((a.map (fun x => x * x)).map f32).sum := by
    have : (0 : ℚ) ≤ 1 - 1 / 2 ^ 24 := by norm_num
    exact le_trans (mul_nonneg this hS0) h3
  unfold dot64
  rw [zipWith_self_sq]
  refine ⟨?_, h2⟩
  calc (1 - 1 / 2 ^ 33) * ((1 - 1 / 2 ^ 24) * (a.map (fun x => x * x)).sum)
      ≤ (1 - 1 / 2 ^ 33) * ((a.map (fun x => x * x)).map f32).sum :=
        mul_le_mul_of_nonneg_left h3 (by norm_num)
    _ ≤ (1 - 1 / 2 ^ 53) ^ a.length * ((a.map (fun x => x * x)).map f32).sum :=
        mul_le_mul_of_nonneg_right hpow hsum0
    _ ≤ _ := h1

/-- The quotient that `similarityScore` rounds, and its two roundings: when the
`float64` dot product is in magnitude at most `1 + 2 ^ (-23) + 2 ^ (-25)` times
the positive divisor, the `float32` result is in magnitude at most
`1 + 2 ^ (-23)`. -/
theorem quotient_round_le (d m : ℚ) (hm : 0 < m)
    (h : |d| ≤ (1 + 1 / 2 ^ 23 + 1 / 2 ^ 25) * m) :
    |f32 (f64 (d / m))| ≤ 1 + 1 / 2 ^ 23 := by
  have hq : |d / m| ≤ 1 + 1 / 2 ^ 23 + 1 / 2 ^ 25 := by
    rw [abs_div, abs_of_pos hm, div_le_iff₀ hm]
    exact h
  have h1 := f64_abs_sub_le (d / m) 0 (by norm_num) (lt_of_le_of_lt hq (by norm_num))
  have h1' : |f64 (d / m) - d / m| ≤ 1 / 2 ^ 53 := by
    refine le_trans h1 ?_
    norm_num
  have h2 : |f64 (d / m)| ≤ 1 + 1 / 2 ^ 23 + 1 / 2 ^ 25 + 1 / 2 ^ 53 := by
    have := abs_sub_abs_le_abs_sub (f64 (d / m)) (d / m)
    linarith
  rw [f32_abs]
  have hy0 : 0 ≤ |f64 (d / m)| := abs_nonneg _
  generalize |f64 (d / m)| = y at h2 hy0
  have hy : |y| ≤ 1 + 1 / 2 ^ 23 + 1 / 2 ^ 25 + 1 / 2 ^ 53 := by
    rw [abs_of_nonneg hy0]
    exact h2
  have h3 := f32_abs_sub_le y 0 (by norm_num) (lt_of_le_of_lt hy (by norm_num))
  have h3' : |f32 y - y| ≤ 1 / 2 ^ 24 := by
    refine le_trans h3 ?_
    norm_num
  have h4 : f32 y < 1 + 1 / 2 ^ 22 := by
    have := (abs_le.1 h3').2
    have e : (1 : ℚ) + 1 / 2 ^ 23 + 1 / 2 ^ 25 + 1 / 2 ^ 53 + 1 / 2 ^ 24 < 1 + 1 / 2 ^ 22 := by
      norm_num
    linarith
  exact f32_le_of_lt _ h4

/-- C27 (counterexample): the one-component vectors `(4097)` and `(4099)` have
equal length and are non-zero, and `similarityScore` returns for them, without
error, `1 + 2 ^ (-23)`, a value above `1`: the `float32` product
`4097 * 4099` is rounded up to `16793604` while the `float32` squares are
rounded down. -/
theorem similarityScore_above_one :
    similarityScore goSqrt ⟨[1], [4097]⟩ ⟨[1], [4099]⟩ = (8388609 / 8388608, none) ∧
    (1 : ℚ) < 8388609 / 8388608 ∧
    f32 (4097 * 4099) = 16793604 ∧ f32 (4097 * 4097) = 16785408 ∧
    f32 (4099 * 4099) = 16801800 := by
  refine ⟨by decide!, by norm_num, by decide!, by decide!, by decide!⟩

/-- C27 (amended): for vectors of at most `2 ^ 20` components, each component
zero or of magnitude between `2 ^ (-60)` and `2 ^ 60`, the value that
`similarityScore` returns lies in the closed interval
`[-(1 + 2 ^ (-23)), 1 + 2 ^ (-23)]`: it can exceed `1`, by no more than one
unit in the last place of `float32`.  The square root is zero at zero and, at
the two sums of squares, non-negative and accurate as a correctly rounded
`float64` square root is: its square is at least the argument reduced by the
fraction `2 ^ (-52)`. -/
theorem similarityScore_range (sqrt : ℚ → ℚ) (A B : Dense)
    (hn : A.data.length ≤ 2 ^ 20)
    (hA : ∀ x ∈ A.data, x = 0 ∨ (1 / 2 ^ 60 ≤ |x| ∧ |x| ≤ 2 ^ 60))
    (hB : ∀ y ∈ B.data, y = 0 ∨ (1 / 2 ^ 60 ≤ |y| ∧ |y| ≤ 2 ^ 60))
    (hs0 : sqrt 0 = 0)
    (hsA : 0 ≤ sqrt (dot64 A.data A.data) ∧
      dot64 A.data A.data * (1 - 1 / 2 ^ 52) ≤
        sqrt (dot64 A.data A.data) * sqrt (dot64 A.data A.data))
    (hsB : 0 ≤ sqrt (dot64 B.data B.data) ∧
      dot64 B.data B.data * (1 - 1 / 2 ^ 52) ≤
        sqrt (dot64 B.data B.data) * sqrt (dot64 B.data B.data)) :
    |(similarityScore sqrt A B).1| ≤ 1 + 1 / 2 ^ 23 := by
  have hbound : (0 : ℚ) ≤ 1 + 1 / 2 ^ 23 := by positivity
  unfold similarityScore
  simp only
  by_cases hlen : A.data.length = B.data.length
  swap
  · rw [if_pos hlen]
    simpa using hbound
  rw [if_neg (not_not.2 hlen), similarityLoop_dot64 A.data B.data hlen]
  by_cases hz : sqrt (dot64 A.data A.data) = 0 ∨ sqrt (dot64 B.data B.data) = 0
  · rw [if_pos hz]
    simpa using hbound
  rw [if_neg hz]
  simp only
  have hnA : sqrt (dot64 A.data A.data) ≠ 0 := fun h => hz (Or.inl h)
  have hnB : sqrt (dot64 B.data B.data) ≠ 0 := fun h => hz (Or.inr h)
  have hnB' : B.data.length ≤ 2 ^ 20 := by omega
  have hd := dot64_abs_le A.data B.data hlen hn hA hB
  obtain ⟨hsAge, hsAgrid⟩ := dot64_self_ge A.data hn hA
  obtain ⟨hsBge, hsBgrid⟩ := dot64_self_ge B.data hnB' hB
  have hcs := abs_dot_sq_le A.data B.data hlen
  set sA := dot64 A.data A.data with hsAdef
  set sB := dot64 B.data B.data with hsBdef
  set nA := sqrt sA with hnAdef
  set nB := sqrt sB with hnBdef
  set d := dot64 A.data B.data with hddef
  set P := (List.zipWith (fun x y => |x| * |y|) A.data B.data).sum with hPdef
  set SA := (A.data.map (fun x => x * x)).sum with hSAdef
  set SB := (B.data.map (fun x => x * x)).sum with hSBdef
  have hP0 : 0 ≤ P := List.sum_nonneg (by
    intro y hy
    obtain ⟨i, hi, rfl⟩ := List.mem_iff_getElem.1 hy
    simp only [List.getElem_zipWith]
    positivity)
  have hSA0 : 0 ≤ SA := sumsq_nonneg A.data
  have hSB0 : 0 ≤ SB := sumsq_nonneg B.data
  have hc : (0 : ℚ) < (2 : ℚ) ^ (-149 : Int) := by positivity
  have hsApos : (2 : ℚ) ^ (-149 : Int) ≤ sA := by
    rcases hsAgrid with h | h
    · exact absurd (by rw [hnAdef, h, hs0]) hnA
    · exact h
  have hsBpos : (2 : ℚ) ^ (-149 : Int) ≤ sB := by
    rcases hsBgrid with h | h
    · exact absurd (by rw [hnBdef, h, hs0]) hnB
    · exact h
  have hnApos : 0 < nA := lt_of_le_of_ne hsA.1 (Ne.symm hnA)
  have hnBpos : 0 < nB := lt_of_le_of_ne hsB.1 (Ne.symm hnB)
  have hprod : 0 < nA * nB := mul_pos hnApos hnBpos
  -- the two sums of squares against the squares of the norms
  have hγ : (0 : ℚ) ≤ 1 - 1 / 2 ^ 52 := by norm_num
  have hβ : (0 : ℚ) ≤ (1 - 1 / 2 ^ 33) * (1 - 1 / 2 ^ 24) := by norm_num
  have hA2 : (1 - 1 / 2 ^ 33) * (1 - 1 / 2 ^ 24) * (1 - 1 / 2 ^ 52) * SA ≤ nA * nA := by
    have h1 : (1 - 1 / 2 ^ 33) * ((1 - 1 / 2 ^ 24) * SA) * (1 - 1 / 2 ^ 52) ≤
        sA * (1 - 1 / 2 ^ 52) := mul_le_mul_of_nonneg_right hsAge hγ
    have h2 := hsA.2
    linarith
  have hB2 : (1 - 1 / 2 ^ 33) * (1 - 1 / 2 ^ 24) * (1 - 1 / 2 ^ 52) * SB ≤ nB * nB := by
    have h1 : (1 - 1 / 2 ^ 33) * ((1 - 1 / 2 ^ 24) * SB) * (1 - 1 / 2 ^ 52) ≤
        sB * (1 - 1 / 2 ^ 52) := mul_le_mul_of_nonneg_right hsBge hγ
    have h2 := hsB.2
    linarith
  set c := (1 - 1 / 2 ^ 33 : ℚ) * (1 - 1 / 2 ^ 24) * (1 - 1 / 2 ^ 52) with hcdef
  have hc0 : 0 < c := by
    rw [hcdef]
    norm_num
  have hSS : (c * SA) * (c * SB) ≤ (nA * nA) * (nB * nB) :=
    mul_le_mul hA2 hB2 (mul_nonneg hc0.le hSB0) (mul_self_nonneg nA)
  set α := (1 + 1 / 2 ^ 32 : ℚ) * (1 + 1 / 2 ^ 24) with hαdef
  have hα0 : 0 < α := by
    rw [hαdef]
    norm_num
  have hd' : |d| ≤ α * P := by
    rw [hαdef, mul_assoc]
    exact hd
  have hsq : (c * |d|) ^ 2 ≤ (α * (nA * nB)) ^ 2 := by
    have h1 : |d| * |d| ≤ (α * P) * (α * P) :=
      mul_le_mul hd' hd' (abs_nonneg d) (mul_nonneg hα0.le hP0)
    have h2 : (α * P) * (α * P) ≤ α * α * (SA * SB) := by
      have : (α * P) * (α * P) = α * α * (P * P) := by ring
      rw [this]
      exact mul_le_mul_of_nonneg_left hcs (mul_nonneg hα0.le hα0.le)
    have h3 : c * c * (|d| * |d|) ≤ c * c * (α * α * (SA * SB)) :=
      mul_le_mul_of_nonneg_left (le_trans h1 h2) (mul_nonneg hc0.le hc0.le)
    have h4 : c * c * (α * α * (SA * SB)) = α * α * ((c * SA) * (c * SB)) := by ring
    have h5 : α * α * ((c * SA) * (c * SB)) ≤ α * α * ((nA * nA) * (nB * nB)) :=
      mul_le_mul_of_nonneg_left hSS (mul_nonneg hα0.le hα0.le)
    have e1 : (c * |d|) ^ 2 = c * c * (|d| * |d|) := by ring
    have e2 : (α * (nA * nB)) ^ 2 = α * α * ((nA * nA) * (nB * nB)) := by ring
    rw [e1, e2]
    linarith
  have hlin : c * |d| ≤ α * (nA * nB) :=
    (abs_le_of_sq_le_sq' hsq (mul_nonneg hα0.le hprod.le)).2
  -- the product of the norms is far above the underflow threshold
  have hprodge : (2 : ℚ) ^ (-1022 : Int) ≤ |nA * nB| := by
    rw [abs_of_pos hprod]
    by_contra hlt
    have hlt' : nA * nB < (2 : ℚ) ^ (-1022 : Int) := not_le.1 hlt
    have h1 : (nA * nB) * (nA * nB) < (2 : ℚ) ^ (-1022 : Int) * (2 : ℚ) ^ (-1022 : Int) :=
      mul_lt_mul'' hlt' hlt' hprod.le hprod.le
    have h2 : sA * (1 - 1 / 2 ^ 52) * (sB * (1 - 1 / 2 ^ 52)) ≤ (nA * nA) * (nB * nB) :=
      mul_le_mul hsA.2 hsB.2 (mul_nonneg (le_trans hc.le hsBpos) hγ) (mul_self_nonneg nA)
    have h3 : (2 : ℚ) ^ (-149 : Int) * (1 - 1 / 2 ^ 52) * ((2 : ℚ) ^ (-149 : Int) *
        (1 - 1 / 2 ^ 52)) ≤ sA * (1 - 1 / 2 ^ 52) * (sB * (1 - 1 / 2 ^ 52)) :=
      mul_le_mul (mul_le_mul_of_nonneg_right hsApos hγ)
        (mul_le_mul_of_nonneg_right hsBpos hγ) (mul_nonneg hc.le hγ)
        (mul_nonneg (le_trans hc.le hsApos) hγ)
    have h4 : (2 : ℚ) ^ (-1022 : Int) * (2 : ℚ) ^ (-1022 : Int) ≤
        (2 : ℚ) ^ (-149 : Int) * (1 - 1 / 2 ^ 52) * ((2 : ℚ) ^ (-149 : Int) *
          (1 - 1 / 2 ^ 52)) := by
      have e1 : (2 : ℚ) ^ (-1022 : Int) = (2 : ℚ) ^ (-149 : Int) * (2 : ℚ) ^ (-873 : Int) := by
        rw [← zpow_add₀ (by norm_num : (2 : ℚ) ≠ 0)]
        norm_num
      have e2 : (2 : ℚ) ^ (-873 : Int) ≤ 1 - 1 / 2 ^ 52 := by
        have : (2 : ℚ) ^ (-873 : Int) ≤ (2 : ℚ) ^ (-1 : Int) :=
          zpow_le_zpow_right₀ (by norm_num) (by norm_num)
        refine le_trans this ?_
        norm_num
      rw [e1]
      have h5 : (2 : ℚ) ^ (-149 : Int) * (2 : ℚ) ^ (-873 : Int) ≤
          (2 : ℚ) ^ (-149 : Int) * (1 - 1 / 2 ^ 52) :=
        mul_le_mul_of_nonneg_left e2 hc.le
      exact mul_le_mul h5 h5 (by positivity) (mul_nonneg hc.le hγ)
    have e : (nA * nB) * (nA * nB) = (nA * nA) * (nB * nB) := by ring
    rw [e] at h1
    exact absurd (lt_of_le_of_lt (le_trans h4 (le_trans h3 h2)) h1) (lt_irrefl _)
  have hm := f64_rel (nA * nB) (Or.inr hprodge)
  rw [abs_of_pos hprod] at hm
  have hmge : (1 - 1 / 2 ^ 53) * (nA * nB) ≤ f64 (nA * nB) := by
    have := (abs_le.1 hm).1
    have e : (1 - 1 / 2 ^ 53) * (nA * nB) = nA * nB - nA * nB / 2 ^ 53 := by ring
    rw [e]
    linarith
  have hmpos : 0 < f64 (nA * nB) := by
    have : 0 < (1 - 1 / 2 ^ 53) * (nA * nB) := mul_pos (by norm_num) hprod
    linarith
  have hnum : α ≤ (1 + 1 / 2 ^ 23 + 1 / 2 ^ 25) * c * (1 - 1 / 2 ^ 53) := by
    rw [hαdef, hcdef]
    norm_num
  have hfinal : |d| ≤ (1 + 1 / 2 ^ 23 + 1 / 2 ^ 25) * f64 (nA * nB) := by
    have h1 : α * (nA * nB) ≤ (1 + 1 / 2 ^ 23 + 1 / 2 ^ 25) * c * (1 - 1 / 2 ^ 53) * (nA * nB) :=
      mul_le_mul_of_nonneg_right hnum hprod.le
    have h2 : (1 + 1 / 2 ^ 23 + 1 / 2 ^ 25) * c * ((1 - 1 / 2 ^ 53) * (nA * nB)) ≤
        (1 + 1 / 2 ^ 23 + 1 / 2 ^ 25) * c * f64 (nA * nB) :=
      mul_le_mul_of_nonneg_left hmge (mul_nonneg (by positivity) hc0.le)
    have h3 : c * |d| ≤ c * ((1 + 1 / 2 ^ 23 + 1 / 2 ^ 25) * f64 (nA * nB)) := by
      have e1 : (1 + 1 / 2 ^ 23 + 1 / 2 ^ 25) * c * (1 - 1 / 2 ^ 53) * (nA * nB) =
          (1 + 1 / 2 ^ 23 + 1 / 2 ^ 25) * c * ((1 - 1 / 2 ^ 53) * (nA * nB)) := by ring
      have e2 : c * ((1 + 1 / 2 ^ 23 + 1 / 2 ^ 25) * f64 (nA * nB)) =
          (1 + 1 / 2 ^ 23 + 1 / 2 ^ 25) * c * f64 (nA * nB) := by ring
      rw [e2]
      rw [e1] at h1
      exact le_trans hlin (le_trans h1 h2)
    exact le_of_mul_le_mul_left h3 hc0
  exact quotient_round_le d (f64 (nA * nB)) hmpos hfinal

/-- Witness of C27 (amended) on the vectors `(4097)` and `(4099)` with the
correctly rounded square root: the value returned is `1 + 2 ^ (-23)`, the
bound itself. -/
theorem similarityScore_range_witness :
    similarityScore goSqrt ⟨[1], [4097]⟩ ⟨[1], [4099]⟩ = (1 + 1 / 2 ^ 23, none) ∧
    |(similarityScore goSqrt ⟨[1], [4097]⟩ ⟨[1], [4099]⟩).1| ≤ 1 + 1 / 2 ^ 23 :=
  ⟨by decide!,
    similarityScore_range goSqrt ⟨[1], [4097]⟩ ⟨[1], [4099]⟩ (by decide)
      (by
        intro x hx
        simp only [List.mem_singleton] at hx
        subst hx
        right
        norm_num [abs_of_pos])
      (by
        intro y hy
        simp only [List.mem_singleton] at hy
        subst hy
        right
        norm_num [abs_of_pos])
      (by decide!) (by decide!) (by decide!)⟩

end EKYC
